import Mathlib

/-!
# SOCKS5 proxy (za0sec/tp-protos): parsers, marshalling and negotiation

A shallow embedding of the byte-level core of the proxy:

* `src/src/hello.c`   : greeting parser (`hello_parser_feed`, `hello_consume`)
* `src/src/auth.c`    : RFC 1929 parser (`auth_parser_feed`, `auth_consume`)
* `src/src/request.c` : request parser and reply marshalling
* `src/src/socks5nio.c` : `on_hello_method`, `hello_read_init`,
  `validate_credentials`, `auth_process`

Conventions of the embedding.

* A `uint8_t` is a `Nat`; the 8-bit counters (`remaining`, `idx`, `addr_idx`)
  are decremented and incremented modulo `2^8` exactly as in C.
* A C array is a `List Nat` of the declared length; a store `a[i] = v` is
  `List.set`, a `memcpy`/`memset` is a sequence of stores.
* A C function mutating `*p` is a function returning the new value of `*p`;
  where the C function returns `p->state`, the returned value is the `state`
  field of the result.
* `in_port_t` values are kept as their two bytes in memory order, which for a
  port "in network byte order" are the high byte followed by the low byte.
-/

namespace Socks5

/-! ## Memory helpers -/

/-- C `memcpy(d + off, src, |src|)`: successive byte stores. -/
def memcpy : List Nat → Nat → List Nat → List Nat
  | d, _, [] => d
  | d, off, x :: xs => memcpy (d.set off x) (off + 1) xs

/-- C `memset(d + off, v, n)`. -/
def memset (d : List Nat) (off v n : Nat) : List Nat :=
  memcpy d off (List.replicate n v)

/-- The C string held in a `char` array: the bytes before the first NUL. -/
def cstr (a : List Nat) : List Nat :=
  a.takeWhile (fun c => c != 0)

/-- C `strcmp(a, b) == 0`. -/
def strcmp_eq (a b : List Nat) : Bool :=
  cstr a == cstr b

/-- C `ntohs` applied to the two bytes of an `in_port_t` as they lie in memory. -/
def ntohs (port : List Nat) : Nat :=
  256 * port.getD 0 0 + port.getD 1 0

/-! ## Byte buffer (`src/include/buffer.h`) -/

/-- Modelled from the spec: the byte buffer of `buffer.h`, whose implementation
`buffer.c` is not part of the sources. Fixed-capacity contiguous memory
`data` (so `limit = data.length`) with two cursors `read ≤ write ≤ limit`,
kept as offsets from `data`. -/
structure buffer where
  data : List Nat
  read : Nat
  write : Nat
deriving DecidableEq, Repr

/-- Modelled from the spec: `buffer_can_read` of the absent `buffer.c`; the
readable region is `[read, write)`. -/
def buffer_can_read (b : buffer) : Bool :=
  decide (b.read < b.write)

/-- Modelled from the spec: `buffer_can_write` of the absent `buffer.c`; the
writable region is `[write, limit)`. -/
def buffer_can_write (b : buffer) : Bool :=
  decide (b.write < b.data.length)

/-- Modelled from the spec: `buffer_read` of the absent `buffer.c`, the
single-byte read: the byte under the read cursor, and the cursor advanced by
one. On a buffer with nothing to read the buffer is left as it is. -/
def buffer_read (b : buffer) : Nat × buffer :=
  if buffer_can_read b then (b.data.getD b.read 0, { b with read := b.read + 1 })
  else (0, b)

/-- Modelled from the spec: `buffer_write_ptr` of the absent `buffer.c`: the
writable span, as the offset of its first byte and its length `n`. -/
def buffer_write_ptr (b : buffer) : Nat × Nat :=
  (b.write, b.data.length - b.write)

/-- Modelled from the spec: `buffer_write_adv` of the absent `buffer.c`:
`write_advance(k)` moves the write cursor by `k`. -/
def buffer_write_adv (b : buffer) (bytes : Nat) : buffer :=
  { b with write := b.write + bytes }

/-- The bytes of the readable region `[read, write)`. -/
def buffer_readable (b : buffer) : List Nat :=
  (b.data.drop b.read).take (b.write - b.read)

/-- What `hello_read`, `auth_read` and `request_read` do with a received chunk:
`recv` stores it at `buffer_write_ptr` and `buffer_write_adv` is told its
length. -/
def buffer_recv (b : buffer) (chunk : List Nat) : buffer :=
  buffer_write_adv { b with data := memcpy b.data (buffer_write_ptr b).1 chunk } chunk.length

/-! ## Hello parser (`src/src/hello.c`, `src/include/hello.h`) -/

/-- C `SOCKS_VERSION` (defined alike in `hello.c` and `request.c`). -/
def SOCKS_VERSION : Nat := 0x05

/-- Type `enum hello_state`. -/
inductive hello_state where
  | hello_version
  | hello_nmethods
  | hello_methods
  | hello_done
  | hello_error_unsupported_version
  | hello_error
deriving DecidableEq, Repr

open hello_state

/-- Type `struct hello_parser`. The callback receives the parser only to reach
`data`; here it is a function on the datum `data` points to, and `none` is the
NULL callback. -/
structure hello_parser_t (δ : Type) where
  on_authentication_method : Option (δ → Nat → δ)
  data : δ
  state : hello_state
  remaining : Nat

/-- C `hello_parser_init`. -/
def hello_parser_init {δ : Type} (p : hello_parser_t δ) : hello_parser_t δ :=
  { p with state := hello_version, remaining := 0 }

/-- C `hello_parser_feed`; the value returned is the `state` of the result. -/
def hello_parser_feed {δ : Type} (p : hello_parser_t δ) (b : Nat) : hello_parser_t δ :=
  match p.state with
  | hello_version =>
      if b = SOCKS_VERSION then { p with state := hello_nmethods }
      else { p with state := hello_error_unsupported_version }
  | hello_nmethods =>
      if b > 0 then { p with remaining := b, state := hello_methods }
      else { p with state := hello_error }
  | hello_methods =>
      let p1 : hello_parser_t δ :=
        match p.on_authentication_method with
        | some f => { p with data := f p.data b }
        | none => p
      let p2 := { p1 with remaining := (p1.remaining + 255) % 256 }
      if p2.remaining = 0 then { p2 with state := hello_done } else p2
  | hello_done => p
  | hello_error => p
  | hello_error_unsupported_version => p

/-- C `hello_is_done`: the result and the new value of `*errored`
(`none` is a NULL pointer). -/
def hello_is_done (state : hello_state) (errored : Option Bool) : Bool × Option Bool :=
  match state with
  | hello_done => (true, errored)
  | hello_error => (true, errored.map (fun _ => true))
  | hello_error_unsupported_version => (true, errored.map (fun _ => true))
  | _ => (false, errored)

/-- The `while(buffer_can_read(b))` loop of `hello_consume`, with the local
`state`; `fuel` bounds the number of iterations. -/
def hello_consume_loop {δ : Type} :
    Nat → buffer → hello_parser_t δ → Option Bool → hello_state →
      hello_state × buffer × hello_parser_t δ × Option Bool
  | 0, b, p, errored, state => (state, b, p, errored)
  | fuel + 1, b, p, errored, state =>
      if buffer_can_read b then
        let r := buffer_read b
        let p1 := hello_parser_feed p r.1
        let d := hello_is_done p1.state errored
        if d.1 then (p1.state, r.2, p1, d.2)
        else hello_consume_loop fuel r.2 p1 d.2 p1.state
      else (state, b, p, errored)

/-- C `hello_consume`: returned state, buffer, parser and `*errored` afterwards.
Each iteration reads one byte, so `write - read` iterations exhaust the loop. -/
def hello_consume {δ : Type} (b : buffer) (p : hello_parser_t δ) (errored : Option Bool) :
    hello_state × buffer × hello_parser_t δ × Option Bool :=
  hello_consume_loop (b.write - b.read) b p errored p.state

/-- Feeding a byte sequence, one `hello_parser_feed` call per byte. -/
def hello_feed_all {δ : Type} (p : hello_parser_t δ) (bs : List Nat) : hello_parser_t δ :=
  bs.foldl hello_parser_feed p

/-! ## Auth parser (`src/src/auth.c`, `src/include/auth.h`) -/

/-- C `AUTH_VERSION`. -/
def AUTH_VERSION : Nat := 0x01

/-- Type `enum auth_state`. -/
inductive auth_state where
  | auth_version
  | auth_ulen
  | auth_uname
  | auth_plen
  | auth_passwd
  | auth_done
  | auth_error_unsupported_version
  | auth_error
deriving DecidableEq, Repr

open auth_state

/-- Type `struct auth_parser`; `username` and `password` are the 256-byte arrays. -/
structure auth_parser_t where
  state : auth_state
  remaining : Nat
  idx : Nat
  username : List Nat
  username_len : Nat
  password : List Nat
  password_len : Nat
deriving DecidableEq, Repr

/-- C `auth_parser_init`: `memset(p, 0, sizeof(*p))`, then the initial state. -/
def auth_parser_init (_p : auth_parser_t) : auth_parser_t :=
  { state := auth_version, remaining := 0, idx := 0,
    username := List.replicate 256 0, username_len := 0,
    password := List.replicate 256 0, password_len := 0 }

/-- C `auth_parser_feed`; the value returned is the `state` of the result. -/
def auth_parser_feed (p : auth_parser_t) (b : Nat) : auth_parser_t :=
  match p.state with
  | auth_version =>
      if b = AUTH_VERSION then { p with state := auth_ulen }
      else { p with state := auth_error_unsupported_version }
  | auth_ulen =>
      if b > 0 then
        { p with remaining := b, username_len := b, idx := 0, state := auth_uname }
      else { p with state := auth_error }
  | auth_uname =>
      let p1 := { p with username := p.username.set p.idx b, idx := (p.idx + 1) % 256 }
      let p2 := { p1 with remaining := (p1.remaining + 255) % 256 }
      if p2.remaining = 0 then
        { p2 with username := p2.username.set p2.idx 0, state := auth_plen }
      else p2
  | auth_plen =>
      if b = 0 then
        { p with password_len := 0, password := p.password.set 0 0, state := auth_done }
      else
        { p with remaining := b, password_len := b, idx := 0, state := auth_passwd }
  | auth_passwd =>
      let p1 := { p with password := p.password.set p.idx b, idx := (p.idx + 1) % 256 }
      let p2 := { p1 with remaining := (p1.remaining + 255) % 256 }
      if p2.remaining = 0 then
        { p2 with password := p2.password.set p2.idx 0, state := auth_done }
      else p2
  | auth_done => p
  | auth_error => p
  | auth_error_unsupported_version => p

/-- C `auth_is_done`: the result and the new value of `*errored`. -/
def auth_is_done (state : auth_state) (errored : Option Bool) : Bool × Option Bool :=
  match state with
  | auth_done => (true, errored)
  | auth_error => (true, errored.map (fun _ => true))
  | auth_error_unsupported_version => (true, errored.map (fun _ => true))
  | _ => (false, errored)

/-- The `while(buffer_can_read(b))` loop of `auth_consume`. -/
def auth_consume_loop :
    Nat → buffer → auth_parser_t → Option Bool → auth_state →
      auth_state × buffer × auth_parser_t × Option Bool
  | 0, b, p, errored, state => (state, b, p, errored)
  | fuel + 1, b, p, errored, state =>
      if buffer_can_read b then
        let r := buffer_read b
        let p1 := auth_parser_feed p r.1
        let d := auth_is_done p1.state errored
        if d.1 then (p1.state, r.2, p1, d.2)
        else auth_consume_loop fuel r.2 p1 d.2 p1.state
      else (state, b, p, errored)

/-- C `auth_consume`: returned state, buffer, parser and `*errored` afterwards. -/
def auth_consume (b : buffer) (p : auth_parser_t) (errored : Option Bool) :
    auth_state × buffer × auth_parser_t × Option Bool :=
  auth_consume_loop (b.write - b.read) b p errored p.state

/-- Feeding a byte sequence, one `auth_parser_feed` call per byte. -/
def auth_feed_all (p : auth_parser_t) (bs : List Nat) : auth_parser_t :=
  bs.foldl auth_parser_feed p

/-- C `auth_marshall`: `-1` and the buffer untouched when fewer than two bytes
are writable, else `2` and the two bytes stored at the write cursor. -/
def auth_marshall (b : buffer) (status : Nat) : Int × buffer :=
  let w := buffer_write_ptr b
  if w.2 < 2 then (-1, b)
  else
    let d0 := b.data.set w.1 AUTH_VERSION
    let d1 := d0.set (w.1 + 1) (status % 256)
    (2, buffer_write_adv { b with data := d1 } 2)

/-! ## Request parser (`src/src/request.c`, `src/include/request.h`) -/

/-- C `socks_req_cmd_connect`. -/
def socks_req_cmd_connect : Nat := 0x01
/-- C `socks_req_cmd_bind`. -/
def socks_req_cmd_bind : Nat := 0x02
/-- C `socks_req_cmd_udp_associate`. -/
def socks_req_cmd_udp_associate : Nat := 0x03

/-- C `socks_req_addrtype_ipv4`. -/
def socks_req_addrtype_ipv4 : Nat := 0x01
/-- C `socks_req_addrtype_domain`. -/
def socks_req_addrtype_domain : Nat := 0x03
/-- C `socks_req_addrtype_ipv6`. -/
def socks_req_addrtype_ipv6 : Nat := 0x04

/-- Type `enum request_state`. -/
inductive request_state where
  | request_version
  | request_cmd
  | request_rsv
  | request_atyp
  | request_dstaddr_fqdn_len
  | request_dstaddr
  | request_dstport
  | request_done
  | request_error_unsupported_version
  | request_error_unsupported_atyp
  | request_error_unsupported_cmd
  | request_error
deriving DecidableEq, Repr

open request_state

/-- Type `struct request`. `dest_addr` is the 256 bytes of `union socks_addr`,
whose members `ipv4`, `ipv6` and `fqdn` all start at its first byte, so that a
store at index `i` of any of them is a store at byte `i` of the union;
`dest_port` is the two bytes of the `in_port_t`. -/
structure request where
  cmd : Nat
  dest_addr_type : Nat
  dest_addr : List Nat
  dest_port : List Nat
deriving DecidableEq, Repr

/-- Type `struct request_parser`; `request` is the object the C pointer refers to. -/
structure request_parser_t where
  request : request
  state : request_state
  remaining : Nat
  addr_idx : Nat
deriving DecidableEq, Repr

/-- C `request_parser_init`; the `memset` zeroes the whole `struct request`. -/
def request_parser_init (p : request_parser_t) : request_parser_t :=
  { p with
    state := request_version, remaining := 0, addr_idx := 0,
    request := { cmd := 0, dest_addr_type := 0,
                 dest_addr := List.replicate 256 0, dest_port := List.replicate 2 0 } }

/-- C `request_parser_feed`; the value returned is the `state` of the result. -/
def request_parser_feed (p : request_parser_t) (b : Nat) : request_parser_t :=
  match p.state with
  | request_version =>
      if b = SOCKS_VERSION then { p with state := request_cmd }
      else { p with state := request_error_unsupported_version }
  | request_cmd =>
      if b = socks_req_cmd_connect then
        { p with request := { p.request with cmd := b }, state := request_rsv }
      else if b = socks_req_cmd_bind ∨ b = socks_req_cmd_udp_associate then
        { p with state := request_error_unsupported_cmd }
      else { p with state := request_error_unsupported_cmd }
  | request_rsv => { p with state := request_atyp }
  | request_atyp =>
      let p1 := { p with request := { p.request with dest_addr_type := b } }
      if b = socks_req_addrtype_ipv4 then
        { p1 with remaining := 4, addr_idx := 0, state := request_dstaddr }
      else if b = socks_req_addrtype_domain then
        { p1 with state := request_dstaddr_fqdn_len }
      else if b = socks_req_addrtype_ipv6 then
        { p1 with remaining := 16, addr_idx := 0, state := request_dstaddr }
      else { p1 with state := request_error_unsupported_atyp }
  | request_dstaddr_fqdn_len =>
      if b > 0 then { p with remaining := b, addr_idx := 0, state := request_dstaddr }
      else { p with state := request_error }
  | request_dstaddr =>
      let t := p.request.dest_addr_type
      let stored :=
        { p with request := { p.request with dest_addr := p.request.dest_addr.set p.addr_idx b },
                 addr_idx := (p.addr_idx + 1) % 256 }
      let p1 :=
        if t = socks_req_addrtype_ipv4 then stored
        else if t = socks_req_addrtype_ipv6 then stored
        else if t = socks_req_addrtype_domain then stored
        else p
      let p2 := { p1 with remaining := (p1.remaining + 255) % 256 }
      if p2.remaining = 0 then
        let p3 :=
          if p2.request.dest_addr_type = socks_req_addrtype_domain then
            { p2 with request :=
                { p2.request with dest_addr := p2.request.dest_addr.set p2.addr_idx 0 } }
          else p2
        { p3 with remaining := 2, addr_idx := 0, state := request_dstport }
      else p2
  | request_dstport =>
      let p1 := { p with request := { p.request with dest_port := p.request.dest_port.set p.addr_idx b },
                         addr_idx := (p.addr_idx + 1) % 256 }
      let p2 := { p1 with remaining := (p1.remaining + 255) % 256 }
      if p2.remaining = 0 then { p2 with state := request_done } else p2
  | request_done => p
  | request_error => p
  | request_error_unsupported_version => p
  | request_error_unsupported_atyp => p
  | request_error_unsupported_cmd => p

/-- C `request_is_done`: the result and the new value of `*errored`. -/
def request_is_done (state : request_state) (errored : Option Bool) : Bool × Option Bool :=
  match state with
  | request_done => (true, errored)
  | request_error => (true, errored.map (fun _ => true))
  | request_error_unsupported_version => (true, errored.map (fun _ => true))
  | request_error_unsupported_atyp => (true, errored.map (fun _ => true))
  | request_error_unsupported_cmd => (true, errored.map (fun _ => true))
  | _ => (false, errored)

/-- The `while(buffer_can_read(b))` loop of `request_consume`. -/
def request_consume_loop :
    Nat → buffer → request_parser_t → Option Bool → request_state →
      request_state × buffer × request_parser_t × Option Bool
  | 0, b, p, errored, state => (state, b, p, errored)
  | fuel + 1, b, p, errored, state =>
      if buffer_can_read b then
        let r := buffer_read b
        let p1 := request_parser_feed p r.1
        let d := request_is_done p1.state errored
        if d.1 then (p1.state, r.2, p1, d.2)
        else request_consume_loop fuel r.2 p1 d.2 p1.state
      else (state, b, p, errored)

/-- C `request_consume`: returned state, buffer, parser and `*errored` afterwards. -/
def request_consume (b : buffer) (p : request_parser_t) (errored : Option Bool) :
    request_state × buffer × request_parser_t × Option Bool :=
  request_consume_loop (b.write - b.read) b p errored p.state

/-- Feeding a byte sequence, one `request_parser_feed` call per byte. -/
def request_feed_all (p : request_parser_t) (bs : List Nat) : request_parser_t :=
  bs.foldl request_parser_feed p

/-- The `addr_len` chosen by the first `switch(atyp)` of `request_marshall`. -/
def request_marshall_addr_len (atyp : Nat) : Nat :=
  if atyp = socks_req_addrtype_ipv4 then 4
  else if atyp = socks_req_addrtype_ipv6 then 16
  else if atyp = socks_req_addrtype_domain then 1
  else 4

/-- C `request_marshall`. `addr` is the 256-byte `union socks_addr` behind the
pointer (`none` for NULL), `port` the two bytes of the `in_port_t` argument.
Returns `-1` with the buffer untouched when the writable span is too short,
else `required` and the buffer after the stores and `buffer_write_adv`. -/
def request_marshall (b : buffer) (status atyp : Nat) (addr : Option (List Nat))
    (port : List Nat) : Int × buffer :=
  let w := buffer_write_ptr b
  let addr_len := request_marshall_addr_len atyp
  let required := 4 + addr_len + 2
  if w.2 < required then (-1, b)
  else
    let d0 := b.data.set w.1 SOCKS_VERSION
    let d1 := d0.set (w.1 + 1) (status % 256)
    let d2 := d1.set (w.1 + 2) 0x00
    let d3 := d2.set (w.1 + 3) (atyp % 256)
    let d4 :=
      match addr with
      | some a =>
          if atyp = socks_req_addrtype_ipv4 then memcpy d3 (w.1 + 4) (a.take 4)
          else if atyp = socks_req_addrtype_ipv6 then memcpy d3 (w.1 + 4) (a.take 16)
          else memset d3 (w.1 + 4) 0 addr_len
      | none => memset d3 (w.1 + 4) 0 addr_len
    let d5 := memcpy d4 (w.1 + 4 + addr_len) (port.take 2)
    ((required : Nat), buffer_write_adv { b with data := d5 } required)

/-! ## Negotiation and credentials (`src/src/socks5nio.c`) -/

/-- C `SOCKS_HELLO_NOAUTHENTICATION_REQUIRED`. -/
def SOCKS_HELLO_NOAUTHENTICATION_REQUIRED : Nat := 0x00
/-- C `SOCKS_HELLO_USERNAME_PASSWORD`. -/
def SOCKS_HELLO_USERNAME_PASSWORD : Nat := 0x02
/-- C `SOCKS_HELLO_NO_ACCEPTABLE_METHODS`. -/
def SOCKS_HELLO_NO_ACCEPTABLE_METHODS : Nat := 0xFF

/-- Modelled from the spec: one slot of `socks5_args.users`, declared in the
absent `args.h`. A slot whose `name` is NULL is free (`none`); a configured
slot holds the C strings `name` and `pass`. -/
structure users where
  name : List Nat
  pass : List Nat
deriving DecidableEq, Repr

/-- The table `socks5_args.users`: its `MAX_USERS` slots in index order. -/
abbrev user_table := List (Option users)

/-- The scan of `on_hello_method` for a slot with `name != NULL`. -/
def auth_required (tbl : user_table) : Bool :=
  tbl.any (fun u => u.isSome)

/-- C `on_hello_method`: the new value of `*selected`, the byte `p->data`
points to. -/
def on_hello_method (tbl : user_table) (selected : Nat) (method : Nat) : Nat :=
  if auth_required tbl then
    if method = SOCKS_HELLO_USERNAME_PASSWORD then method else selected
  else
    if method = SOCKS_HELLO_NOAUTHENTICATION_REQUIRED then method else selected

/-- Type `struct hello_st`. `parser.data` points to `method`, so the two are one
byte here: `method` is `parser.data`. -/
structure hello_st where
  rb : buffer
  wb : buffer
  parser : hello_parser_t Nat

/-- The field `method` of `struct hello_st`. -/
def hello_st.method (d : hello_st) : Nat := d.parser.data

/-- C `hello_read_init`, given the connection buffers `rb` and `wb` are made to
point to and the parser memory as it was. -/
def hello_read_init (tbl : user_table) (read_buffer write_buffer : buffer)
    (old : hello_parser_t Nat) : hello_st :=
  { rb := read_buffer, wb := write_buffer,
    parser := hello_parser_init
      { old with data := SOCKS_HELLO_NO_ACCEPTABLE_METHODS,
                 on_authentication_method := some (on_hello_method tbl) } }

/-- C `validate_credentials`: the scan over the table, in slot order. -/
def validate_credentials (tbl : user_table) (username password : List Nat) : Bool :=
  match tbl with
  | [] => false
  | none :: rest => validate_credentials rest username password
  | some u :: rest =>
      if strcmp_eq u.name username && strcmp_eq u.pass password then true
      else validate_credentials rest username password

/-- Type `struct auth_st`. -/
structure auth_st where
  rb : buffer
  wb : buffer
  parser : auth_parser_t
  status : Nat
deriving DecidableEq, Repr

/-- C `strncpy(dst, src, n)` into the first `n` bytes of `dst`: the C string of
`src` cut to `n` bytes and padded with NULs. -/
def strncpy (dst src : List Nat) (n : Nat) : List Nat :=
  let s := (cstr src).take n
  memcpy dst 0 (s ++ List.replicate (n - s.length) 0)

/-- The two counters of `struct socks5_metrics` touched by `auth_process`. -/
structure auth_metrics where
  auth_successful : Nat
  auth_failed : Nat
deriving DecidableEq, Repr

/-- C `metrics_auth_success` (a `uint64_t` counter). -/
def metrics_auth_success (m : auth_metrics) : auth_metrics :=
  { m with auth_successful := (m.auth_successful + 1) % 2 ^ 64 }

/-- C `metrics_auth_failed` (a `uint64_t` counter). -/
def metrics_auth_failed (m : auth_metrics) : auth_metrics :=
  { m with auth_failed := (m.auth_failed + 1) % 2 ^ 64 }

/-- The states of `enum socks_v5state`. -/
inductive socks_v5state where
  | HELLO_READ
  | HELLO_WRITE
  | AUTH_READ
  | AUTH_WRITE
  | REQUEST_READ
  | REQUEST_RESOLVING
  | REQUEST_CONNECTING
  | REQUEST_WRITE
  | COPY
  | DONE
  | ERROR
deriving DecidableEq, Repr

/-- What `auth_process` leaves behind: its return value, `*d`, the 257-byte
`s->username` and the metrics counters. -/
structure auth_process_result where
  ret : socks_v5state
  d : auth_st
  username : List Nat
  metrics : auth_metrics
deriving DecidableEq, Repr

/-- C `auth_process`; of `*s` only `s->username` is touched. -/
def auth_process (tbl : user_table) (d : auth_st) (s_username : List Nat)
    (m : auth_metrics) : auth_process_result :=
  let valid := validate_credentials tbl d.parser.username d.parser.password
  let d1 := { d with status := if valid then 0x00 else 0x01 }
  let username1 := if valid then strncpy s_username d1.parser.username 256 else s_username
  let m1 := if valid then metrics_auth_success m else metrics_auth_failed m
  let r := auth_marshall d1.wb d1.status
  { ret := if r.1 = -1 then socks_v5state.ERROR else socks_v5state.AUTH_WRITE,
    d := { d1 with wb := r.2 }, username := username1, metrics := m1 }

open socks_v5state

/-! ## Marshalling replies and reply codes (`hello.c`, `request.c`, `request.h`) -/

/-- C `hello_marshall`: `-1` and the buffer untouched when fewer than two bytes
are writable, else `2` and the two bytes stored at the write cursor. -/
def hello_marshall (b : buffer) (method : Nat) : Int × buffer :=
  let w := buffer_write_ptr b
  if w.2 < 2 then (-1, b)
  else
    let d0 := b.data.set w.1 SOCKS_VERSION
    let d1 := d0.set (w.1 + 1) (method % 256)
    (2, buffer_write_adv { b with data := d1 } 2)

/-- C `socks_status_succeeded`. -/
def socks_status_succeeded : Nat := 0x00
/-- C `socks_status_general_SOCKS_server_failure`. -/
def socks_status_general_SOCKS_server_failure : Nat := 0x01
/-- C `socks_status_connection_not_allowed`. -/
def socks_status_connection_not_allowed : Nat := 0x02
/-- C `socks_status_network_unreachable`. -/
def socks_status_network_unreachable : Nat := 0x03
/-- C `socks_status_host_unreachable`. -/
def socks_status_host_unreachable : Nat := 0x04
/-- C `socks_status_connection_refused`. -/
def socks_status_connection_refused : Nat := 0x05
/-- C `socks_status_ttl_expired`. -/
def socks_status_ttl_expired : Nat := 0x06
/-- C `socks_status_command_not_supported`. -/
def socks_status_command_not_supported : Nat := 0x07
/-- C `socks_status_address_type_not_supported`. -/
def socks_status_address_type_not_supported : Nat := 0x08

/-- The constants of the system headers the code names; their values belong to
the platform. -/
structure platform where
  ECONNREFUSED : Int
  EHOSTUNREACH : Int
  ENETUNREACH : Int
  ETIMEDOUT : Int
  EINPROGRESS : Int
  AF_INET : Nat
  AF_INET6 : Nat
  SOCK_STREAM : Nat
  sizeof_sockaddr_in : Nat
  sizeof_sockaddr_in6 : Nat
deriving DecidableEq, Repr

/-- C `errno_to_socks`: the `switch(e)`, its labels tried in source order. -/
def errno_to_socks (P : platform) (e : Int) : Nat :=
  if e = 0 then socks_status_succeeded
  else if e = P.ECONNREFUSED then socks_status_connection_refused
  else if e = P.EHOSTUNREACH then socks_status_host_unreachable
  else if e = P.ENETUNREACH then socks_status_network_unreachable
  else if e = P.ETIMEDOUT then socks_status_ttl_expired
  else socks_status_general_SOCKS_server_failure

/-! ## Reading and sending (`buffer.h`, `recv`, `send`) -/

/-- Modelled from the spec: `buffer_read_ptr` of the absent `buffer.c`: the
readable span, as the offset of its first byte and its length `n`. -/
def buffer_read_ptr (b : buffer) : Nat × Nat :=
  (b.read, b.write - b.read)

/-- Modelled from the spec: `buffer_read_adv` of the absent `buffer.c`:
`read_advance(k)` moves the read cursor by `k`. -/
def buffer_read_adv (b : buffer) (bytes : Nat) : buffer :=
  { b with read := b.read + bytes }

/-- What a `recv` call on the client socket meets: bytes that have arrived, the
end of the stream, or an error. -/
inductive recv_outcome where
  | data (bytes : List Nat)
  | eof
  | error
deriving DecidableEq, Repr

/-- The bytes `recv(fd, ptr, count, 0)` stores at `ptr`: at most `count`. -/
def recv_bytes (r : recv_outcome) (count : Nat) : List Nat :=
  match r with
  | recv_outcome.data bytes => bytes.take count
  | recv_outcome.eof => []
  | recv_outcome.error => []

/-- The value `recv(fd, ptr, count, 0)` returns. -/
def recv_n (r : recv_outcome) (count : Nat) : Int :=
  match r with
  | recv_outcome.data bytes => ((bytes.take count).length : Nat)
  | recv_outcome.eof => 0
  | recv_outcome.error => -1

/-- What a `send` call meets: the socket takes some bytes, or an error. -/
inductive send_outcome where
  | sent (k : Nat)
  | error
deriving DecidableEq, Repr

/-- The value `send(fd, ptr, count, MSG_NOSIGNAL)` returns: at most `count`. -/
def send_n (r : send_outcome) (count : Nat) : Int :=
  match r with
  | send_outcome.sent k => ((min k count : Nat) : Int)
  | send_outcome.error => -1

/-! ## HELLO and AUTH handlers (`src/src/socks5nio.c`) -/

/-- C `hello_process`: its return value and `*d` afterwards. -/
def hello_process (d : hello_st) : socks_v5state × hello_st :=
  let m := d.method
  let r := hello_marshall d.wb m
  let ret0 := if r.1 = -1 then ERROR else HELLO_WRITE
  let ret1 := if m = SOCKS_HELLO_NO_ACCEPTABLE_METHODS then ERROR else ret0
  (ret1, { d with wb := r.2 })

/-- C `hello_read`: its return value and `*d` afterwards. `selector_ok` tells
whether `selector_set_interest_key(key, OP_WRITE)`, if called, succeeds. -/
def hello_read (d : hello_st) (rcv : recv_outcome) (selector_ok : Bool) :
    socks_v5state × hello_st :=
  let w := buffer_write_ptr d.rb
  let n := recv_n rcv w.2
  if n > 0 then
    let rb1 := buffer_recv d.rb (recv_bytes rcv w.2)
    let c := hello_consume rb1 d.parser (some false)
    let d1 : hello_st := { d with rb := c.2.1, parser := c.2.2.1 }
    let error := c.2.2.2
    let out : socks_v5state × hello_st :=
      if (hello_is_done c.1 none).1 then
        if selector_ok then hello_process d1 else (ERROR, d1)
      else (HELLO_READ, d1)
    (if error = some true then ERROR else out.1, out.2)
  else (ERROR, d)

/-- C `hello_write`: its return value and `*d` afterwards. `selector_ok` tells
whether `selector_set_interest_key(key, OP_READ)`, if called, succeeds. -/
def hello_write (d : hello_st) (snd : send_outcome) (selector_ok : Bool) :
    socks_v5state × hello_st :=
  let r := buffer_read_ptr d.wb
  let n := send_n snd r.2
  if n = -1 then (ERROR, d)
  else
    let d1 : hello_st := { d with wb := buffer_read_adv d.wb n.toNat }
    if ¬ buffer_can_read d1.wb then
      let ret0 := if d1.method = SOCKS_HELLO_USERNAME_PASSWORD then AUTH_READ else REQUEST_READ
      (if ¬ selector_ok then ERROR else ret0, d1)
    else (HELLO_WRITE, d1)

/-- C `auth_write`: its return value and `*d` afterwards. `selector_ok` tells
whether `selector_set_interest_key(key, OP_READ)`, if called, succeeds. -/
def auth_write (d : auth_st) (snd : send_outcome) (selector_ok : Bool) :
    socks_v5state × auth_st :=
  let r := buffer_read_ptr d.wb
  let n := send_n snd r.2
  if n = -1 then (ERROR, d)
  else
    let d1 : auth_st := { d with wb := buffer_read_adv d.wb n.toNat }
    if ¬ buffer_can_read d1.wb then
      if d1.status = 0x00 then
        (if ¬ selector_ok then ERROR else REQUEST_READ, d1)
      else (ERROR, d1)
    else (AUTH_WRITE, d1)

/-! ## REQUEST handlers (`src/src/socks5nio.c`) -/

/-- A socket address as the code reads and writes it through `struct sockaddr_in`
and `struct sockaddr_in6`: the family, the two port bytes (`sin_port` and
`sin6_port` are the same bytes) and the address bytes of either view. -/
structure sockaddr_storage where
  ss_family : Nat
  port : List Nat
  sin_addr : List Nat
  sin6_addr : List Nat
deriving DecidableEq, Repr

/-- Type `struct addrinfo`, the fields the code uses; a list of them is the chain
through `ai_next`, the empty list being NULL. -/
structure addrinfo where
  ai_family : Nat
  ai_socktype : Nat
  ai_addrlen : Nat
  ai_addr : sockaddr_storage
deriving DecidableEq, Repr

/-- Type `struct request_st`. `parser.request` points to `request`, so the two
are one here: `request` is `parser.request`. Its fields `origin_resolution` and
`current_origin`, which no code touches, are left out. -/
structure request_st where
  rb : buffer
  wb : buffer
  parser : request_parser_t
  status : Nat
deriving DecidableEq, Repr

/-- The field `request` of `struct request_st`. -/
def request_st.request (d : request_st) : request := d.parser.request

/-- Type `struct state_machine` of the absent `stm.h`, the fields `socks5_new`
sets and the active state. -/
structure state_machine where
  initial : socks_v5state
  max_state : socks_v5state
  current : socks_v5state
deriving DecidableEq, Repr

/-- Type `struct socks5`, the fields the handlers read or write; `request` is the
member `client.request` of the union, `references` the `unsigned` reference
count. The field `next` is kept with the pool. The fields after `references`
have the value of zeroed memory unless a literal gives another. -/
structure socks5 where
  client_fd : Int
  origin_addr : sockaddr_storage
  origin_addr_len : Nat
  origin_fd : Int
  origin_resolution : List addrinfo
  origin_resolution_current : List addrinfo
  request : request_st
  dest_addr_str : List Nat
  dest_port : Nat
  last_status : Nat
  references : Nat
  stm : state_machine := { initial := HELLO_READ, max_state := HELLO_READ, current := HELLO_READ }
  username : List Nat := List.replicate 257 0
  bytes_to_origin : Nat := 0
  bytes_from_origin : Nat := 0
deriving DecidableEq, Repr

/-- C `request_read_init`, given the connection buffers `rb` and `wb` are made
to point to and the parser memory as it was. -/
def request_read_init (read_buffer write_buffer : buffer) (old : request_parser_t) :
    request_st :=
  { rb := read_buffer, wb := write_buffer,
    status := socks_status_general_SOCKS_server_failure,
    parser := request_parser_init old }

/-- What `request_process` reaches outside the connection state: `inet_ntop`
(family, address bytes, destination array, giving the array afterwards), whether
`calloc` and `selector_set_interest_key(key, OP_NOOP)` succeed, and the two
procedures of `socks5nio.c` that act through sockets and threads, as
transformers of the connection state. -/
structure request_deps where
  inet_ntop : Nat → List Nat → List Nat → List Nat
  calloc_ok : Bool
  selector_ok : Bool
  request_connect : socks5 → socks_v5state × socks5
  request_start_dns_resolution : socks5 → socks_v5state × socks5

/-- The C string `"unknown"`. -/
def str_unknown : List Nat := [0x75, 0x6E, 0x6B, 0x6E, 0x6F, 0x77, 0x6E, 0x00]

/-- C `request_process`: its return value and `*s` afterwards. -/
def request_process (P : platform) (E : request_deps) (s : socks5) :
    socks_v5state × socks5 :=
  let d := s.request
  let t := d.request.dest_addr_type
  let str :=
    if t = socks_req_addrtype_ipv4 then
      E.inet_ntop P.AF_INET (d.request.dest_addr.take 4) s.dest_addr_str
    else if t = socks_req_addrtype_ipv6 then
      E.inet_ntop P.AF_INET6 (d.request.dest_addr.take 16) s.dest_addr_str
    else if t = socks_req_addrtype_domain then
      strncpy s.dest_addr_str d.request.dest_addr 255
    else strncpy s.dest_addr_str str_unknown 255
  let s1 : socks5 := { s with dest_port := ntohs d.request.dest_port, dest_addr_str := str }
  if d.request.cmd ≠ socks_req_cmd_connect then
    (REQUEST_WRITE,
      { s1 with request := { d with status := socks_status_command_not_supported } })
  else if t = socks_req_addrtype_ipv4 then
    let addr : sockaddr_storage :=
      { s1.origin_addr with ss_family := P.AF_INET, port := d.request.dest_port,
                            sin_addr := d.request.dest_addr.take 4 }
    let s2 : socks5 := { s1 with origin_addr := addr, origin_addr_len := P.sizeof_sockaddr_in }
    if ¬ E.calloc_ok then
      (REQUEST_WRITE,
        { s2 with request := { d with status := socks_status_general_SOCKS_server_failure } })
    else
      let ai : addrinfo :=
        { ai_family := P.AF_INET, ai_socktype := P.SOCK_STREAM,
          ai_addrlen := P.sizeof_sockaddr_in, ai_addr := addr }
      E.request_connect { s2 with origin_resolution := [ai], origin_resolution_current := [ai] }
  else if t = socks_req_addrtype_ipv6 then
    let addr : sockaddr_storage :=
      { s1.origin_addr with ss_family := P.AF_INET6, port := d.request.dest_port,
                            sin6_addr := d.request.dest_addr.take 16 }
    let s2 : socks5 := { s1 with origin_addr := addr, origin_addr_len := P.sizeof_sockaddr_in6 }
    if ¬ E.calloc_ok then
      (REQUEST_WRITE,
        { s2 with request := { d with status := socks_status_general_SOCKS_server_failure } })
    else
      let ai : addrinfo :=
        { ai_family := P.AF_INET6, ai_socktype := P.SOCK_STREAM,
          ai_addrlen := P.sizeof_sockaddr_in6, ai_addr := addr }
      E.request_connect { s2 with origin_resolution := [ai], origin_resolution_current := [ai] }
  else if t = socks_req_addrtype_domain then
    if ¬ E.selector_ok then (ERROR, s1)
    else E.request_start_dns_resolution s1
  else
    (REQUEST_WRITE,
      { s1 with request := { d with status := socks_status_address_type_not_supported } })

/-- C `request_read`: its return value and `*s` afterwards. -/
def request_read (P : platform) (E : request_deps) (s : socks5) (rcv : recv_outcome) :
    socks_v5state × socks5 :=
  let d := s.request
  let w := buffer_write_ptr d.rb
  let n := recv_n rcv w.2
  if n > 0 then
    let rb1 := buffer_recv d.rb (recv_bytes rcv w.2)
    let c := request_consume rb1 d.parser (some false)
    let s1 : socks5 := { s with request := { d with rb := c.2.1, parser := c.2.2.1 } }
    let error := c.2.2.2
    let out : socks_v5state × socks5 :=
      if (request_is_done c.1 none).1 then request_process P E s1 else (REQUEST_READ, s1)
    (if error = some true then ERROR else out.1, out.2)
  else (ERROR, s)

/-- The reply `request_write_init` chooses: address type, the local
`union socks_addr` and the port bytes. -/
def request_write_reply (P : platform) (s : socks5) : Nat × List Nat × List Nat :=
  if s.request.status = socks_status_succeeded ∧ s.origin_fd ≠ -1 then
    if s.origin_addr.ss_family = P.AF_INET then
      (socks_req_addrtype_ipv4,
        memcpy (List.replicate 256 0) 0 (s.origin_addr.sin_addr.take 4), s.origin_addr.port)
    else if s.origin_addr.ss_family = P.AF_INET6 then
      (socks_req_addrtype_ipv6,
        memcpy (List.replicate 256 0) 0 (s.origin_addr.sin6_addr.take 16), s.origin_addr.port)
    else (socks_req_addrtype_ipv4, List.replicate 256 0, [0, 0])
  else (socks_req_addrtype_ipv4, List.replicate 256 0, [0, 0])

/-- C `request_write_init`: `*s` afterwards; the value `request_marshall`
returns is dropped, as in the source. -/
def request_write_init (P : platform) (s : socks5) : socks5 :=
  let d := s.request
  let s1 : socks5 := { s with last_status := d.status % 256 }
  let sel := request_write_reply P s
  let r := request_marshall d.wb d.status sel.1 (some sel.2.1) sel.2.2
  { s1 with request := { d with wb := r.2 } }

/-- C `metrics_connection_failed`, on the `uint64_t` counter
`failed_connections`. -/
def metrics_connection_failed (failed_connections : Nat) : Nat :=
  (failed_connections + 1) % 2 ^ 64

/-- C `request_write`: its return value, `*s` and the counter
`failed_connections` afterwards. The `selector_set_interest` calls on the way
to COPY, whose results the source drops, touch nothing kept here. -/
def request_write (s : socks5) (snd : send_outcome) (failed_connections : Nat) :
    socks_v5state × socks5 × Nat :=
  let d := s.request
  let r := buffer_read_ptr d.wb
  let n := send_n snd r.2
  if n = -1 then (ERROR, s, failed_connections)
  else
    let s1 : socks5 := { s with request := { d with wb := buffer_read_adv d.wb n.toNat } }
    if ¬ buffer_can_read s1.request.wb then
      if d.status = socks_status_succeeded then (COPY, s1, failed_connections)
      else (DONE, s1, metrics_connection_failed failed_connections)
    else (REQUEST_WRITE, s1, failed_connections)

/-! ## Selector (`src/include/selector.h`) -/

/-- C `OP_NOOP` of `fd_interest`. -/
def OP_NOOP : Nat := 0
/-- C `OP_READ` of `fd_interest`, `1 << 0`. -/
def OP_READ : Nat := 1
/-- C `OP_WRITE` of `fd_interest`, `1 << 2`. -/
def OP_WRITE : Nat := 4

/-- C macro `INTEREST_OFF(FLAG, MASK)`, that is `(FLAG) & ~(MASK)`, on 32-bit
values. -/
def INTEREST_OFF (flag mask : Nat) : Nat :=
  flag &&& ((2 ^ 32 - 1) ^^^ mask)

/-- Modelled from the spec: the selector of the absent `selector.c`, as the table
of the registered fds with the interest programmed for each. -/
structure fd_selector where
  fds : List (Int × Nat)
deriving DecidableEq, Repr

/-- Whether `fd` is registered in the selector. -/
def selector_is_registered (sel : fd_selector) (fd : Int) : Bool :=
  sel.fds.any (fun e => decide (e.1 = fd))

/-- The interest programmed for `fd`, if it is registered. -/
def selector_get_interest (sel : fd_selector) (fd : Int) : Option Nat :=
  (sel.fds.find? (fun e => decide (e.1 = fd))).map (fun e => e.2)

/-- Modelled from the spec: `selector_register` of the absent `selector.c`; the
result is `none` when it does not return `SELECTOR_SUCCESS`, which is the case
for an fd already registered and whenever `ok` is false (no memory, fd out of
range). -/
def selector_register (sel : fd_selector) (fd : Int) (interest : Nat) (ok : Bool) :
    Option fd_selector :=
  if ok = true ∧ selector_is_registered sel fd = false then
    some { fds := sel.fds ++ [(fd, interest)] }
  else none

/-- Modelled from the spec: `selector_set_interest` of the absent `selector.c`:
the interest of a registered fd is replaced; `none` when it does not return
`SELECTOR_SUCCESS`, which is the case for an fd that is not registered. -/
def selector_set_interest (sel : fd_selector) (fd : Int) (i : Nat) : Option fd_selector :=
  if selector_is_registered sel fd = true then
    some { fds := sel.fds.map (fun e => if e.1 = fd then (e.1, i) else e) }
  else none

/-- A `selector_set_interest` or `selector_set_interest_key` call whose result
the caller drops. -/
def selector_set_interest_dropped (sel : fd_selector) (fd : Int) (i : Nat) : fd_selector :=
  (selector_set_interest sel fd i).getD sel

/-! ## Connection pool (`src/src/socks5nio.c`) -/

/-- C `max_pool`. -/
def max_pool : Nat := 50

/-- C `BUFFER_SIZE` of `socks5nio.c`. -/
def BUFFER_SIZE : Nat := 4096

/-- The globals `pool` and `pool_size` (an `unsigned`), with the field `next` of
the `struct socks5` objects by address, the addresses passed to `free` and the
address lists passed to `freeaddrinfo`, last first. `none` is the NULL pointer. -/
structure pool_state where
  pool : Option Nat
  pool_size : Nat
  next : Nat → Option Nat
  freed : List Nat
  addrinfo_freed : List (List addrinfo) := []

/-- C `n - 1` on an `unsigned`: one less modulo 2^32, which is `UINT_MAX` from 0. -/
def unsigned_dec (n : Nat) : Nat :=
  if n = 0 then 2 ^ 32 - 1 else (n - 1) % 2 ^ 32

/-- Modelled from the spec: `buffer_init` of the absent `buffer.c`,
`init(capacity, storage)`: both cursors at the start of the storage. -/
def buffer_init (n : Nat) (data : List Nat) : buffer :=
  { data := data.take n ++ List.replicate (n - data.length) 0, read := 0, write := 0 }

/-- The `memset(ret, 0x00, sizeof(*ret))` of `socks5_new` on the object whose
content was `old`: every byte is zero. The first enumerators `HELLO_READ` and
`request_version` are the value 0. -/
def socks5_memset (_old : socks5) : socks5 :=
  { client_fd := 0,
    origin_addr := { ss_family := 0, port := List.replicate 2 0,
                     sin_addr := List.replicate 4 0, sin6_addr := List.replicate 16 0 },
    origin_addr_len := 0, origin_fd := 0, origin_resolution := [],
    origin_resolution_current := [],
    request := { rb := { data := [], read := 0, write := 0 },
                 wb := { data := [], read := 0, write := 0 },
                 parser := { request := { cmd := 0, dest_addr_type := 0,
                                          dest_addr := List.replicate 256 0,
                                          dest_port := List.replicate 2 0 },
                             state := request_version, remaining := 0, addr_idx := 0 },
                 status := 0 },
    dest_addr_str := List.replicate 256 0, dest_port := 0, last_status := 0,
    references := 0,
    stm := { initial := HELLO_READ, max_state := HELLO_READ, current := HELLO_READ },
    username := List.replicate 257 0, bytes_to_origin := 0, bytes_from_origin := 0 }

/-- Modelled from the spec: `stm_init` of the absent `stm.c`: the initial state
becomes the active one. -/
def stm_init (stm : state_machine) : state_machine :=
  { stm with current := stm.initial }

/-- The part of `socks5_new` after `ret` is known not to be NULL, on the object
whose content was `old`: the `memset` and the assignments; the start time is
left out. The buffers `rb` and `wb` of the union member stand for `read_buffer`
and `write_buffer`, which `buffer_init` sets up over the zeroed arrays
`raw_buff_a` and `raw_buff_b`. -/
def socks5_new_init (old : socks5) (client_fd : Int) : socks5 :=
  let z := socks5_memset old
  { z with client_fd := client_fd, origin_fd := -1,
           stm := stm_init { z.stm with initial := HELLO_READ, max_state := ERROR },
           request := { z.request with
                        rb := buffer_init BUFFER_SIZE (List.replicate BUFFER_SIZE 0),
                        wb := buffer_init BUFFER_SIZE (List.replicate BUFFER_SIZE 0) },
           references := 1, dest_addr_str := z.dest_addr_str.set 0 0, dest_port := 0,
           last_status := 0xFF, bytes_to_origin := 0, bytes_from_origin := 0 }

/-- C `socks5_new`: the pool afterwards and the object returned, with its
address. `mem` is the content of the memory at each address before the call,
`malloc` what `malloc` returns if it is called. -/
def socks5_new (p : pool_state) (mem : Nat → socks5) (client_fd : Int)
    (malloc : Option Nat) : pool_state × Option (Nat × socks5) :=
  let r : pool_state × Option Nat :=
    match p.pool with
    | none => (p, malloc)
    | some ret =>
        ({ p with pool := p.next ret,
                  next := fun x => if x = ret then none else p.next x,
                  pool_size := unsigned_dec p.pool_size }, some ret)
  match r.2 with
  | none => (r.1, none)
  | some ret =>
      ({ r.1 with next := fun x => if x = ret then none else r.1.next x },
        some (ret, socks5_new_init (mem ret) client_fd))

/-- C `socks5_destroy_` on the object `s` at address `a`. -/
def socks5_destroy_ (p : pool_state) (a : Nat) (s : socks5) : pool_state × socks5 :=
  if s.origin_resolution ≠ [] then
    ({ p with freed := a :: p.freed,
              addrinfo_freed := s.origin_resolution :: p.addrinfo_freed },
      { s with origin_resolution := [] })
  else ({ p with freed := a :: p.freed }, s)

/-- C `socks5_destroy`: the pool and the object afterwards; `s` is the object with
its address, `none` for NULL. -/
def socks5_destroy (p : pool_state) (s : Option (Nat × socks5)) :
    pool_state × Option socks5 :=
  match s with
  | none => (p, none)
  | some (a, o) =>
      if o.references = 1 then
        if p.pool_size < max_pool then
          ({ p with next := fun x => if x = a then p.pool else p.next x,
                    pool := some a,
                    pool_size := (p.pool_size + 1) % 2 ^ 32 }, some o)
        else
          let r := socks5_destroy_ p a o
          (r.1, some r.2)
      else
        (p, some { o with references := unsigned_dec o.references })

/-- The `for` loop of `socksv5_pool_destroy`, from the object `s`: the addresses
freed; `fuel` bounds the number of iterations, `none` when it does not suffice. -/
def socksv5_pool_destroy_loop (next : Nat → Option Nat) :
    Nat → Option Nat → List Nat → Option (List Nat)
  | _, none, freed => some freed
  | 0, some _, _ => none
  | fuel + 1, some s, freed => socksv5_pool_destroy_loop next fuel (next s) (s :: freed)

/-- C `socksv5_pool_destroy`, its loop run with `fuel`. -/
def socksv5_pool_destroy (fuel : Nat) (p : pool_state) : Option pool_state :=
  (socksv5_pool_destroy_loop p.next fuel p.pool p.freed).map
    (fun f => { p with pool := none, pool_size := 0, freed := f })

/-! ## Connecting to the origin (`src/src/socks5nio.c`) -/

/-- The program state outside the connection object that the connect procedures
and the tear-down reach: the selector and the pool. -/
structure globals where
  selector : fd_selector
  pool : pool_state

/-- C `socksv5_close` for the connection `s` at address `a`. -/
def socksv5_close (p : pool_state) (a : Nat) (s : socks5) : pool_state × socks5 :=
  let r := socks5_destroy p (some (a, s))
  (r.1, r.2.getD s)

/-- Modelled from the spec: `selector_unregister_fd` of the absent `selector.c`
on an fd of the connection `s`: the registration is dropped and the handler's
`handle_close`, which is `socksv5_close`, is called once. `none` when it does not
return `SELECTOR_SUCCESS`, which is the case for an fd that is not registered. -/
def selector_unregister_fd (g : globals) (a : Nat) (s : socks5) (fd : Int) :
    Option (globals × socks5) :=
  if selector_is_registered g.selector fd = true then
    let c := socksv5_close g.pool a s
    some ({ selector := { fds := g.selector.fds.filter (fun e => decide (e.1 ≠ fd)) },
            pool := c.1 }, c.2)
  else none

/-- What the system calls of one attempt of `request_connect` meet: `socket`
fails; `selector_fd_set_nio` fails; `connect` returns -1 with `errno`; `connect`
returns 0. `register_ok` tells whether the `selector_register` that may follow
finds memory and room. -/
inductive connect_outcome where
  | no_socket
  | no_nio (fd : Int)
  | failed (fd : Int) (errno : Int) (register_ok : Bool)
  | connected (fd : Int) (register_ok : Bool)
deriving DecidableEq, Repr

/-- The `while(addr != NULL)` loop of `request_connect` from the node `addr`, the
list being the chain from it through `ai_next`. `attempt` gives the outcome of
the system calls for the node tried, which the chain from it identifies. -/
def request_connect_loop (P : platform) (attempt : List addrinfo → connect_outcome)
    (key_fd : Int) (g : globals) (s : socks5) :
    List addrinfo → socks_v5state × globals × socks5
  | [] =>
      (REQUEST_WRITE, g,
        { s with request := { s.request with status := socks_status_host_unreachable } })
  | addr :: rest =>
      match attempt (addr :: rest) with
      | connect_outcome.no_socket => request_connect_loop P attempt key_fd g s rest
      | connect_outcome.no_nio _ => request_connect_loop P attempt key_fd g s rest
      | connect_outcome.failed fd errno register_ok =>
          if errno = P.EINPROGRESS then
            let s1 : socks5 := { s with origin_fd := fd, origin_resolution_current := rest }
            match selector_register g.selector fd OP_WRITE register_ok with
            | none => request_connect_loop P attempt key_fd g { s1 with origin_fd := -1 } rest
            | some sel1 =>
                (REQUEST_CONNECTING,
                  { g with selector := selector_set_interest_dropped sel1 key_fd OP_NOOP },
                  { s1 with references := (s1.references + 1) % 2 ^ 32 })
          else request_connect_loop P attempt key_fd g s rest
      | connect_outcome.connected fd register_ok =>
          let s1 : socks5 :=
            { s with origin_fd := fd, origin_addr := addr.ai_addr,
                     origin_addr_len := addr.ai_addrlen,
                     request := { s.request with status := socks_status_succeeded } }
          match selector_register g.selector fd OP_READ register_ok with
          | none =>
              (REQUEST_WRITE, g,
                { s1 with origin_fd := -1,
                          request := { s1.request with
                            status := socks_status_general_SOCKS_server_failure } })
          | some sel1 =>
              (REQUEST_WRITE, { g with selector := sel1 },
                { s1 with references := (s1.references + 1) % 2 ^ 32 })

/-- C `request_connect`; `key_fd` is `key->fd`. The `memcpy` of `ai_addrlen` bytes
into `origin_addr` is taken as the copy of the whole address. -/
def request_connect (P : platform) (attempt : List addrinfo → connect_outcome)
    (key_fd : Int) (g : globals) (s : socks5) : socks_v5state × globals × socks5 :=
  request_connect_loop P attempt key_fd g s s.origin_resolution_current

/-- What `connecting_write` learns from the origin socket: whether `getsockopt`
succeeds, the `SO_ERROR` value it then stores, `errno` when it fails, and the
address and length `getsockname` leaves in `origin_addr` and `addr_len`. -/
structure connecting_deps where
  getsockopt_ok : Bool
  so_error : Int
  errno : Int
  getsockname : sockaddr_storage × Nat
deriving DecidableEq, Repr

/-- C `metrics_connection_success`, on the `uint64_t` counter
`successful_connections`. -/
def metrics_connection_success (successful_connections : Nat) : Nat :=
  (successful_connections + 1) % 2 ^ 64

/-- C `connecting_write` for the connection `s` at address `a`: its return value,
the globals, `*s` and the counter `successful_connections` afterwards. -/
def connecting_write (P : platform) (E : connecting_deps)
    (attempt : List addrinfo → connect_outcome) (g : globals) (a : Nat) (s : socks5)
    (successful_connections : Nat) : socks_v5state × globals × socks5 × Nat :=
  let error : Int := if E.getsockopt_ok then E.so_error else E.errno
  if error ≠ 0 then
    let u := (selector_unregister_fd g a s s.origin_fd).getD (g, s)
    let s1 : socks5 :=
      { u.2 with origin_fd := -1, references := unsigned_dec u.2.references }
    let r : socks_v5state × globals × socks5 :=
      if s1.origin_resolution_current ≠ [] then request_connect P attempt s1.client_fd u.1 s1
      else (REQUEST_WRITE, u.1, s1)
    if s1.origin_resolution_current ≠ [] ∧ r.1 = REQUEST_CONNECTING then
      (REQUEST_CONNECTING, r.2.1, r.2.2, successful_connections)
    else
      let sel1 := selector_set_interest_dropped r.2.1.selector r.2.2.client_fd OP_WRITE
      (REQUEST_WRITE, { r.2.1 with selector := sel1 },
        { r.2.2 with request := { r.2.2.request with status := errno_to_socks P error } },
        successful_connections)
  else
    let s1 : socks5 :=
      { s with request := { s.request with status := socks_status_succeeded },
               origin_addr := E.getsockname.1, origin_addr_len := E.getsockname.2 }
    let sel1 := selector_set_interest_dropped g.selector s.client_fd OP_WRITE
    let sel2 := selector_set_interest_dropped sel1 s.origin_fd OP_NOOP
    (REQUEST_WRITE, { g with selector := sel2 }, s1,
      metrics_connection_success successful_connections)

/-- The loop of `socksv5_done` over the two fds taken from `*s` on entry: each
one that is not -1 is unregistered; `none` is `abort()`. -/
def socksv5_done_loop (a : Nat) : List Int → globals → socks5 → Option (globals × socks5)
  | [], g, s => some (g, s)
  | fd :: fds, g, s =>
      if fd ≠ -1 then
        match selector_unregister_fd g a s fd with
        | none => none
        | some u => socksv5_done_loop a fds u.1 u.2
      else socksv5_done_loop a fds g s

/-- C `socksv5_done` for the connection `s` at address `a`; the access log and
the counter `current_connections` are left out. -/
def socksv5_done (g : globals) (a : Nat) (s : socks5) : Option (globals × socks5) :=
  socksv5_done_loop a [s.client_fd, s.origin_fd] g s

/-! ## COPY (`src/src/socks5nio.c`) -/

/-- The target of the pointer `fd` of `struct copy`: `&s->client_fd` or
`&s->origin_fd`. -/
inductive copy_fd_ref where
  | client_fd
  | origin_fd
deriving DecidableEq, Repr

/-- The target of the pointers `rb` and `wb` of `struct copy`: `&s->read_buffer`
or `&s->write_buffer`. -/
inductive copy_buffer_ref where
  | read_buffer
  | write_buffer
deriving DecidableEq, Repr

/-- A pointer to a `struct copy` of the connection: `&s->client.copy` or
`&s->orig.copy`. -/
inductive copy_ref where
  | client
  | orig
deriving DecidableEq, Repr

/-- Type `struct copy`; the pointers are those `copy_init` stores, none of them
NULL. -/
structure copy where
  fd : copy_fd_ref
  rb : copy_buffer_ref
  wb : copy_buffer_ref
  duplex : Nat
  other : copy_ref
deriving DecidableEq, Repr

/-- Type `struct socks5` in COPY, the fields the COPY handlers read or write:
the two fds, the union members `client.copy` and `orig.copy`, the two buffers and
the `uint64_t` byte counts kept for the access log. -/
structure socks5_copy where
  client_fd : Int
  origin_fd : Int
  client : copy
  orig : copy
  read_buffer : buffer
  write_buffer : buffer
  bytes_to_origin : Nat
  bytes_from_origin : Nat
deriving DecidableEq, Repr

/-- The value `*fd` for a pointer `fd` of `struct copy`. -/
def socks5_copy.fd_at (s : socks5_copy) (r : copy_fd_ref) : Int :=
  match r with
  | copy_fd_ref.client_fd => s.client_fd
  | copy_fd_ref.origin_fd => s.origin_fd

/-- The buffer behind a pointer `rb` or `wb` of `struct copy`. -/
def socks5_copy.buffer_at (s : socks5_copy) (r : copy_buffer_ref) : buffer :=
  match r with
  | copy_buffer_ref.read_buffer => s.read_buffer
  | copy_buffer_ref.write_buffer => s.write_buffer

/-- A store to the buffer behind a pointer `rb` or `wb`. -/
def socks5_copy.set_buffer (s : socks5_copy) (r : copy_buffer_ref) (b : buffer) :
    socks5_copy :=
  match r with
  | copy_buffer_ref.read_buffer => { s with read_buffer := b }
  | copy_buffer_ref.write_buffer => { s with write_buffer := b }

/-- The `struct copy` behind a pointer to one. -/
def socks5_copy.copy_at (s : socks5_copy) (r : copy_ref) : copy :=
  match r with
  | copy_ref.client => s.client
  | copy_ref.orig => s.orig

/-- A store to the field `duplex` of the `struct copy` behind a pointer. -/
def socks5_copy.set_duplex (s : socks5_copy) (r : copy_ref) (duplex : Nat) : socks5_copy :=
  match r with
  | copy_ref.client => { s with client := { s.client with duplex := duplex } }
  | copy_ref.orig => { s with orig := { s.orig with duplex := duplex } }

/-- C `copy_init`. -/
def copy_init (s : socks5_copy) : socks5_copy :=
  { s with
    client := { fd := copy_fd_ref.client_fd, rb := copy_buffer_ref.read_buffer,
                wb := copy_buffer_ref.write_buffer, duplex := OP_READ ||| OP_WRITE,
                other := copy_ref.orig },
    orig := { fd := copy_fd_ref.origin_fd, rb := copy_buffer_ref.write_buffer,
              wb := copy_buffer_ref.read_buffer, duplex := OP_READ ||| OP_WRITE,
              other := copy_ref.client } }

/-- C `copy_compute_interests` for the `struct copy` at `d`: the value returned
and the selector afterwards; `none` is `abort()`. -/
def copy_compute_interests (sel : fd_selector) (s : socks5_copy) (d : copy_ref) :
    Option (Nat × fd_selector) :=
  let c := s.copy_at d
  let ret0 := OP_NOOP
  let ret1 :=
    if (c.duplex &&& OP_READ) ≠ 0 ∧ buffer_can_write (s.buffer_at c.rb) = true then
      ret0 ||| OP_READ
    else ret0
  let ret2 :=
    if (c.duplex &&& OP_WRITE) ≠ 0 ∧ buffer_can_read (s.buffer_at c.wb) = true then
      ret1 ||| OP_WRITE
    else ret1
  match selector_set_interest sel (s.fd_at c.fd) ret2 with
  | none => none
  | some sel1 => some (ret2, sel1)

/-- C `copy_ptr`; `key_fd` is `key->fd`. -/
def copy_ptr (s : socks5_copy) (key_fd : Int) : copy_ref :=
  if key_fd = s.client_fd then copy_ref.client else copy_ref.orig

/-- The byte counters of `struct socks5_metrics` (`uint64_t`). -/
structure copy_metrics where
  bytes_transferred : Nat
  bytes_from_clients : Nat
  bytes_to_clients : Nat
  bytes_from_origins : Nat
  bytes_to_origins : Nat
deriving DecidableEq, Repr

/-- C `metrics_add_bytes_from_client`. -/
def metrics_add_bytes_from_client (m : copy_metrics) (bytes : Nat) : copy_metrics :=
  { m with bytes_from_clients := (m.bytes_from_clients + bytes) % 2 ^ 64,
           bytes_transferred := (m.bytes_transferred + bytes) % 2 ^ 64 }

/-- C `metrics_add_bytes_to_client`. -/
def metrics_add_bytes_to_client (m : copy_metrics) (bytes : Nat) : copy_metrics :=
  { m with bytes_to_clients := (m.bytes_to_clients + bytes) % 2 ^ 64,
           bytes_transferred := (m.bytes_transferred + bytes) % 2 ^ 64 }

/-- C `metrics_add_bytes_from_origin`. -/
def metrics_add_bytes_from_origin (m : copy_metrics) (bytes : Nat) : copy_metrics :=
  { m with bytes_from_origins := (m.bytes_from_origins + bytes) % 2 ^ 64,
           bytes_transferred := (m.bytes_transferred + bytes) % 2 ^ 64 }

/-- C `metrics_add_bytes_to_origin`. -/
def metrics_add_bytes_to_origin (m : copy_metrics) (bytes : Nat) : copy_metrics :=
  { m with bytes_to_origins := (m.bytes_to_origins + bytes) % 2 ^ 64,
           bytes_transferred := (m.bytes_transferred + bytes) % 2 ^ 64 }

/-- The end of `copy_read` and of `copy_write` for the `struct copy` at `d`: the
two `copy_compute_interests` calls and the value returned; `none` is `abort()`. -/
def copy_finish (sel : fd_selector) (s : socks5_copy) (d : copy_ref) (m : copy_metrics) :
    Option (socks_v5state × fd_selector × socks5_copy × copy_metrics) :=
  match copy_compute_interests sel s d with
  | none => none
  | some r1 =>
      match copy_compute_interests r1.2 s (s.copy_at d).other with
      | none => none
      | some r2 =>
          if (s.copy_at d).duplex = OP_NOOP ∧
              (s.copy_at (s.copy_at d).other).duplex = OP_NOOP then
            some (DONE, r2.2, s, m)
          else some (COPY, r2.2, s, m)

/-- C `copy_read`; `key_fd` is `key->fd` and `rcv` what `recv` meets. The value
returned with the selector, `*s` and the metrics afterwards; `none` is
`abort()`. -/
def copy_read (sel : fd_selector) (s : socks5_copy) (key_fd : Int) (rcv : recv_outcome)
    (m : copy_metrics) : Option (socks_v5state × fd_selector × socks5_copy × copy_metrics) :=
  let d := copy_ptr s key_fd
  let c := s.copy_at d
  if s.fd_at c.fd = -1 then some (ERROR, sel, s, m)
  else
    let w := buffer_write_ptr (s.buffer_at c.rb)
    let n := recv_n rcv w.2
    if n ≤ 0 then
      let s1 := s.set_duplex d (INTEREST_OFF c.duplex OP_READ)
      let o := s1.copy_at c.other
      let s2 :=
        if s1.fd_at o.fd ≠ -1 then s1.set_duplex c.other (INTEREST_OFF o.duplex OP_WRITE)
        else s1
      copy_finish sel s2 d m
    else
      let s1 := s.set_buffer c.rb (buffer_recv (s.buffer_at c.rb) (recv_bytes rcv w.2))
      if key_fd = s.client_fd then
        copy_finish sel s1 d (metrics_add_bytes_from_client m n.toNat)
      else
        copy_finish sel
          { s1 with bytes_from_origin := (s1.bytes_from_origin + n.toNat) % 2 ^ 64 } d
          (metrics_add_bytes_from_origin m n.toNat)

/-- C `copy_write`; `key_fd` is `key->fd` and `snd` what `send` meets. The value
returned with the selector, `*s` and the metrics afterwards; `none` is
`abort()`. -/
def copy_write (sel : fd_selector) (s : socks5_copy) (key_fd : Int) (snd : send_outcome)
    (m : copy_metrics) : Option (socks_v5state × fd_selector × socks5_copy × copy_metrics) :=
  let d := copy_ptr s key_fd
  let c := s.copy_at d
  if s.fd_at c.fd = -1 then some (ERROR, sel, s, m)
  else
    let r := buffer_read_ptr (s.buffer_at c.wb)
    let n := send_n snd r.2
    if n = -1 then
      let s1 := s.set_duplex d (INTEREST_OFF c.duplex OP_WRITE)
      let o := s1.copy_at c.other
      let s2 :=
        if s1.fd_at o.fd ≠ -1 then s1.set_duplex c.other (INTEREST_OFF o.duplex OP_READ)
        else s1
      copy_finish sel s2 d m
    else
      let s1 := s.set_buffer c.wb (buffer_read_adv (s.buffer_at c.wb) n.toNat)
      if key_fd = s.client_fd then
        copy_finish sel s1 d (metrics_add_bytes_to_client m n.toNat)
      else
        copy_finish sel
          { s1 with bytes_to_origin := (s1.bytes_to_origin + n.toNat) % 2 ^ 64 } d
          (metrics_add_bytes_to_origin m n.toNat)

/-! ## Monitoring: ADD_USER (`src/src/monitoring.c`) -/

/-- C `MONITORING_VERSION`. -/
def MONITORING_VERSION : Nat := 0x01
/-- C `MONITORING_STATUS_OK`. -/
def MONITORING_STATUS_OK : Nat := 0x00
/-- C `MONITORING_STATUS_ERROR`. -/
def MONITORING_STATUS_ERROR : Nat := 0x01
/-- C `MONITORING_STATUS_USER_EXISTS`. -/
def MONITORING_STATUS_USER_EXISTS : Nat := 0x04
/-- C `MONITORING_STATUS_USER_LIMIT`. -/
def MONITORING_STATUS_USER_LIMIT : Nat := 0x05

/-- Type `enum monitoring_state`. -/
inductive monitoring_state where
  | MON_READ_HEADER
  | MON_READ_DATA
  | MON_WRITE
  | MON_DONE
  | MON_ERROR
deriving DecidableEq, Repr

open monitoring_state

/-- Type `struct monitoring_conn`, the fields the command handlers and
`monitoring_read` read or write: the write buffer, the payload array `data` and
`data_len` (`uint16_t`), then the state, the read buffer, the header bytes
`version` and `cmd` and the count `data_read` (`uint16_t`). The fields after
`data_len` have the value `monitoring_new` gives them unless a literal gives
another, the read buffer being set up by `buffer_init` over 4096 zero bytes. -/
structure monitoring_conn where
  write_buffer : buffer
  data : List Nat
  data_len : Nat
  state : monitoring_state := monitoring_state.MON_READ_HEADER
  read_buffer : buffer := { data := List.replicate 4096 0, read := 0, write := 0 }
  version : Nat := 0
  cmd : Nat := 0
  data_read : Nat := 0
deriving DecidableEq, Repr

/-- The four stores `buf[0] = MONITORING_VERSION; buf[1] = status; buf[2] = 0;
buf[3] = 0` at `buffer_write_ptr` and the `buffer_write_adv(.., 4)` that every
exit of `handle_add_user` makes. -/
def monitoring_status_reply (b : buffer) (status : Nat) : buffer :=
  let w := buffer_write_ptr b
  let d0 := b.data.set w.1 MONITORING_VERSION
  let d1 := d0.set (w.1 + 1) (status % 256)
  let d2 := d1.set (w.1 + 2) 0
  let d3 := d2.set (w.1 + 3) 0
  buffer_write_adv { b with data := d3 } 4

/-- The second loop of `handle_add_user`: the table with the pair stored in the
first slot whose `name` is NULL, `none` when there is no such slot. `strdup` is
taken to succeed; it copies the C string. -/
def add_user_store (username password : List Nat) : user_table → Option user_table
  | [] => none
  | none :: rest => some (some { name := cstr username, pass := cstr password } :: rest)
  | some u :: rest => (add_user_store username password rest).map (fun t => some u :: t)

/-- C `handle_add_user`: the user table and `*c` afterwards. The local arrays
`username` and `password` are taken up to the NUL byte the code stores after the
copied bytes. -/
def handle_add_user (tbl : user_table) (c : monitoring_conn) : user_table × monitoring_conn :=
  if c.data_len < 2 then
    (tbl, { c with write_buffer := monitoring_status_reply c.write_buffer MONITORING_STATUS_ERROR })
  else
    let ulen := c.data.getD 0 0 % 256
    if c.data_len < 2 + ulen then
      (tbl, { c with
        write_buffer := monitoring_status_reply c.write_buffer MONITORING_STATUS_ERROR })
    else
      let username := (c.data.drop 1).take ulen ++ [0]
      let plen := c.data.getD (1 + ulen) 0 % 256
      let password := (c.data.drop (2 + ulen)).take plen ++ [0]
      if tbl.any (fun e => match e with
                           | some u => strcmp_eq u.name username
                           | none => false) then
        (tbl, { c with
          write_buffer := monitoring_status_reply c.write_buffer MONITORING_STATUS_USER_EXISTS })
      else
        match add_user_store username password tbl with
        | some t =>
            (t, { c with
              write_buffer := monitoring_status_reply c.write_buffer MONITORING_STATUS_OK })
        | none =>
            (tbl, { c with
              write_buffer := monitoring_status_reply c.write_buffer MONITORING_STATUS_USER_LIMIT })

/-! ## DNS resolution (`src/src/socks5nio.c`) -/

/-- Type `struct dns_query`, the fields the thread reads: the client fd, the host
name array of 256 bytes and the port as its two bytes in memory. The selector
and the connection it points to are left out. -/
structure dns_query where
  client_fd : Int
  host : List Nat
  port : List Nat
deriving DecidableEq, Repr

/-- C `request_start_dns_resolution`: its return value and the query handed to
the thread that `pthread_create` starts, `none` when no thread is started.
`malloc_ok` and `pthread_create_ok` tell whether the two calls succeed, `host`
is the content of the allocated `q->host` before the `strncpy`. -/
def request_start_dns_resolution (malloc_ok pthread_create_ok : Bool) (host : List Nat)
    (s : socks5) : socks_v5state × Option dns_query :=
  if malloc_ok = false then (ERROR, none)
  else
    let q : dns_query :=
      { client_fd := s.client_fd, port := s.request.request.dest_port,
        host := strncpy host s.request.request.dest_addr 255 }
    if pthread_create_ok = false then (ERROR, none)
    else (REQUEST_RESOLVING, some q)

/-! ## Array stores of the parsers (`src/src/auth.c`, `src/src/request.c`) -/

/-- A store of one byte into an array of a parser, with the index used:
`username[i]` and `password[i]` of `struct auth_parser`, the bytes of
`dest_addr.ipv4`, `dest_addr.ipv6.s6_addr` and `dest_addr.fqdn` of
`union socks_addr`, and the bytes of `dest_port`. -/
inductive parser_store where
  | username (i : Nat)
  | password (i : Nat)
  | ipv4 (i : Nat)
  | ipv6 (i : Nat)
  | fqdn (i : Nat)
  | port (i : Nat)
deriving DecidableEq, Repr

/-- The array stores that the call `auth_parser_feed(p, b)` performs, in order:
`username[p->idx++] = b` and, when `remaining` reaches 0, `username[p->idx] = 0`
in `auth_uname`; `password[0] = 0` in `auth_plen` for `b == 0`; the like for the
password in `auth_passwd`. -/
def auth_parser_feed_stores (p : auth_parser_t) (b : Nat) : List parser_store :=
  match p.state with
  | auth_uname =>
      parser_store.username p.idx ::
        (if (p.remaining + 255) % 256 = 0 then [parser_store.username ((p.idx + 1) % 256)]
          else [])
  | auth_plen => if b = 0 then [parser_store.password 0] else []
  | auth_passwd =>
      parser_store.password p.idx ::
        (if (p.remaining + 255) % 256 = 0 then [parser_store.password ((p.idx + 1) % 256)]
          else [])
  | _ => []

/-- The value of `remaining` just before the `p->remaining--` that the call
`auth_parser_feed(p, b)` performs, `none` when it performs none. -/
def auth_parser_feed_decrements (p : auth_parser_t) : Option Nat :=
  match p.state with
  | auth_uname => some p.remaining
  | auth_passwd => some p.remaining
  | _ => none

/-- The array stores that the call `request_parser_feed(p, b)` performs, in
order: in `request_dstaddr` the store of `b` at `addr_idx++` in the member of
the union that `dest_addr_type` selects and, when `remaining` reaches 0 for a
domain name, `fqdn[addr_idx] = 0`; in `request_dstport` the store of `b` at byte
`addr_idx++` of `dest_port`. -/
def request_parser_feed_stores (p : request_parser_t) (_b : Nat) : List parser_store :=
  match p.state with
  | request_dstaddr =>
      let t := p.request.dest_addr_type
      if t = socks_req_addrtype_ipv4 then [parser_store.ipv4 p.addr_idx]
      else if t = socks_req_addrtype_ipv6 then [parser_store.ipv6 p.addr_idx]
      else if t = socks_req_addrtype_domain then
        parser_store.fqdn p.addr_idx ::
          (if (p.remaining + 255) % 256 = 0 then [parser_store.fqdn ((p.addr_idx + 1) % 256)]
            else [])
      else []
  | request_dstport => [parser_store.port p.addr_idx]
  | _ => []

/-- The value of `remaining` just before the `p->remaining--` that the call
`request_parser_feed(p, b)` performs, `none` when it performs none. -/
def request_parser_feed_decrements (p : request_parser_t) : Option Nat :=
  match p.state with
  | request_dstaddr => some p.remaining
  | request_dstport => some p.remaining
  | _ => none

/-! ## Monitoring: metrics (`src/src/monitoring.c`, `src/src/monitor_client.c`) -/

/-- Type `struct socks5_metrics` of `metrics.h`; every field is a `uint64_t`. -/
structure socks5_metrics where
  historical_connections : Nat
  current_connections : Nat
  bytes_transferred : Nat
  bytes_from_clients : Nat
  bytes_to_clients : Nat
  bytes_from_origins : Nat
  bytes_to_origins : Nat
  successful_connections : Nat
  failed_connections : Nat
  auth_successful : Nat
  auth_failed : Nat
deriving DecidableEq, Repr

/-- One loop of `write_metrics_response`,
`for(int i = 7; i >= 0; i--) buf[off + (7 - i)] = (x >> (i * 8)) & 0xFF`, the
offset counted from the start of the buffer memory. -/
def write_metrics_u64 (buf : List Nat) (off : Nat) (x : Nat) : List Nat :=
  [7, 6, 5, 4, 3, 2, 1, 0].foldl
    (fun d i => d.set (off + (7 - i)) ((x >>> (i * 8)) &&& 0xFF)) buf

/-- C `write_metrics_response`: the write buffer afterwards, for the metrics `m`
that `metrics_get` returns. -/
def write_metrics_response (m : socks5_metrics) (b : buffer) : buffer :=
  let w := buffer_write_ptr b
  let d0 := b.data.set w.1 MONITORING_VERSION
  let d1 := d0.set (w.1 + 1) MONITORING_STATUS_OK
  let len := 48
  let d2 := d1.set (w.1 + 2) ((len >>> 8) &&& 0xFF)
  let d3 := d2.set (w.1 + 3) (len &&& 0xFF)
  let hist := m.historical_connections
  let curr := m.current_connections
  let bytes := m.bytes_transferred
  let succ := m.successful_connections
  let fail := m.failed_connections
  let bytes_client := (m.bytes_from_clients + m.bytes_to_clients) % 2 ^ 64
  let d4 := write_metrics_u64 d3 (w.1 + 4) hist
  let d5 := write_metrics_u64 d4 (w.1 + 12) curr
  let d6 := write_metrics_u64 d5 (w.1 + 20) bytes
  let d7 := write_metrics_u64 d6 (w.1 + 28) succ
  let d8 := write_metrics_u64 d7 (w.1 + 36) fail
  let d9 := write_metrics_u64 d8 (w.1 + 44) bytes_client
  buffer_write_adv { b with data := d9 } (4 + len)

/-- One loop of `cmd_metrics` in `monitor_client.c`,
`for(int i = 0; i < 8; i++) x = (x << 8) | data[off + i]`, from `x = 0`, on a
`uint64_t`. -/
def cmd_metrics_u64 (data : List Nat) (off : Nat) : Nat :=
  [0, 1, 2, 3, 4, 5, 6, 7].foldl
    (fun x i => ((x <<< 8) % 2 ^ 64) ||| data.getD (off + i) 0) 0

/-- The six values `cmd_metrics` decodes from the payload `data` of `data_len`
bytes and prints, in the order historical, current, bytes, success, failed,
bytes_client; `none` when `data_len < 48` and nothing is decoded. -/
def cmd_metrics (data : List Nat) (data_len : Nat) :
    Option (Nat × Nat × Nat × Nat × Nat × Nat) :=
  if data_len ≥ 48 then
    some (cmd_metrics_u64 data 0, cmd_metrics_u64 data 8, cmd_metrics_u64 data 16,
      cmd_metrics_u64 data 24, cmd_metrics_u64 data 32, cmd_metrics_u64 data 40)
  else none

/-! ## Monitoring: reading a request (`src/src/monitoring.c`) -/

/-- C `process_command`: the `switch(c->cmd)` over the command handlers, given
as `dispatch`, and then `c->state = MON_WRITE`. -/
def process_command (dispatch : monitoring_conn → monitoring_conn) (c : monitoring_conn) :
    monitoring_conn :=
  { dispatch c with state := monitoring_state.MON_WRITE }

/-- What one call of `monitoring_read` does: `*c` afterwards, whether the
connection was unregistered, closed and freed, the indices `i` of the stores
`c->data[i] = ..` in order, and the `*c` on which `process_command` was called,
if it was. -/
structure monitoring_read_result where
  c : monitoring_conn
  closed : Bool
  stores : List Nat
  processed : Option monitoring_conn
deriving DecidableEq, Repr

/-- The loop `while(buffer_can_read(&c->read_buffer) && c->data_read < c->data_len)
c->data[c->data_read++] = buffer_read(&c->read_buffer)` of `monitoring_read`,
with the indices of its stores appended to `stores`; `fuel` bounds the number of
iterations. -/
def monitoring_read_data_loop : Nat → monitoring_conn → List Nat → monitoring_conn × List Nat
  | 0, c, stores => (c, stores)
  | fuel + 1, c, stores =>
      if buffer_can_read c.read_buffer = true ∧ c.data_read < c.data_len then
        let r := buffer_read c.read_buffer
        monitoring_read_data_loop fuel
          { c with data := c.data.set c.data_read r.1,
                   data_read := (c.data_read + 1) % 2 ^ 16, read_buffer := r.2 }
          (stores ++ [c.data_read])
      else (c, stores)

/-- The part of `monitoring_read` under `if(c->state == MON_READ_DATA)`. The loop
reads one byte of the read buffer in each iteration, so the number of readable
bytes bounds it. -/
def monitoring_read_data (dispatch : monitoring_conn → monitoring_conn)
    (c : monitoring_conn) : monitoring_read_result :=
  let l := monitoring_read_data_loop (c.read_buffer.write - c.read_buffer.read) c []
  if l.1.data_read ≥ l.1.data_len then
    { c := process_command dispatch l.1, closed := false, stores := l.2,
      processed := some l.1 }
  else { c := l.1, closed := false, stores := l.2, processed := none }

/-- C `monitoring_read`; `rcv` is what `recv` meets and `dispatch` the command
handlers of `process_command`. -/
def monitoring_read (dispatch : monitoring_conn → monitoring_conn) (c : monitoring_conn)
    (rcv : recv_outcome) : monitoring_read_result :=
  let w := buffer_write_ptr c.read_buffer
  let n := recv_n rcv w.2
  if n ≤ 0 then
    { c := { c with state := monitoring_state.MON_ERROR }, closed := true, stores := [],
      processed := none }
  else
    let c1 : monitoring_conn :=
      { c with read_buffer := buffer_recv c.read_buffer (recv_bytes rcv w.2) }
    if c1.state = monitoring_state.MON_READ_HEADER then
      if buffer_can_read c1.read_buffer = true ∧
          c1.read_buffer.write - c1.read_buffer.read ≥ 4 then
        let r0 := buffer_read c1.read_buffer
        let r1 := buffer_read r0.2
        let r2 := buffer_read r1.2
        let r3 := buffer_read r2.2
        let c2 : monitoring_conn :=
          { c1 with read_buffer := r3.2, version := r0.1 % 256, cmd := r1.1 % 256,
                    data_len := (((r2.1 % 256) <<< 8) ||| (r3.1 % 256)) % 2 ^ 16,
                    data_read := 0 }
        if c2.version ≠ MONITORING_VERSION then
          { c := { c2 with state := monitoring_state.MON_ERROR }, closed := true, stores := [],
            processed := none }
        else if c2.data_len = 0 then
          { c := process_command dispatch c2, closed := false, stores := [],
            processed := some c2 }
        else monitoring_read_data dispatch { c2 with state := monitoring_state.MON_READ_DATA }
      else { c := c1, closed := false, stores := [], processed := none }
    else if c1.state = monitoring_state.MON_READ_DATA then monitoring_read_data dispatch c1
    else { c := c1, closed := false, stores := [], processed := none }

/-! ## Entering and leaving HELLO_READ and AUTH_READ (`hello.c`, `auth.c`, `socks5nio.c`) -/

/-- C `hello_parser_close`: nothing to release. -/
def hello_parser_close {δ : Type} (p : hello_parser_t δ) : hello_parser_t δ := p

/-- C `auth_parser_close`: the two `memset(.., 0, sizeof(..))` over the 256-byte
arrays. -/
def auth_parser_close (p : auth_parser_t) : auth_parser_t :=
  { p with username := memset p.username 0 0 256, password := memset p.password 0 0 256 }

/-- C `hello_read_close`. -/
def hello_read_close (d : hello_st) : hello_st :=
  { d with parser := hello_parser_close d.parser }

/-- C `auth_read_init`, given the connection buffers `rb` and `wb` are made to
point to and the memory of the union member as it was; `status` is not
assigned. -/
def auth_read_init (read_buffer write_buffer : buffer) (old : auth_st) : auth_st :=
  { old with rb := read_buffer, wb := write_buffer, parser := auth_parser_init old.parser }

/-- C `auth_read_close`. -/
def auth_read_close (d : auth_st) : auth_st :=
  { d with parser := auth_parser_close d.parser }

/-- C `auth_read`: its return value, `*d`, `s->username` and the metrics counters
afterwards. `selector_ok` tells whether `selector_set_interest_key(key, OP_WRITE)`,
if called, succeeds. -/
def auth_read (tbl : user_table) (d : auth_st) (s_username : List Nat) (m : auth_metrics)
    (rcv : recv_outcome) (selector_ok : Bool) : auth_process_result :=
  let w := buffer_write_ptr d.rb
  let n := recv_n rcv w.2
  if n > 0 then
    let rb1 := buffer_recv d.rb (recv_bytes rcv w.2)
    let c := auth_consume rb1 d.parser (some false)
    let d1 : auth_st := { d with rb := c.2.1, parser := c.2.2.1 }
    let error := c.2.2.2
    let out : auth_process_result :=
      if (auth_is_done c.1 none).1 then
        if selector_ok then auth_process tbl d1 s_username m
        else { ret := ERROR, d := d1, username := s_username, metrics := m }
      else { ret := AUTH_READ, d := d1, username := s_username, metrics := m }
    { out with ret := if error = some true then ERROR else out.ret }
  else { ret := ERROR, d := d, username := s_username, metrics := m }

/-! ## Buffer: drained space (`src/include/buffer.h`) -/

/-- Modelled from the spec: `buffer_compact` of the absent `buffer.c`: compaction
shifts the readable bytes to offset zero, preserving the readable content and
resetting the cursors. -/
def buffer_compact (b : buffer) : buffer :=
  { data := memcpy b.data 0 (buffer_readable b), read := 0, write := b.write - b.read }

/-- Modelled from the spec: how the absent `buffer.c` gives drained space back,
which the spec asks of the buffers (3: they are reused across all phases; 4.10: a
full buffer disables further reads until the peer drains it): once every byte
written has been read, the buffer is compacted, so that its whole capacity is
writable again. -/
def buffer_reclaim (b : buffer) : buffer :=
  if buffer_can_read b then b else buffer_compact b

/-! ## Vocabulary of the statements -/

/-- The terminal states of the hello parser are exactly those `hello_is_done` accepts. -/
def hello_terminal (s : hello_state) : Prop :=
  s = hello_done ∨ s = hello_error ∨ s = hello_error_unsupported_version

/-- A callback that records every byte it is called with, in call order. -/
def hello_trace_cb (t : List Nat) (m : Nat) : List Nat := t ++ [m]

/-- A parser memory with `hello_trace_cb` installed and an empty record. -/
def hello_tracer : hello_parser_t (List Nat) :=
  { on_authentication_method := some hello_trace_cb, data := [],
    state := hello_error, remaining := 7 }

/-- The terminal states of the auth parser. -/
def auth_terminal (s : auth_state) : Prop :=
  s = auth_done ∨ s = auth_error ∨ s = auth_error_unsupported_version

/-- The terminal states of the request parser. -/
def request_terminal (s : request_state) : Prop :=
  s = request_done ∨ s = request_error ∨ s = request_error_unsupported_version
    ∨ s = request_error_unsupported_atyp ∨ s = request_error_unsupported_cmd

/-- The error states of the request parser. -/
def request_errored (s : request_state) : Prop :=
  s = request_error ∨ s = request_error_unsupported_version
    ∨ s = request_error_unsupported_atyp ∨ s = request_error_unsupported_cmd

/-- The client message of RFC 1929: `01 | ULEN | UNAME | PLEN | PASSWD`. -/
def auth_wire (U P : List Nat) : List Nat :=
  [0x01, U.length] ++ U ++ [P.length] ++ P

/-- The client request of RFC 1928 with command CONNECT:
`05 | 01 | RSV | ATYP | DSTADDR | DSTPORT`, a domain name being preceded by its
length byte. -/
def request_wire (rsv atyp : Nat) (addr : List Nat) (p1 p2 : Nat) : List Nat :=
  [0x05, 0x01, rsv, atyp] ++ (if atyp = 0x03 then addr.length :: addr else addr) ++ [p1, p2]

/-- The address payloads of the three address types: 4 bytes for IPv4, 16 for
IPv6, 1 to 255 for a domain name. -/
def request_addr_ok (atyp : Nat) (addr : List Nat) : Prop :=
  (atyp = 0x01 ∧ addr.length = 4) ∨ (atyp = 0x04 ∧ addr.length = 16)
    ∨ (atyp = 0x03 ∧ 1 ≤ addr.length ∧ addr.length ≤ 255)

/-- A parser memory holding leftovers, to be initialised. -/
def auth_stale : auth_parser_t :=
  { state := auth_error, remaining := 9, idx := 3, username := List.replicate 256 0x41,
    username_len := 7, password := List.replicate 256 0x42, password_len := 5 }

/-- A finished hello parser whose recording callback has seen `00 02`. -/
def hello_tracer_done : hello_parser_t (List Nat) :=
  { on_authentication_method := some hello_trace_cb, data := [0x00, 0x02],
    state := hello_done, remaining := 0 }

/-- The bytes of a CONNECT request that precede the address payload. -/
def request_header (rsv atyp : Nat) (addr : List Nat) : List Nat :=
  [0x05, 0x01, rsv, atyp] ++ (if atyp = 0x03 then [addr.length] else [])

/-- A request parser memory holding leftovers, to be initialised. -/
def request_stale : request_parser_t :=
  { request := { cmd := 2, dest_addr_type := 3, dest_addr := List.replicate 256 0x41,
                 dest_port := [0x1F, 0x90] },
    state := request_error, remaining := 3, addr_idx := 200 }

/-- The states from which the request parser can only go on to `request_done`. -/
def request_past_checks (s : request_state) : Prop :=
  s = request_dstaddr ∨ s = request_dstport ∨ s = request_done

instance (s : request_state) : Decidable (request_errored s) := by
  unfold request_errored; infer_instance

/-- The state of `HELLO_READ` after the bytes `bs` have been fed to its parser. -/
def hello_st_feed (d : hello_st) (bs : List Nat) : hello_st :=
  { d with parser := hello_feed_all d.parser bs }

/-- A user table of three slots with one configured user, alice / s3cret. -/
def users_alice : user_table :=
  [none, some { name := [0x61, 0x6C, 0x69, 0x63, 0x65],
                pass := [0x73, 0x33, 0x63, 0x72, 0x65, 0x74] }, none]

/-- A buffer of 16 bytes, empty. -/
def buffer16 : buffer := { data := List.replicate 16 0, read := 0, write := 0 }

/-- A hello parser memory holding leftovers, to be initialised. -/
def hello_stale : hello_parser_t Nat :=
  { on_authentication_method := none, data := 0x00, state := hello_done, remaining := 3 }

/-- The state of `AUTH_READ` when the auth parser, started from its initial
state, has been delivered `01 |U| U |P| P`. -/
def auth_st_delivered (rb wb : buffer) (p0 : auth_parser_t) (status0 : Nat)
    (U P : List Nat) : auth_st :=
  { rb := rb, wb := wb, parser := auth_feed_all (auth_parser_init p0) (auth_wire U P),
    status := status0 }

/-- The metrics counters at start-up. -/
def auth_metrics_zero : auth_metrics := { auth_successful := 0, auth_failed := 0 }

/-- The address bytes `request_marshall` copies for an address of `n` bytes: the
first `n` bytes of the union, or `n` zero bytes for a NULL pointer. -/
def reply_addr_bytes (addr : Option (List Nat)) (n : Nat) : List Nat :=
  match addr with
  | some a => a.take n
  | none => List.replicate n 0

/-- A marshal call with result `r` on buffer `b` appended exactly `bytes`: it
returned their number, stored them at the old write cursor, advanced the write
cursor by that number, and left the read cursor and every other byte, the
previously buffered ones among them, as they were. -/
def buffer_appended (b : buffer) (r : Int × buffer) (bytes : List Nat) : Prop :=
  r.1 = (bytes.length : Int) ∧
  r.2.data = b.data.take b.write ++ bytes ++ b.data.drop (b.write + bytes.length) ∧
  r.2.data.take b.write = b.data.take b.write ∧
  r.2.data.length = b.data.length ∧
  r.2.write = b.write + bytes.length ∧
  r.2.read = b.read

/-- A write buffer of 16 bytes holding two earlier bytes `AA BB`, still unsent. -/
def buffer16_pending : buffer :=
  { data := [0xAA, 0xBB] ++ List.replicate 14 0xEE, read := 0, write := 2 }

/-- The union holding the IPv4 address 127.0.0.1. -/
def addr_loopback : List Nat := [127, 0, 0, 1] ++ List.replicate 252 0

/-- The loop shared by `hello_consume`, `auth_consume` and `request_consume`,
over the parser's feed function, its state field and its `is_done`. -/
def consume_loop_shape {P S : Type} (feed : P → Nat → P) (st : P → S)
    (isd : S → Option Bool → Bool × Option Bool) :
    Nat → buffer → P → Option Bool → S → S × buffer × P × Option Bool
  | 0, b, p, errored, state => (state, b, p, errored)
  | fuel + 1, b, p, errored, state =>
      if buffer_can_read b then
        let r := buffer_read b
        let p1 := feed p r.1
        let d := isd (st p1) errored
        if d.1 then (st p1, r.2, p1, d.2)
        else consume_loop_shape feed st isd fuel r.2 p1 d.2 (st p1)
      else (state, b, p, errored)

/-- Feeding a byte list until `is_done` says stop: the parser and `*errored`. -/
def feed_until_done {P S : Type} (feed : P → Nat → P) (st : P → S)
    (isd : S → Option Bool → Bool × Option Bool) : List Nat → P → Option Bool → P × Option Bool
  | [], p, errored => (p, errored)
  | x :: xs, p, errored =>
      let p1 := feed p x
      let d := isd (st p1) errored
      if d.1 then (p1, d.2) else feed_until_done feed st isd xs p1 d.2

/-- The cursor invariant of the buffer: `read ≤ write ≤ limit`. -/
def buffer_ok (b : buffer) : Prop :=
  b.read ≤ b.write ∧ b.write ≤ b.data.length

/-- A parser at rest: `is_done` accepts its state and has nothing more to
record in `*errored`. -/
def at_rest {P S : Type} (st : P → S) (isd : S → Option Bool → Bool × Option Bool)
    (p : P) (e : Option Bool) : Prop := isd (st p) e = (true, e)

/-- What the three parsers share: a state `is_done` accepts is kept by the feed
function, and `is_done` records an error once. -/
def absorbing {P S : Type} (feed : P → Nat → P) (st : P → S)
    (isd : S → Option Bool → Bool × Option Bool) : Prop :=
  (∀ p e x, (isd (st p) e).1 = true → feed p x = p) ∧
  (∀ s e, (isd s e).1 = true → isd s (isd s e).2 = (true, (isd s e).2))

/-- One `consume` call in terms of the loop shape. -/
def consume_shape {P S : Type} (feed : P → Nat → P) (st : P → S)
    (isd : S → Option Bool → Bool × Option Bool) (b : buffer) (p : P) (e : Option Bool) :
    S × buffer × P × Option Bool :=
  consume_loop_shape feed st isd (b.write - b.read) b p e (st p)

/-- Receiving the chunks one after another, with a `consume` call after each. -/
def consume_chunks_shape {P S : Type} (feed : P → Nat → P) (st : P → S)
    (isd : S → Option Bool → Bool × Option Bool) (chunks : List (List Nat))
    (b : buffer) (p : P) (e : Option Bool) : S × buffer × P × Option Bool :=
  chunks.foldl (fun acc c => consume_shape feed st isd (buffer_recv acc.2.1 c) acc.2.2.1 acc.2.2.2)
    (st p, b, p, e)

/-- Receiving the chunks one after another into the buffer, with a
`hello_consume` call after each: what the last call returned and left. -/
def hello_consume_chunks {δ : Type} (chunks : List (List Nat)) (b : buffer)
    (p : hello_parser_t δ) (e : Option Bool) :
    hello_state × buffer × hello_parser_t δ × Option Bool :=
  chunks.foldl (fun acc c => hello_consume (buffer_recv acc.2.1 c) acc.2.2.1 acc.2.2.2)
    (p.state, b, p, e)

/-- Receiving the chunks one after another into the buffer, with an
`auth_consume` call after each. -/
def auth_consume_chunks (chunks : List (List Nat)) (b : buffer)
    (p : auth_parser_t) (e : Option Bool) :
    auth_state × buffer × auth_parser_t × Option Bool :=
  chunks.foldl (fun acc c => auth_consume (buffer_recv acc.2.1 c) acc.2.2.1 acc.2.2.2)
    (p.state, b, p, e)

/-- Receiving the chunks one after another into the buffer, with a
`request_consume` call after each. -/
def request_consume_chunks (chunks : List (List Nat)) (b : buffer)
    (p : request_parser_t) (e : Option Bool) :
    request_state × buffer × request_parser_t × Option Bool :=
  chunks.foldl (fun acc c => request_consume (buffer_recv acc.2.1 c) acc.2.2.1 acc.2.2.2)
    (p.state, b, p, e)

/-- The address bytes `request_marshall` stores, by address type and pointer. -/
def request_marshall_addr_bytes (atyp : Nat) (addr : Option (List Nat)) : List Nat :=
  match addr with
  | some a =>
      if atyp = socks_req_addrtype_ipv4 then a.take 4
      else if atyp = socks_req_addrtype_ipv6 then a.take 16
      else List.replicate (request_marshall_addr_len atyp) 0
  | none => List.replicate (request_marshall_addr_len atyp) 0

/-- A buffer of 16 bytes with one byte left to write. -/
def buffer16_nearly_full : buffer :=
  { data := List.replicate 16 0xEE, read := 3, write := 15 }

/-- A reply as the wire format names its fields. -/
structure reply where
  ver : Nat
  rep : Nat
  atyp : Nat
  bnd_addr : List Nat
  bnd_port : List Nat
deriving DecidableEq, Repr

/-- The reply wire format of the specification read as a decoder:
`VER(1=0x05) | REP(1) | RSV(1=0x00) | ATYP(1) | BNDADDR | BNDPORT(2)`, the
address being 4 raw bytes for IPv4, 16 for IPv6 and `LEN(1) | BYTES(LEN)` for a
domain name. The result is the reply and the bytes left over. -/
def reply_wire_decode (bytes : List Nat) : Option (reply × List Nat) :=
  match bytes with
  | ver :: rep :: rsv :: atyp :: rest =>
      if ver = 0x05 ∧ rsv = 0x00 then
        if atyp = 0x01 then
          if 4 + 2 ≤ rest.length then
            some ({ ver := ver, rep := rep, atyp := atyp, bnd_addr := rest.take 4,
                    bnd_port := (rest.drop 4).take 2 }, rest.drop (4 + 2))
          else none
        else if atyp = 0x04 then
          if 16 + 2 ≤ rest.length then
            some ({ ver := ver, rep := rep, atyp := atyp, bnd_addr := rest.take 16,
                    bnd_port := (rest.drop 16).take 2 }, rest.drop (16 + 2))
          else none
        else if atyp = 0x03 then
          match rest with
          | len :: name =>
              if len + 2 ≤ name.length then
                some ({ ver := ver, rep := rep, atyp := atyp, bnd_addr := name.take len,
                        bnd_port := (name.drop len).take 2 }, name.drop (len + 2))
              else none
          | [] => none
        else none
      else none
  | _ => none

/-- The bytes a marshal call with result `r` put into buffer `b`: those between
the old write cursor and the new one. -/
def marshalled_bytes (b : buffer) (r : Int × buffer) : List Nat :=
  (r.2.data.drop b.write).take (r.2.write - b.write)

/-- The four `errno` values `errno_to_socks` names are different from one
another, as the labels of one `switch` are. -/
def errno_labels_distinct (P : platform) : Prop :=
  P.ECONNREFUSED ≠ P.EHOSTUNREACH ∧ P.ECONNREFUSED ≠ P.ENETUNREACH ∧
  P.ECONNREFUSED ≠ P.ETIMEDOUT ∧ P.EHOSTUNREACH ≠ P.ENETUNREACH ∧
  P.EHOSTUNREACH ≠ P.ETIMEDOUT ∧ P.ENETUNREACH ≠ P.ETIMEDOUT

/-- The constants as Linux on x86-64 has them. -/
def platform_linux : platform :=
  { ECONNREFUSED := 111, EHOSTUNREACH := 113, ENETUNREACH := 101, ETIMEDOUT := 110,
    EINPROGRESS := 115,
    AF_INET := 2, AF_INET6 := 10, SOCK_STREAM := 1,
    sizeof_sockaddr_in := 16, sizeof_sockaddr_in6 := 28 }

/-- What the `hello_consume` call inside `hello_read` returns when `recv` meets
`rcv`: the state, the read buffer, the parser and `error`. -/
def hello_read_consumed (d : hello_st) (rcv : recv_outcome) :
    hello_state × buffer × hello_parser_t Nat × Option Bool :=
  hello_consume (buffer_recv d.rb (recv_bytes rcv (buffer_write_ptr d.rb).2)) d.parser
    (some false)

/-- The state of `HELLO_WRITE` with the reply `05 <method>` in a 16-byte write
buffer, none of it sent yet. -/
def hello_st_replying (method : Nat) : hello_st :=
  { rb := buffer16,
    wb := { data := [0x05, method] ++ List.replicate 14 0, read := 0, write := 2 },
    parser := { on_authentication_method := none, data := method, state := hello_done,
                remaining := 0 } }

/-- The state `auth_process` leaves when alice, configured with s3cret, has sent
the password `pass`: buffers of 16 bytes, a zeroed `s->username`. -/
def auth_st_alice (pass : List Nat) : auth_st :=
  (auth_process users_alice
    (auth_st_delivered buffer16 buffer16 auth_stale 0x01 [0x61, 0x6C, 0x69, 0x63, 0x65] pass)
    (List.replicate 257 0) auth_metrics_zero).d

/-- What the `request_consume` call inside `request_read` returns when `recv`
meets `rcv`: the state, the read buffer, the parser and `error`. -/
def request_read_consumed (s : socks5) (rcv : recv_outcome) :
    request_state × buffer × request_parser_t × Option Bool :=
  request_consume (buffer_recv s.request.rb (recv_bytes rcv (buffer_write_ptr s.request.rb).2))
    s.request.parser (some false)

/-- A connection entering REQUEST_READ: 16-byte buffers, both drained, no origin
socket yet, and the request parser memory still to be initialised. -/
def socks5_request_read : socks5 :=
  { client_fd := 7,
    origin_addr := { ss_family := 0, port := [0, 0], sin_addr := List.replicate 4 0,
                     sin6_addr := List.replicate 16 0 },
    origin_addr_len := 0, origin_fd := -1, origin_resolution := [],
    origin_resolution_current := [],
    request := request_read_init buffer16 buffer16 request_stale,
    dest_addr_str := List.replicate 256 0, dest_port := 0, last_status := 0xFF,
    references := 1 }

/-- An environment for `request_process` in which `inet_ntop` leaves the
destination array alone, `calloc` and the selector succeed, and the connect and
the resolution both start without completing. -/
def request_deps_idle : request_deps :=
  { inet_ntop := fun _ _ dst => dst, calloc_ok := true, selector_ok := true,
    request_connect := fun s => (REQUEST_CONNECTING, s),
    request_start_dns_resolution := fun s => (REQUEST_RESOLVING, s) }

/-- A connection arriving in REQUEST_WRITE with reply status `status`: empty
16-byte buffers and an origin socket `origin_fd` whose local address
`origin_addr` is. -/
def socks5_replying (status : Nat) (origin_fd : Int) (origin_addr : sockaddr_storage) :
    socks5 :=
  { client_fd := 7, origin_addr := origin_addr, origin_addr_len := 16,
    origin_fd := origin_fd, origin_resolution := [], origin_resolution_current := [],
    request := { rb := buffer16, wb := buffer16, parser := request_parser_init request_stale,
                 status := status },
    dest_addr_str := List.replicate 256 0, dest_port := 80, last_status := 0xFF,
    references := 1 }

/-- The local address 10.0.0.5, port 0xC350, of an IPv4 socket on Linux. -/
def sockaddr_in_local : sockaddr_storage :=
  { ss_family := 2, port := [0xC3, 0x50], sin_addr := [10, 0, 0, 5],
    sin6_addr := List.replicate 16 0 }

/-- A buffer of 8 bytes, empty. -/
def buffer8 : buffer := { data := List.replicate 8 0, read := 0, write := 0 }

/-- The value of `error` in `connecting_write` after the `getsockopt` call: the
`SO_ERROR` of the origin socket, or `errno` when `getsockopt` fails. -/
def connecting_error (E : connecting_deps) : Int :=
  if E.getsockopt_ok then E.so_error else E.errno

/-- An empty pool. -/
def pool_empty : pool_state :=
  { pool := none, pool_size := 0, next := fun _ => none, freed := [] }

/-- The globals with the client fd 7 registered for reading and an empty pool. -/
def globals_client_only : globals :=
  { selector := { fds := [(7, OP_READ)] }, pool := pool_empty }

/-- Every attempt ends at `socket`, which fails. -/
def attempt_no_socket : List addrinfo → connect_outcome :=
  fun _ => connect_outcome.no_socket

/-- The origin socket reports ECONNREFUSED (111 on Linux) through SO_ERROR. -/
def connecting_refused : connecting_deps :=
  { getsockopt_ok := true, so_error := 111, errno := 0,
    getsockname := (sockaddr_in_local, 16) }

/-- The globals with the client fd 7 and the origin fd 9 registered, and an empty
pool. -/
def globals_both : globals :=
  { selector := { fds := [(7, OP_NOOP), (9, OP_WRITE)] }, pool := pool_empty }

/-- The connection after `request_connect` and then, the connect being in
progress, `connecting_write` on the origin fd. -/
def connect_then_connecting_write (P : platform) (E : connecting_deps)
    (attempt : List addrinfo → connect_outcome) (g : globals) (a : Nat) (s : socks5)
    (successful_connections : Nat) : socks_v5state × globals × socks5 × Nat :=
  connecting_write P E attempt (request_connect P attempt s.client_fd g s).2.1 a
    (request_connect P attempt s.client_fd g s).2.2 successful_connections

/-- The environment of `request_process` whose `request_connect` is the one of
this file with the given attempts and globals; `inet_ntop` leaves the
destination array alone, `calloc` and the selector succeed. -/
def request_deps_connect (P : platform) (attempt : List addrinfo → connect_outcome)
    (g : globals) : request_deps :=
  { inet_ntop := fun _ _ dst => dst, calloc_ok := true, selector_ok := true,
    request_connect := fun s =>
      ((request_connect P attempt s.client_fd g s).1,
        (request_connect P attempt s.client_fd g s).2.2),
    request_start_dns_resolution := fun s => (REQUEST_RESOLVING, s) }

/-- Every `connect` returns -1 with ECONNREFUSED (111 on Linux) at once. -/
def attempt_refused_at_once : List addrinfo → connect_outcome :=
  fun _ => connect_outcome.failed 9 111 true

/-- Every `connect` returns -1 with EINPROGRESS (115 on Linux). -/
def attempt_in_progress : List addrinfo → connect_outcome :=
  fun _ => connect_outcome.failed 9 115 true

/-- The one-entry address list for 127.0.0.1 port 80 on Linux. -/
def addrinfo_loopback : addrinfo :=
  { ai_family := 2, ai_socktype := 1, ai_addrlen := 16,
    ai_addr := { ss_family := 2, port := [0x00, 0x50], sin_addr := [127, 0, 0, 1],
                 sin6_addr := List.replicate 16 0 } }

/-- A connection about to connect to 127.0.0.1 port 80: the client fd 7, empty
16-byte buffers, one address to try. -/
def socks5_connecting : socks5 :=
  { client_fd := 7,
    origin_addr := { ss_family := 0, port := [0, 0], sin_addr := List.replicate 4 0,
                     sin6_addr := List.replicate 16 0 },
    origin_addr_len := 0, origin_fd := -1, origin_resolution := [addrinfo_loopback],
    origin_resolution_current := [addrinfo_loopback],
    request := { rb := buffer16, wb := buffer16, parser := request_parser_init request_stale,
                 status := socks_status_general_SOCKS_server_failure },
    dest_addr_str := List.replicate 256 0, dest_port := 80, last_status := 0xFF,
    references := 1 }

/-- The globals and the connection in `connecting_write` after a failed connect
has been detected: the origin fd unregistered and closed, `origin_fd` set to -1
and `references` decremented. -/
def connecting_write_closed (g : globals) (a : Nat) (s : socks5) : globals × socks5 :=
  (((selector_unregister_fd g a s s.origin_fd).getD (g, s)).1,
    { ((selector_unregister_fd g a s s.origin_fd).getD (g, s)).2 with
      origin_fd := -1,
      references :=
        unsigned_dec ((selector_unregister_fd g a s s.origin_fd).getD (g, s)).2.references })

/-- Every `connect` succeeds at once on the fd 10. -/
def attempt_connected : List addrinfo → connect_outcome :=
  fun _ => connect_outcome.connected 10 true

/-- A connection in REQUEST_CONNECTING: the client fd 7, the origin fd 9 with a
connect in progress, one more address to try, two references. -/
def socks5_connect_pending : socks5 :=
  { client_fd := 7,
    origin_addr := { ss_family := 0, port := [0, 0], sin_addr := List.replicate 4 0,
                     sin6_addr := List.replicate 16 0 },
    origin_addr_len := 0, origin_fd := 9,
    origin_resolution := [addrinfo_loopback, addrinfo_loopback],
    origin_resolution_current := [addrinfo_loopback],
    request := { rb := buffer16, wb := buffer16, parser := request_parser_init request_stale,
                 status := socks_status_general_SOCKS_server_failure },
    dest_addr_str := List.replicate 256 0, dest_port := 80, last_status := 0xFF,
    references := 2 }

/-- The number of the connection's fds that are registered in the selector. -/
def registered_fds (sel : fd_selector) (s : socks5) : Nat :=
  (if s.client_fd ≠ -1 ∧ selector_is_registered sel s.client_fd = true then 1 else 0) +
  (if s.origin_fd ≠ -1 ∧ selector_is_registered sel s.origin_fd = true then 1 else 0)

/-- The free list: `l` lists the addresses met from the pointer `head` through
the fields `next` up to NULL. -/
def pool_free_list (next : Nat → Option Nat) : Option Nat → List Nat → Prop
  | head, [] => head = none
  | head, a :: l => head = some a ∧ pool_free_list next (next a) l

/-- A call of one of the three procedures that touch the pool. -/
inductive pool_call where
  | new (mem : Nat → socks5) (client_fd : Int) (malloc : Option Nat)
  | destroy (s : Option (Nat × socks5))
  | pool_destroy

/-- The pool after one call; `fuel` bounds the loop of `socksv5_pool_destroy`. -/
def pool_call_run (fuel : Nat) (p : pool_state) : pool_call → Option pool_state
  | pool_call.new mem client_fd malloc => some (socks5_new p mem client_fd malloc).1
  | pool_call.destroy s => some (socks5_destroy p s).1
  | pool_call.pool_destroy => socksv5_pool_destroy fuel p

/-- The pool after a sequence of calls. -/
def pool_calls_run (fuel : Nat) : pool_state → List pool_call → Option pool_state
  | p, [] => some p
  | p, c :: cs =>
      match pool_call_run fuel p c with
      | none => none
      | some p1 => pool_calls_run fuel p1 cs

/-- A call respects the allocator when the free list is `l`: `malloc` does not
return an object of the free list, and the connection destroyed is not on the
free list. -/
def pool_call_valid (l : List Nat) : pool_call → Prop
  | pool_call.new _ _ malloc => ∀ a, malloc = some a → a ∉ l
  | pool_call.destroy s => ∀ a o, s = some (a, o) → a ∉ l
  | pool_call.pool_destroy => True

/-- Every call of the sequence respects the allocator in the state it is made
in. -/
def pool_calls_valid (fuel : Nat) : pool_state → List pool_call → Prop
  | _, [] => True
  | p, c :: cs =>
      (∀ l, pool_free_list p.next p.pool l → pool_call_valid l c) ∧
      ∀ p1, pool_call_run fuel p c = some p1 → pool_calls_valid fuel p1 cs

/-- The invariant of the pool: `l` is the free list, without repetition, and
`pool_size` is its length, at most `max_pool`. -/
def pool_inv (p : pool_state) (l : List Nat) : Prop :=
  pool_free_list p.next p.pool l ∧ l.Nodup ∧ p.pool_size = l.length ∧ l.length ≤ max_pool

/-- A connection torn down after a session with a resolved address list: it holds
its last reference. -/
def socks5_last_reference : socks5 :=
  { socks5_connect_pending with references := 1, origin_fd := -1 }

/-- The interest set the spec gives a copy half: READ iff the half's duplex has
READ and its read-side buffer can accept bytes, WRITE iff its duplex has WRITE
and its write-side buffer has readable bytes. -/
def copy_interest (s : socks5_copy) (d : copy_ref) : Nat :=
  (if ((s.copy_at d).duplex &&& OP_READ) ≠ 0 ∧
      buffer_can_write (s.buffer_at (s.copy_at d).rb) = true then OP_READ else OP_NOOP) |||
  (if ((s.copy_at d).duplex &&& OP_WRITE) ≠ 0 ∧
      buffer_can_read (s.buffer_at (s.copy_at d).wb) = true then OP_WRITE else OP_NOOP)

/-- A connection in COPY as `copy_init` leaves it: the client fd 7, the origin fd
9, two empty buffers of 8 bytes. -/
def socks5_copy_start : socks5_copy :=
  copy_init
    { client_fd := 7, origin_fd := 9,
      client := { fd := copy_fd_ref.client_fd, rb := copy_buffer_ref.read_buffer,
                  wb := copy_buffer_ref.read_buffer, duplex := 0, other := copy_ref.client },
      orig := { fd := copy_fd_ref.client_fd, rb := copy_buffer_ref.read_buffer,
                wb := copy_buffer_ref.read_buffer, duplex := 0, other := copy_ref.client },
      read_buffer := buffer8, write_buffer := buffer8,
      bytes_to_origin := 0, bytes_from_origin := 0 }

/-- The selector with the client fd 7 and the origin fd 9 registered. -/
def selector_both : fd_selector := { fds := [(7, OP_WRITE), (9, OP_READ)] }

/-- The pointers of the two `struct copy` are those `copy_init` stores. -/
def copy_wired (s : socks5_copy) : Prop :=
  s.client.fd = copy_fd_ref.client_fd ∧ s.client.rb = copy_buffer_ref.read_buffer ∧
  s.client.wb = copy_buffer_ref.write_buffer ∧ s.client.other = copy_ref.orig ∧
  s.orig.fd = copy_fd_ref.origin_fd ∧ s.orig.rb = copy_buffer_ref.write_buffer ∧
  s.orig.wb = copy_buffer_ref.read_buffer ∧ s.orig.other = copy_ref.client

/-- Both fds of the connection are open, distinct and registered in the
selector. -/
def copy_fds_open (sel : fd_selector) (s : socks5_copy) : Prop :=
  s.client_fd ≠ -1 ∧ s.origin_fd ≠ -1 ∧ s.client_fd ≠ s.origin_fd ∧
  selector_is_registered sel s.client_fd = true ∧
  selector_is_registered sel s.origin_fd = true

/-- The value `copy_read` and `copy_write` return for the connection `s` as they
leave it. -/
def copy_return (s : socks5_copy) : socks_v5state :=
  if s.client.duplex = OP_NOOP ∧ s.orig.duplex = OP_NOOP then DONE else COPY

/-- The connection after `copy_read` on `key_fd`, the pointers being those of
`copy_init` and both fds open. -/
def copy_read_next (s : socks5_copy) (key_fd : Int) (rcv : recv_outcome) : socks5_copy :=
  if key_fd = s.client_fd then
    if recv_n rcv (s.read_buffer.data.length - s.read_buffer.write) ≤ 0 then
      { s with client := { s.client with duplex := INTEREST_OFF s.client.duplex OP_READ },
               orig := { s.orig with duplex := INTEREST_OFF s.orig.duplex OP_WRITE } }
    else
      { s with read_buffer := (buffer_recv s.read_buffer
          (recv_bytes rcv (s.read_buffer.data.length - s.read_buffer.write))) }
  else
    if recv_n rcv (s.write_buffer.data.length - s.write_buffer.write) ≤ 0 then
      { s with client := { s.client with duplex := INTEREST_OFF s.client.duplex OP_WRITE },
               orig := { s.orig with duplex := INTEREST_OFF s.orig.duplex OP_READ } }
    else
      { s with write_buffer := (buffer_recv s.write_buffer
          (recv_bytes rcv (s.write_buffer.data.length - s.write_buffer.write))),
               bytes_from_origin := (s.bytes_from_origin +
                 (recv_n rcv (s.write_buffer.data.length - s.write_buffer.write)).toNat)
                 % 2 ^ 64 }

/-- The metrics after `copy_read` on `key_fd`, the pointers being those of
`copy_init` and both fds open. -/
def copy_read_metrics (s : socks5_copy) (key_fd : Int) (rcv : recv_outcome)
    (m : copy_metrics) : copy_metrics :=
  if key_fd = s.client_fd then
    if recv_n rcv (s.read_buffer.data.length - s.read_buffer.write) ≤ 0 then m
    else metrics_add_bytes_from_client m
      (recv_n rcv (s.read_buffer.data.length - s.read_buffer.write)).toNat
  else
    if recv_n rcv (s.write_buffer.data.length - s.write_buffer.write) ≤ 0 then m
    else metrics_add_bytes_from_origin m
      (recv_n rcv (s.write_buffer.data.length - s.write_buffer.write)).toNat

/-- The connection after `copy_write` on `key_fd`, the pointers being those of
`copy_init` and both fds open. -/
def copy_write_next (s : socks5_copy) (key_fd : Int) (snd : send_outcome) : socks5_copy :=
  if key_fd = s.client_fd then
    if send_n snd (s.write_buffer.write - s.write_buffer.read) = -1 then
      { s with client := { s.client with duplex := INTEREST_OFF s.client.duplex OP_WRITE },
               orig := { s.orig with duplex := INTEREST_OFF s.orig.duplex OP_READ } }
    else
      { s with write_buffer := (buffer_read_adv s.write_buffer
          (send_n snd (s.write_buffer.write - s.write_buffer.read)).toNat) }
  else
    if send_n snd (s.read_buffer.write - s.read_buffer.read) = -1 then
      { s with client := { s.client with duplex := INTEREST_OFF s.client.duplex OP_READ },
               orig := { s.orig with duplex := INTEREST_OFF s.orig.duplex OP_WRITE } }
    else
      { s with read_buffer := (buffer_read_adv s.read_buffer
          (send_n snd (s.read_buffer.write - s.read_buffer.read)).toNat),
               bytes_to_origin := (s.bytes_to_origin +
                 (send_n snd (s.read_buffer.write - s.read_buffer.read)).toNat) % 2 ^ 64 }

/-- The metrics after `copy_write` on `key_fd`, the pointers being those of
`copy_init` and both fds open. -/
def copy_write_metrics (s : socks5_copy) (key_fd : Int) (snd : send_outcome)
    (m : copy_metrics) : copy_metrics :=
  if key_fd = s.client_fd then
    if send_n snd (s.write_buffer.write - s.write_buffer.read) = -1 then m
    else metrics_add_bytes_to_client m
      (send_n snd (s.write_buffer.write - s.write_buffer.read)).toNat
  else
    if send_n snd (s.read_buffer.write - s.read_buffer.read) = -1 then m
    else metrics_add_bytes_to_origin m
      (send_n snd (s.read_buffer.write - s.read_buffer.read)).toNat

/-- The metrics counters all zero. -/
def copy_metrics_zero : copy_metrics :=
  { bytes_transferred := 0, bytes_from_clients := 0, bytes_to_clients := 0,
    bytes_from_origins := 0, bytes_to_origins := 0 }

/-- An event of COPY: the selector calls the read handler or the write handler
for `key_fd`, and the `recv` or `send` of the handler meets the given outcome. -/
inductive copy_event where
  | read (key_fd : Int) (rcv : recv_outcome)
  | write (key_fd : Int) (snd : send_outcome)
deriving DecidableEq, Repr

/-- The handler call of one event; `none` is `abort()`. -/
def copy_step (sel : fd_selector) (s : socks5_copy) (m : copy_metrics) :
    copy_event → Option (socks_v5state × fd_selector × socks5_copy × copy_metrics)
  | copy_event.read key_fd rcv => copy_read sel s key_fd rcv m
  | copy_event.write key_fd snd => copy_write sel s key_fd snd m

/-- The handler calls of a sequence of events, from the state `x`, whose first
component is the value the last handler returned. -/
def copy_run :
    socks_v5state × fd_selector × socks5_copy × copy_metrics → List copy_event →
      Option (socks_v5state × fd_selector × socks5_copy × copy_metrics)
  | x, [] => some x
  | x, e :: es =>
      match copy_step x.2.1 x.2.2.1 x.2.2.2 e with
      | none => none
      | some r => copy_run r es

/-- The connection after the handler call of one event, the pointers being those
of `copy_init` and both fds open. -/
def copy_event_next (s : socks5_copy) : copy_event → socks5_copy
  | copy_event.read key_fd rcv => copy_read_next s key_fd rcv
  | copy_event.write key_fd snd => copy_write_next s key_fd snd

/-- The metrics after the handler call of one event, the pointers being those of
`copy_init` and both fds open. -/
def copy_event_metrics (s : socks5_copy) (m : copy_metrics) : copy_event → copy_metrics
  | copy_event.read key_fd rcv => copy_read_metrics s key_fd rcv m
  | copy_event.write key_fd snd => copy_write_metrics s key_fd snd m

/-- The connection and the metrics after the handler calls of a sequence of
events. -/
def copy_events_next : socks5_copy × copy_metrics → List copy_event →
    socks5_copy × copy_metrics
  | x, [] => x
  | x, e :: es => copy_events_next (copy_event_next x.1 e, copy_event_metrics x.1 x.2 e) es

/-- The duplex masks are one of the four mirrored pairs. -/
def copy_duplex_ok (s : socks5_copy) : Prop :=
  (s.client.duplex = (OP_READ ||| OP_WRITE) ∧ s.orig.duplex = (OP_READ ||| OP_WRITE)) ∨
  (s.client.duplex = OP_WRITE ∧ s.orig.duplex = OP_READ) ∨
  (s.client.duplex = OP_READ ∧ s.orig.duplex = OP_WRITE) ∨
  (s.client.duplex = OP_NOOP ∧ s.orig.duplex = OP_NOOP)

/-- The byte counters account for every byte: with the cursors of both buffers in
order, the bytes received from the clients are those sent to the origins plus
those waiting in the read buffer, and the bytes received from the origins are
those sent to the clients plus those waiting in the write buffer, on `uint64_t`
counters, which hold values below 2^64. -/
def copy_conserved (s : socks5_copy) (m : copy_metrics) : Prop :=
  buffer_ok s.read_buffer ∧ buffer_ok s.write_buffer ∧
  m.bytes_from_clients
    = (m.bytes_to_origins + (s.read_buffer.write - s.read_buffer.read)) % 2 ^ 64 ∧
  m.bytes_from_origins
    = (m.bytes_to_clients + (s.write_buffer.write - s.write_buffer.read)) % 2 ^ 64 ∧
  m.bytes_to_origins < 2 ^ 64 ∧ m.bytes_to_clients < 2 ^ 64

/-- A monitoring connection holding the ADD_USER payload `ulen, user, plen, pass`
at the start of `data`, followed by whatever the array held before (`tail`). -/
def add_user_command (wb : buffer) (user pass tail : List Nat) : monitoring_conn :=
  { write_buffer := wb,
    data := user.length :: (user ++ pass.length :: (pass ++ tail)),
    data_len := 2 + user.length + pass.length }

/-- The connection `request_process` hands to `request_start_dns_resolution`
after the request `05 01 rsv 03 00`: the parser in `request_error`, the host name
empty. -/
def socks5_zero_domain (s : socks5) (rb : buffer) : socks5 :=
  { s with
    dest_port := 0,
    dest_addr_str := strncpy s.dest_addr_str (List.replicate 256 0) 255,
    request := { s.request with
      rb := rb,
      parser := { request := { cmd := 1, dest_addr_type := 3,
                               dest_addr := List.replicate 256 0,
                               dest_port := List.replicate 2 0 },
                  state := request_error, remaining := 0, addr_idx := 0 } } }

/-- The index of a store lies inside its array: at most 255 for `username[256]`,
`password[256]` and `fqdn[256]`, below 4 for the IPv4 address, below 16 for the
IPv6 address and below 2 for the port. -/
def parser_store_in_bounds : parser_store → Prop
  | parser_store.username i => i ≤ 255
  | parser_store.password i => i ≤ 255
  | parser_store.ipv4 i => i < 4
  | parser_store.ipv6 i => i < 16
  | parser_store.fqdn i => i ≤ 255
  | parser_store.port i => i < 2

/-- The invariant of the auth parser: `idx` and `remaining` are bytes, and while
a name or a password is being read `remaining` is not zero. -/
def auth_store_inv (p : auth_parser_t) : Prop :=
  p.idx < 256 ∧ p.remaining < 256 ∧
  ((p.state = auth_uname ∨ p.state = auth_passwd) → 0 < p.remaining)

/-- The invariant of the request parser: while the address is being read,
`addr_idx + remaining` is the length of the address, 4 for IPv4, 16 for IPv6 and
at most 255 for a domain name, and `remaining` is not zero; while the port is
being read `addr_idx + remaining` is 2 and `remaining` is not zero; while the
length of a domain name is awaited the address type is that of a domain name. -/
def request_store_inv (p : request_parser_t) : Prop :=
  (p.state = request_dstaddr →
    0 < p.remaining ∧
    ((p.request.dest_addr_type = socks_req_addrtype_ipv4 ∧ p.addr_idx + p.remaining = 4) ∨
     (p.request.dest_addr_type = socks_req_addrtype_ipv6 ∧ p.addr_idx + p.remaining = 16) ∨
     (p.request.dest_addr_type = socks_req_addrtype_domain ∧
        p.addr_idx + p.remaining ≤ 255))) ∧
  (p.state = request_dstport → 0 < p.remaining ∧ p.addr_idx + p.remaining = 2) ∧
  (p.state = request_dstaddr_fqdn_len →
    p.request.dest_addr_type = socks_req_addrtype_domain)

/-- The eight bytes of a 64-bit value, most significant first. -/
def be64 (x : Nat) : List Nat :=
  [(x >>> 56) &&& 0xFF, (x >>> 48) &&& 0xFF, (x >>> 40) &&& 0xFF, (x >>> 32) &&& 0xFF,
   (x >>> 24) &&& 0xFF, (x >>> 16) &&& 0xFF, (x >>> 8) &&& 0xFF, (x >>> 0) &&& 0xFF]

/-- The 48 payload bytes of the metrics response: the six values, each as eight
bytes, most significant first. -/
def metrics_payload (m : socks5_metrics) : List Nat :=
  be64 m.historical_connections ++ be64 m.current_connections ++ be64 m.bytes_transferred ++
  be64 m.successful_connections ++ be64 m.failed_connections ++
  be64 ((m.bytes_from_clients + m.bytes_to_clients) % 2 ^ 64)

/-- The metrics of a server that has accepted 300 connections and relayed 2^40
bytes from and 5 bytes to its clients. -/
def socks5_metrics_sample : socks5_metrics :=
  { historical_connections := 300, current_connections := 2,
    bytes_transferred := 1099511627781, bytes_from_clients := 1099511627776,
    bytes_to_clients := 5, bytes_from_origins := 0, bytes_to_origins := 0,
    successful_connections := 299, failed_connections := 1, auth_successful := 0,
    auth_failed := 0 }

/-- A buffer of 64 bytes, empty. -/
def buffer64 : buffer := { data := List.replicate 64 0, read := 0, write := 0 }

/-- A monitoring connection as `monitoring_new` hands it out: state
`MON_READ_HEADER`, both buffers empty over 4096 zero bytes. -/
def monitoring_conn_fresh : monitoring_conn :=
  { write_buffer := { data := List.replicate 4096 0, read := 0, write := 0 },
    data := List.replicate 4096 0, data_len := 0 }

/-- The union `client` of `struct socks5` during the negotiation, as the member
the active state works on. -/
inductive negotiation_client where
  | hello (d : hello_st)
  | auth (d : auth_st)

/-- The part of a connection the negotiation states HELLO_READ, HELLO_WRITE,
AUTH_READ and AUTH_WRITE work on: the active state, the union `client`,
`s->username` and the metrics counters. -/
structure negotiation where
  state : socks_v5state
  client : negotiation_client
  username : List Nat
  metrics : auth_metrics

/-- What the selector reports on the client socket: it is readable and `recv`
meets `rcv`, or writable and `send` meets `snd`; `selector_ok` tells whether the
`selector_set_interest_key` call of the handler, if made, succeeds. -/
inductive negotiation_event where
  | read_ready (rcv : recv_outcome) (selector_ok : Bool)
  | write_ready (snd : send_outcome) (selector_ok : Bool)

/-- The `on_departure` hooks of `socks5_state_handlers` for the negotiation
states: `hello_read_close` for HELLO_READ and `auth_read_close` for AUTH_READ. -/
def negotiation_on_departure (c : negotiation_client) : socks_v5state → negotiation_client
  | HELLO_READ =>
      match c with
      | negotiation_client.hello d => negotiation_client.hello (hello_read_close d)
      | negotiation_client.auth d => negotiation_client.auth d
  | AUTH_READ =>
      match c with
      | negotiation_client.hello d => negotiation_client.hello d
      | negotiation_client.auth d => negotiation_client.auth (auth_read_close d)
  | _ => c

/-- The `on_arrival` hooks of `socks5_state_handlers` for the negotiation
states: `hello_read_init` for HELLO_READ and `auth_read_init` for AUTH_READ, on
the connection buffers the member in use points to. `overlay` gives the bytes of
the union read as `client.auth` when AUTH_READ is entered from a hello state.
The hook of REQUEST_READ sets up the request member, with which the negotiation
is over. -/
def negotiation_on_arrival (tbl : user_table) (overlay : hello_st → auth_st)
    (c : negotiation_client) : socks_v5state → negotiation_client
  | HELLO_READ =>
      match c with
      | negotiation_client.hello d =>
          negotiation_client.hello (hello_read_init tbl d.rb d.wb d.parser)
      | negotiation_client.auth d => negotiation_client.auth d
  | AUTH_READ =>
      match c with
      | negotiation_client.hello d =>
          negotiation_client.auth (auth_read_init d.rb d.wb (overlay d))
      | negotiation_client.auth d => negotiation_client.auth (auth_read_init d.rb d.wb d)
  | _ => c

/-- Modelled from the spec: the end of a dispatch of the absent `stm.c`: if the
state the handler returned differs from the active one, `on_departure` of the
old state and then `on_arrival` of the new one run, and the new state becomes
the active one. -/
def negotiation_jump (tbl : user_table) (overlay : hello_st → auth_st) (n : negotiation)
    (next : socks_v5state) : negotiation :=
  if next = n.state then n
  else
    { n with state := next,
             client := negotiation_on_arrival tbl overlay
               (negotiation_on_departure n.client n.state) next }

/-- Modelled from the spec: a dispatch of the absent `stm.c` in the negotiation:
the handler `socks5_state_handlers` has for the active state and the event, then
the jump. `none` where the active state has no handler for the event and where
the connection has left the negotiation. -/
def negotiation_step (tbl : user_table) (overlay : hello_st → auth_st) (n : negotiation)
    (e : negotiation_event) : Option negotiation :=
  match n.state, n.client, e with
  | HELLO_READ, negotiation_client.hello d, negotiation_event.read_ready rcv ok =>
      some (negotiation_jump tbl overlay
        { n with client := negotiation_client.hello (hello_read d rcv ok).2 }
        (hello_read d rcv ok).1)
  | HELLO_WRITE, negotiation_client.hello d, negotiation_event.write_ready snd ok =>
      some (negotiation_jump tbl overlay
        { n with client := negotiation_client.hello (hello_write d snd ok).2 }
        (hello_write d snd ok).1)
  | AUTH_READ, negotiation_client.auth d, negotiation_event.read_ready rcv ok =>
      some (negotiation_jump tbl overlay
        { n with client := negotiation_client.auth
                   (auth_read tbl d n.username n.metrics rcv ok).d,
                 username := (auth_read tbl d n.username n.metrics rcv ok).username,
                 metrics := (auth_read tbl d n.username n.metrics rcv ok).metrics }
        (auth_read tbl d n.username n.metrics rcv ok).ret)
  | AUTH_WRITE, negotiation_client.auth d, negotiation_event.write_ready snd ok =>
      some (negotiation_jump tbl overlay
        { n with client := negotiation_client.auth (auth_write d snd ok).2 }
        (auth_write d snd ok).1)
  | _, _, _ => none

/-- A run of the negotiation: one dispatch for each event, `none` if one of them
has none. -/
def negotiation_run (tbl : user_table) (overlay : hello_st → auth_st) :
    negotiation → List negotiation_event → Option negotiation
  | n, [] => some n
  | n, e :: es =>
      match negotiation_step tbl overlay n e with
      | none => none
      | some n1 => negotiation_run tbl overlay n1 es

/-- Modelled from the spec: a connection as `socks5_new` and `stm_init` leave
it, the initial state HELLO_READ entered through its `on_arrival`,
`hello_read_init`. -/
def negotiation_init (tbl : user_table) (read_buffer write_buffer : buffer)
    (old : hello_parser_t Nat) (username : List Nat) (metrics : auth_metrics) : negotiation :=
  { state := HELLO_READ,
    client := negotiation_client.hello (hello_read_init tbl read_buffer write_buffer old),
    username := username, metrics := metrics }

/-- Somewhere in the run `events` from `n0`, `auth_read` was called in AUTH_READ
and returned AUTH_WRITE with status 0x00, after `validate_credentials` returned
true for the username and the password in the parser. -/
def negotiation_validated (tbl : user_table) (overlay : hello_st → auth_st) (n0 : negotiation)
    (events : List negotiation_event) : Prop :=
  ∃ pre rcv ok post m d,
    events = pre ++ negotiation_event.read_ready rcv ok :: post ∧
    negotiation_run tbl overlay n0 pre = some m ∧
    m.state = AUTH_READ ∧ m.client = negotiation_client.auth d ∧
    (auth_read tbl d m.username m.metrics rcv ok).ret = AUTH_WRITE ∧
    (auth_read tbl d m.username m.metrics rcv ok).d.status = 0x00 ∧
    validate_credentials tbl (auth_read tbl d m.username m.metrics rcv ok).d.parser.username
      (auth_read tbl d m.username m.metrics rcv ok).d.parser.password = true

/-- What the hello parser of a connection holds while users are configured: the
callback is `on_hello_method` and the selected method is 0xFF or 0x02. -/
def hello_selecting (tbl : user_table) (p : hello_parser_t Nat) : Prop :=
  p.on_authentication_method = some (on_hello_method tbl) ∧
  (p.data = SOCKS_HELLO_NO_ACCEPTABLE_METHODS ∨ p.data = SOCKS_HELLO_USERNAME_PASSWORD)

/-- What holds of a negotiation after the run `events` from `n0` while users are
configured. -/
def negotiation_inv (tbl : user_table) (overlay : hello_st → auth_st) (n0 : negotiation)
    (events : List negotiation_event) (n : negotiation) : Prop :=
  (n.state = HELLO_READ →
    ∃ d, n.client = negotiation_client.hello d ∧ hello_selecting tbl d.parser) ∧
  (n.state = HELLO_WRITE →
    ∃ d, n.client = negotiation_client.hello d ∧ d.method = SOCKS_HELLO_USERNAME_PASSWORD) ∧
  (n.state = AUTH_WRITE →
    ∃ d, n.client = negotiation_client.auth d ∧
      (d.status = 0x00 → negotiation_validated tbl overlay n0 events)) ∧
  (n.state = REQUEST_READ →
    ∃ pre snd ok m d,
      events = pre ++ [negotiation_event.write_ready snd ok] ∧
      negotiation_run tbl overlay n0 pre = some m ∧
      m.state = AUTH_WRITE ∧ m.client = negotiation_client.auth d ∧ d.status = 0x00 ∧
      negotiation_validated tbl overlay n0 pre)

/-- A layout of the union for the examples: read as `client.auth`, the hello
member shows a stale parser and status 0x01. -/
def overlay_stale (d : hello_st) : auth_st :=
  { rb := d.rb, wb := d.wb, parser := auth_stale, status := 0x01 }

/-- The events of a negotiation in which the client offers method 0x02 and then
sends alice / s3cret, each reply being sent in one piece. -/
def negotiation_events_alice : List negotiation_event :=
  [negotiation_event.read_ready (recv_outcome.data [0x05, 0x01, 0x02]) true,
   negotiation_event.write_ready (send_outcome.sent 2) true,
   negotiation_event.read_ready (recv_outcome.data
     [0x01, 0x05, 0x61, 0x6C, 0x69, 0x63, 0x65, 0x06, 0x73, 0x33, 0x63, 0x72, 0x65, 0x74]) true,
   negotiation_event.write_ready (send_outcome.sent 2) true]

/-- The connection between two calls of `monitoring_read`, the read buffer
having given back its space if the call drained it. -/
def monitoring_conn_reclaimed (c : monitoring_conn) : monitoring_conn :=
  { c with read_buffer := buffer_reclaim c.read_buffer }

/-! # Theorems -/

/-! ## Hello parser -/

theorem hello_feed_terminal {δ : Type} (p : hello_parser_t δ) (b : Nat)
    (h : hello_terminal p.state) : hello_parser_feed p b = p := by
  rcases h with h | h | h <;> simp [hello_parser_feed, h]

theorem hello_feed_all_terminal {δ : Type} (bs : List Nat) (p : hello_parser_t δ)
    (h : hello_terminal p.state) : hello_feed_all p bs = p := by
  induction bs with
  | nil => rfl
  | cons b bs ih =>
      have hb := hello_feed_terminal p b h
      simp only [hello_feed_all, List.foldl_cons] at ih ⊢
      rw [hb]; exact ih

theorem hello_feed_all_append {δ : Type} (p : hello_parser_t δ) (xs ys : List Nat) :
    hello_feed_all p (xs ++ ys) = hello_feed_all (hello_feed_all p xs) ys := by
  simp [hello_feed_all, List.foldl_append]

theorem hello_is_done_iff (s : hello_state) (e : Option Bool) :
    (hello_is_done s e).1 = true ↔ hello_terminal s := by
  cases s <;> simp [hello_is_done, hello_terminal]

/-- While strictly fewer method bytes than `remaining` have been fed, the parser
stays in `hello_methods` and has run the callback over them in order. -/
theorem hello_methods_partial {δ : Type} (f : δ → Nat → δ) (ms : List Nat) :
    ∀ p : hello_parser_t δ, p.on_authentication_method = some f →
      p.state = hello_methods → ms.length < p.remaining → p.remaining ≤ 255 →
      hello_feed_all p ms =
        { p with data := ms.foldl f p.data, remaining := p.remaining - ms.length } := by
  induction ms with
  | nil => intro p _ _ _ _; simp [hello_feed_all]
  | cons m ms ih =>
      intro p hcb hst hlen hle
      simp only [List.length_cons] at hlen
      have hstep : hello_parser_feed p m =
          { p with data := f p.data m, remaining := p.remaining - 1 } := by
        have h1 : (p.remaining + 255) % 256 = p.remaining - 1 := by omega
        have h2 : p.remaining - 1 ≠ 0 := by omega
        simp [hello_parser_feed, hst, hcb, h1, h2]
      simp only [hello_feed_all, List.foldl_cons] at ih ⊢
      rw [hstep, ih { p with data := f p.data m, remaining := p.remaining - 1 } hcb hst
        (by simp only; omega) (by simp only; omega)]
      simp only [List.length_cons, hello_parser_t.mk.injEq, true_and]
      omega

/-- Feeding exactly `remaining` method bytes ends in `hello_done`, the callback
having been run over all of them in order. -/
theorem hello_methods_complete {δ : Type} (f : δ → Nat → δ) (ms : List Nat)
    (p : hello_parser_t δ) (hcb : p.on_authentication_method = some f)
    (hst : p.state = hello_methods) (hlen : ms.length = p.remaining)
    (hpos : 1 ≤ p.remaining) (hle : p.remaining ≤ 255) :
    hello_feed_all p ms =
      { p with data := ms.foldl f p.data, remaining := 0, state := hello_done } := by
  obtain ⟨init, last, rfl⟩ : ∃ init last, ms = init ++ [last] := by
    rcases List.eq_nil_or_concat ms with h | ⟨i, l, h⟩
    · subst h; simp at hlen; omega
    · exact ⟨i, l, by simpa using h⟩
  simp only [List.length_append, List.length_singleton] at hlen
  rw [hello_feed_all_append, hello_methods_partial f init p hcb hst (by omega) hle]
  have h1 : (p.remaining - init.length + 255) % 256 = 0 := by omega
  simp [hello_feed_all, hello_parser_feed, hst, hcb, h1, List.foldl_append]

/-- Claim C3. From the initial state of the hello parser, with a callback `f`
installed: (a) a first byte other than 0x05 gives
`hello_error_unsupported_version` after that one byte, whatever follows, and the
callback has not run; (b) `05 00` gives `hello_error` after two bytes, not
before, whatever follows, and the callback has not run; (c) `05 n` followed by
`n` method bytes (`1 ≤ n ≤ 255`) gives `hello_done` on byte `2+n`, no terminal
state on any shorter prefix, the callback has then been run exactly over the
method bytes in wire order, and further bytes change nothing. -/
theorem C3_hello_parser_outcomes {δ : Type} (p0 : hello_parser_t δ) (f : δ → Nat → δ)
    (hcb : p0.on_authentication_method = some f) :
    (∀ b rest, b ≠ 0x05 →
        (hello_feed_all (hello_parser_init p0) [b]).state = hello_error_unsupported_version ∧
        hello_feed_all (hello_parser_init p0) (b :: rest) =
          hello_feed_all (hello_parser_init p0) [b] ∧
        (hello_feed_all (hello_parser_init p0) (b :: rest)).data = p0.data) ∧
    (∀ rest,
        (hello_feed_all (hello_parser_init p0) [0x05]).state = hello_nmethods ∧
        (hello_feed_all (hello_parser_init p0) [0x05, 0x00]).state = hello_error ∧
        hello_feed_all (hello_parser_init p0) (0x05 :: 0x00 :: rest) =
          hello_feed_all (hello_parser_init p0) [0x05, 0x00] ∧
        (hello_feed_all (hello_parser_init p0) (0x05 :: 0x00 :: rest)).data = p0.data) ∧
    (∀ n ms rest, 1 ≤ n → n ≤ 255 → ms.length = n →
        (hello_feed_all (hello_parser_init p0) (0x05 :: n :: ms)).state = hello_done ∧
        (∀ k, k < 2 + n →
          ¬ hello_terminal (hello_feed_all (hello_parser_init p0) ((0x05 :: n :: ms).take k)).state) ∧
        (hello_feed_all (hello_parser_init p0) (0x05 :: n :: ms)).data = ms.foldl f p0.data ∧
        hello_feed_all (hello_parser_init p0) (0x05 :: n :: (ms ++ rest)) =
          hello_feed_all (hello_parser_init p0) (0x05 :: n :: ms)) := by
  refine ⟨?_, ?_, ?_⟩
  · intro b rest hb
    have h1 : hello_feed_all (hello_parser_init p0) [b] =
        { hello_parser_init p0 with state := hello_error_unsupported_version } := by
      simp [hello_feed_all, hello_parser_feed, hello_parser_init, SOCKS_VERSION, hb]
    have h2 : hello_feed_all (hello_parser_init p0) (b :: rest) =
        hello_feed_all (hello_parser_init p0) [b] := by
      have := hello_feed_all_append (hello_parser_init p0) [b] rest
      simp only [List.singleton_append] at this
      rw [this]
      exact hello_feed_all_terminal rest _ (by rw [h1]; simp [hello_terminal])
    refine ⟨by rw [h1], h2, ?_⟩
    rw [h2, h1]; rfl
  · intro rest
    have h1 : hello_feed_all (hello_parser_init p0) [0x05, 0x00] =
        { hello_parser_init p0 with state := hello_error } := by
      simp [hello_feed_all, hello_parser_feed, hello_parser_init, SOCKS_VERSION]
    have h2 : hello_feed_all (hello_parser_init p0) (0x05 :: 0x00 :: rest) =
        hello_feed_all (hello_parser_init p0) [0x05, 0x00] := by
      have := hello_feed_all_append (hello_parser_init p0) [0x05, 0x00] rest
      simp only [List.cons_append, List.nil_append] at this
      rw [this]
      exact hello_feed_all_terminal rest _ (by rw [h1]; simp [hello_terminal])
    refine ⟨by simp [hello_feed_all, hello_parser_feed, hello_parser_init, SOCKS_VERSION],
      by rw [h1], h2, ?_⟩
    rw [h2, h1]; rfl
  · intro n ms rest hn1 hn2 hlen
    have hsplit : ∀ xs : List Nat, hello_feed_all (hello_parser_init p0) (0x05 :: n :: xs) =
        hello_feed_all { on_authentication_method := p0.on_authentication_method,
                         data := p0.data, state := hello_methods, remaining := n } xs := by
      intro xs
      have : n > 0 := hn1
      simp [hello_feed_all, hello_parser_feed, hello_parser_init, SOCKS_VERSION, this]
    have hfull : hello_feed_all (hello_parser_init p0) (0x05 :: n :: ms) =
        { on_authentication_method := p0.on_authentication_method,
          data := ms.foldl f p0.data, state := hello_done, remaining := 0 } := by
      rw [hsplit]
      exact hello_methods_complete f ms _ hcb rfl hlen hn1 hn2
    refine ⟨by rw [hfull], ?_, by rw [hfull], ?_⟩
    · intro k hk
      match k with
      | 0 => simp [hello_feed_all, hello_parser_init, hello_terminal]
      | 1 =>
          simp [hello_feed_all, hello_parser_feed, hello_parser_init, hello_terminal,
            SOCKS_VERSION]
      | j + 2 =>
          have hj : j < n := by omega
          simp only [List.take_succ_cons]
          rw [hsplit, hello_methods_partial f (ms.take j)
            { on_authentication_method := p0.on_authentication_method,
              data := p0.data, state := hello_methods, remaining := n } hcb rfl
            (by simp only [List.length_take]; omega) hn2]
          simp [hello_terminal]
    · have := hello_feed_all_append (hello_parser_init p0) (0x05 :: n :: ms) rest
      rw [List.cons_append, List.cons_append] at this
      rw [this]
      exact hello_feed_all_terminal rest _ (by rw [hfull]; simp [hello_terminal])

/-- Claim C3, instance: on `05 03 00 01 02` a recording callback has seen exactly
`00 01 02`, in that order. -/
theorem C3_hello_parser_outcomes_witness :
    (hello_feed_all (hello_parser_init hello_tracer) [0x05, 3, 0x00, 0x01, 0x02]).state
        = hello_done ∧
      (hello_feed_all (hello_parser_init hello_tracer) [0x05, 3, 0x00, 0x01, 0x02]).data
        = [0x00, 0x01, 0x02] := by
  have h := (C3_hello_parser_outcomes hello_tracer hello_trace_cb rfl).2.2 3 [0x00, 0x01, 0x02] []
    (by decide) (by decide) rfl
  exact ⟨h.1, h.2.2.1⟩

/-! ## Memory helpers -/

theorem memcpy_length (xs : List Nat) : ∀ (d : List Nat) (off : Nat),
    (memcpy d off xs).length = d.length := by
  induction xs with
  | nil => intro d off; rfl
  | cons x xs ih => intro d off; simp [memcpy, ih]

theorem memcpy_append (xs ys : List Nat) : ∀ (d : List Nat) (off : Nat),
    memcpy d off (xs ++ ys) = memcpy (memcpy d off xs) (off + xs.length) ys := by
  induction xs with
  | nil => intro d off; simp [memcpy]
  | cons x xs ih =>
      intro d off
      rw [List.cons_append]
      simp only [memcpy, List.length_cons]
      rw [ih]
      congr 1
      omega

theorem memcpy_snoc (xs : List Nat) (d : List Nat) (off b : Nat) :
    (memcpy d off xs).set (off + xs.length) b = memcpy d off (xs ++ [b]) := by
  rw [memcpy_append]; rfl

/-- A `memcpy` that fits replaces exactly the bytes `[off, off + |xs|)`. -/
theorem memcpy_eq (xs : List Nat) : ∀ (d : List Nat) (off : Nat),
    off + xs.length ≤ d.length →
      memcpy d off xs = d.take off ++ xs ++ d.drop (off + xs.length) := by
  induction xs with
  | nil => intro d off _; simp [memcpy]
  | cons x xs ih =>
      intro d off h
      simp only [List.length_cons] at h
      have hlt : off < d.length := by omega
      simp only [memcpy]
      rw [ih (d.set off x) (off + 1) (by rw [List.length_set]; omega)]
      rw [List.drop_set_of_lt x d (by omega : off < off + 1 + xs.length)]
      have ht : List.take (off + 1) (d.set off x) = List.take off d ++ [x] := by
        rw [List.set_eq_take_append_cons_drop, if_pos hlt]
        have hl : (List.take off d).length = off := by rw [List.length_take]; omega
        rw [show List.take off d ++ x :: List.drop (off + 1) d
              = (List.take off d ++ [x]) ++ List.drop (off + 1) d by simp]
        exact List.take_left' (by simp [hl])
      rw [ht]
      simp only [List.length_cons, List.append_assoc, List.singleton_append]
      congr 3
      omega

/-! ## Auth parser -/

theorem auth_feed_terminal (p : auth_parser_t) (b : Nat)
    (h : auth_terminal p.state) : auth_parser_feed p b = p := by
  rcases h with h | h | h <;> simp [auth_parser_feed, h]

theorem auth_feed_all_terminal (bs : List Nat) (p : auth_parser_t)
    (h : auth_terminal p.state) : auth_feed_all p bs = p := by
  induction bs with
  | nil => rfl
  | cons b bs ih =>
      have hb := auth_feed_terminal p b h
      simp only [auth_feed_all, List.foldl_cons] at ih ⊢
      rw [hb]; exact ih

theorem auth_feed_all_append (p : auth_parser_t) (xs ys : List Nat) :
    auth_feed_all p (xs ++ ys) = auth_feed_all (auth_feed_all p xs) ys := by
  simp [auth_feed_all, List.foldl_append]

theorem auth_is_done_iff (s : auth_state) (e : Option Bool) :
    (auth_is_done s e).1 = true ↔ auth_terminal s := by
  cases s <;> simp [auth_is_done, auth_terminal]

/-- While strictly fewer bytes than `remaining` have been fed in `auth_uname`,
they are stored one after another from `idx` on. -/
theorem auth_uname_partial (xs : List Nat) :
    ∀ p : auth_parser_t, p.state = auth_uname → xs.length < p.remaining →
      p.idx + p.remaining ≤ 255 →
      auth_feed_all p xs =
        { p with username := memcpy p.username p.idx xs, idx := p.idx + xs.length,
                 remaining := p.remaining - xs.length } := by
  induction xs with
  | nil => intro p _ _ _; simp [auth_feed_all, memcpy]
  | cons x xs ih =>
      intro p hst hlen hle
      simp only [List.length_cons] at hlen
      have hstep : auth_parser_feed p x =
          { p with username := p.username.set p.idx x, idx := p.idx + 1,
                   remaining := p.remaining - 1 } := by
        have h1 : (p.remaining + 255) % 256 = p.remaining - 1 := by omega
        have h2 : p.remaining - 1 ≠ 0 := by omega
        have h3 : (p.idx + 1) % 256 = p.idx + 1 := by omega
        simp [auth_parser_feed, hst, h1, h2, h3]
      simp only [auth_feed_all, List.foldl_cons] at ih ⊢
      rw [hstep, ih { p with username := p.username.set p.idx x, idx := p.idx + 1,
                             remaining := p.remaining - 1 } hst
        (by simp only; omega) (by simp only; omega)]
      simp only [List.length_cons, memcpy, auth_parser_t.mk.injEq, true_and, and_true]
      omega

/-- Feeding exactly `remaining` bytes in `auth_uname` stores them, terminates
them with a NUL and moves to `auth_plen`. -/
theorem auth_uname_complete (xs : List Nat) (p : auth_parser_t)
    (hst : p.state = auth_uname) (hlen : xs.length = p.remaining)
    (hpos : 1 ≤ p.remaining) (hle : p.idx + p.remaining ≤ 255) :
    auth_feed_all p xs =
      { p with username := memcpy p.username p.idx (xs ++ [0]), idx := p.idx + xs.length,
               remaining := 0, state := auth_plen } := by
  obtain ⟨init, last, rfl⟩ : ∃ init last, xs = init ++ [last] := by
    rcases List.eq_nil_or_concat xs with h | ⟨i, l, h⟩
    · subst h; simp at hlen; omega
    · exact ⟨i, l, by simpa using h⟩
  simp only [List.length_append, List.length_singleton] at hlen
  rw [auth_feed_all_append, auth_uname_partial init p hst (by omega) hle]
  have h1 : (p.remaining - init.length + 255) % 256 = 0 := by omega
  have h3 : (p.idx + init.length + 1) % 256 = p.idx + init.length + 1 := by omega
  simp only [auth_feed_all, List.foldl_cons, List.foldl_nil, auth_parser_feed, hst, h1, h3,
    if_true, List.length_append, List.length_singleton]
  rw [memcpy_snoc, Nat.add_assoc, ← List.length_singleton last, ← List.length_append,
    memcpy_snoc]

/-- The analogue of `auth_uname_partial` for `auth_passwd`. -/
theorem auth_passwd_partial (xs : List Nat) :
    ∀ p : auth_parser_t, p.state = auth_passwd → xs.length < p.remaining →
      p.idx + p.remaining ≤ 255 →
      auth_feed_all p xs =
        { p with password := memcpy p.password p.idx xs, idx := p.idx + xs.length,
                 remaining := p.remaining - xs.length } := by
  induction xs with
  | nil => intro p _ _ _; simp [auth_feed_all, memcpy]
  | cons x xs ih =>
      intro p hst hlen hle
      simp only [List.length_cons] at hlen
      have hstep : auth_parser_feed p x =
          { p with password := p.password.set p.idx x, idx := p.idx + 1,
                   remaining := p.remaining - 1 } := by
        have h1 : (p.remaining + 255) % 256 = p.remaining - 1 := by omega
        have h2 : p.remaining - 1 ≠ 0 := by omega
        have h3 : (p.idx + 1) % 256 = p.idx + 1 := by omega
        simp [auth_parser_feed, hst, h1, h2, h3]
      simp only [auth_feed_all, List.foldl_cons] at ih ⊢
      rw [hstep, ih { p with password := p.password.set p.idx x, idx := p.idx + 1,
                             remaining := p.remaining - 1 } hst
        (by simp only; omega) (by simp only; omega)]
      simp only [List.length_cons, memcpy, auth_parser_t.mk.injEq, true_and, and_true]
      omega

/-- The analogue of `auth_uname_complete` for `auth_passwd`, ending in `auth_done`. -/
theorem auth_passwd_complete (xs : List Nat) (p : auth_parser_t)
    (hst : p.state = auth_passwd) (hlen : xs.length = p.remaining)
    (hpos : 1 ≤ p.remaining) (hle : p.idx + p.remaining ≤ 255) :
    auth_feed_all p xs =
      { p with password := memcpy p.password p.idx (xs ++ [0]), idx := p.idx + xs.length,
               remaining := 0, state := auth_done } := by
  obtain ⟨init, last, rfl⟩ : ∃ init last, xs = init ++ [last] := by
    rcases List.eq_nil_or_concat xs with h | ⟨i, l, h⟩
    · subst h; simp at hlen; omega
    · exact ⟨i, l, by simpa using h⟩
  simp only [List.length_append, List.length_singleton] at hlen
  rw [auth_feed_all_append, auth_passwd_partial init p hst (by omega) hle]
  have h1 : (p.remaining - init.length + 255) % 256 = 0 := by omega
  have h3 : (p.idx + init.length + 1) % 256 = p.idx + init.length + 1 := by omega
  simp only [auth_feed_all, List.foldl_cons, List.foldl_nil, auth_parser_feed, hst, h1, h3,
    if_true, List.length_append, List.length_singleton]
  rw [memcpy_snoc, Nat.add_assoc, ← List.length_singleton last, ← List.length_append,
    memcpy_snoc]

theorem auth_feed_version (p : auth_parser_t) (b : Nat) (h : p.state = auth_version) :
    auth_parser_feed p b =
      if b = AUTH_VERSION then { p with state := auth_ulen }
      else { p with state := auth_error_unsupported_version } := by
  unfold auth_parser_feed; rw [h]

theorem auth_feed_ulen (p : auth_parser_t) (b : Nat) (h : p.state = auth_ulen) :
    auth_parser_feed p b =
      if b > 0 then
        { p with remaining := b, username_len := b, idx := 0, state := auth_uname }
      else { p with state := auth_error } := by
  unfold auth_parser_feed; rw [h]

theorem auth_feed_plen (p : auth_parser_t) (b : Nat) (h : p.state = auth_plen) :
    auth_parser_feed p b =
      if b = 0 then
        { p with password_len := 0, password := p.password.set 0 0, state := auth_done }
      else
        { p with remaining := b, password_len := b, idx := 0, state := auth_passwd } := by
  unfold auth_parser_feed; rw [h]

/-- Storing a string and its terminating NUL at the start of a zeroed 256-byte
array leaves the string followed by zeroes. -/
theorem memcpy_zeroed_terminated (xs : List Nat) (h : xs.length ≤ 255) :
    memcpy (List.replicate 256 0) 0 (xs ++ [0]) = xs ++ List.replicate (256 - xs.length) 0 := by
  rw [memcpy_eq _ _ _ (by
    simp only [List.length_replicate, List.length_append, List.length_singleton]; omega)]
  simp only [List.take_zero, List.nil_append, List.length_append, List.length_singleton,
    List.drop_replicate, List.append_assoc, List.singleton_append, Nat.zero_add]
  rw [← List.replicate_succ]
  congr 2
  omega

/-- The parser after `01 ULEN`. -/
theorem auth_after_ulen (p0 : auth_parser_t) (n : Nat) (hn : 1 ≤ n) :
    auth_feed_all (auth_parser_init p0) [0x01, n] =
      { state := auth_uname, remaining := n, idx := 0,
        username := List.replicate 256 0, username_len := n,
        password := List.replicate 256 0, password_len := 0 } := by
  have : n > 0 := hn
  simp only [auth_feed_all, List.foldl_cons, List.foldl_nil]
  rw [auth_feed_version (auth_parser_init p0) 1 rfl,
    if_pos (show (1 : Nat) = AUTH_VERSION from rfl), auth_feed_ulen _ _ rfl,
    if_pos this]
  rfl

/-- The parser after `01 ULEN UNAME`. -/
theorem auth_after_uname (p0 : auth_parser_t) (U : List Nat)
    (hU1 : 1 ≤ U.length) (hU2 : U.length ≤ 255) :
    auth_feed_all (auth_parser_init p0) (0x01 :: U.length :: U) =
      { state := auth_plen, remaining := 0, idx := U.length,
        username := U ++ List.replicate (256 - U.length) 0, username_len := U.length,
        password := List.replicate 256 0, password_len := 0 } := by
  have h := auth_feed_all_append (auth_parser_init p0) [0x01, U.length] U
  simp only [List.cons_append, List.nil_append] at h
  rw [h, auth_after_ulen p0 _ hU1, auth_uname_complete U _ rfl rfl hU1 (by simp only; omega)]
  simp only [Nat.zero_add, memcpy_zeroed_terminated U hU2]

/-- The parser after the whole message `01 ULEN UNAME PLEN PASSWD`. -/
theorem auth_after_wire (p0 : auth_parser_t) (U P : List Nat)
    (hU1 : 1 ≤ U.length) (hU2 : U.length ≤ 255) (hP : P.length ≤ 255) :
    auth_feed_all (auth_parser_init p0) (auth_wire U P) =
      { state := auth_done, remaining := 0, idx := if P.length = 0 then U.length else P.length,
        username := U ++ List.replicate (256 - U.length) 0, username_len := U.length,
        password := P ++ List.replicate (256 - P.length) 0, password_len := P.length } := by
  have hw : auth_wire U P = (0x01 :: U.length :: U) ++ ([P.length] ++ P) := by
    simp [auth_wire]
  rw [hw, auth_feed_all_append, auth_after_uname p0 U hU1 hU2, auth_feed_all_append]
  have hone : ∀ q : auth_parser_t, auth_feed_all q [P.length] = auth_parser_feed q P.length :=
    fun _ => rfl
  rw [hone, auth_feed_plen _ _ rfl]
  by_cases hP0 : P.length = 0
  · have hnil : P = [] := List.length_eq_zero.mp hP0
    subst hnil
    simp only [List.length_nil, if_true, List.set_replicate_self, List.nil_append, Nat.sub_zero]
    rfl
  · rw [if_neg hP0, auth_passwd_complete P _ rfl rfl (by simp only; omega) (by simp only; omega)]
    simp only [Nat.zero_add, memcpy_zeroed_terminated P hP, if_neg hP0]

/-- No proper prefix of a well-formed auth message leaves the parser in a
terminal state. -/
theorem auth_prefix_not_terminal (p0 : auth_parser_t) (U P : List Nat)
    (hU1 : 1 ≤ U.length) (hU2 : U.length ≤ 255) (hP : P.length ≤ 255)
    (k : Nat) (hk : k < (auth_wire U P).length) :
    ¬ auth_terminal (auth_feed_all (auth_parser_init p0) ((auth_wire U P).take k)).state := by
  have hw : auth_wire U P = 0x01 :: U.length :: (U ++ P.length :: P) := by
    simp [auth_wire]
  rw [hw] at hk ⊢
  simp only [List.length_cons, List.length_append] at hk
  match k with
  | 0 =>
      simp only [List.take_zero, auth_feed_all, List.foldl_nil]
      rw [show (auth_parser_init p0).state = auth_version from rfl]
      simp [auth_terminal]
  | 1 =>
      simp only [List.take_succ_cons, List.take_zero, auth_feed_all, List.foldl_cons,
        List.foldl_nil]
      rw [auth_feed_version (auth_parser_init p0) 1 rfl,
        if_pos (show (1 : Nat) = AUTH_VERSION from rfl)]
      simp [auth_terminal]
  | j + 2 =>
      simp only [List.take_succ_cons]
      rcases Nat.lt_trichotomy j U.length with hj | hj | hj
      · rw [List.take_append_of_le_length (by omega)]
        have h := auth_feed_all_append (auth_parser_init p0) [0x01, U.length] (U.take j)
        simp only [List.cons_append, List.nil_append] at h
        rw [h, auth_after_ulen p0 _ hU1, auth_uname_partial (U.take j) _ rfl
          (by simp only [List.length_take]; omega) (by simp only; omega)]
        simp [auth_terminal]
      · have ht : List.take j (U ++ P.length :: P) = U := by
          rw [hj]; exact List.take_left _ _
        rw [ht, auth_after_uname p0 U hU1 hU2]
        simp [auth_terminal]
      · obtain ⟨i, rfl⟩ : ∃ i, j = U.length + 1 + i := ⟨j - U.length - 1, by omega⟩
        have hi : i < P.length := by omega
        have ht : List.take (U.length + 1 + i) (U ++ P.length :: P)
            = U ++ P.length :: List.take i P := by
          rw [List.take_append_eq_append_take, List.take_of_length_le (by omega)]
          have : U.length + 1 + i - U.length = i + 1 := by omega
          rw [this, List.take_succ_cons]
        rw [ht]
        have h := auth_feed_all_append (auth_parser_init p0) (0x01 :: U.length :: U)
          (P.length :: List.take i P)
        simp only [List.cons_append] at h
        rw [h, auth_after_uname p0 U hU1 hU2]
        have h2 : ∀ q : auth_parser_t, auth_feed_all q (P.length :: List.take i P)
            = auth_feed_all (auth_parser_feed q P.length) (List.take i P) := fun _ => rfl
        rw [h2, auth_feed_plen _ _ rfl, if_neg (by omega), auth_passwd_partial (P.take i) _ rfl
          (by simp only [List.length_take]; omega) (by simp only; omega)]
        simp [auth_terminal]

/-- Claim C2. For every username `U` of 1 to 255 bytes and password `P` of 0 to
255 bytes, feeding `01 |U| U |P| P` to `auth_parser_feed` from the initial state
ends in `auth_done` on the last byte (the PLEN byte when `P` is empty), no proper
prefix reaches a terminal state, and the parser then holds `U` followed by NUL
(by zeroes up to the end of the array), `username_len = |U|`, `P` followed by
NUL, and `password_len = |P|`. -/
theorem C2_auth_parser_accepts (p0 : auth_parser_t) (U P : List Nat)
    (hU1 : 1 ≤ U.length) (hU2 : U.length ≤ 255) (hP : P.length ≤ 255) :
    (auth_feed_all (auth_parser_init p0) (auth_wire U P)).state = auth_done ∧
    (∀ k, k < (auth_wire U P).length →
      ¬ auth_terminal (auth_feed_all (auth_parser_init p0) ((auth_wire U P).take k)).state) ∧
    (P = [] → auth_wire U P = [0x01, U.length] ++ U ++ [0x00]) ∧
    (auth_feed_all (auth_parser_init p0) (auth_wire U P)).username
      = U ++ List.replicate (256 - U.length) 0 ∧
    (auth_feed_all (auth_parser_init p0) (auth_wire U P)).username_len = U.length ∧
    (auth_feed_all (auth_parser_init p0) (auth_wire U P)).password
      = P ++ List.replicate (256 - P.length) 0 ∧
    (auth_feed_all (auth_parser_init p0) (auth_wire U P)).password_len = P.length := by
  rw [auth_after_wire p0 U P hU1 hU2 hP]
  refine ⟨rfl, fun k hk => auth_prefix_not_terminal p0 U P hU1 hU2 hP k hk, ?_, rfl, rfl, rfl, rfl⟩
  intro h; subst h; simp [auth_wire]

/-- Claim C2, instance: `01 05 'alice' 06 's3cret'`. -/
theorem C2_auth_parser_accepts_witness :
    (auth_feed_all (auth_parser_init auth_stale)
        [0x01, 0x05, 0x61, 0x6C, 0x69, 0x63, 0x65, 0x06, 0x73, 0x33, 0x63, 0x72, 0x65, 0x74]).state
      = auth_done ∧
    (auth_feed_all (auth_parser_init auth_stale)
        [0x01, 0x05, 0x61, 0x6C, 0x69, 0x63, 0x65, 0x06, 0x73, 0x33, 0x63, 0x72, 0x65, 0x74]).username
      = [0x61, 0x6C, 0x69, 0x63, 0x65] ++ List.replicate 251 0 ∧
    (auth_feed_all (auth_parser_init auth_stale)
        [0x01, 0x05, 0x61, 0x6C, 0x69, 0x63, 0x65, 0x06, 0x73, 0x33, 0x63, 0x72, 0x65, 0x74]).password
      = [0x73, 0x33, 0x63, 0x72, 0x65, 0x74] ++ List.replicate 250 0 := by
  have h := C2_auth_parser_accepts auth_stale [0x61, 0x6C, 0x69, 0x63, 0x65]
    [0x73, 0x33, 0x63, 0x72, 0x65, 0x74] (by decide) (by decide) (by decide)
  exact ⟨h.1, h.2.2.2.1, h.2.2.2.2.2.1⟩

/-- Claim C8. From the initial state of the auth parser: a first byte other than
0x01 gives `auth_error_unsupported_version` after that one byte, whatever
follows; `01 00` gives `auth_error` on the ULEN byte, whatever follows; in both
cases the username and password arrays and lengths are as initialised, no byte
having been stored. -/
theorem C8_auth_parser_rejects (p0 : auth_parser_t) :
    (∀ b rest, b ≠ 0x01 →
        (auth_feed_all (auth_parser_init p0) [b]).state = auth_error_unsupported_version ∧
        auth_feed_all (auth_parser_init p0) (b :: rest)
          = { state := auth_error_unsupported_version, remaining := 0, idx := 0,
              username := List.replicate 256 0, username_len := 0,
              password := List.replicate 256 0, password_len := 0 } ∧
        (auth_feed_all (auth_parser_init p0) (b :: rest)).username = List.replicate 256 0 ∧
        (auth_feed_all (auth_parser_init p0) (b :: rest)).password = List.replicate 256 0 ∧
        (auth_feed_all (auth_parser_init p0) (b :: rest)).username_len = 0 ∧
        (auth_feed_all (auth_parser_init p0) (b :: rest)).password_len = 0) ∧
    (∀ rest,
        (auth_feed_all (auth_parser_init p0) [0x01]).state = auth_ulen ∧
        (auth_feed_all (auth_parser_init p0) [0x01, 0x00]).state = auth_error ∧
        auth_feed_all (auth_parser_init p0) (0x01 :: 0x00 :: rest)
          = { state := auth_error, remaining := 0, idx := 0,
              username := List.replicate 256 0, username_len := 0,
              password := List.replicate 256 0, password_len := 0 } ∧
        (auth_feed_all (auth_parser_init p0) (0x01 :: 0x00 :: rest)).username
          = List.replicate 256 0 ∧
        (auth_feed_all (auth_parser_init p0) (0x01 :: 0x00 :: rest)).password
          = List.replicate 256 0 ∧
        (auth_feed_all (auth_parser_init p0) (0x01 :: 0x00 :: rest)).username_len = 0 ∧
        (auth_feed_all (auth_parser_init p0) (0x01 :: 0x00 :: rest)).password_len = 0) := by
  refine ⟨?_, ?_⟩
  · intro b rest hb
    have h1 : auth_feed_all (auth_parser_init p0) [b] =
        { auth_parser_init p0 with state := auth_error_unsupported_version } := by
      simp only [auth_feed_all, List.foldl_cons, List.foldl_nil]
      rw [auth_feed_version (auth_parser_init p0) b rfl,
        if_neg (show ¬ b = AUTH_VERSION from hb)]
    have h2 : auth_feed_all (auth_parser_init p0) (b :: rest) =
        { auth_parser_init p0 with state := auth_error_unsupported_version } := by
      have := auth_feed_all_append (auth_parser_init p0) [b] rest
      simp only [List.singleton_append] at this
      rw [this, h1]
      exact auth_feed_all_terminal rest _ (Or.inr (Or.inr rfl))
    rw [h2, h1]
    exact ⟨rfl, rfl, rfl, rfl, rfl, rfl⟩
  · intro rest
    have h0 : auth_feed_all (auth_parser_init p0) [0x01] =
        { auth_parser_init p0 with state := auth_ulen } := by
      simp only [auth_feed_all, List.foldl_cons, List.foldl_nil]
      rw [auth_feed_version (auth_parser_init p0) 1 rfl,
        if_pos (show (1 : Nat) = AUTH_VERSION from rfl)]
    have h1 : auth_feed_all (auth_parser_init p0) [0x01, 0x00] =
        { auth_parser_init p0 with state := auth_error } := by
      have := auth_feed_all_append (auth_parser_init p0) [0x01] [0x00]
      simp only [List.singleton_append] at this
      rw [this, h0]
      simp only [auth_feed_all, List.foldl_cons, List.foldl_nil]
      rw [auth_feed_ulen _ 0 rfl, if_neg (by decide)]
    have h2 : auth_feed_all (auth_parser_init p0) (0x01 :: 0x00 :: rest) =
        { auth_parser_init p0 with state := auth_error } := by
      have := auth_feed_all_append (auth_parser_init p0) [0x01, 0x00] rest
      simp only [List.cons_append, List.nil_append] at this
      rw [this, h1]
      exact auth_feed_all_terminal rest _ (Or.inr (Or.inl rfl))
    rw [h2, h1, h0]
    exact ⟨rfl, rfl, rfl, rfl, rfl, rfl, rfl⟩

/-- Claim C8, instance: the SOCKS version byte 05 in place of 01, and `01 00`
followed by a would-be name. -/
theorem C8_auth_parser_rejects_witness :
    (auth_feed_all (auth_parser_init auth_stale) [0x05, 0x01, 0x61]).username
        = List.replicate 256 0 ∧
      (auth_feed_all (auth_parser_init auth_stale) [0x05]).state
        = auth_error_unsupported_version ∧
      (auth_feed_all (auth_parser_init auth_stale) [0x01, 0x00]).state = auth_error :=
  ⟨((C8_auth_parser_rejects auth_stale).1 0x05 [0x01, 0x61] (by decide)).2.2.1,
   ((C8_auth_parser_rejects auth_stale).1 0x05 [0x01, 0x61] (by decide)).1,
   ((C8_auth_parser_rejects auth_stale).2 []).2.1⟩

theorem request_feed_terminal (p : request_parser_t) (b : Nat)
    (h : request_terminal p.state) : request_parser_feed p b = p := by
  unfold request_parser_feed
  rcases h with h | h | h | h | h <;> rw [h]

theorem request_feed_all_terminal (bs : List Nat) (p : request_parser_t)
    (h : request_terminal p.state) : request_feed_all p bs = p := by
  induction bs with
  | nil => rfl
  | cons b bs ih =>
      have hb := request_feed_terminal p b h
      simp only [request_feed_all, List.foldl_cons] at ih ⊢
      rw [hb]; exact ih

theorem request_feed_all_append (p : request_parser_t) (xs ys : List Nat) :
    request_feed_all p (xs ++ ys) = request_feed_all (request_feed_all p xs) ys := by
  simp [request_feed_all, List.foldl_append]

theorem request_is_done_iff (s : request_state) (e : Option Bool) :
    (request_is_done s e).1 = true ↔ request_terminal s := by
  cases s <;> simp [request_is_done, request_terminal]

/-- Claim C5. In a terminal state (done or any error state) `hello_parser_feed`,
`auth_parser_feed` and `request_parser_feed` return the parser exactly as it
was, for every byte: the state returned is the same, every parser field and
every output (the datum behind `data`, username, password, request) is
unchanged; in particular the hello callback, whatever it is, has not run. -/
theorem C5_terminal_states_absorb :
    (∀ (δ : Type) (p : hello_parser_t δ) (b : Nat), hello_terminal p.state →
        hello_parser_feed p b = p ∧ (hello_parser_feed p b).state = p.state
          ∧ (hello_parser_feed p b).data = p.data) ∧
    (∀ (p : auth_parser_t) (b : Nat), auth_terminal p.state →
        auth_parser_feed p b = p ∧ (auth_parser_feed p b).state = p.state) ∧
    (∀ (p : request_parser_t) (b : Nat), request_terminal p.state →
        request_parser_feed p b = p ∧ (request_parser_feed p b).state = p.state) := by
  refine ⟨fun δ p b h => ?_, fun p b h => ?_, fun p b h => ?_⟩
  · rw [hello_feed_terminal p b h]; exact ⟨rfl, rfl, rfl⟩
  · rw [auth_feed_terminal p b h]; exact ⟨rfl, rfl⟩
  · rw [request_feed_terminal p b h]; exact ⟨rfl, rfl⟩

/-- Claim C5, instance: a recording callback sees nothing of a byte fed after
`hello_done`. -/
theorem C5_terminal_states_absorb_witness :
    (hello_parser_feed hello_tracer_done 0x02).data = [0x00, 0x02] :=
  (C5_terminal_states_absorb.1 (List Nat) hello_tracer_done 0x02 (Or.inl rfl)).2.2

/-! ## Request parser -/

theorem request_feed_version (p : request_parser_t) (b : Nat) (h : p.state = request_version) :
    request_parser_feed p b =
      if b = SOCKS_VERSION then { p with state := request_cmd }
      else { p with state := request_error_unsupported_version } := by
  unfold request_parser_feed; rw [h]

theorem request_feed_cmd (p : request_parser_t) (b : Nat) (h : p.state = request_cmd) :
    request_parser_feed p b =
      if b = socks_req_cmd_connect then
        { p with request := { cmd := b, dest_addr_type := p.request.dest_addr_type,
                              dest_addr := p.request.dest_addr,
                              dest_port := p.request.dest_port },
                 state := request_rsv }
      else { p with state := request_error_unsupported_cmd } := by
  unfold request_parser_feed; rw [h]
  by_cases h1 : b = socks_req_cmd_connect
  · simp only [h1, if_true]
  · simp only [h1, if_false, ite_self]

theorem request_feed_rsv (p : request_parser_t) (b : Nat) (h : p.state = request_rsv) :
    request_parser_feed p b = { p with state := request_atyp } := by
  unfold request_parser_feed; rw [h]

theorem request_feed_atyp (p : request_parser_t) (b : Nat) (h : p.state = request_atyp) :
    request_parser_feed p b =
      if b = socks_req_addrtype_ipv4 then
        { p with request := { cmd := p.request.cmd, dest_addr_type := b,
                              dest_addr := p.request.dest_addr,
                              dest_port := p.request.dest_port },
                 remaining := 4, addr_idx := 0, state := request_dstaddr }
      else if b = socks_req_addrtype_domain then
        { p with request := { cmd := p.request.cmd, dest_addr_type := b,
                              dest_addr := p.request.dest_addr,
                              dest_port := p.request.dest_port },
                 state := request_dstaddr_fqdn_len }
      else if b = socks_req_addrtype_ipv6 then
        { p with request := { cmd := p.request.cmd, dest_addr_type := b,
                              dest_addr := p.request.dest_addr,
                              dest_port := p.request.dest_port },
                 remaining := 16, addr_idx := 0, state := request_dstaddr }
      else { p with request := { cmd := p.request.cmd, dest_addr_type := b,
                                 dest_addr := p.request.dest_addr,
                                 dest_port := p.request.dest_port },
                    state := request_error_unsupported_atyp } := by
  unfold request_parser_feed; rw [h]

theorem request_feed_fqdn_len (p : request_parser_t) (b : Nat)
    (h : p.state = request_dstaddr_fqdn_len) :
    request_parser_feed p b =
      if b > 0 then { p with remaining := b, addr_idx := 0, state := request_dstaddr }
      else { p with state := request_error } := by
  unfold request_parser_feed; rw [h]

/-- A byte of the address before the last one, in `request_dstaddr`. -/
theorem request_feed_dstaddr_more (p : request_parser_t) (b : Nat)
    (h : p.state = request_dstaddr)
    (ht : p.request.dest_addr_type = socks_req_addrtype_ipv4
      ∨ p.request.dest_addr_type = socks_req_addrtype_ipv6
      ∨ p.request.dest_addr_type = socks_req_addrtype_domain)
    (hr : 2 ≤ p.remaining) (hr2 : p.remaining ≤ 255) (hi : p.addr_idx < 255) :
    request_parser_feed p b =
      { p with request := { cmd := p.request.cmd, dest_addr_type := p.request.dest_addr_type,
                            dest_addr := p.request.dest_addr.set p.addr_idx b,
                            dest_port := p.request.dest_port },
               addr_idx := p.addr_idx + 1, remaining := p.remaining - 1 } := by
  have h1 : (p.remaining + 255) % 256 = p.remaining - 1 := by omega
  have h2 : p.remaining - 1 ≠ 0 := by omega
  have h3 : (p.addr_idx + 1) % 256 = p.addr_idx + 1 := by omega
  unfold request_parser_feed; rw [h]
  rcases ht with ht | ht | ht <;>
    simp [ht, h1, h2, h3, socks_req_addrtype_ipv4, socks_req_addrtype_ipv6,
      socks_req_addrtype_domain]

/-- The last byte of the address, in `request_dstaddr`. -/
theorem request_feed_dstaddr_last (p : request_parser_t) (b : Nat)
    (h : p.state = request_dstaddr)
    (ht : p.request.dest_addr_type = socks_req_addrtype_ipv4
      ∨ p.request.dest_addr_type = socks_req_addrtype_ipv6
      ∨ p.request.dest_addr_type = socks_req_addrtype_domain)
    (hr : p.remaining = 1) (hi : p.addr_idx < 255) :
    request_parser_feed p b =
      { p with request :=
                 { cmd := p.request.cmd, dest_addr_type := p.request.dest_addr_type,
                   dest_addr :=
                     (if p.request.dest_addr_type = socks_req_addrtype_domain then
                       (p.request.dest_addr.set p.addr_idx b).set (p.addr_idx + 1) 0
                     else p.request.dest_addr.set p.addr_idx b),
                   dest_port := p.request.dest_port },
               addr_idx := 0, remaining := 2, state := request_dstport } := by
  have h3 : (p.addr_idx + 1) % 256 = p.addr_idx + 1 := by omega
  unfold request_parser_feed; rw [h]
  rcases ht with ht | ht | ht <;>
    simp [ht, hr, h3, socks_req_addrtype_ipv4, socks_req_addrtype_ipv6,
      socks_req_addrtype_domain]

/-- While strictly fewer bytes than `remaining` have been fed in `request_dstaddr`,
they are stored one after another from `addr_idx` on. -/
theorem request_dstaddr_partial (xs : List Nat) :
    ∀ p : request_parser_t, p.state = request_dstaddr →
      (p.request.dest_addr_type = socks_req_addrtype_ipv4
        ∨ p.request.dest_addr_type = socks_req_addrtype_ipv6
        ∨ p.request.dest_addr_type = socks_req_addrtype_domain) →
      xs.length < p.remaining → p.addr_idx + p.remaining ≤ 255 →
      request_feed_all p xs =
        { p with request :=
                   { cmd := p.request.cmd, dest_addr_type := p.request.dest_addr_type,
                     dest_addr := memcpy p.request.dest_addr p.addr_idx xs,
                     dest_port := p.request.dest_port },
                 addr_idx := p.addr_idx + xs.length,
                 remaining := p.remaining - xs.length } := by
  induction xs with
  | nil => intro p _ _ _ _; simp [request_feed_all, memcpy]
  | cons x xs ih =>
      intro p hst ht hlen hle
      simp only [List.length_cons] at hlen
      simp only [request_feed_all, List.foldl_cons] at ih ⊢
      rw [request_feed_dstaddr_more p x hst ht (by omega) (by omega) (by omega),
        ih { p with request :=
                      { cmd := p.request.cmd, dest_addr_type := p.request.dest_addr_type,
                        dest_addr := p.request.dest_addr.set p.addr_idx x,
                        dest_port := p.request.dest_port },
                    addr_idx := p.addr_idx + 1, remaining := p.remaining - 1 } hst ht
          (by simp only; omega) (by simp only; omega)]
      simp only [List.length_cons, memcpy, request_parser_t.mk.injEq, true_and, and_true]
      omega

/-- Feeding exactly `remaining` bytes in `request_dstaddr` stores them, a domain
name being terminated with a NUL, and moves to `request_dstport`. -/
theorem request_dstaddr_complete (xs : List Nat) (p : request_parser_t)
    (hst : p.state = request_dstaddr)
    (ht : p.request.dest_addr_type = socks_req_addrtype_ipv4
      ∨ p.request.dest_addr_type = socks_req_addrtype_ipv6
      ∨ p.request.dest_addr_type = socks_req_addrtype_domain)
    (hlen : xs.length = p.remaining) (hpos : 1 ≤ p.remaining)
    (hle : p.addr_idx + p.remaining ≤ 255) :
    request_feed_all p xs =
      { p with request :=
                 { cmd := p.request.cmd, dest_addr_type := p.request.dest_addr_type,
                   dest_addr :=
                     (if p.request.dest_addr_type = socks_req_addrtype_domain then
                       memcpy p.request.dest_addr p.addr_idx (xs ++ [0])
                     else memcpy p.request.dest_addr p.addr_idx xs),
                   dest_port := p.request.dest_port },
               addr_idx := 0, remaining := 2, state := request_dstport } := by
  obtain ⟨init, last, rfl⟩ : ∃ init last, xs = init ++ [last] := by
    rcases List.eq_nil_or_concat xs with h | ⟨i, l, h⟩
    · subst h; simp at hlen; omega
    · exact ⟨i, l, by simpa using h⟩
  simp only [List.length_append, List.length_singleton] at hlen
  rw [request_feed_all_append, request_dstaddr_partial init p hst ht (by omega) hle]
  have hone : ∀ q : request_parser_t, request_feed_all q [last] = request_parser_feed q last :=
    fun _ => rfl
  rw [hone, request_feed_dstaddr_last
    { p with request :=
               { cmd := p.request.cmd, dest_addr_type := p.request.dest_addr_type,
                 dest_addr := memcpy p.request.dest_addr p.addr_idx init,
                 dest_port := p.request.dest_port },
             addr_idx := p.addr_idx + init.length,
             remaining := p.remaining - init.length } last hst ht
    (by simp only; omega) (by simp only; omega)]
  simp only [memcpy_snoc]
  rw [Nat.add_assoc, ← List.length_singleton last, ← List.length_append, memcpy_snoc]

/-- The two port bytes, in `request_dstport`. -/
theorem request_dstport_complete (p : request_parser_t) (p1 p2 : Nat)
    (hst : p.state = request_dstport) (hr : p.remaining = 2) (hi : p.addr_idx = 0) :
    request_parser_feed p p1 =
        { p with request := { cmd := p.request.cmd, dest_addr_type := p.request.dest_addr_type,
                              dest_addr := p.request.dest_addr,
                              dest_port := p.request.dest_port.set 0 p1 },
                 addr_idx := 1, remaining := 1 } ∧
    request_feed_all p [p1, p2] =
      { p with request := { cmd := p.request.cmd, dest_addr_type := p.request.dest_addr_type,
                            dest_addr := p.request.dest_addr,
                            dest_port := (p.request.dest_port.set 0 p1).set 1 p2 },
               addr_idx := 2, remaining := 0, state := request_done } := by
  have h1 : request_parser_feed p p1 =
        { p with request := { cmd := p.request.cmd, dest_addr_type := p.request.dest_addr_type,
                              dest_addr := p.request.dest_addr,
                              dest_port := p.request.dest_port.set 0 p1 },
                 addr_idx := 1, remaining := 1 } := by
    unfold request_parser_feed; rw [hst]; simp [hr, hi]
  refine ⟨h1, ?_⟩
  simp only [request_feed_all, List.foldl_cons, List.foldl_nil]
  rw [h1]
  unfold request_parser_feed
  simp [hst]

theorem request_wire_eq (rsv atyp : Nat) (addr : List Nat) (p1 p2 : Nat) :
    request_wire rsv atyp addr p1 p2 = request_header rsv atyp addr ++ (addr ++ [p1, p2]) := by
  unfold request_wire request_header
  by_cases h : atyp = 0x03 <;> simp [h]

theorem request_header_length (rsv atyp : Nat) (addr : List Nat) :
    (request_header rsv atyp addr).length = if atyp = 0x03 then 5 else 4 := by
  unfold request_header
  by_cases h : atyp = 0x03 <;> simp [h]

/-- The parser after `05 01 RSV`. -/
theorem request_after_rsv (p0 : request_parser_t) (rsv : Nat) :
    request_feed_all (request_parser_init p0) [0x05, 0x01, rsv] =
      { request := { cmd := 1, dest_addr_type := 0, dest_addr := List.replicate 256 0,
                     dest_port := List.replicate 2 0 },
        state := request_atyp, remaining := 0, addr_idx := 0 } := by
  simp only [request_feed_all, List.foldl_cons, List.foldl_nil]
  rw [request_feed_version (request_parser_init p0) 5 rfl,
    if_pos (show (5 : Nat) = SOCKS_VERSION from rfl), request_feed_cmd _ 1 rfl,
    if_pos (show (1 : Nat) = socks_req_cmd_connect from rfl), request_feed_rsv _ rsv rfl]
  rfl

/-- The parser after the header of a well-formed CONNECT request: about to read
`|addr|` address bytes into a zeroed `dest_addr`. -/
theorem request_after_header (p0 : request_parser_t) (rsv atyp : Nat) (addr : List Nat)
    (hok : request_addr_ok atyp addr) :
    request_feed_all (request_parser_init p0) (request_header rsv atyp addr) =
      { request := { cmd := 1, dest_addr_type := atyp, dest_addr := List.replicate 256 0,
                     dest_port := List.replicate 2 0 },
        state := request_dstaddr, remaining := addr.length, addr_idx := 0 } := by
  have hone : ∀ (q : request_parser_t) (b : Nat),
      request_feed_all q [b] = request_parser_feed q b := fun _ _ => rfl
  have htwo : ∀ (q : request_parser_t) (b c : Nat),
      request_feed_all q [b, c] = request_parser_feed (request_parser_feed q b) c :=
    fun _ _ _ => rfl
  rcases hok with ⟨ht, hl⟩ | ⟨ht, hl⟩ | ⟨ht, hl1, hl2⟩
  · subst ht
    have h := request_feed_all_append (request_parser_init p0) [0x05, 0x01, rsv] [0x01]
    simp only [List.cons_append, List.nil_append] at h
    simp only [request_header, if_neg (show ¬ (1 : Nat) = 3 by decide), List.append_nil]
    rw [h, request_after_rsv, hone, request_feed_atyp _ 1 rfl,
      if_pos (show (1 : Nat) = socks_req_addrtype_ipv4 from rfl), hl]
  · subst ht
    have h := request_feed_all_append (request_parser_init p0) [0x05, 0x01, rsv] [0x04]
    simp only [List.cons_append, List.nil_append] at h
    simp only [request_header, if_neg (show ¬ (4 : Nat) = 3 by decide), List.append_nil]
    rw [h, request_after_rsv, hone, request_feed_atyp _ 4 rfl,
      if_neg (show ¬ (4 : Nat) = socks_req_addrtype_ipv4 by decide),
      if_neg (show ¬ (4 : Nat) = socks_req_addrtype_domain by decide),
      if_pos (show (4 : Nat) = socks_req_addrtype_ipv6 from rfl), hl]
  · subst ht
    have h := request_feed_all_append (request_parser_init p0) [0x05, 0x01, rsv]
      [0x03, addr.length]
    simp only [List.cons_append, List.nil_append] at h
    simp only [request_header, if_pos, List.cons_append, List.nil_append]
    rw [h, request_after_rsv, htwo, request_feed_atyp _ 3 rfl,
      if_neg (show ¬ (3 : Nat) = socks_req_addrtype_ipv4 by decide),
      if_pos (show (3 : Nat) = socks_req_addrtype_domain from rfl),
      request_feed_fqdn_len _ _ rfl, if_pos (show addr.length > 0 from hl1)]

theorem request_addr_ok_type {atyp : Nat} {addr : List Nat} (hok : request_addr_ok atyp addr) :
    atyp = socks_req_addrtype_ipv4 ∨ atyp = socks_req_addrtype_ipv6
      ∨ atyp = socks_req_addrtype_domain := by
  rcases hok with ⟨ht, _⟩ | ⟨ht, _⟩ | ⟨ht, _⟩
  · exact Or.inl ht
  · exact Or.inr (Or.inl ht)
  · exact Or.inr (Or.inr ht)

theorem request_addr_ok_length {atyp : Nat} {addr : List Nat} (hok : request_addr_ok atyp addr) :
    1 ≤ addr.length ∧ addr.length ≤ 255 := by
  rcases hok with ⟨_, hl⟩ | ⟨_, hl⟩ | ⟨_, hl1, hl2⟩ <;> omega

/-- Storing a string at the start of a zeroed 256-byte array. -/
theorem memcpy_zeroed (xs : List Nat) (h : xs.length ≤ 256) :
    memcpy (List.replicate 256 0) 0 xs = xs ++ List.replicate (256 - xs.length) 0 := by
  rw [memcpy_eq _ _ _ (by simp only [List.length_replicate]; omega)]
  simp only [List.take_zero, List.nil_append, List.drop_replicate, Nat.zero_add]

/-- The parser after the header and address of a well-formed CONNECT request. -/
theorem request_after_addr (p0 : request_parser_t) (rsv atyp : Nat) (addr : List Nat)
    (hok : request_addr_ok atyp addr) :
    request_feed_all (request_parser_init p0) (request_header rsv atyp addr ++ addr) =
      { request := { cmd := 1, dest_addr_type := atyp,
                     dest_addr := addr ++ List.replicate (256 - addr.length) 0,
                     dest_port := List.replicate 2 0 },
        state := request_dstport, remaining := 2, addr_idx := 0 } := by
  have hl := request_addr_ok_length hok
  rw [request_feed_all_append, request_after_header p0 rsv atyp addr hok,
    request_dstaddr_complete addr _ rfl (request_addr_ok_type hok) rfl hl.1
      (by simp only; omega)]
  simp only [memcpy_zeroed_terminated addr hl.2, memcpy_zeroed addr (by omega), ite_self]

/-- The parser after a whole well-formed CONNECT request. -/
theorem request_after_wire (p0 : request_parser_t) (rsv atyp : Nat) (addr : List Nat)
    (p1 p2 : Nat) (hok : request_addr_ok atyp addr) :
    request_feed_all (request_parser_init p0) (request_wire rsv atyp addr p1 p2) =
      { request := { cmd := 1, dest_addr_type := atyp,
                     dest_addr := addr ++ List.replicate (256 - addr.length) 0,
                     dest_port := [p1, p2] },
        state := request_done, remaining := 0, addr_idx := 2 } := by
  rw [request_wire_eq, ← List.append_assoc, request_feed_all_append,
    request_after_addr p0 rsv atyp addr hok,
    (request_dstport_complete _ p1 p2 rfl rfl rfl).2]
  rfl

/-- No proper prefix of the first four bytes `05 01 RSV ATYP` of a request, nor
these bytes followed by anything short of the address, is terminal: the states
after 0, 1, 2 and 3 bytes. -/
theorem request_prefix_head (p0 : request_parser_t) (rsv : Nat) (tl : List Nat)
    (k : Nat) (hk : k ≤ 3) :
    ¬ request_terminal
      (request_feed_all (request_parser_init p0) ((0x05 :: 0x01 :: rsv :: tl).take k)).state := by
  have hone : ∀ (q : request_parser_t) (b : Nat),
      request_feed_all q [b] = request_parser_feed q b := fun _ _ => rfl
  have htwo : ∀ (q : request_parser_t) (b c : Nat),
      request_feed_all q [b, c] = request_parser_feed (request_parser_feed q b) c :=
    fun _ _ _ => rfl
  match k with
  | 0 =>
      simp only [List.take_zero, request_feed_all, List.foldl_nil]
      rw [show (request_parser_init p0).state = request_version from rfl]
      simp [request_terminal]
  | 1 =>
      simp only [List.take_succ_cons, List.take_zero]
      rw [hone, request_feed_version (request_parser_init p0) 5 rfl,
        if_pos (show (5 : Nat) = SOCKS_VERSION from rfl)]
      simp [request_terminal]
  | 2 =>
      simp only [List.take_succ_cons, List.take_zero]
      rw [htwo, request_feed_version (request_parser_init p0) 5 rfl,
        if_pos (show (5 : Nat) = SOCKS_VERSION from rfl), request_feed_cmd _ 1 rfl,
        if_pos (show (1 : Nat) = socks_req_cmd_connect from rfl)]
      simp [request_terminal]
  | 3 =>
      simp only [List.take_succ_cons, List.take_zero]
      rw [request_after_rsv]
      simp [request_terminal]

/-- No proper prefix of a well-formed CONNECT request leaves the parser in a
terminal state. -/
theorem request_prefix_not_terminal (p0 : request_parser_t) (rsv atyp : Nat)
    (addr : List Nat) (p1 p2 : Nat) (hok : request_addr_ok atyp addr)
    (k : Nat) (hk : k < (request_wire rsv atyp addr p1 p2).length) :
    ¬ request_terminal (request_feed_all (request_parser_init p0)
        ((request_wire rsv atyp addr p1 p2).take k)).state := by
  have hl := request_addr_ok_length hok
  have hone : ∀ (q : request_parser_t) (b : Nat),
      request_feed_all q [b] = request_parser_feed q b := fun _ _ => rfl
  by_cases hk3 : k ≤ 3
  · have hw : request_wire rsv atyp addr p1 p2 = 0x05 :: 0x01 :: rsv
        :: (atyp :: ((if atyp = 0x03 then addr.length :: addr else addr) ++ [p1, p2])) := by
      simp [request_wire]
    rw [hw]
    exact request_prefix_head p0 rsv _ k hk3
  · by_cases hk4 : k < (request_header rsv atyp addr).length
    · -- only a domain request has a fifth header byte
      rw [request_header_length] at hk4
      have hdom : atyp = 0x03 := by
        by_contra hne
        rw [if_neg hne] at hk4
        omega
      have hk' : k = 4 := by rw [if_pos hdom] at hk4; omega
      subst hk' hdom
      have hw : request_wire rsv 0x03 addr p1 p2
          = 0x05 :: 0x01 :: rsv :: 0x03 :: (addr.length :: addr ++ [p1, p2]) := by
        simp [request_wire]
      rw [hw]
      simp only [List.take_succ_cons, List.take_zero]
      have h := request_feed_all_append (request_parser_init p0) [0x05, 0x01, rsv] [0x03]
      simp only [List.cons_append, List.nil_append] at h
      rw [h, request_after_rsv, hone, request_feed_atyp _ 3 rfl,
        if_neg (show ¬ (3 : Nat) = socks_req_addrtype_ipv4 by decide),
        if_pos (show (3 : Nat) = socks_req_addrtype_domain from rfl)]
      simp [request_terminal]
    · rw [request_wire_eq] at hk ⊢
      simp only [List.length_append, List.length_cons, List.length_nil] at hk
      obtain ⟨j, rfl⟩ : ∃ j, k = (request_header rsv atyp addr).length + j :=
        ⟨k - (request_header rsv atyp addr).length, by omega⟩
      have hj : j < addr.length + 2 := by omega
      rw [List.take_append_eq_append_take, List.take_of_length_le (by omega),
        Nat.add_sub_cancel_left, request_feed_all_append]
      rcases Nat.lt_trichotomy j addr.length with hja | hja | hja
      · rw [List.take_append_of_le_length (by omega),
          request_after_header p0 rsv atyp addr hok,
          request_dstaddr_partial (addr.take j) _ rfl (request_addr_ok_type hok)
            (by simp only [List.length_take]; omega) (by simp only; omega)]
        simp [request_terminal]
      · have ht : List.take j (addr ++ [p1, p2]) = addr := by
          rw [hja]; exact List.take_left _ _
        rw [ht, ← request_feed_all_append, request_after_addr p0 rsv atyp addr hok]
        simp [request_terminal]
      · have hj' : j = addr.length + 1 := by omega
        have ht : List.take j (addr ++ [p1, p2]) = addr ++ [p1] := by
          rw [hj', List.take_append_eq_append_take, List.take_of_length_le (by omega)]
          have : addr.length + 1 - addr.length = 1 := by omega
          rw [this]; rfl
        rw [ht, ← request_feed_all_append, ← List.append_assoc, request_feed_all_append,
          request_after_addr p0 rsv atyp addr hok, hone,
          (request_dstport_complete _ p1 p2 rfl rfl rfl).1]
        simp [request_terminal]

/-- Claim C1. For every reserved byte, port bytes `p1 p2` and address payload
(4 bytes with ATYP 01, 16 bytes with ATYP 04, or 1 to 255 bytes preceded by their
length with ATYP 03), feeding `05 01 RSV ATYP ADDR p1 p2` to
`request_parser_feed` from the initial state reaches `request_done` on the last
byte, no proper prefix reaching a terminal state; then `cmd` is CONNECT,
`dest_addr_type` is ATYP, `dest_addr` holds the address bytes in wire order
followed by zeroes (so a domain name is followed by a NUL at index `L`; the byte
there is read with a non-zero default, so the zero found is a stored byte), and
`dest_port` holds `p1 p2`, whose network-order value is `256 * p1 + p2`. -/
theorem C1_request_parser_accepts (p0 : request_parser_t) (rsv atyp : Nat)
    (addr : List Nat) (p1 p2 : Nat) (hok : request_addr_ok atyp addr) :
    (request_feed_all (request_parser_init p0) (request_wire rsv atyp addr p1 p2)).state
      = request_done ∧
    (∀ k, k < (request_wire rsv atyp addr p1 p2).length →
      ¬ request_terminal (request_feed_all (request_parser_init p0)
          ((request_wire rsv atyp addr p1 p2).take k)).state) ∧
    (request_feed_all (request_parser_init p0) (request_wire rsv atyp addr p1 p2)).request.cmd
      = socks_req_cmd_connect ∧
    (request_feed_all (request_parser_init p0)
      (request_wire rsv atyp addr p1 p2)).request.dest_addr_type = atyp ∧
    (request_feed_all (request_parser_init p0)
      (request_wire rsv atyp addr p1 p2)).request.dest_addr
      = addr ++ List.replicate (256 - addr.length) 0 ∧
    ((request_feed_all (request_parser_init p0)
      (request_wire rsv atyp addr p1 p2)).request.dest_addr.take addr.length = addr) ∧
    ((request_feed_all (request_parser_init p0)
      (request_wire rsv atyp addr p1 p2)).request.dest_addr.getD addr.length 1 = 0) ∧
    (request_feed_all (request_parser_init p0)
      (request_wire rsv atyp addr p1 p2)).request.dest_port = [p1, p2] ∧
    ntohs (request_feed_all (request_parser_init p0)
      (request_wire rsv atyp addr p1 p2)).request.dest_port = 256 * p1 + p2 := by
  have hl := request_addr_ok_length hok
  rw [request_after_wire p0 rsv atyp addr p1 p2 hok]
  refine ⟨rfl, fun k hk => request_prefix_not_terminal p0 rsv atyp addr p1 p2 hok k hk,
    rfl, rfl, rfl, List.take_left _ _, ?_, rfl, rfl⟩
  simp only
  rw [List.getD_eq_getElem?_getD, List.getElem?_append_right (Nat.le_refl _), Nat.sub_self]
  have : 256 - addr.length = (255 - addr.length) + 1 := by omega
  rw [this, List.replicate_succ]
  simp

/-- Claim C1, instance: `05 01 00 01 7F 00 00 01 00 50` is a CONNECT to the IPv4
address 127.0.0.1, port 80. -/
theorem C1_request_parser_accepts_witness :
    (request_feed_all (request_parser_init request_stale)
        [0x05, 0x01, 0x00, 0x01, 0x7F, 0x00, 0x00, 0x01, 0x00, 0x50]).state = request_done ∧
    (request_feed_all (request_parser_init request_stale)
        [0x05, 0x01, 0x00, 0x01, 0x7F, 0x00, 0x00, 0x01, 0x00, 0x50]).request.dest_addr_type
      = socks_req_addrtype_ipv4 ∧
    (request_feed_all (request_parser_init request_stale)
        [0x05, 0x01, 0x00, 0x01, 0x7F, 0x00, 0x00, 0x01, 0x00, 0x50]).request.dest_addr.take 4
      = [127, 0, 0, 1] ∧
    ntohs (request_feed_all (request_parser_init request_stale)
        [0x05, 0x01, 0x00, 0x01, 0x7F, 0x00, 0x00, 0x01, 0x00, 0x50]).request.dest_port = 80 := by
  have h := C1_request_parser_accepts request_stale 0x00 0x01 [0x7F, 0x00, 0x00, 0x01]
    0x00 0x50 (Or.inl ⟨rfl, rfl⟩)
  exact ⟨h.1, h.2.2.2.1, h.2.2.2.2.2.1, h.2.2.2.2.2.2.2.2⟩

theorem request_feed_past_checks (p : request_parser_t) (b : Nat)
    (h : request_past_checks p.state) : request_past_checks (request_parser_feed p b).state := by
  unfold request_parser_feed
  rcases h with h | h | h <;> rw [h] <;> simp only []
  · split_ifs <;> simp [request_past_checks, h]
  · split_ifs <;> simp [request_past_checks, h]
  · rw [h]; exact Or.inr (Or.inr rfl)

theorem request_feed_all_past_checks (bs : List Nat) :
    ∀ p : request_parser_t, request_past_checks p.state →
      request_past_checks (request_feed_all p bs).state := by
  induction bs with
  | nil => intro p h; exact h
  | cons b bs ih =>
      intro p h
      simp only [request_feed_all, List.foldl_cons] at ih ⊢
      exact ih _ (request_feed_past_checks p b h)

theorem request_past_checks_not_errored {s : request_state} (h : request_past_checks s) :
    ¬ request_errored s := by
  rcases h with h | h | h <;> subst h <;> simp [request_errored]

theorem request_feed_all_cons (p : request_parser_t) (b : Nat) (bs : List Nat) :
    request_feed_all p (b :: bs) = request_feed_all (request_parser_feed p b) bs := rfl

theorem request_not_errored_nil (p : request_parser_t) (h : ¬ request_errored p.state) :
    ¬ request_errored (request_feed_all p []).state := h

/-- Claim C9. From the initial state of the request parser the error state is
decided by the first offending field, whatever follows it: a version byte other
than 0x05 gives `request_error_unsupported_version`; after 05, a command byte
other than 0x01 (BIND 0x02 and UDP ASSOCIATE 0x03 among them) gives
`request_error_unsupported_cmd`; after `05 01` and any reserved byte, an address
type other than 0x01, 0x03, 0x04 gives `request_error_unsupported_atyp`; after
`05 01 RSV 03`, a length byte 0 gives `request_error`; and an input that leaves
the parser in an error state starts in one of these four ways. -/
theorem C9_request_parser_errors (p0 : request_parser_t) :
    (∀ v rest, v ≠ 0x05 →
      (request_feed_all (request_parser_init p0) (v :: rest)).state
        = request_error_unsupported_version) ∧
    (∀ c rest, c ≠ 0x01 →
      (request_feed_all (request_parser_init p0) (0x05 :: c :: rest)).state
        = request_error_unsupported_cmd) ∧
    (request_feed_all (request_parser_init p0) [0x05, socks_req_cmd_bind]).state
        = request_error_unsupported_cmd ∧
    (request_feed_all (request_parser_init p0) [0x05, socks_req_cmd_udp_associate]).state
        = request_error_unsupported_cmd ∧
    (∀ r a rest, a ≠ 0x01 → a ≠ 0x03 → a ≠ 0x04 →
      (request_feed_all (request_parser_init p0) (0x05 :: 0x01 :: r :: a :: rest)).state
        = request_error_unsupported_atyp) ∧
    (∀ r rest,
      (request_feed_all (request_parser_init p0) (0x05 :: 0x01 :: r :: 0x03 :: 0x00 :: rest)).state
        = request_error) ∧
    (∀ bs, request_errored (request_feed_all (request_parser_init p0) bs).state →
      (∃ v rest, bs = v :: rest ∧ v ≠ 0x05) ∨
      (∃ c rest, bs = 0x05 :: c :: rest ∧ c ≠ 0x01) ∨
      (∃ r a rest, bs = 0x05 :: 0x01 :: r :: a :: rest ∧ a ≠ 0x01 ∧ a ≠ 0x03 ∧ a ≠ 0x04) ∨
      (∃ r rest, bs = 0x05 :: 0x01 :: r :: 0x03 :: 0x00 :: rest)) := by
  have hver : ∀ v rest, v ≠ 0x05 →
      (request_feed_all (request_parser_init p0) (v :: rest)).state
        = request_error_unsupported_version := by
    intro v rest hv
    rw [request_feed_all_cons, request_feed_version _ v rfl,
      if_neg (show ¬ v = SOCKS_VERSION from hv),
      request_feed_all_terminal rest _ (Or.inr (Or.inr (Or.inl rfl)))]
  have h5 : request_parser_feed (request_parser_init p0) 0x05
      = { request := (request_parser_init p0).request, state := request_cmd,
          remaining := 0, addr_idx := 0 } := by
    rw [request_feed_version _ 5 rfl, if_pos (show (5 : Nat) = SOCKS_VERSION from rfl)]
    rfl
  have hcmd : ∀ c rest, c ≠ 0x01 →
      (request_feed_all (request_parser_init p0) (0x05 :: c :: rest)).state
        = request_error_unsupported_cmd := by
    intro c rest hc
    rw [request_feed_all_cons, h5, request_feed_all_cons, request_feed_cmd _ c rfl,
      if_neg (show ¬ c = socks_req_cmd_connect from hc),
      request_feed_all_terminal rest _ (Or.inr (Or.inr (Or.inr (Or.inr rfl))))]
  have h3 : ∀ r, request_feed_all (request_parser_init p0) [0x05, 0x01, r]
      = { request := { cmd := 1, dest_addr_type := 0, dest_addr := List.replicate 256 0,
                       dest_port := List.replicate 2 0 },
          state := request_atyp, remaining := 0, addr_idx := 0 } :=
    fun r => request_after_rsv p0 r
  have hsplit : ∀ r tl, request_feed_all (request_parser_init p0) (0x05 :: 0x01 :: r :: tl)
      = request_feed_all
          { request := { cmd := 1, dest_addr_type := 0, dest_addr := List.replicate 256 0,
                         dest_port := List.replicate 2 0 },
            state := request_atyp, remaining := 0, addr_idx := 0 } tl := by
    intro r tl
    have h := request_feed_all_append (request_parser_init p0) [0x05, 0x01, r] tl
    simp only [List.cons_append, List.nil_append] at h
    rw [h, h3]
  have hatyp : ∀ r a rest, a ≠ 0x01 → a ≠ 0x03 → a ≠ 0x04 →
      (request_feed_all (request_parser_init p0) (0x05 :: 0x01 :: r :: a :: rest)).state
        = request_error_unsupported_atyp := by
    intro r a rest h1 h2 h4
    rw [hsplit, request_feed_all_cons, request_feed_atyp _ a rfl,
      if_neg (show ¬ a = socks_req_addrtype_ipv4 from h1),
      if_neg (show ¬ a = socks_req_addrtype_domain from h2),
      if_neg (show ¬ a = socks_req_addrtype_ipv6 from h4),
      request_feed_all_terminal rest _ (Or.inr (Or.inr (Or.inr (Or.inl rfl))))]
  have hlen : ∀ r rest,
      (request_feed_all (request_parser_init p0) (0x05 :: 0x01 :: r :: 0x03 :: 0x00 :: rest)).state
        = request_error := by
    intro r rest
    rw [hsplit, request_feed_all_cons, request_feed_atyp _ 3 rfl,
      if_neg (show ¬ (3 : Nat) = socks_req_addrtype_ipv4 by decide),
      if_pos (show (3 : Nat) = socks_req_addrtype_domain from rfl),
      request_feed_all_cons, request_feed_fqdn_len _ 0 rfl, if_neg (by decide),
      request_feed_all_terminal rest _ (Or.inr (Or.inl rfl))]
  refine ⟨hver, hcmd, hcmd 2 [] (by decide), hcmd 3 [] (by decide), hatyp, hlen, ?_⟩
  intro bs herr
  match bs with
  | [] =>
      rw [show (request_feed_all (request_parser_init p0) []).state = request_version from rfl]
        at herr
      exact absurd herr (by simp [request_errored])
  | v :: rest =>
    by_cases hv : v = 0x05
    swap
    · exact Or.inl ⟨v, rest, rfl, hv⟩
    subst hv
    right
    match rest with
    | [] =>
        rw [request_feed_all_cons, h5] at herr
        exact absurd herr (by simp [request_feed_all, request_errored])
    | c :: rest =>
      by_cases hc : c = 0x01
      swap
      · exact Or.inl ⟨c, rest, rfl, hc⟩
      subst hc
      right
      match rest with
      | [] =>
          rw [request_feed_all_cons, h5, request_feed_all_cons, request_feed_cmd _ 1 rfl,
            if_pos (show (1 : Nat) = socks_req_cmd_connect from rfl)] at herr
          exact absurd herr (by simp [request_feed_all, request_errored])
      | r :: rest =>
        rw [hsplit] at herr
        match rest with
        | [] => exact absurd herr (request_not_errored_nil _ (by decide))
        | a :: rest =>
          rw [request_feed_all_cons, request_feed_atyp _ a rfl] at herr
          by_cases h1 : a = 0x01
          · subst h1
            rw [if_pos (show (1 : Nat) = socks_req_addrtype_ipv4 from rfl)] at herr
            exact absurd herr (request_past_checks_not_errored
              (request_feed_all_past_checks rest _ (Or.inl rfl)))
          by_cases h3 : a = 0x03
          · subst h3
            rw [if_neg (show ¬ (3 : Nat) = socks_req_addrtype_ipv4 by decide),
              if_pos (show (3 : Nat) = socks_req_addrtype_domain from rfl)] at herr
            match rest with
            | [] => exact absurd herr (request_not_errored_nil _ (by decide))
            | l :: rest =>
              by_cases hl : l = 0
              · subst hl
                exact Or.inr ⟨r, rest, rfl⟩
              · rw [request_feed_all_cons, request_feed_fqdn_len _ l rfl,
                  if_pos (show l > 0 by omega)] at herr
                exact absurd herr (request_past_checks_not_errored
                  (request_feed_all_past_checks rest _ (Or.inl rfl)))
          by_cases h4 : a = 0x04
          · subst h4
            rw [if_neg (show ¬ (4 : Nat) = socks_req_addrtype_ipv4 by decide),
              if_neg (show ¬ (4 : Nat) = socks_req_addrtype_domain by decide),
              if_pos (show (4 : Nat) = socks_req_addrtype_ipv6 from rfl)] at herr
            exact absurd herr (request_past_checks_not_errored
              (request_feed_all_past_checks rest _ (Or.inl rfl)))
          exact Or.inl ⟨r, a, rest, rfl, h1, h3, h4⟩

/-- Claim C9, instance: the BIND request `05 02 00 01 7F 00 00 01 00 50` is
refused at its command byte. -/
theorem C9_request_parser_errors_witness :
    (request_feed_all (request_parser_init request_stale)
        [0x05, 0x02, 0x00, 0x01, 0x7F, 0x00, 0x00, 0x01, 0x00, 0x50]).state
      = request_error_unsupported_cmd :=
  (C9_request_parser_errors request_stale).2.1 0x02
    [0x00, 0x01, 0x7F, 0x00, 0x00, 0x01, 0x00, 0x50] (by decide)

/-! ## Method selection -/

theorem auth_required_iff (tbl : user_table) :
    auth_required tbl = true ↔ ∃ u, some u ∈ tbl := by
  unfold auth_required
  rw [List.any_eq_true]
  constructor
  · rintro ⟨x, hx, hs⟩
    cases x with
    | none => simp at hs
    | some u => exact ⟨u, hx⟩
  · rintro ⟨u, hu⟩
    exact ⟨some u, hu, rfl⟩

/-- The selection left by running `on_hello_method` over a method list. -/
theorem on_hello_method_foldl (tbl : user_table) (L : List Nat) :
    ∀ sel : Nat, L.foldl (on_hello_method tbl) sel =
      if auth_required tbl then
        (if SOCKS_HELLO_USERNAME_PASSWORD ∈ L then SOCKS_HELLO_USERNAME_PASSWORD else sel)
      else
        (if SOCKS_HELLO_NOAUTHENTICATION_REQUIRED ∈ L then SOCKS_HELLO_NOAUTHENTICATION_REQUIRED
         else sel) := by
  induction L with
  | nil => intro sel; simp
  | cons m L ih =>
      intro sel
      rw [List.foldl_cons, ih]
      unfold on_hello_method
      by_cases ha : auth_required tbl = true
      · simp only [ha, if_true, List.mem_cons]
        by_cases h1 : SOCKS_HELLO_USERNAME_PASSWORD ∈ L
        · simp [h1]
        · by_cases h2 : m = SOCKS_HELLO_USERNAME_PASSWORD
          · simp [h1, h2]
          · have h3 : ¬ SOCKS_HELLO_USERNAME_PASSWORD = m := fun h => h2 h.symm
            simp [h1, h2, h3]
      · simp only [ha, List.mem_cons]
        by_cases h1 : SOCKS_HELLO_NOAUTHENTICATION_REQUIRED ∈ L
        · simp [h1]
        · by_cases h2 : m = SOCKS_HELLO_NOAUTHENTICATION_REQUIRED
          · simp [h1, h2]
          · have h3 : ¬ SOCKS_HELLO_NOAUTHENTICATION_REQUIRED = m := fun h => h2 h.symm
            simp [h1, h2, h3]

/-- Claim C6. With `on_hello_method` installed over a user table and the
selection initialised to 0xFF by `hello_read_init`, a greeting `05 |L| L` with
`1 ≤ |L| ≤ 255` brings the hello parser to `hello_done`, and the selected method
is then 0x02 if some user is configured and 0x02 occurs in `L`, 0x00 if no user
is configured and 0x00 occurs in `L`, and 0xFF in every other case. -/
theorem C6_method_selection (tbl : user_table) (read_buffer write_buffer : buffer)
    (old : hello_parser_t Nat) (L : List Nat) (h1 : 1 ≤ L.length) (h2 : L.length ≤ 255) :
    (hello_st_feed (hello_read_init tbl read_buffer write_buffer old)
        (0x05 :: L.length :: L)).parser.state = hello_done ∧
    ((∃ u, some u ∈ tbl) → 0x02 ∈ L →
      (hello_st_feed (hello_read_init tbl read_buffer write_buffer old)
        (0x05 :: L.length :: L)).method = 0x02) ∧
    ((¬ ∃ u, some u ∈ tbl) → 0x00 ∈ L →
      (hello_st_feed (hello_read_init tbl read_buffer write_buffer old)
        (0x05 :: L.length :: L)).method = 0x00) ∧
    (¬ ((∃ u, some u ∈ tbl) ∧ 0x02 ∈ L) → ¬ ((¬ ∃ u, some u ∈ tbl) ∧ 0x00 ∈ L) →
      (hello_st_feed (hello_read_init tbl read_buffer write_buffer old)
        (0x05 :: L.length :: L)).method = 0xFF) := by
  have hfull : hello_feed_all (hello_read_init tbl read_buffer write_buffer old).parser
      (0x05 :: L.length :: L) =
      { on_authentication_method := some (on_hello_method tbl),
        data := L.foldl (on_hello_method tbl) SOCKS_HELLO_NO_ACCEPTABLE_METHODS,
        state := hello_done, remaining := 0 } := by
    have hhead : hello_feed_all (hello_read_init tbl read_buffer write_buffer old).parser
        (0x05 :: L.length :: L) =
        hello_feed_all { on_authentication_method := some (on_hello_method tbl),
                         data := SOCKS_HELLO_NO_ACCEPTABLE_METHODS,
                         state := hello_methods, remaining := L.length } L := by
      have : L.length > 0 := h1
      simp [hello_feed_all, hello_parser_feed, hello_parser_init, hello_read_init,
        SOCKS_VERSION, this]
    rw [hhead]
    exact hello_methods_complete (on_hello_method tbl) L _ rfl rfl rfl h1 h2
  simp only [hello_st.method, hello_st_feed]
  rw [hfull]
  simp only []
  rw [on_hello_method_foldl]
  refine ⟨trivial, ?_, ?_, ?_⟩
  · intro hu hm
    have ha := (auth_required_iff tbl).mpr hu
    simp [ha, SOCKS_HELLO_USERNAME_PASSWORD, hm]
  · intro hu hm
    have ha : ¬ auth_required tbl = true := fun h => hu ((auth_required_iff tbl).mp h)
    simp [ha, SOCKS_HELLO_NOAUTHENTICATION_REQUIRED, hm]
  · intro hA hB
    by_cases ha : auth_required tbl = true
    · have hu := (auth_required_iff tbl).mp ha
      have hm : ¬ 0x02 ∈ L := fun h => hA ⟨hu, h⟩
      simp [ha, SOCKS_HELLO_USERNAME_PASSWORD, hm, SOCKS_HELLO_NO_ACCEPTABLE_METHODS]
    · have hu : ¬ ∃ u, some u ∈ tbl := fun h => ha ((auth_required_iff tbl).mpr h)
      have hm : ¬ 0x00 ∈ L := fun h => hB ⟨hu, h⟩
      simp [ha, SOCKS_HELLO_NOAUTHENTICATION_REQUIRED, hm, SOCKS_HELLO_NO_ACCEPTABLE_METHODS]

/-- Claim C6, instance: with alice configured, the greeting `05 02 00 02` selects
0x02. -/
theorem C6_method_selection_witness :
    (hello_st_feed (hello_read_init users_alice buffer16 buffer16 hello_stale)
        [0x05, 0x02, 0x00, 0x02]).method = 0x02 :=
  (C6_method_selection users_alice buffer16 buffer16 hello_stale [0x00, 0x02]
    (by decide) (by decide)).2.1
    ⟨{ name := [0x61, 0x6C, 0x69, 0x63, 0x65], pass := [0x73, 0x33, 0x63, 0x72, 0x65, 0x74] },
      by decide⟩ (by decide)

/-! ## Credentials -/

theorem cstr_append_zero (U zs : List Nat) : cstr (U ++ 0 :: zs) = cstr U := by
  induction U with
  | nil => simp [cstr]
  | cons x U ih =>
      unfold cstr at ih ⊢
      by_cases hx : x = 0
      · simp [hx]
      · simp [List.takeWhile_cons, hx, ih]

theorem cstr_padded (U : List Nat) (h : U.length ≤ 255) :
    cstr (U ++ List.replicate (256 - U.length) 0) = cstr U := by
  have : 256 - U.length = (255 - U.length) + 1 := by omega
  rw [this, List.replicate_succ, cstr_append_zero]

theorem cstr_of_no_zero (U : List Nat) (h : 0 ∉ U) : cstr U = U := by
  unfold cstr
  rw [List.takeWhile_eq_self_iff]
  intro x hx
  have : x ≠ 0 := fun h0 => h (h0 ▸ hx)
  simpa using this

theorem strcmp_eq_iff (a b : List Nat) : strcmp_eq a b = true ↔ cstr a = cstr b := by
  unfold strcmp_eq; simp

theorem validate_credentials_iff (tbl : user_table) (username password : List Nat) :
    validate_credentials tbl username password = true ↔
      ∃ u, some u ∈ tbl ∧ cstr u.name = cstr username ∧ cstr u.pass = cstr password := by
  induction tbl with
  | nil => simp [validate_credentials]
  | cons slot tbl ih =>
      cases slot with
      | none =>
          simp only [validate_credentials, ih, List.mem_cons]
          constructor
          · rintro ⟨u, hu, h⟩; exact ⟨u, Or.inr hu, h⟩
          · rintro ⟨u, hu | hu, h⟩
            · cases hu
            · exact ⟨u, hu, h⟩
      | some v =>
          simp only [validate_credentials, List.mem_cons]
          by_cases hv : (strcmp_eq v.name username && strcmp_eq v.pass password) = true
          · rw [if_pos hv]
            simp only [Bool.and_eq_true, strcmp_eq_iff] at hv
            simp only [true_iff]
            exact ⟨v, Or.inl rfl, hv⟩
          · rw [if_neg hv, ih]
            simp only [Bool.and_eq_true, strcmp_eq_iff] at hv
            constructor
            · rintro ⟨u, hu, h⟩; exact ⟨u, Or.inr hu, h⟩
            · rintro ⟨u, hu | hu, h⟩
              · have : v = u := (Option.some.inj hu).symm
                subst this
                exact absurd h hv
              · exact ⟨u, hu, h⟩

theorem auth_process_status (tbl : user_table) (d : auth_st) (s_username : List Nat)
    (m : auth_metrics) :
    (auth_process tbl d s_username m).d.status
      = if validate_credentials tbl d.parser.username d.parser.password then 0x00 else 0x01 := by
  rfl

/-- Claim C7, as amended. For every user table and every username of 1 to 255
bytes and password of 0 to 255 bytes delivered by the auth parser,
`auth_process` sets status 0x00 if and only if some configured entry has a name
equal to the received username cut at its first NUL byte and a password equal
to the received password cut at its first NUL byte, the comparison being
`strcmp`; otherwise it sets status 0x01. When neither the received strings nor
the configured ones contain a NUL byte, this is equality with the whole
received username and password. -/
theorem C7_credentials_compared_as_c_strings (tbl : user_table) (rb wb : buffer)
    (p0 : auth_parser_t) (status0 : Nat) (s_username : List Nat) (m : auth_metrics)
    (U P : List Nat) (hU1 : 1 ≤ U.length) (hU2 : U.length ≤ 255) (hP : P.length ≤ 255) :
    ((auth_process tbl (auth_st_delivered rb wb p0 status0 U P) s_username m).d.status = 0x00 ↔
      ∃ u, some u ∈ tbl ∧ cstr u.name = cstr U ∧ cstr u.pass = cstr P) ∧
    ((auth_process tbl (auth_st_delivered rb wb p0 status0 U P) s_username m).d.status ≠ 0x00 →
      (auth_process tbl (auth_st_delivered rb wb p0 status0 U P) s_username m).d.status = 0x01) ∧
    (0 ∉ U → 0 ∉ P → (∀ u, some u ∈ tbl → 0 ∉ u.name ∧ 0 ∉ u.pass) →
      ((auth_process tbl (auth_st_delivered rb wb p0 status0 U P) s_username m).d.status = 0x00 ↔
        ∃ u, some u ∈ tbl ∧ u.name = U ∧ u.pass = P)) := by
  have hst : (auth_process tbl (auth_st_delivered rb wb p0 status0 U P) s_username m).d.status
      = if validate_credentials tbl (U ++ List.replicate (256 - U.length) 0)
            (P ++ List.replicate (256 - P.length) 0) then 0x00 else 0x01 := by
    rw [auth_process_status]
    simp only [auth_st_delivered, auth_after_wire p0 U P hU1 hU2 hP]
  have hiff : (auth_process tbl (auth_st_delivered rb wb p0 status0 U P) s_username m).d.status
      = 0x00 ↔ ∃ u, some u ∈ tbl ∧ cstr u.name = cstr U ∧ cstr u.pass = cstr P := by
    rw [hst, ← cstr_padded U hU2, ← cstr_padded P hP, ← validate_credentials_iff]
    by_cases hv : validate_credentials tbl (U ++ List.replicate (256 - U.length) 0)
        (P ++ List.replicate (256 - P.length) 0) = true
    · simp [hv]
    · simp [hv]
  refine ⟨hiff, ?_, ?_⟩
  · rw [hst]
    by_cases hv : validate_credentials tbl (U ++ List.replicate (256 - U.length) 0)
        (P ++ List.replicate (256 - P.length) 0) = true
    · simp [hv]
    · simp [hv]
  · intro h0U h0P htbl
    rw [hiff]
    constructor
    · rintro ⟨u, hu, hn, hp⟩
      rw [cstr_of_no_zero _ (htbl u hu).1, cstr_of_no_zero _ h0U] at hn
      rw [cstr_of_no_zero _ (htbl u hu).2, cstr_of_no_zero _ h0P] at hp
      exact ⟨u, hu, hn, hp⟩
    · rintro ⟨u, hu, hn, hp⟩
      exact ⟨u, hu, by rw [hn], by rw [hp]⟩

/-- Claim C7, instance of the amended statement: alice / s3cret is accepted
against a table that configures it. -/
theorem C7_credentials_compared_as_c_strings_witness :
    (auth_process users_alice
      (auth_st_delivered buffer16 buffer16 auth_stale 0x01
        [0x61, 0x6C, 0x69, 0x63, 0x65] [0x73, 0x33, 0x63, 0x72, 0x65, 0x74])
      (List.replicate 257 0) auth_metrics_zero).d.status = 0x00 :=
  ((C7_credentials_compared_as_c_strings users_alice buffer16 buffer16 auth_stale 0x01
      (List.replicate 257 0) auth_metrics_zero
      [0x61, 0x6C, 0x69, 0x63, 0x65] [0x73, 0x33, 0x63, 0x72, 0x65, 0x74]
      (by decide) (by decide) (by decide)).1).mpr
    ⟨{ name := [0x61, 0x6C, 0x69, 0x63, 0x65], pass := [0x73, 0x33, 0x63, 0x72, 0x65, 0x74] },
      by decide, by decide, by decide⟩

/-- Claim C7 as stated fails: with alice / s3cret configured, the 7-byte
username `alice NUL x` and the password `s3cret` are given status 0x00, although
no configured name equals the whole received username. -/
theorem C7_counterexample :
    (auth_process users_alice
      (auth_st_delivered buffer16 buffer16 auth_stale 0x01
        [0x61, 0x6C, 0x69, 0x63, 0x65, 0x00, 0x78] [0x73, 0x33, 0x63, 0x72, 0x65, 0x74])
      (List.replicate 257 0) auth_metrics_zero).d.status = 0x00 ∧
    ¬ ∃ u, some u ∈ users_alice ∧ u.name = [0x61, 0x6C, 0x69, 0x63, 0x65, 0x00, 0x78]
        ∧ u.pass = [0x73, 0x33, 0x63, 0x72, 0x65, 0x74] := by
  refine ⟨by decide, ?_⟩
  rintro ⟨u, hu, hn, _⟩
  simp only [users_alice, List.mem_cons, List.mem_singleton, List.not_mem_nil, or_false,
    Option.some.injEq, false_or, reduceCtorEq] at hu
  subst hu
  exact absurd hn (by decide)

/-! ## Reply marshalling -/

/-- The four header stores of `request_marshall` are one `memcpy`. -/
theorem marshall_header_stores (d : List Nat) (w a b c e : Nat) :
    (((d.set w a).set (w + 1) b).set (w + 2) c).set (w + 3) e = memcpy d w [a, b, c, e] := by
  simp [memcpy, Nat.add_assoc]

/-- The stores of `request_marshall` for an address of `n` bytes taken as a
single block write at the write cursor. -/
theorem marshall_block (d : List Nat) (w : Nat) (hdr ad port : List Nat)
    (hfit : w + (hdr.length + ad.length + port.length) ≤ d.length) :
    memcpy (memcpy (memcpy d w hdr) (w + hdr.length) ad) (w + hdr.length + ad.length) port
      = d.take w ++ (hdr ++ ad ++ port) ++ d.drop (w + (hdr.length + ad.length + port.length)) := by
  rw [← memcpy_append, ← memcpy_append, memcpy_eq _ _ _ (by
    simp only [List.length_append]; omega)]
  simp only [List.length_append, List.append_assoc, Nat.add_assoc]

theorem request_marshall_ipv4 (b : buffer) (status : Nat) (addr : Option (List Nat))
    (p0 p1 : Nat) (hs : status < 256) (haddr : ∀ a, addr = some a → 4 ≤ a.length)
    (hroom : b.write + 10 ≤ b.data.length) :
    request_marshall b status socks_req_addrtype_ipv4 addr [p0, p1] =
      (10, { data := b.data.take b.write
                      ++ ([0x05, status, 0x00, 0x01] ++ reply_addr_bytes addr 4 ++ [p0, p1])
                      ++ b.data.drop (b.write + 10),
             read := b.read, write := b.write + 10 }) := by
  have hlen : (reply_addr_bytes addr 4).length = 4 := by
    cases addr with
    | none => simp [reply_addr_bytes]
    | some a => have := haddr a rfl; simp [reply_addr_bytes]; omega
  have hblock := marshall_block b.data b.write [0x05, status, 0x00, 0x01]
    (reply_addr_bytes addr 4) [p0, p1] (by simp [hlen]; omega)
  simp only [List.length_cons, List.length_nil, hlen, Nat.zero_add, Nat.reduceAdd] at hblock
  have hmod : status % 256 = status := Nat.mod_eq_of_lt hs
  unfold request_marshall
  simp only [buffer_write_ptr, show request_marshall_addr_len socks_req_addrtype_ipv4 = 4 from rfl,
    SOCKS_VERSION, buffer_write_adv, hmod, memset]
  rw [if_neg (by omega)]
  rw [marshall_header_stores]
  simp only [socks_req_addrtype_ipv4, Nat.reduceMod, Nat.reduceAdd, List.take_succ_cons,
    List.take_zero, List.take_nil, Nat.cast_ofNat]
  cases addr with
  | none =>
      simp only [reply_addr_bytes] at hblock
      simp only [if_true]
      rw [hblock]
      rfl
  | some a =>
      simp only [reply_addr_bytes] at hblock
      simp only [if_true]
      rw [hblock]
      rfl

theorem request_marshall_ipv6 (b : buffer) (status : Nat) (addr : Option (List Nat))
    (p0 p1 : Nat) (hs : status < 256) (haddr : ∀ a, addr = some a → 16 ≤ a.length)
    (hroom : b.write + 22 ≤ b.data.length) :
    request_marshall b status socks_req_addrtype_ipv6 addr [p0, p1] =
      (22, { data := b.data.take b.write
                      ++ ([0x05, status, 0x00, 0x04] ++ reply_addr_bytes addr 16 ++ [p0, p1])
                      ++ b.data.drop (b.write + 22),
             read := b.read, write := b.write + 22 }) := by
  have hlen : (reply_addr_bytes addr 16).length = 16 := by
    cases addr with
    | none => simp [reply_addr_bytes]
    | some a => have := haddr a rfl; simp [reply_addr_bytes]; omega
  have hblock := marshall_block b.data b.write [0x05, status, 0x00, 0x04]
    (reply_addr_bytes addr 16) [p0, p1] (by simp [hlen]; omega)
  simp only [List.length_cons, List.length_nil, hlen, Nat.zero_add, Nat.reduceAdd] at hblock
  have hmod : status % 256 = status := Nat.mod_eq_of_lt hs
  unfold request_marshall
  simp only [buffer_write_ptr, show request_marshall_addr_len socks_req_addrtype_ipv6 = 16 from rfl,
    SOCKS_VERSION, buffer_write_adv, hmod, memset]
  rw [if_neg (by omega)]
  rw [marshall_header_stores]
  cases addr with
  | none =>
      simp only [socks_req_addrtype_ipv6, Nat.reduceMod, Nat.reduceAdd, List.take_succ_cons,
        List.take_zero, List.take_nil, Nat.cast_ofNat]
      simp only [reply_addr_bytes] at hblock
      rw [hblock]
      rfl
  | some a =>
      simp only []
      rw [if_neg (show ¬ socks_req_addrtype_ipv6 = socks_req_addrtype_ipv4 by decide)]
      simp only [socks_req_addrtype_ipv6, Nat.reduceMod, Nat.reduceAdd, List.take_succ_cons,
        List.take_zero, List.take_nil, Nat.cast_ofNat, if_true]
      simp only [reply_addr_bytes] at hblock
      rw [hblock]
      rfl

theorem buffer_appended_of_eq (b : buffer) (bytes : List Nat) (n : Nat)
    (hn : bytes.length = n) (hroom : b.write + n ≤ b.data.length) :
    buffer_appended b
      ((n : Int), { data := b.data.take b.write ++ bytes ++ b.data.drop (b.write + n),
                    read := b.read, write := b.write + n }) bytes := by
  subst hn
  refine ⟨rfl, rfl, ?_, ?_, rfl, rfl⟩
  · simp only [List.append_assoc]
    rw [List.take_append_of_le_length (by rw [List.length_take]; omega), List.take_take]
    simp
  · simp only [List.length_append, List.length_take, List.length_drop]
    omega

/-- Claim C10. For every status byte, every address (the 256-byte
`union socks_addr`, or NULL) and port bytes `p0 p1`, when the buffer has room:
`request_marshall` with atyp IPv4 appends exactly the 10 bytes
`05 status 00 01 a[0..3] p0 p1` and returns 10; with atyp IPv6 it appends exactly
the 22 bytes `05 status 00 04 a[0..15] p0 p1` and returns 22; the write cursor
advances by the returned count and every previously buffered byte is unchanged;
a NULL address is written as zero bytes. -/
theorem C10_request_marshall_layout (b : buffer) (status : Nat) (a : List Nat) (p0 p1 : Nat)
    (hs : status < 256) (ha : a.length = 256) :
    (b.write + 10 ≤ b.data.length →
      buffer_appended b (request_marshall b status socks_req_addrtype_ipv4 (some a) [p0, p1])
        ([0x05, status, 0x00, 0x01] ++ a.take 4 ++ [p0, p1]) ∧
      buffer_appended b (request_marshall b status socks_req_addrtype_ipv4 none [p0, p1])
        ([0x05, status, 0x00, 0x01] ++ [0, 0, 0, 0] ++ [p0, p1])) ∧
    (b.write + 22 ≤ b.data.length →
      buffer_appended b (request_marshall b status socks_req_addrtype_ipv6 (some a) [p0, p1])
        ([0x05, status, 0x00, 0x04] ++ a.take 16 ++ [p0, p1]) ∧
      buffer_appended b (request_marshall b status socks_req_addrtype_ipv6 none [p0, p1])
        ([0x05, status, 0x00, 0x04] ++ List.replicate 16 0 ++ [p0, p1])) := by
  refine ⟨fun hroom => ⟨?_, ?_⟩, fun hroom => ⟨?_, ?_⟩⟩
  · rw [request_marshall_ipv4 b status (some a) p0 p1 hs
      (by intro x hx; cases hx; omega) hroom]
    exact buffer_appended_of_eq b _ 10 (by simp [reply_addr_bytes, List.length_take, ha]) hroom
  · rw [request_marshall_ipv4 b status none p0 p1 hs (by intro x hx; cases hx) hroom]
    exact buffer_appended_of_eq b _ 10 rfl hroom
  · rw [request_marshall_ipv6 b status (some a) p0 p1 hs
      (by intro x hx; cases hx; omega) hroom]
    exact buffer_appended_of_eq b _ 22 (by simp [reply_addr_bytes, List.length_take, ha]) hroom
  · rw [request_marshall_ipv6 b status none p0 p1 hs (by intro x hx; cases hx) hroom]
    exact buffer_appended_of_eq b _ 22 rfl hroom

/-- Claim C10, instance: the success reply for 127.0.0.1:8080 put after two
pending bytes. -/
theorem C10_request_marshall_layout_witness :
    (request_marshall buffer16_pending 0x00 socks_req_addrtype_ipv4 (some addr_loopback)
        [0x1F, 0x90]).1 = 10 ∧
    (request_marshall buffer16_pending 0x00 socks_req_addrtype_ipv4 (some addr_loopback)
        [0x1F, 0x90]).2.data
      = [0xAA, 0xBB, 0x05, 0x00, 0x00, 0x01, 127, 0, 0, 1, 0x1F, 0x90, 0xEE, 0xEE, 0xEE, 0xEE] ∧
    (request_marshall buffer16_pending 0x00 socks_req_addrtype_ipv4 (some addr_loopback)
        [0x1F, 0x90]).2.write = 12 := by
  have h := ((C10_request_marshall_layout buffer16_pending 0x00 addr_loopback 0x1F 0x90
    (by decide) (by simp [addr_loopback, -List.reduceReplicate])).1 (by decide)).1
  exact ⟨h.1, h.2.1, h.2.2.2.2.1⟩

/-! ## Consuming from the buffer -/

theorem hello_consume_loop_shape {δ : Type} (fuel : Nat) :
    ∀ (b : buffer) (p : hello_parser_t δ) (e : Option Bool) (s : hello_state),
      hello_consume_loop fuel b p e s
        = consume_loop_shape hello_parser_feed (fun q => q.state) hello_is_done fuel b p e s := by
  induction fuel with
  | zero => intro b p e s; rfl
  | succ n ih => intro b p e s; simp only [hello_consume_loop, consume_loop_shape, ih]

theorem auth_consume_loop_shape (fuel : Nat) :
    ∀ (b : buffer) (p : auth_parser_t) (e : Option Bool) (s : auth_state),
      auth_consume_loop fuel b p e s
        = consume_loop_shape auth_parser_feed (fun q => q.state) auth_is_done fuel b p e s := by
  induction fuel with
  | zero => intro b p e s; rfl
  | succ n ih => intro b p e s; simp only [auth_consume_loop, consume_loop_shape, ih]

theorem request_consume_loop_shape (fuel : Nat) :
    ∀ (b : buffer) (p : request_parser_t) (e : Option Bool) (s : request_state),
      request_consume_loop fuel b p e s
        = consume_loop_shape request_parser_feed (fun q => q.state) request_is_done fuel b p e s := by
  induction fuel with
  | zero => intro b p e s; rfl
  | succ n ih => intro b p e s; simp only [request_consume_loop, consume_loop_shape, ih]

theorem buffer_readable_nil (b : buffer) (h : ¬ b.read < b.write) : buffer_readable b = [] := by
  unfold buffer_readable
  have : b.write - b.read = 0 := by omega
  rw [this, List.take_zero]

theorem buffer_readable_cons (b : buffer) (h : b.read < b.write) (hw : b.write ≤ b.data.length) :
    buffer_readable b
      = b.data.getD b.read 0 :: buffer_readable { b with read := b.read + 1 } := by
  unfold buffer_readable
  have hlt : b.read < b.data.length := by omega
  have h1 : b.write - b.read = (b.write - (b.read + 1)) + 1 := by omega
  rw [h1, List.drop_eq_getElem_cons hlt, List.take_succ_cons,
    List.getD_eq_getElem _ _ hlt]

theorem feed_until_done_at_rest {P S : Type} (feed : P → Nat → P) (st : P → S)
    (isd : S → Option Bool → Bool × Option Bool)
    (habs : absorbing feed st isd) (bs : List Nat) (p : P)
    (e : Option Bool) (h : at_rest st isd p e) :
    feed_until_done feed st isd bs p e = (p, e) := by
  have h' : isd (st p) e = (true, e) := h
  cases bs with
  | nil => rfl
  | cons x xs =>
      have hf : feed p x = p := habs.1 p e x (by rw [h'])
      simp only [feed_until_done, hf, h', if_true]

theorem feed_until_done_append {P S : Type} (feed : P → Nat → P) (st : P → S)
    (isd : S → Option Bool → Bool × Option Bool)
    (habs : absorbing feed st isd) (xs ys : List Nat) :
    ∀ (p : P) (e : Option Bool),
      feed_until_done feed st isd (xs ++ ys) p e
        = feed_until_done feed st isd ys (feed_until_done feed st isd xs p e).1
            (feed_until_done feed st isd xs p e).2 := by
  induction xs with
  | nil => intro p e; rfl
  | cons x xs ih =>
      intro p e
      simp only [List.cons_append, feed_until_done]
      by_cases hd : (isd (st (feed p x)) e).1 = true
      · simp only [hd, if_true]
        rw [feed_until_done_at_rest feed st isd habs ys _ _ (habs.2 _ _ hd)]
      · simp only [hd]
        exact ih _ _

/-- The loop against its specification: it feeds the readable bytes until done,
moves only the read cursor, returns the state of the parser it leaves, and
stops early only with the parser at rest. -/
theorem consume_loop_spec {P S : Type} (feed : P → Nat → P) (st : P → S)
    (isd : S → Option Bool → Bool × Option Bool)
    (habs : absorbing feed st isd) (fuel : Nat) :
    ∀ (b : buffer) (p : P) (e : Option Bool) (s : S),
      buffer_ok b → b.write - b.read ≤ fuel →
      (consume_loop_shape feed st isd fuel b p e s).2.2.1
          = (feed_until_done feed st isd (buffer_readable b) p e).1 ∧
      (consume_loop_shape feed st isd fuel b p e s).2.2.2
          = (feed_until_done feed st isd (buffer_readable b) p e).2 ∧
      (consume_loop_shape feed st isd fuel b p e s).2.1.data = b.data ∧
      (consume_loop_shape feed st isd fuel b p e s).2.1.write = b.write ∧
      b.read ≤ (consume_loop_shape feed st isd fuel b p e s).2.1.read ∧
      (consume_loop_shape feed st isd fuel b p e s).2.1.read ≤ b.write ∧
      (b.read < b.write → (consume_loop_shape feed st isd fuel b p e s).1
          = st (consume_loop_shape feed st isd fuel b p e s).2.2.1) ∧
      (¬ b.read < b.write → consume_loop_shape feed st isd fuel b p e s = (s, b, p, e)) ∧
      (at_rest st isd (consume_loop_shape feed st isd fuel b p e s).2.2.1
          (consume_loop_shape feed st isd fuel b p e s).2.2.2 ∨
        (consume_loop_shape feed st isd fuel b p e s).2.1.read = b.write) := by
  induction fuel with
  | zero =>
      intro b p e s hok hfuel
      have hnr : ¬ b.read < b.write := by omega
      have heq : b.read = b.write := by have := hok.1; omega
      have hout : consume_loop_shape feed st isd 0 b p e s = (s, b, p, e) := rfl
      have hfd : feed_until_done feed st isd (buffer_readable b) p e = (p, e) := by
        rw [buffer_readable_nil b hnr]; rfl
      rw [hout, hfd]
      exact ⟨rfl, rfl, rfl, rfl, Nat.le_refl _, hok.1, fun h => absurd h hnr, fun _ => rfl,
        Or.inr heq⟩
  | succ n ih =>
      intro b p e s hok hfuel
      by_cases hr : b.read < b.write
      · have hcan : buffer_can_read b = true := by simp [buffer_can_read, hr]
        have hrd : buffer_read b = (b.data.getD b.read 0, { b with read := b.read + 1 }) := by
          simp [buffer_read, hcan]
        by_cases hd : (isd (st (feed p (b.data.getD b.read 0))) e).1 = true
        · have hout : consume_loop_shape feed st isd (n + 1) b p e s
              = (st (feed p (b.data.getD b.read 0)), { b with read := b.read + 1 },
                  feed p (b.data.getD b.read 0),
                  (isd (st (feed p (b.data.getD b.read 0))) e).2) := by
            simp only [consume_loop_shape, hcan, if_true, hrd, hd]
          have hfd : feed_until_done feed st isd (buffer_readable b) p e
              = (feed p (b.data.getD b.read 0),
                  (isd (st (feed p (b.data.getD b.read 0))) e).2) := by
            rw [buffer_readable_cons b hr hok.2]
            simp only [feed_until_done, hd, if_true]
          rw [hout, hfd]
          exact ⟨rfl, rfl, rfl, rfl, Nat.le_succ _, hr, fun _ => rfl, fun h => absurd hr h,
            Or.inl (habs.2 _ _ hd)⟩
        · have hout : consume_loop_shape feed st isd (n + 1) b p e s
              = consume_loop_shape feed st isd n { b with read := b.read + 1 }
                  (feed p (b.data.getD b.read 0))
                  (isd (st (feed p (b.data.getD b.read 0))) e).2
                  (st (feed p (b.data.getD b.read 0))) := by
            simp only [consume_loop_shape, hcan, if_true, hrd, hd]
            rfl
          have hfd : feed_until_done feed st isd (buffer_readable b) p e
              = feed_until_done feed st isd (buffer_readable { b with read := b.read + 1 })
                  (feed p (b.data.getD b.read 0))
                  (isd (st (feed p (b.data.getD b.read 0))) e).2 := by
            rw [buffer_readable_cons b hr hok.2]
            simp only [feed_until_done, hd]
            rfl
          have hok' : buffer_ok { b with read := b.read + 1 } := ⟨hr, hok.2⟩
          obtain ⟨h1, h2, h3, h4, h5, h6, h7, h8, h9⟩ :=
            ih { b with read := b.read + 1 } (feed p (b.data.getD b.read 0))
              (isd (st (feed p (b.data.getD b.read 0))) e).2
              (st (feed p (b.data.getD b.read 0))) hok' (by simp only; omega)
          rw [hout, hfd]
          refine ⟨h1, h2, h3, h4, by simp only at h5; omega, h6, fun _ => ?_,
            fun h => absurd hr h, h9⟩
          by_cases hr' : b.read + 1 < b.write
          · exact h7 hr'
          · rw [h8 hr']
      · have hcan : buffer_can_read b = false := by simp [buffer_can_read, hr]
        have hw : b.read = b.write := by have := hok.1; omega
        have hout : consume_loop_shape feed st isd (n + 1) b p e s = (s, b, p, e) := by
          simp only [consume_loop_shape, hcan]
          rfl
        have hfd : feed_until_done feed st isd (buffer_readable b) p e = (p, e) := by
          rw [buffer_readable_nil b hr]; rfl
        rw [hout, hfd]
        exact ⟨rfl, rfl, rfl, rfl, Nat.le_refl _, hok.1, fun h => absurd h hr, fun _ => rfl,
          Or.inr hw⟩

/-- Receiving a chunk that fits keeps the cursor invariant and appends the chunk
to the readable bytes. -/
theorem buffer_recv_spec (b : buffer) (c : List Nat) (hok : buffer_ok b)
    (hroom : b.write + c.length ≤ b.data.length) :
    buffer_ok (buffer_recv b c) ∧
    buffer_readable (buffer_recv b c) = buffer_readable b ++ c ∧
    (buffer_recv b c).data.length = b.data.length ∧
    (buffer_recv b c).write = b.write + c.length ∧
    (buffer_recv b c).read = b.read := by
  have hdata : (buffer_recv b c).data
      = b.data.take b.write ++ c ++ b.data.drop (b.write + c.length) := by
    simp only [buffer_recv, buffer_write_adv, buffer_write_ptr]
    exact memcpy_eq c b.data b.write hroom
  have hlen : (buffer_recv b c).data.length = b.data.length := by
    simp only [buffer_recv, buffer_write_adv, buffer_write_ptr, memcpy_length]
  have hw : (buffer_recv b c).write = b.write + c.length := rfl
  have hr : (buffer_recv b c).read = b.read := rfl
  refine ⟨⟨by rw [hw, hr]; have := hok.1; omega, by rw [hw, hlen]; exact hroom⟩, ?_, hlen, hw, hr⟩
  have hr1 := hok.1
  have hltake : (List.take b.write b.data).length = b.write := by
    rw [List.length_take]; have := hok.2; omega
  unfold buffer_readable
  rw [hdata, hw, hr, List.append_assoc, List.drop_append_of_le_length (by omega),
    ← List.append_assoc, List.take_append_of_le_length (by
      simp only [List.length_append, List.length_drop, hltake]; omega)]
  have h1 : (List.drop b.read (List.take b.write b.data) ++ c).length
      = b.write + c.length - b.read := by
    simp only [List.length_append, List.length_drop, hltake]; omega
  rw [← h1, List.take_length]
  congr 1
  rw [List.drop_take]

/-- One `consume` call on a buffer that is drained, or whose parser is at rest,
after a chunk has been received. -/
theorem consume_shape_recv {P S : Type} (feed : P → Nat → P) (st : P → S)
    (isd : S → Option Bool → Bool × Option Bool) (habs : absorbing feed st isd)
    (b : buffer) (c : List Nat) (p : P) (e : Option Bool) (hok : buffer_ok b)
    (hroom : b.write + c.length ≤ b.data.length)
    (hinv : at_rest st isd p e ∨ b.read = b.write) :
    (consume_shape feed st isd (buffer_recv b c) p e).1
        = st (feed_until_done feed st isd c p e).1 ∧
    (consume_shape feed st isd (buffer_recv b c) p e).2.2.1
        = (feed_until_done feed st isd c p e).1 ∧
    (consume_shape feed st isd (buffer_recv b c) p e).2.2.2
        = (feed_until_done feed st isd c p e).2 ∧
    buffer_ok (consume_shape feed st isd (buffer_recv b c) p e).2.1 ∧
    (consume_shape feed st isd (buffer_recv b c) p e).2.1.data.length = b.data.length ∧
    (consume_shape feed st isd (buffer_recv b c) p e).2.1.write = b.write + c.length ∧
    (at_rest st isd (consume_shape feed st isd (buffer_recv b c) p e).2.2.1
        (consume_shape feed st isd (buffer_recv b c) p e).2.2.2 ∨
      (consume_shape feed st isd (buffer_recv b c) p e).2.1.read
        = (consume_shape feed st isd (buffer_recv b c) p e).2.1.write) := by
  obtain ⟨rok, rrd, rlen, rw', rr⟩ := buffer_recv_spec b c hok hroom
  obtain ⟨h1, h2, h3, h4, h5, h6, h7, h8, h9⟩ :=
    consume_loop_spec feed st isd habs ((buffer_recv b c).write - (buffer_recv b c).read)
      (buffer_recv b c) p e (st p) rok (Nat.le_refl _)
  have hfd : feed_until_done feed st isd (buffer_readable (buffer_recv b c)) p e
      = feed_until_done feed st isd c p e := by
    rw [rrd]
    rcases hinv with hrest | hdr
    · rw [feed_until_done_at_rest feed st isd habs _ p e hrest,
        feed_until_done_at_rest feed st isd habs _ p e hrest]
    · rw [buffer_readable_nil b (by omega)]; rfl
  unfold consume_shape
  rw [hfd] at h1 h2
  refine ⟨?_, h1, h2, ⟨by rw [h4]; exact h6, by rw [h3, h4]; exact rok.2⟩, by rw [h3, rlen],
    by rw [h4, rw'], ?_⟩
  · by_cases hlt : (buffer_recv b c).read < (buffer_recv b c).write
    · rw [h7 hlt, h1]
    · have hc : c = [] := by
        have : c.length = 0 := by rw [rw', rr] at hlt; have := hok.1; omega
        exact List.length_eq_zero.mp this
      rw [h8 hlt, hc]
      rfl
  · rcases h9 with h | h
    · exact Or.inl h
    · exact Or.inr (by rw [h, h4])

/-- Receiving chunks one by one, consuming after each, leaves the parser,
`*errored` and the returned state that feeding all their bytes until done
leaves. -/
theorem consume_chunks_spec {P S : Type} (feed : P → Nat → P) (st : P → S)
    (isd : S → Option Bool → Bool × Option Bool) (habs : absorbing feed st isd)
    (chunks : List (List Nat)) :
    ∀ (b : buffer) (p : P) (e : Option Bool), buffer_ok b →
      b.write + chunks.flatten.length ≤ b.data.length →
      (at_rest st isd p e ∨ b.read = b.write) →
      (consume_chunks_shape feed st isd chunks b p e).1
          = st (feed_until_done feed st isd chunks.flatten p e).1 ∧
      (consume_chunks_shape feed st isd chunks b p e).2.2.1
          = (feed_until_done feed st isd chunks.flatten p e).1 ∧
      (consume_chunks_shape feed st isd chunks b p e).2.2.2
          = (feed_until_done feed st isd chunks.flatten p e).2 := by
  induction chunks with
  | nil => intro b p e _ _ _; exact ⟨rfl, rfl, rfl⟩
  | cons c cs ih =>
      intro b p e hok hroom hinv
      simp only [List.flatten_cons, List.length_append] at hroom
      obtain ⟨g1, g2, g3, g4, g5, g6, g7⟩ :=
        consume_shape_recv feed st isd habs b c p e hok (by omega) hinv
      have hstep : consume_chunks_shape feed st isd (c :: cs) b p e
          = consume_chunks_shape feed st isd cs
              (consume_shape feed st isd (buffer_recv b c) p e).2.1
              (consume_shape feed st isd (buffer_recv b c) p e).2.2.1
              (consume_shape feed st isd (buffer_recv b c) p e).2.2.2 := by
        simp only [consume_chunks_shape, List.foldl_cons]
        congr 1
        exact Prod.ext (by rw [g1, g2]) rfl
      obtain ⟨i1, i2, i3⟩ := ih _ _ _ g4 (by rw [g5, g6]; omega) g7
      rw [hstep, List.flatten_cons, feed_until_done_append feed st isd habs, i1, i2, i3, g2, g3]
      exact ⟨rfl, rfl, rfl⟩

theorem hello_absorbing {δ : Type} :
    absorbing (hello_parser_feed : hello_parser_t δ → Nat → hello_parser_t δ)
      (fun q => q.state) hello_is_done := by
  refine ⟨fun p e x h => hello_feed_terminal p x ((hello_is_done_iff _ e).mp h), ?_⟩
  intro s e h
  cases s <;> cases e <;> simp [hello_is_done] at h ⊢

theorem auth_absorbing :
    absorbing auth_parser_feed (fun q => q.state) auth_is_done := by
  refine ⟨fun p e x h => auth_feed_terminal p x ((auth_is_done_iff _ e).mp h), ?_⟩
  intro s e h
  cases s <;> cases e <;> simp [auth_is_done] at h ⊢

theorem request_absorbing :
    absorbing request_parser_feed (fun q => q.state) request_is_done := by
  refine ⟨fun p e x h => request_feed_terminal p x ((request_is_done_iff _ e).mp h), ?_⟩
  intro s e h
  cases s <;> cases e <;> simp [request_is_done] at h ⊢

theorem hello_consume_shape {δ : Type} :
    (hello_consume : buffer → hello_parser_t δ → Option Bool → _)
      = consume_shape hello_parser_feed (fun q => q.state) hello_is_done := by
  funext b p e
  exact hello_consume_loop_shape _ b p e p.state

theorem auth_consume_shape :
    auth_consume = consume_shape auth_parser_feed (fun q => q.state) auth_is_done := by
  funext b p e
  exact auth_consume_loop_shape _ b p e p.state

theorem request_consume_shape :
    request_consume = consume_shape request_parser_feed (fun q => q.state) request_is_done := by
  funext b p e
  exact request_consume_loop_shape _ b p e p.state

/-- Fragmentation invariance for any parser of the shared shape. -/
theorem consume_chunks_eq_once {P S : Type} (feed : P → Nat → P) (st : P → S)
    (isd : S → Option Bool → Bool × Option Bool) (habs : absorbing feed st isd)
    (chunks : List (List Nat)) (b : buffer) (p : P) (e : Option Bool)
    (hdrained : b.read = b.write)
    (hroom : b.write + chunks.flatten.length ≤ b.data.length) :
    (consume_chunks_shape feed st isd chunks b p e).1
        = (consume_shape feed st isd (buffer_recv b chunks.flatten) p e).1 ∧
    (consume_chunks_shape feed st isd chunks b p e).2.2.1
        = (consume_shape feed st isd (buffer_recv b chunks.flatten) p e).2.2.1 ∧
    (consume_chunks_shape feed st isd chunks b p e).2.2.2
        = (consume_shape feed st isd (buffer_recv b chunks.flatten) p e).2.2.2 := by
  have hok : buffer_ok b := ⟨by omega, by omega⟩
  obtain ⟨c1, c2, c3⟩ := consume_chunks_spec feed st isd habs chunks b p e hok hroom
    (Or.inr hdrained)
  obtain ⟨g1, g2, g3, _⟩ := consume_shape_recv feed st isd habs b chunks.flatten p e hok hroom
    (Or.inr hdrained)
  exact ⟨by rw [c1, g1], by rw [c2, g2], by rw [c3, g3]⟩

/-- A parser at rest stays as it is under any further bytes. -/
theorem foldl_feed_at_rest {P S : Type} (feed : P → Nat → P) (st : P → S)
    (isd : S → Option Bool → Bool × Option Bool) (habs : absorbing feed st isd)
    (ys : List Nat) (q : P) (e : Option Bool) (h : (isd (st q) e).1 = true) :
    ys.foldl feed q = q := by
  induction ys with
  | nil => rfl
  | cons y ys ih => rw [List.foldl_cons, habs.1 q e y h]; exact ih

/-- When `is_done` accepts after no proper non-empty prefix of the bytes, feeding
until done feeds them all. -/
theorem feed_until_done_all {P S : Type} (feed : P → Nat → P) (st : P → S)
    (isd : S → Option Bool → Bool × Option Bool) (habs : absorbing feed st isd)
    (hkeep : ∀ s e, (isd s e).1 = false → (isd s e).2 = e) (xs : List Nat) :
    ∀ (p : P) (e : Option Bool),
      (∀ k, 0 < k → k < xs.length → (isd (st ((xs.take k).foldl feed p)) e).1 = false) →
      (feed_until_done feed st isd xs p e).1 = xs.foldl feed p := by
  induction xs with
  | nil => intro p e _; rfl
  | cons x xs ih =>
      intro p e h
      simp only [feed_until_done, List.foldl_cons]
      by_cases hd : (isd (st (feed p x)) e).1 = true
      · simp only [hd, if_true]
        exact (foldl_feed_at_rest feed st isd habs xs _ e hd).symm
      · have hd' : (isd (st (feed p x)) e).1 = false := by simpa using hd
        simp only [hd]
        rw [hkeep _ _ hd']
        apply ih
        intro k hk0 hk
        have := h (k + 1) (Nat.succ_pos k) (by simp only [List.length_cons]; omega)
        simpa only [List.take_succ_cons, List.foldl_cons] using this

/-- Chunked consumption of a message no proper prefix of which is terminal. -/
theorem consume_chunks_all {P S : Type} (feed : P → Nat → P) (st : P → S)
    (isd : S → Option Bool → Bool × Option Bool) (habs : absorbing feed st isd)
    (hkeep : ∀ s e, (isd s e).1 = false → (isd s e).2 = e)
    (chunks : List (List Nat)) (b : buffer) (p : P) (e : Option Bool)
    (hdrained : b.read = b.write)
    (hroom : b.write + chunks.flatten.length ≤ b.data.length)
    (hpre : ∀ k, 0 < k → k < chunks.flatten.length →
      (isd (st ((chunks.flatten.take k).foldl feed p)) e).1 = false) :
    (consume_chunks_shape feed st isd chunks b p e).1 = st (chunks.flatten.foldl feed p) ∧
    (consume_chunks_shape feed st isd chunks b p e).2.2.1 = chunks.flatten.foldl feed p := by
  have hok : buffer_ok b := ⟨by omega, by omega⟩
  obtain ⟨c1, c2, _⟩ := consume_chunks_spec feed st isd habs chunks b p e hok hroom
    (Or.inr hdrained)
  have hall := feed_until_done_all feed st isd habs hkeep chunks.flatten p e hpre
  exact ⟨by rw [c1, hall], by rw [c2, hall]⟩

theorem hello_is_done_keep (s : hello_state) (e : Option Bool)
    (h : (hello_is_done s e).1 = false) : (hello_is_done s e).2 = e := by
  cases s <;> simp [hello_is_done] at h ⊢

theorem auth_is_done_keep (s : auth_state) (e : Option Bool)
    (h : (auth_is_done s e).1 = false) : (auth_is_done s e).2 = e := by
  cases s <;> simp [auth_is_done] at h ⊢

theorem request_is_done_keep (s : request_state) (e : Option Bool)
    (h : (request_is_done s e).1 = false) : (request_is_done s e).2 = e := by
  cases s <;> simp [request_is_done] at h ⊢

theorem hello_not_done_of_not_terminal (s : hello_state) (e : Option Bool)
    (h : ¬ hello_terminal s) : (hello_is_done s e).1 = false := by
  cases hd : (hello_is_done s e).1
  · rfl
  · exact absurd ((hello_is_done_iff s e).mp hd) h

theorem auth_not_done_of_not_terminal (s : auth_state) (e : Option Bool)
    (h : ¬ auth_terminal s) : (auth_is_done s e).1 = false := by
  cases hd : (auth_is_done s e).1
  · rfl
  · exact absurd ((auth_is_done_iff s e).mp hd) h

theorem request_not_done_of_not_terminal (s : request_state) (e : Option Bool)
    (h : ¬ request_terminal s) : (request_is_done s e).1 = false := by
  cases hd : (request_is_done s e).1
  · rfl
  · exact absurd ((request_is_done_iff s e).mp hd) h

/-- The parser after `05 n`, `n ≥ 1`. -/
theorem hello_after_nmethods {δ : Type} (p0 : hello_parser_t δ) (n : Nat) (hn : 1 ≤ n)
    (xs : List Nat) :
    hello_feed_all (hello_parser_init p0) (0x05 :: n :: xs) =
      hello_feed_all { on_authentication_method := p0.on_authentication_method,
                       data := p0.data, state := hello_methods, remaining := n } xs := by
  have : n > 0 := hn
  simp [hello_feed_all, hello_parser_feed, hello_parser_init, SOCKS_VERSION, this]

/-- The parser after a whole greeting `05 n` and `n` methods. -/
theorem hello_after_greeting {δ : Type} (p0 : hello_parser_t δ) (f : δ → Nat → δ)
    (hcb : p0.on_authentication_method = some f) (ms : List Nat)
    (h1 : 1 ≤ ms.length) (h2 : ms.length ≤ 255) :
    hello_feed_all (hello_parser_init p0) (0x05 :: ms.length :: ms) =
      { on_authentication_method := p0.on_authentication_method,
        data := ms.foldl f p0.data, state := hello_done, remaining := 0 } := by
  rw [hello_after_nmethods p0 _ h1]
  exact hello_methods_complete f ms _ hcb rfl rfl h1 h2

/-- No proper prefix of a greeting leaves the hello parser in a terminal state. -/
theorem hello_prefix_not_terminal {δ : Type} (p0 : hello_parser_t δ) (f : δ → Nat → δ)
    (hcb : p0.on_authentication_method = some f) (ms : List Nat)
    (h1 : 1 ≤ ms.length) (h2 : ms.length ≤ 255) (k : Nat) (hk : k < 2 + ms.length) :
    ¬ hello_terminal
      (hello_feed_all (hello_parser_init p0) ((0x05 :: ms.length :: ms).take k)).state := by
  match k with
  | 0 => simp [hello_feed_all, hello_parser_init, hello_terminal]
  | 1 =>
      simp [hello_feed_all, hello_parser_feed, hello_parser_init, hello_terminal,
        SOCKS_VERSION]
  | j + 2 =>
      have hj : j < ms.length := by omega
      simp only [List.take_succ_cons]
      rw [hello_after_nmethods p0 _ h1, hello_methods_partial f (ms.take j)
        { on_authentication_method := p0.on_authentication_method,
          data := p0.data, state := hello_methods, remaining := ms.length } hcb rfl
        (by simp only [List.length_take]; omega) h2]
      simp [hello_terminal]

/-- Claim C4. For each of the hello, auth and request parsers: (a) for every
byte sequence `M`, every valid message among them, cut into chunks in any way,
receiving the chunks one after another into a drained buffer with room for `M`
and calling the parser's consume function after each chunk returns the same
state, and leaves the same parser (its state and all its output: the datum
behind `data`, username and password, the request) and the same `*errored`, as
receiving all of `M` and calling the consume function once; (b) when `M` is a
valid greeting, auth message or CONNECT request and the parser starts from its
initial state, that common outcome is the done state with the parser that
feeding `M` byte by byte leaves. -/
theorem C4_fragmentation_invariance :
    (∀ (δ : Type) (chunks : List (List Nat)) (b : buffer) (p : hello_parser_t δ)
        (e : Option Bool),
      b.read = b.write → b.write + chunks.flatten.length ≤ b.data.length →
      (hello_consume_chunks chunks b p e).1
          = (hello_consume (buffer_recv b chunks.flatten) p e).1 ∧
      (hello_consume_chunks chunks b p e).2.2.1
          = (hello_consume (buffer_recv b chunks.flatten) p e).2.2.1 ∧
      (hello_consume_chunks chunks b p e).2.2.2
          = (hello_consume (buffer_recv b chunks.flatten) p e).2.2.2) ∧
    (∀ (chunks : List (List Nat)) (b : buffer) (p : auth_parser_t) (e : Option Bool),
      b.read = b.write → b.write + chunks.flatten.length ≤ b.data.length →
      (auth_consume_chunks chunks b p e).1
          = (auth_consume (buffer_recv b chunks.flatten) p e).1 ∧
      (auth_consume_chunks chunks b p e).2.2.1
          = (auth_consume (buffer_recv b chunks.flatten) p e).2.2.1 ∧
      (auth_consume_chunks chunks b p e).2.2.2
          = (auth_consume (buffer_recv b chunks.flatten) p e).2.2.2) ∧
    (∀ (chunks : List (List Nat)) (b : buffer) (p : request_parser_t) (e : Option Bool),
      b.read = b.write → b.write + chunks.flatten.length ≤ b.data.length →
      (request_consume_chunks chunks b p e).1
          = (request_consume (buffer_recv b chunks.flatten) p e).1 ∧
      (request_consume_chunks chunks b p e).2.2.1
          = (request_consume (buffer_recv b chunks.flatten) p e).2.2.1 ∧
      (request_consume_chunks chunks b p e).2.2.2
          = (request_consume (buffer_recv b chunks.flatten) p e).2.2.2) ∧
    (∀ (δ : Type) (chunks : List (List Nat)) (b : buffer) (p0 : hello_parser_t δ)
        (f : δ → Nat → δ) (e : Option Bool) (ms : List Nat),
      b.read = b.write → b.write + chunks.flatten.length ≤ b.data.length →
      p0.on_authentication_method = some f → 1 ≤ ms.length → ms.length ≤ 255 →
      chunks.flatten = 0x05 :: ms.length :: ms →
      (hello_consume_chunks chunks b (hello_parser_init p0) e).1 = hello_done ∧
      (hello_consume_chunks chunks b (hello_parser_init p0) e).2.2.1
          = hello_feed_all (hello_parser_init p0) (0x05 :: ms.length :: ms)) ∧
    (∀ (chunks : List (List Nat)) (b : buffer) (p0 : auth_parser_t) (e : Option Bool)
        (U P : List Nat),
      b.read = b.write → b.write + chunks.flatten.length ≤ b.data.length →
      1 ≤ U.length → U.length ≤ 255 → P.length ≤ 255 →
      chunks.flatten = auth_wire U P →
      (auth_consume_chunks chunks b (auth_parser_init p0) e).1 = auth_done ∧
      (auth_consume_chunks chunks b (auth_parser_init p0) e).2.2.1
          = auth_feed_all (auth_parser_init p0) (auth_wire U P)) ∧
    (∀ (chunks : List (List Nat)) (b : buffer) (p0 : request_parser_t) (e : Option Bool)
        (rsv atyp : Nat) (addr : List Nat) (p1 p2 : Nat),
      b.read = b.write → b.write + chunks.flatten.length ≤ b.data.length →
      request_addr_ok atyp addr →
      chunks.flatten = request_wire rsv atyp addr p1 p2 →
      (request_consume_chunks chunks b (request_parser_init p0) e).1 = request_done ∧
      (request_consume_chunks chunks b (request_parser_init p0) e).2.2.1
          = request_feed_all (request_parser_init p0) (request_wire rsv atyp addr p1 p2)) := by
  refine ⟨?_, ?_, ?_, ?_, ?_, ?_⟩
  · intro δ chunks b p e hd hroom
    have h := consume_chunks_eq_once hello_parser_feed (fun q => q.state) hello_is_done
      hello_absorbing chunks b p e hd hroom
    simp only [hello_consume_chunks, hello_consume_shape]
    exact h
  · intro chunks b p e hd hroom
    have h := consume_chunks_eq_once auth_parser_feed (fun q => q.state) auth_is_done
      auth_absorbing chunks b p e hd hroom
    simp only [auth_consume_chunks, auth_consume_shape]
    exact h
  · intro chunks b p e hd hroom
    have h := consume_chunks_eq_once request_parser_feed (fun q => q.state) request_is_done
      request_absorbing chunks b p e hd hroom
    simp only [request_consume_chunks, request_consume_shape]
    exact h
  · intro δ chunks b p0 f e ms hd hroom hcb h1 h2 hM
    have h := consume_chunks_all hello_parser_feed (fun q => q.state) hello_is_done
      hello_absorbing hello_is_done_keep chunks b (hello_parser_init p0) e hd hroom (by
        intro k _ hk
        rw [hM] at hk ⊢
        exact hello_not_done_of_not_terminal _ e
          (hello_prefix_not_terminal p0 f hcb ms h1 h2 k
            (by simp only [List.length_cons] at hk; omega)))
    simp only [hello_consume_chunks, hello_consume_shape]
    have hfin := hello_after_greeting p0 f hcb ms h1 h2
    unfold hello_feed_all at hfin
    unfold consume_chunks_shape at h
    rw [hM] at h
    refine ⟨?_, h.2⟩
    rw [h.1, hfin]
  · intro chunks b p0 e U P hd hroom hU1 hU2 hP hM
    have h := consume_chunks_all auth_parser_feed (fun q => q.state) auth_is_done
      auth_absorbing auth_is_done_keep chunks b (auth_parser_init p0) e hd hroom (by
        intro k _ hk
        rw [hM] at hk ⊢
        exact auth_not_done_of_not_terminal _ e
          (auth_prefix_not_terminal p0 U P hU1 hU2 hP k hk))
    simp only [auth_consume_chunks, auth_consume_shape]
    have hfin := auth_after_wire p0 U P hU1 hU2 hP
    unfold auth_feed_all at hfin
    unfold consume_chunks_shape at h
    rw [hM] at h
    refine ⟨?_, h.2⟩
    rw [h.1, hfin]
  · intro chunks b p0 e rsv atyp addr p1 p2 hd hroom hok hM
    have h := consume_chunks_all request_parser_feed (fun q => q.state) request_is_done
      request_absorbing request_is_done_keep chunks b (request_parser_init p0) e hd hroom (by
        intro k _ hk
        rw [hM] at hk ⊢
        exact request_not_done_of_not_terminal _ e
          (request_prefix_not_terminal p0 rsv atyp addr p1 p2 hok k hk))
    simp only [request_consume_chunks, request_consume_shape]
    have hfin := request_after_wire p0 rsv atyp addr p1 p2 hok
    unfold request_feed_all at hfin
    unfold consume_chunks_shape at h
    rw [hM] at h
    refine ⟨?_, h.2⟩
    rw [h.1, hfin]

/-- Claim C4, instance: the auth message `01 05 'alice' 06 's3cret'` received as
three chunks ends in `auth_done` with alice and s3cret stored, as when received
in one piece. -/
theorem C4_fragmentation_invariance_witness :
    (auth_consume_chunks
        [[0x01, 0x05, 0x61], [0x6C, 0x69, 0x63, 0x65, 0x06, 0x73], [0x33, 0x63, 0x72, 0x65, 0x74]]
        buffer16 (auth_parser_init auth_stale) (some false)).2.2.1
      = (auth_consume (buffer_recv buffer16
          [0x01, 0x05, 0x61, 0x6C, 0x69, 0x63, 0x65, 0x06, 0x73, 0x33, 0x63, 0x72, 0x65, 0x74])
          (auth_parser_init auth_stale) (some false)).2.2.1 ∧
    (auth_consume_chunks
        [[0x01, 0x05, 0x61], [0x6C, 0x69, 0x63, 0x65, 0x06, 0x73], [0x33, 0x63, 0x72, 0x65, 0x74]]
        buffer16 (auth_parser_init auth_stale) (some false)).1 = auth_done ∧
    (auth_consume_chunks
        [[0x01, 0x05, 0x61], [0x6C, 0x69, 0x63, 0x65, 0x06, 0x73], [0x33, 0x63, 0x72, 0x65, 0x74]]
        buffer16 (auth_parser_init auth_stale) (some false)).2.2.1
      = auth_feed_all (auth_parser_init auth_stale)
          [0x01, 0x05, 0x61, 0x6C, 0x69, 0x63, 0x65, 0x06, 0x73, 0x33, 0x63, 0x72, 0x65, 0x74] := by
  have h1 := C4_fragmentation_invariance.2.1
    [[0x01, 0x05, 0x61], [0x6C, 0x69, 0x63, 0x65, 0x06, 0x73], [0x33, 0x63, 0x72, 0x65, 0x74]]
    buffer16 (auth_parser_init auth_stale) (some false) rfl (by decide)
  have h2 := C4_fragmentation_invariance.2.2.2.2.1
    [[0x01, 0x05, 0x61], [0x6C, 0x69, 0x63, 0x65, 0x06, 0x73], [0x33, 0x63, 0x72, 0x65, 0x74]]
    buffer16 auth_stale (some false) [0x61, 0x6C, 0x69, 0x63, 0x65]
    [0x73, 0x33, 0x63, 0x72, 0x65, 0x74] rfl (by decide) (by decide) (by decide) (by decide) rfl
  exact ⟨h1.2.1, h2.1, h2.2⟩

/-! ## Marshalling: lack of space, the domain case, decoding -/

/-- The two stores of `hello_marshall` and `auth_marshall` are one `memcpy`. -/
theorem marshall_two_stores (d : List Nat) (w a b : Nat) :
    (d.set w a).set (w + 1) b = memcpy d w [a, b] := by
  simp [memcpy]

theorem hello_marshall_ok (b : buffer) (method : Nat) (hm : method < 256)
    (hroom : b.write + 2 ≤ b.data.length) :
    hello_marshall b method =
      (2, { data := b.data.take b.write ++ [0x05, method] ++ b.data.drop (b.write + 2),
            read := b.read, write := b.write + 2 }) := by
  unfold hello_marshall
  simp only [buffer_write_ptr, buffer_write_adv, SOCKS_VERSION, Nat.mod_eq_of_lt hm]
  rw [if_neg (by omega), marshall_two_stores, memcpy_eq _ _ _ (by simpa using hroom)]
  rfl

theorem auth_marshall_ok (b : buffer) (status : Nat) (hs : status < 256)
    (hroom : b.write + 2 ≤ b.data.length) :
    auth_marshall b status =
      (2, { data := b.data.take b.write ++ [0x01, status] ++ b.data.drop (b.write + 2),
            read := b.read, write := b.write + 2 }) := by
  unfold auth_marshall
  simp only [buffer_write_ptr, buffer_write_adv, AUTH_VERSION, Nat.mod_eq_of_lt hs]
  rw [if_neg (by omega), marshall_two_stores, memcpy_eq _ _ _ (by simpa using hroom)]
  rfl

theorem request_marshall_addr_bytes_length (atyp : Nat) (addr : Option (List Nat))
    (haddr : ∀ a, addr = some a → 16 ≤ a.length) :
    (request_marshall_addr_bytes atyp addr).length = request_marshall_addr_len atyp := by
  have hne : ¬ socks_req_addrtype_ipv6 = socks_req_addrtype_ipv4 := by decide
  unfold request_marshall_addr_bytes request_marshall_addr_len
  cases addr with
  | none => simp
  | some a =>
      have := haddr a rfl
      by_cases h4 : atyp = socks_req_addrtype_ipv4
      · subst h4; simp; omega
      · by_cases h6 : atyp = socks_req_addrtype_ipv6
        · subst h6; simp [hne]; omega
        · simp [h4, h6]

/-- With room, `request_marshall` stores one block at the write cursor, for
every address type. -/
theorem request_marshall_ok (b : buffer) (status atyp : Nat) (addr : Option (List Nat))
    (p0 p1 : Nat) (haddr : ∀ a, addr = some a → 16 ≤ a.length)
    (hroom : b.write + (6 + request_marshall_addr_len atyp) ≤ b.data.length) :
    request_marshall b status atyp addr [p0, p1] =
      (((6 + request_marshall_addr_len atyp : Nat) : Int),
        { data := b.data.take b.write
            ++ ([0x05, status % 256, 0x00, atyp % 256] ++ request_marshall_addr_bytes atyp addr
                ++ [p0, p1])
            ++ b.data.drop (b.write + (6 + request_marshall_addr_len atyp)),
          read := b.read, write := b.write + (6 + request_marshall_addr_len atyp) }) := by
  have hlen := request_marshall_addr_bytes_length atyp addr haddr
  have hblock := marshall_block b.data b.write [0x05, status % 256, 0x00, atyp % 256]
    (request_marshall_addr_bytes atyp addr) [p0, p1] (by
      simp only [List.length_cons, List.length_nil, hlen]; omega)
  simp only [List.length_cons, List.length_nil, hlen, Nat.zero_add, Nat.reduceAdd] at hblock
  have harr : 4 + request_marshall_addr_len atyp + 2 = 6 + request_marshall_addr_len atyp := by
    omega
  rw [harr] at hblock
  unfold request_marshall
  simp only [buffer_write_ptr, SOCKS_VERSION, buffer_write_adv, harr]
  rw [if_neg (by omega), marshall_header_stores]
  simp only [List.take_succ_cons, List.take_zero, List.take_nil]
  cases addr with
  | none =>
      simp only [request_marshall_addr_bytes] at hblock ⊢
      rw [← hblock]
      rfl
  | some a =>
      simp only [request_marshall_addr_bytes] at hblock ⊢
      split_ifs at hblock ⊢ <;> first | (rw [← hblock]; done) | (rw [← hblock]; rfl)

/-- Claim C11. Each marshal function fails atomically on lack of space:
`hello_marshall` and `auth_marshall` return -1 when fewer than 2 bytes are
writable, `request_marshall` returns -1 when fewer than 6 + address-length are,
and the buffer is then returned as it was, cursors and contents. With room, each
returns the number of bytes it appended at the write cursor: 2 for hello and
auth, the bytes being `05 method` and `01 status`, and 6 + address-length for
the request reply. -/
theorem C11_marshal_fails_atomically (b : buffer) :
    (∀ method, (buffer_write_ptr b).2 < 2 → hello_marshall b method = (-1, b)) ∧
    (∀ status, (buffer_write_ptr b).2 < 2 → auth_marshall b status = (-1, b)) ∧
    (∀ status atyp addr port,
      (buffer_write_ptr b).2 < 6 + request_marshall_addr_len atyp →
      request_marshall b status atyp addr port = (-1, b)) ∧
    (∀ method, method < 256 → 2 ≤ (buffer_write_ptr b).2 →
      buffer_appended b (hello_marshall b method) [0x05, method]) ∧
    (∀ status, status < 256 → 2 ≤ (buffer_write_ptr b).2 →
      buffer_appended b (auth_marshall b status) [0x01, status]) ∧
    (∀ status atyp addr p0 p1, (∀ a, addr = some a → a.length = 256) →
      6 + request_marshall_addr_len atyp ≤ (buffer_write_ptr b).2 →
      (request_marshall b status atyp addr [p0, p1]).1
        = ((6 + request_marshall_addr_len atyp : Nat) : Int) ∧
      ∃ bytes, bytes.length = 6 + request_marshall_addr_len atyp ∧
        buffer_appended b (request_marshall b status atyp addr [p0, p1]) bytes) := by
  refine ⟨?_, ?_, ?_, ?_, ?_, ?_⟩
  · intro method h
    unfold hello_marshall
    rw [if_pos h]
  · intro status h
    unfold auth_marshall
    rw [if_pos h]
  · intro status atyp addr port h
    unfold request_marshall
    simp only []
    rw [if_pos (by omega)]
  · intro method hm h
    simp only [buffer_write_ptr] at h
    have hroom : b.write + 2 ≤ b.data.length := by omega
    rw [hello_marshall_ok b method hm hroom]
    exact buffer_appended_of_eq b _ 2 rfl hroom
  · intro status hs h
    simp only [buffer_write_ptr] at h
    have hroom : b.write + 2 ≤ b.data.length := by omega
    rw [auth_marshall_ok b status hs hroom]
    exact buffer_appended_of_eq b _ 2 rfl hroom
  · intro status atyp addr p0 p1 haddr h
    simp only [buffer_write_ptr] at h
    have hpos : 4 ≤ 6 + request_marshall_addr_len atyp := by omega
    have hroom : b.write + (6 + request_marshall_addr_len atyp) ≤ b.data.length := by omega
    have haddr16 : ∀ a, addr = some a → 16 ≤ a.length := by
      intro a ha; rw [haddr a ha]; decide
    have hlen := request_marshall_addr_bytes_length atyp addr haddr16
    rw [request_marshall_ok b status atyp addr p0 p1 haddr16 hroom]
    refine ⟨rfl, _, ?_, buffer_appended_of_eq b _ _ ?_ hroom⟩
    · simp only [List.length_append, List.length_cons, List.length_nil, hlen]; omega
    · simp only [List.length_append, List.length_cons, List.length_nil, hlen]; omega

/-- Claim C11, instance: with one writable byte `hello_marshall` returns -1 and
the buffer as it was; with sixteen it appends `05 02`. -/
theorem C11_marshal_fails_atomically_witness :
    hello_marshall buffer16_nearly_full 0x02 = (-1, buffer16_nearly_full) ∧
    (hello_marshall buffer16 0x02).1 = 2 ∧
    (hello_marshall buffer16 0x02).2.data = [0x05, 0x02] ++ List.replicate 14 0 :=
  ⟨(C11_marshal_fails_atomically buffer16_nearly_full).1 0x02 (by decide),
   ((C11_marshal_fails_atomically buffer16).2.2.2.1 0x02 (by decide) (by decide)).1,
   ((C11_marshal_fails_atomically buffer16).2.2.2.1 0x02 (by decide) (by decide)).2.1⟩

/-- Claim C12, as amended. For every status byte, address and port bytes
`p0 p1`, with room in the buffer, `request_marshall` called with atyp = domain
(0x03) appends exactly the 7 bytes `05 status 00 03 00 p0 p1` and returns 7: the
address type byte is 0x03 and the address is the single zero byte, whatever the
address passed. -/
theorem C12_domain_reply_is_seven_bytes (b : buffer) (status : Nat) (addr : Option (List Nat))
    (p0 p1 : Nat) (hs : status < 256) (haddr : ∀ a, addr = some a → a.length = 256)
    (hroom : b.write + 7 ≤ b.data.length) :
    buffer_appended b (request_marshall b status socks_req_addrtype_domain addr [p0, p1])
      [0x05, status, 0x00, 0x03, 0x00, p0, p1] := by
  have hlen : request_marshall_addr_len socks_req_addrtype_domain = 1 := rfl
  have haddr16 : ∀ a, addr = some a → 16 ≤ a.length := by
    intro a ha; rw [haddr a ha]; decide
  have hbytes : request_marshall_addr_bytes socks_req_addrtype_domain addr = [0] := by
    cases addr <;> rfl
  rw [request_marshall_ok b status socks_req_addrtype_domain addr p0 p1 haddr16
    (by rw [hlen]; omega), hbytes, hlen, Nat.mod_eq_of_lt hs]
  exact buffer_appended_of_eq b _ 7 rfl hroom

/-- Claim C12, instance of the amended statement: a success reply of type domain
for port 8080, after two pending bytes. -/
theorem C12_domain_reply_is_seven_bytes_witness :
    (request_marshall buffer16_pending 0x00 socks_req_addrtype_domain (some addr_loopback)
        [0x1F, 0x90]).2.data
      = [0xAA, 0xBB, 0x05, 0x00, 0x00, 0x03, 0x00, 0x1F, 0x90]
          ++ [0xEE, 0xEE, 0xEE, 0xEE, 0xEE, 0xEE, 0xEE] :=
  (C12_domain_reply_is_seven_bytes buffer16_pending 0x00 (some addr_loopback) 0x1F 0x90
    (by decide) (by intro a ha; cases ha; simp [addr_loopback, -List.reduceReplicate])
    (by decide)).2.1

/-- Claim C12 as stated fails: on an empty 16-byte buffer `request_marshall` with
atyp = domain returns 7, not 10, and the bytes it appends are
`05 00 00 03 00 1F 90`, with address type byte 0x03, not 0x01. -/
theorem C12_counterexample :
    (request_marshall buffer16 0x00 socks_req_addrtype_domain (some addr_loopback)
        [0x1F, 0x90]).1 = 7 ∧
    (request_marshall buffer16 0x00 socks_req_addrtype_domain (some addr_loopback)
        [0x1F, 0x90]).2.write = 7 ∧
    (request_marshall buffer16 0x00 socks_req_addrtype_domain (some addr_loopback)
        [0x1F, 0x90]).2.data.take 7 = [0x05, 0x00, 0x00, 0x03, 0x00, 0x1F, 0x90] ∧
    (request_marshall buffer16 0x00 socks_req_addrtype_domain (some addr_loopback)
        [0x1F, 0x90]).2.data.take 10
      ≠ [0x05, 0x00, 0x00, 0x01, 0x00, 0x00, 0x00, 0x00, 0x1F, 0x90] := by
  decide

theorem marshalled_bytes_of_appended (b : buffer) (r : Int × buffer) (bytes : List Nat)
    (hw : b.write ≤ b.data.length) (h : buffer_appended b r bytes) :
    marshalled_bytes b r = bytes := by
  obtain ⟨_, hdata, _, _, hwr, _⟩ := h
  unfold marshalled_bytes
  have hl : (List.take b.write b.data).length = b.write := by
    rw [List.length_take]; omega
  rw [hdata, hwr, Nat.add_sub_cancel_left, List.append_assoc,
    List.drop_append_of_le_length (by omega), List.drop_of_length_le (by omega),
    List.nil_append, List.take_left]

/-- Claim C13. For every IPv4 address `a` (the first 4 bytes of the union) and
port bytes `p0 p1`, decoding the bytes `request_marshall` wrote for status 0x00
and atyp IPv4 according to the reply wire format gives version 5, status 0x00,
atyp IPv4, address `a` and port `p0 p1`, with no byte left over; likewise for
every IPv6 address (the first 16 bytes) with atyp IPv6. -/
theorem C13_reply_round_trip (b : buffer) (u : List Nat) (p0 p1 : Nat)
    (hu : u.length = 256) :
    (b.write + 10 ≤ b.data.length →
      reply_wire_decode
          (marshalled_bytes b (request_marshall b 0x00 socks_req_addrtype_ipv4 (some u) [p0, p1]))
        = some ({ ver := 5, rep := 0x00, atyp := socks_req_addrtype_ipv4,
                  bnd_addr := u.take 4, bnd_port := [p0, p1] }, [])) ∧
    (b.write + 22 ≤ b.data.length →
      reply_wire_decode
          (marshalled_bytes b (request_marshall b 0x00 socks_req_addrtype_ipv6 (some u) [p0, p1]))
        = some ({ ver := 5, rep := 0x00, atyp := socks_req_addrtype_ipv6,
                  bnd_addr := u.take 16, bnd_port := [p0, p1] }, [])) := by
  have h16 : ∀ a, some u = some a → 16 ≤ a.length := by
    intro a ha; cases ha; omega
  have h256 : ∀ a, some u = some a → a.length = 256 := by
    intro a ha; cases ha; exact hu
  constructor
  · intro hroom
    have happ : buffer_appended b
        (request_marshall b 0x00 socks_req_addrtype_ipv4 (some u) [p0, p1])
        ([0x05, 0x00, 0x00, 0x01] ++ u.take 4 ++ [p0, p1]) := by
      rw [request_marshall_ipv4 b 0 (some u) p0 p1 (by decide)
        (by intro a ha; cases ha; omega) hroom]
      exact buffer_appended_of_eq b _ 10 (by simp [reply_addr_bytes, List.length_take, hu]) hroom
    rw [marshalled_bytes_of_appended b _ _ (by omega) happ]
    obtain ⟨a0, a1, a2, a3, hta⟩ : ∃ a0 a1 a2 a3, u.take 4 = [a0, a1, a2, a3] := by
      have hl : (u.take 4).length = 4 := by rw [List.length_take]; omega
      match hq : u.take 4, hl with
      | [a0, a1, a2, a3], _ => exact ⟨a0, a1, a2, a3, rfl⟩
    rw [hta]
    simp [reply_wire_decode, socks_req_addrtype_ipv4]
  · intro hroom
    have happ : buffer_appended b
        (request_marshall b 0x00 socks_req_addrtype_ipv6 (some u) [p0, p1])
        ([0x05, 0x00, 0x00, 0x04] ++ u.take 16 ++ [p0, p1]) := by
      rw [request_marshall_ipv6 b 0 (some u) p0 p1 (by decide)
        (by intro a ha; cases ha; omega) hroom]
      exact buffer_appended_of_eq b _ 22 (by simp [reply_addr_bytes, List.length_take, hu]) hroom
    rw [marshalled_bytes_of_appended b _ _ (by omega) happ]
    have hl : (u.take 16).length = 16 := by rw [List.length_take]; omega
    have hdec : reply_wire_decode ([0x05, 0x00, 0x00, 0x04] ++ u.take 16 ++ [p0, p1])
        = some ({ ver := 5, rep := 0x00, atyp := 4,
                  bnd_addr := (u.take 16 ++ [p0, p1]).take 16,
                  bnd_port := ((u.take 16 ++ [p0, p1]).drop 16).take 2 },
                (u.take 16 ++ [p0, p1]).drop (16 + 2)) := by
      simp [reply_wire_decode, hl]
    rw [hdec, List.take_left' hl, List.drop_left' hl]
    have hd : (u.take 16 ++ [p0, p1]).drop (16 + 2) = [] := by
      apply List.drop_of_length_le
      simp [hl]
    rw [hd]
    rfl

/-- Claim C13, instance: the success reply for 127.0.0.1, port 8080, decodes to
itself. -/
theorem C13_reply_round_trip_witness :
    reply_wire_decode
        (marshalled_bytes buffer16_pending
          (request_marshall buffer16_pending 0x00 socks_req_addrtype_ipv4 (some addr_loopback)
            [0x1F, 0x90]))
      = some ({ ver := 5, rep := 0x00, atyp := 0x01, bnd_addr := [127, 0, 0, 1],
                bnd_port := [0x1F, 0x90] }, []) :=
  (C13_reply_round_trip buffer16_pending addr_loopback 0x1F 0x90
    (by simp [addr_loopback, -List.reduceReplicate])).1 (by decide)

/-! ## Reply codes -/

/-- Claim C14. For every `errno` value `e` of a failed connect, that is
`e ≠ 0`: `errno_to_socks e` is 0x05 if `e` is ECONNREFUSED, 0x04 if
EHOSTUNREACH, 0x03 if ENETUNREACH, 0x06 if ETIMEDOUT, and 0x01 for every other
`e`. -/
theorem C14_errno_to_socks (P : platform) (hP : errno_labels_distinct P) (e : Int)
    (he : e ≠ 0) :
    (e = P.ECONNREFUSED → errno_to_socks P e = 0x05) ∧
    (e = P.EHOSTUNREACH → errno_to_socks P e = 0x04) ∧
    (e = P.ENETUNREACH → errno_to_socks P e = 0x03) ∧
    (e = P.ETIMEDOUT → errno_to_socks P e = 0x06) ∧
    (e ≠ P.ECONNREFUSED → e ≠ P.EHOSTUNREACH → e ≠ P.ENETUNREACH → e ≠ P.ETIMEDOUT →
      errno_to_socks P e = 0x01) := by
  obtain ⟨h12, h13, h14, h23, h24, h34⟩ := hP
  unfold errno_to_socks
  refine ⟨?_, ?_, ?_, ?_, ?_⟩
  · intro h
    rw [if_neg he, if_pos h]; rfl
  · intro h
    rw [if_neg he, if_neg (by rw [h]; exact fun x => h12 x.symm), if_pos h]; rfl
  · intro h
    rw [if_neg he, if_neg (by rw [h]; exact fun x => h13 x.symm),
      if_neg (by rw [h]; exact fun x => h23 x.symm), if_pos h]; rfl
  · intro h
    rw [if_neg he, if_neg (by rw [h]; exact fun x => h14 x.symm),
      if_neg (by rw [h]; exact fun x => h24 x.symm),
      if_neg (by rw [h]; exact fun x => h34 x.symm), if_pos h]; rfl
  · intro h1 h2 h3 h4
    rw [if_neg he, if_neg h1, if_neg h2, if_neg h3, if_neg h4]; rfl

/-- Claim C14, instance: on Linux ECONNREFUSED (111) gives 0x05 and EPIPE (32)
gives 0x01. -/
theorem C14_errno_to_socks_witness :
    errno_to_socks platform_linux 111 = 0x05 ∧ errno_to_socks platform_linux 32 = 0x01 :=
  ⟨(C14_errno_to_socks platform_linux (by unfold errno_labels_distinct; decide) 111 (by decide)).1 rfl,
   (C14_errno_to_socks platform_linux (by unfold errno_labels_distinct; decide) 32 (by decide)).2.2.2.2
     (by decide) (by decide) (by decide) (by decide)⟩

/-! ## HELLO and AUTH handlers -/

/-- A `hello_consume` loop that returns `hello_done` has left `*errored` alone. -/
theorem hello_consume_loop_done {δ : Type} (fuel : Nat) :
    ∀ (b : buffer) (p : hello_parser_t δ) (e : Option Bool) (s : hello_state),
      (hello_consume_loop fuel b p e s).1 = hello_done →
      (hello_consume_loop fuel b p e s).2.2.2 = e := by
  induction fuel with
  | zero => intro b p e s _; rfl
  | succ n ih =>
      intro b p e s h
      simp only [hello_consume_loop] at h ⊢
      split_ifs at h ⊢ with h1 h2
      · simp only at h
        rw [h]
        rfl
      · rw [ih _ _ _ _ h]
        exact hello_is_done_keep _ _ (by simpa using h2)
      · rfl

/-- Claim C15, as amended. In HELLO_READ, for every received greeting on which
the hello parser reaches done, when the interest swap to WRITE succeeds and the
write buffer has room for two bytes, `hello_read` appends exactly the two bytes
`05 <selected method>` to the write buffer, and returns HELLO_WRITE when the
selected method is not 0xFF and ERROR when it is 0xFF. -/
theorem C15_hello_read_replies (d : hello_st) (rcv : recv_outcome)
    (hrecv : 0 < recv_n rcv (buffer_write_ptr d.rb).2)
    (hdone : (hello_read_consumed d rcv).1 = hello_done)
    (hm : (hello_read_consumed d rcv).2.2.1.data < 256)
    (hroom : d.wb.write + 2 ≤ d.wb.data.length) :
    buffer_appended d.wb (2, (hello_read d rcv true).2.wb)
      [0x05, (hello_read_consumed d rcv).2.2.1.data] ∧
    (hello_read d rcv true).2.method = (hello_read_consumed d rcv).2.2.1.data ∧
    ((hello_read_consumed d rcv).2.2.1.data ≠ 0xFF →
      (hello_read d rcv true).1 = HELLO_WRITE) ∧
    ((hello_read_consumed d rcv).2.2.1.data = 0xFF →
      (hello_read d rcv true).1 = ERROR) := by
  have herr : (hello_read_consumed d rcv).2.2.2 = some false :=
    hello_consume_loop_done _ _ _ _ _ hdone
  have hd : (hello_is_done (hello_read_consumed d rcv).1 none).1 = true := by
    rw [hdone]; rfl
  have hread : hello_read d rcv true
      = hello_process { d with rb := (hello_read_consumed d rcv).2.1,
                               parser := (hello_read_consumed d rcv).2.2.1 } := by
    unfold hello_read
    simp only [if_pos hrecv]
    unfold hello_read_consumed at hd herr ⊢
    simp only [hd, herr, if_true]
    simp
  rw [hread]
  unfold hello_process
  simp only [hello_st.method]
  have hmar := hello_marshall_ok d.wb _ hm hroom
  simp only [hmar]
  refine ⟨buffer_appended_of_eq d.wb _ 2 rfl hroom, trivial, ?_, ?_⟩
  · intro hne
    simp [SOCKS_HELLO_NO_ACCEPTABLE_METHODS, hne]
  · intro he
    simp [SOCKS_HELLO_NO_ACCEPTABLE_METHODS, he]

/-- Claim C15, instance of the amended statement: with alice configured, the
greeting `05 01 02` is answered `05 02` and the state becomes HELLO_WRITE. -/
theorem C15_hello_read_replies_witness :
    buffer_appended buffer16
      (2, (hello_read (hello_read_init users_alice buffer16 buffer16 hello_stale)
        (recv_outcome.data [0x05, 0x01, 0x02]) true).2.wb) [0x05, 0x02] ∧
    (hello_read (hello_read_init users_alice buffer16 buffer16 hello_stale)
        (recv_outcome.data [0x05, 0x01, 0x02]) true).1 = HELLO_WRITE :=
  have h := C15_hello_read_replies (hello_read_init users_alice buffer16 buffer16 hello_stale)
    (recv_outcome.data [0x05, 0x01, 0x02]) (by decide) (by decide) (by decide) (by decide)
  ⟨h.1, h.2.2.1 (by decide)⟩

/-- Claim C15 as stated fails: with alice configured, the greeting `05 01 00`
brings the hello parser to done with no method selected; the interest swap
succeeds and the write buffer has room, `05 FF` is appended, and `hello_read`
returns ERROR, not HELLO_WRITE. -/
theorem C15_counterexample :
    (hello_read_consumed (hello_read_init users_alice buffer16 buffer16 hello_stale)
      (recv_outcome.data [0x05, 0x01, 0x00])).1 = hello_done ∧
    buffer16.write + 2 ≤ buffer16.data.length ∧
    (hello_read (hello_read_init users_alice buffer16 buffer16 hello_stale)
      (recv_outcome.data [0x05, 0x01, 0x00]) true).1 = ERROR ∧
    buffer_readable (hello_read (hello_read_init users_alice buffer16 buffer16 hello_stale)
      (recv_outcome.data [0x05, 0x01, 0x00]) true).2.wb = [0x05, 0xFF] ∧
    (hello_read (hello_read_init users_alice buffer16 buffer16 hello_stale)
      (recv_outcome.data [0x05, 0x01, 0x00]) true).1 ≠ HELLO_WRITE := by
  decide

/-- A `send` that succeeds returns the number of bytes taken, at most `count`. -/
theorem send_n_sent (k count : Nat) :
    send_n (send_outcome.sent k) count ≠ -1 ∧
    (send_n (send_outcome.sent k) count).toNat = min k count := by
  simp only [send_n]
  constructor
  · omega
  · exact Int.toNat_ofNat _

/-- The outcome of `hello_write` when the send succeeds. -/
theorem hello_write_sent (d : hello_st) (k : Nat) (ok : Bool) :
    hello_write d (send_outcome.sent k) ok =
      if buffer_can_read (buffer_read_adv d.wb (min k (d.wb.write - d.wb.read))) = true then
        (HELLO_WRITE, { d with wb := buffer_read_adv d.wb (min k (d.wb.write - d.wb.read)) })
      else
        (if ok = true then (if d.method = 0x02 then AUTH_READ else REQUEST_READ) else ERROR,
          { d with wb := buffer_read_adv d.wb (min k (d.wb.write - d.wb.read)) }) := by
  unfold hello_write
  simp only [if_neg (send_n_sent k _).1, (send_n_sent k _).2, buffer_read_ptr,
    hello_st.method, SOCKS_HELLO_USERNAME_PASSWORD]
  cases ok <;> split_ifs <;> simp_all

/-- Claim C16, as amended. In HELLO_WRITE, when a send succeeds and leaves the
write buffer empty and the interest change succeeds, `hello_write` returns
AUTH_READ if the selected method is 0x02 and REQUEST_READ for every other
method, 0xFF among them: `hello_write` has no check for 0xFF, it is
`hello_process` that answers ERROR for it before HELLO_WRITE is entered. When the
send leaves bytes pending `hello_write` returns HELLO_WRITE, and when the send
fails it returns ERROR; it also returns ERROR when the buffer is drained and the
interest change fails. -/
theorem C16_hello_write_next (d : hello_st) (k : Nat) (selector_ok : Bool) :
    (buffer_can_read (hello_write d (send_outcome.sent k) true).2.wb = false →
      (d.method = 0x02 → (hello_write d (send_outcome.sent k) true).1 = AUTH_READ) ∧
      (d.method ≠ 0x02 → (hello_write d (send_outcome.sent k) true).1 = REQUEST_READ)) ∧
    (buffer_can_read (hello_write d (send_outcome.sent k) false).2.wb = false →
      (hello_write d (send_outcome.sent k) false).1 = ERROR) ∧
    (buffer_can_read (hello_write d (send_outcome.sent k) selector_ok).2.wb = true →
      (hello_write d (send_outcome.sent k) selector_ok).1 = HELLO_WRITE) ∧
    (hello_write d send_outcome.error selector_ok).1 = ERROR ∧
    (hello_write d send_outcome.error selector_ok).2 = d ∧
    (hello_write d (send_outcome.sent k) selector_ok).2.wb
      = buffer_read_adv d.wb (min k (d.wb.write - d.wb.read)) := by
  simp only [hello_write_sent]
  by_cases h1 : buffer_can_read (buffer_read_adv d.wb (min k (d.wb.write - d.wb.read))) = true
  · simp [h1, hello_write, send_n]
  · have h1f : buffer_can_read (buffer_read_adv d.wb (min k (d.wb.write - d.wb.read)))
        = false := by simpa using h1
    simp only [if_neg h1, h1f]
    refine ⟨fun _ => ⟨fun hm => by simp [hm], fun hm => by simp [hm]⟩, fun _ => by simp,
      fun h => absurd h h1, by simp [hello_write, send_n], by simp [hello_write, send_n], rfl⟩

/-- Claim C16, instance of the amended statement: with `05 02` in the write
buffer and method 0x02, a send of both bytes leads to AUTH_READ. -/
theorem C16_hello_write_next_witness :
    (hello_write (hello_st_replying 0x02) (send_outcome.sent 2) true).1 = AUTH_READ :=
  ((C16_hello_write_next (hello_st_replying 0x02) 2 true).1 (by decide)).1 (by decide)

/-- Claim C16 as stated fails: with `05 FF` in the write buffer and method 0xFF,
when the send takes both bytes and the interest change succeeds `hello_write`
returns REQUEST_READ, not ERROR. -/
theorem C16_counterexample :
    (hello_st_replying 0xFF).method = 0xFF ∧
    buffer_can_read
      (hello_write (hello_st_replying 0xFF) (send_outcome.sent 2) true).2.wb = false ∧
    (hello_write (hello_st_replying 0xFF) (send_outcome.sent 2) true).1 = REQUEST_READ ∧
    (hello_write (hello_st_replying 0xFF) (send_outcome.sent 2) true).1 ≠ ERROR := by
  decide

/-- The outcome of `auth_write` when the send succeeds. -/
theorem auth_write_sent (d : auth_st) (k : Nat) (ok : Bool) :
    auth_write d (send_outcome.sent k) ok =
      if buffer_can_read (buffer_read_adv d.wb (min k (d.wb.write - d.wb.read))) = true then
        (AUTH_WRITE, { d with wb := buffer_read_adv d.wb (min k (d.wb.write - d.wb.read)) })
      else
        (if d.status = 0x00 then (if ok = true then REQUEST_READ else ERROR) else ERROR,
          { d with wb := buffer_read_adv d.wb (min k (d.wb.write - d.wb.read)) }) := by
  unfold auth_write
  simp only [if_neg (send_n_sent k _).1, (send_n_sent k _).2, buffer_read_ptr]
  cases ok <;> split_ifs <;> simp_all

/-- Claim C17, as amended. After the auth parser reaches done, when the write
buffer has room for two bytes, `auth_process` appends exactly `01 00` to the
write buffer when the credentials match and `01 01` when they do not, and
returns AUTH_WRITE; in AUTH_WRITE, once a send drains the write buffer,
`auth_write` returns REQUEST_READ if the status was 0x00 and the interest change
to READ succeeds, and ERROR otherwise. -/
theorem C17_auth_reply_and_next (tbl : user_table) (d : auth_st) (s_username : List Nat)
    (m : auth_metrics) (d2 : auth_st) (k : Nat) (selector_ok : Bool) :
    (d.wb.write + 2 ≤ d.wb.data.length →
      (validate_credentials tbl d.parser.username d.parser.password = true →
        buffer_appended d.wb (2, (auth_process tbl d s_username m).d.wb) [0x01, 0x00] ∧
        (auth_process tbl d s_username m).d.status = 0x00 ∧
        (auth_process tbl d s_username m).ret = AUTH_WRITE) ∧
      (validate_credentials tbl d.parser.username d.parser.password = false →
        buffer_appended d.wb (2, (auth_process tbl d s_username m).d.wb) [0x01, 0x01] ∧
        (auth_process tbl d s_username m).d.status = 0x01 ∧
        (auth_process tbl d s_username m).ret = AUTH_WRITE)) ∧
    (buffer_can_read (auth_write d2 (send_outcome.sent k) selector_ok).2.wb = false →
      (d2.status = 0x00 → selector_ok = true →
        (auth_write d2 (send_outcome.sent k) selector_ok).1 = REQUEST_READ) ∧
      (d2.status = 0x00 → selector_ok = false →
        (auth_write d2 (send_outcome.sent k) selector_ok).1 = ERROR) ∧
      (d2.status ≠ 0x00 →
        (auth_write d2 (send_outcome.sent k) selector_ok).1 = ERROR)) := by
  constructor
  · intro hroom
    constructor
    · intro hv
      have h1 : auth_marshall d.wb 0x00 = _ := auth_marshall_ok d.wb 0x00 (by decide) hroom
      simp only [auth_process, hv, if_true, h1]
      exact ⟨buffer_appended_of_eq d.wb [0x01, 0x00] 2 rfl hroom, by simp, by simp⟩
    · intro hv
      have h1 : auth_marshall d.wb 0x01 = _ := auth_marshall_ok d.wb 0x01 (by decide) hroom
      simp only [auth_process, hv, Bool.false_eq_true, if_false, h1]
      exact ⟨buffer_appended_of_eq d.wb [0x01, 0x01] 2 rfl hroom, by simp, by simp⟩
  · simp only [auth_write_sent]
    by_cases h1 : buffer_can_read (buffer_read_adv d2.wb (min k (d2.wb.write - d2.wb.read))) = true
    · simp [h1]
    · simp only [if_neg h1]
      intro _
      refine ⟨fun hs hok => by simp [hs, hok], fun hs hok => by simp [hs, hok],
        fun hs => by simp [hs]⟩

/-- Claim C17, instance of the amended statement: with alice / s3cret configured,
the password `wrong` is answered `01 01`, and once that reply is sent
`auth_write` returns ERROR: no request phase. -/
theorem C17_auth_reply_and_next_witness :
    buffer_appended buffer16 (2, (auth_st_alice [0x77, 0x72, 0x6F, 0x6E, 0x67]).wb)
      [0x01, 0x01] ∧
    (auth_write (auth_st_alice [0x77, 0x72, 0x6F, 0x6E, 0x67]) (send_outcome.sent 2) true).1
      = ERROR :=
  have h := C17_auth_reply_and_next users_alice
    (auth_st_delivered buffer16 buffer16 auth_stale 0x01 [0x61, 0x6C, 0x69, 0x63, 0x65]
      [0x77, 0x72, 0x6F, 0x6E, 0x67])
    (List.replicate 257 0) auth_metrics_zero
    (auth_st_alice [0x77, 0x72, 0x6F, 0x6E, 0x67]) 2 true
  ⟨((h.1 (by decide)).2 (by decide)).1, (h.2 (by decide)).2.2 (by decide)⟩

/-- Claim C17 as stated fails, in two places. With alice / s3cret accepted
(status 0x00) and the reply `01 00` sent in full, `auth_write` returns ERROR, not
REQUEST_READ, when the interest change to READ fails; and with one byte of room
in the write buffer `auth_process` appends nothing and returns ERROR, not
AUTH_WRITE. -/
theorem C17_counterexample :
    ((auth_st_alice [0x73, 0x33, 0x63, 0x72, 0x65, 0x74]).status = 0x00 ∧
      buffer_can_read (auth_write (auth_st_alice [0x73, 0x33, 0x63, 0x72, 0x65, 0x74])
        (send_outcome.sent 2) false).2.wb = false ∧
      (auth_write (auth_st_alice [0x73, 0x33, 0x63, 0x72, 0x65, 0x74])
        (send_outcome.sent 2) false).1 = ERROR) ∧
    ((auth_process users_alice
        (auth_st_delivered buffer16 buffer16_nearly_full auth_stale 0x01
          [0x61, 0x6C, 0x69, 0x63, 0x65] [0x73, 0x33, 0x63, 0x72, 0x65, 0x74])
        (List.replicate 257 0) auth_metrics_zero).ret = ERROR ∧
      (auth_process users_alice
        (auth_st_delivered buffer16 buffer16_nearly_full auth_stale 0x01
          [0x61, 0x6C, 0x69, 0x63, 0x65] [0x73, 0x33, 0x63, 0x72, 0x65, 0x74])
        (List.replicate 257 0) auth_metrics_zero).d.wb = buffer16_nearly_full) := by
  decide

/-! ## REQUEST handlers -/

/-- `request_read` after a `recv` that brought bytes. -/
theorem request_read_data (P : platform) (E : request_deps) (s : socks5) (rcv : recv_outcome)
    (hn : 0 < recv_n rcv (buffer_write_ptr s.request.rb).2) :
    request_read P E s rcv =
      (if (request_read_consumed s rcv).2.2.2 = some true then ERROR
        else (if (request_is_done (request_read_consumed s rcv).1 none).1 = true then
            request_process P E
              { s with request := { s.request with rb := (request_read_consumed s rcv).2.1,
                                                   parser := (request_read_consumed s rcv).2.2.1 } }
          else (REQUEST_READ,
              { s with request := { s.request with rb := (request_read_consumed s rcv).2.1,
                                                   parser := (request_read_consumed s rcv).2.2.1 } })).1,
       (if (request_is_done (request_read_consumed s rcv).1 none).1 = true then
            request_process P E
              { s with request := { s.request with rb := (request_read_consumed s rcv).2.1,
                                                   parser := (request_read_consumed s rcv).2.2.1 } }
          else (REQUEST_READ,
              { s with request := { s.request with rb := (request_read_consumed s rcv).2.1,
                                                   parser := (request_read_consumed s rcv).2.2.1 } })).2) := by
  unfold request_read
  simp only [if_pos hn]
  rfl

/-- The request parser, fed a request whose command byte is not CONNECT, stops at
the command byte with the error recorded and `cmd` still zero. -/
theorem request_until_done_bad_cmd (old : request_parser_t) (c : Nat) (rest : List Nat)
    (hc : c ≠ socks_req_cmd_connect) :
    feed_until_done request_parser_feed (fun q => q.state) request_is_done
        (0x05 :: c :: rest) (request_parser_init old) (some false)
      = ({ request := { cmd := 0, dest_addr_type := 0, dest_addr := List.replicate 256 0,
                        dest_port := List.replicate 2 0 },
           state := request_error_unsupported_cmd, remaining := 0, addr_idx := 0 },
         some true) := by
  have hc1 : ¬ c = 1 := hc
  simp only [feed_until_done, request_parser_feed, request_parser_init, request_is_done,
    SOCKS_VERSION, socks_req_cmd_connect, socks_req_cmd_bind, socks_req_cmd_udp_associate,
    if_true, if_neg hc1, ite_self, Option.map, Bool.false_eq_true, if_false]

/-- The request parser, fed a CONNECT request whose address type is none of
IPv4, domain and IPv6, stops at the address type byte with the error recorded. -/
theorem request_until_done_bad_atyp (old : request_parser_t) (rsv t : Nat) (rest : List Nat)
    (h4 : t ≠ socks_req_addrtype_ipv4) (h3 : t ≠ socks_req_addrtype_domain)
    (h6 : t ≠ socks_req_addrtype_ipv6) :
    feed_until_done request_parser_feed (fun q => q.state) request_is_done
        (0x05 :: 0x01 :: rsv :: t :: rest) (request_parser_init old) (some false)
      = ({ request := { cmd := 1, dest_addr_type := t, dest_addr := List.replicate 256 0,
                        dest_port := List.replicate 2 0 },
           state := request_error_unsupported_atyp, remaining := 0, addr_idx := 0 },
         some true) := by
  have h4 : ¬ t = 1 := h4
  have h3 : ¬ t = 3 := h3
  have h6 : ¬ t = 4 := h6
  simp only [feed_until_done, request_parser_feed, request_parser_init, request_is_done,
    SOCKS_VERSION, socks_req_cmd_connect, socks_req_addrtype_ipv4, socks_req_addrtype_domain,
    socks_req_addrtype_ipv6, if_true, if_neg h4, if_neg h3, if_neg h6, Option.map,
    Bool.false_eq_true, if_false]

/-- The `request_consume` call of `request_read`, on a drained read buffer with
room for the received bytes, in terms of feeding them until `request_is_done`. -/
theorem request_read_consumed_spec (s : socks5) (bytes : List Nat)
    (hok : buffer_ok s.request.rb) (hdr : s.request.rb.read = s.request.rb.write)
    (hfit : s.request.rb.write + bytes.length ≤ s.request.rb.data.length) :
    recv_n (recv_outcome.data bytes) (buffer_write_ptr s.request.rb).2 = (bytes.length : Nat) ∧
    (request_read_consumed s (recv_outcome.data bytes)).1
      = (feed_until_done request_parser_feed (fun q => q.state) request_is_done bytes
          s.request.parser (some false)).1.state ∧
    (request_read_consumed s (recv_outcome.data bytes)).2.2.1
      = (feed_until_done request_parser_feed (fun q => q.state) request_is_done bytes
          s.request.parser (some false)).1 ∧
    (request_read_consumed s (recv_outcome.data bytes)).2.2.2
      = (feed_until_done request_parser_feed (fun q => q.state) request_is_done bytes
          s.request.parser (some false)).2 := by
  have htake : bytes.take (buffer_write_ptr s.request.rb).2 = bytes := by
    apply List.take_of_length_le
    simp only [buffer_write_ptr]
    omega
  obtain ⟨h1, h2, h3, _⟩ := consume_shape_recv request_parser_feed (fun q => q.state)
    request_is_done request_absorbing s.request.rb bytes s.request.parser (some false)
    hok hfit (Or.inr hdr)
  refine ⟨?_, ?_, ?_, ?_⟩
  · simp only [recv_n, htake]
  · simp only [request_read_consumed, recv_bytes, htake, request_consume_shape]
    exact h1
  · simp only [request_read_consumed, recv_bytes, htake, request_consume_shape]
    exact h2
  · simp only [request_read_consumed, recv_bytes, htake, request_consume_shape]
    exact h3

/-- Claim C18, what the code does. In REQUEST_READ, with the parser initialised
and the read buffer drained: for every request whose command byte is not CONNECT,
`request_read` sets the reply status to command-not-supported (0x07) and returns
ERROR, not REQUEST_WRITE, leaving the write buffer as it was, so that no reply
is marshalled or sent; likewise a CONNECT request with an unsupported address
type yields status 0x08 and ERROR. -/
theorem C18_unsupported_request_returns_error (P : platform) (E : request_deps) (s : socks5)
    (rb wb : buffer) (old : request_parser_t)
    (hreq : s.request = request_read_init rb wb old)
    (hok : buffer_ok rb) (hdr : rb.read = rb.write) :
    (∀ (c : Nat) (rest : List Nat), c ≠ socks_req_cmd_connect →
      rb.write + (2 + rest.length) ≤ rb.data.length →
      (request_read P E s (recv_outcome.data (0x05 :: c :: rest))).1 = ERROR ∧
      (request_read P E s (recv_outcome.data (0x05 :: c :: rest))).2.request.status
        = socks_status_command_not_supported ∧
      (request_read P E s (recv_outcome.data (0x05 :: c :: rest))).2.request.wb = wb) ∧
    (∀ (rsv t : Nat) (rest : List Nat), t ≠ socks_req_addrtype_ipv4 →
      t ≠ socks_req_addrtype_domain → t ≠ socks_req_addrtype_ipv6 →
      rb.write + (4 + rest.length) ≤ rb.data.length →
      (request_read P E s (recv_outcome.data (0x05 :: 0x01 :: rsv :: t :: rest))).1 = ERROR ∧
      (request_read P E s (recv_outcome.data (0x05 :: 0x01 :: rsv :: t :: rest))).2.request.status
        = socks_status_address_type_not_supported ∧
      (request_read P E s (recv_outcome.data (0x05 :: 0x01 :: rsv :: t :: rest))).2.request.wb
        = wb) := by
  have hrb : s.request.rb = rb := by rw [hreq]; rfl
  have hp : s.request.parser = request_parser_init old := by rw [hreq]; rfl
  have hwb : s.request.wb = wb := by rw [hreq]; rfl
  constructor
  · intro c rest hc hfit
    obtain ⟨hn, h1, h2, h3⟩ := request_read_consumed_spec s (0x05 :: c :: rest)
      (by rw [hrb]; exact hok) (by rw [hrb]; exact hdr)
      (by rw [hrb]; simp only [List.length_cons]; omega)
    rw [hp, request_until_done_bad_cmd old c rest hc] at h1 h2 h3
    rw [request_read_data P E s _ (by rw [hn]; simp only [List.length_cons]; omega)]
    simp only [h1, h2, h3, request_is_done, if_true]
    simp [request_process, request_st.request, socks_req_cmd_connect, hwb,
      -List.reduceReplicate]
  · intro rsv t rest h4 h3' h6 hfit
    obtain ⟨hn, h1, h2, h3⟩ := request_read_consumed_spec s (0x05 :: 0x01 :: rsv :: t :: rest)
      (by rw [hrb]; exact hok) (by rw [hrb]; exact hdr)
      (by rw [hrb]; simp only [List.length_cons]; omega)
    rw [hp, request_until_done_bad_atyp old rsv t rest h4 h3' h6] at h1 h2 h3
    rw [request_read_data P E s _ (by rw [hn]; simp only [List.length_cons]; omega)]
    simp only [h1, h2, h3, request_is_done, if_true]
    simp [request_process, request_st.request, socks_req_cmd_connect, hwb, h4, h3', h6,
      -List.reduceReplicate]

/-- Claim C18, instance: the BIND request `05 02 00 01 7F 00 00 01 00 50` leaves
status 0x07 and makes `request_read` return ERROR. -/
theorem C18_unsupported_request_returns_error_witness :
    (request_read platform_linux request_deps_idle socks5_request_read
      (recv_outcome.data [0x05, 0x02, 0x00, 0x01, 0x7F, 0x00, 0x00, 0x01, 0x00, 0x50])).1
      = ERROR ∧
    (request_read platform_linux request_deps_idle socks5_request_read
      (recv_outcome.data [0x05, 0x02, 0x00, 0x01, 0x7F, 0x00, 0x00, 0x01, 0x00, 0x50])).2.request.status
      = 0x07 :=
  have h := (C18_unsupported_request_returns_error platform_linux request_deps_idle
    socks5_request_read buffer16 buffer16 request_stale rfl ⟨by decide, by decide⟩ rfl).1
    0x02 [0x00, 0x01, 0x7F, 0x00, 0x00, 0x01, 0x00, 0x50] (by decide) (by decide)
  ⟨h.1, h.2.1⟩

/-- The outcome of `request_write` when the send succeeds. -/
theorem request_write_sent (s : socks5) (k : Nat) (fc : Nat) :
    (request_write s (send_outcome.sent k) fc).1 =
      (if buffer_can_read (buffer_read_adv s.request.wb
          (min k (s.request.wb.write - s.request.wb.read))) = true then REQUEST_WRITE
        else if s.request.status = socks_status_succeeded then COPY else DONE) ∧
    (request_write s (send_outcome.sent k) fc).2.1.request.wb =
      buffer_read_adv s.request.wb (min k (s.request.wb.write - s.request.wb.read)) := by
  unfold request_write
  simp only [if_neg (send_n_sent k _).1, (send_n_sent k _).2, buffer_read_ptr]
  split_ifs <;> simp_all

/-- Claim C19. In REQUEST_WRITE, when a send succeeds and leaves the write
buffer empty, `request_write` returns COPY if the reply status is succeeded and
DONE, never ERROR, for every other status; while bytes remain pending it returns
REQUEST_WRITE; it returns ERROR only when the send itself fails, and then it
does. -/
theorem C19_request_write_next (s : socks5) (k : Nat) (fc : Nat) :
    (buffer_can_read (request_write s (send_outcome.sent k) fc).2.1.request.wb = false →
      (s.request.status = socks_status_succeeded →
        (request_write s (send_outcome.sent k) fc).1 = COPY) ∧
      (s.request.status ≠ socks_status_succeeded →
        (request_write s (send_outcome.sent k) fc).1 = DONE)) ∧
    (buffer_can_read (request_write s (send_outcome.sent k) fc).2.1.request.wb = true →
      (request_write s (send_outcome.sent k) fc).1 = REQUEST_WRITE) ∧
    (∀ snd, (request_write s snd fc).1 = ERROR → snd = send_outcome.error) ∧
    (request_write s send_outcome.error fc).1 = ERROR := by
  have hsent : ∀ j, (request_write s (send_outcome.sent j) fc).1 ≠ ERROR := by
    intro j
    rw [(request_write_sent s j fc).1]
    split_ifs <;> simp
  rw [(request_write_sent s k fc).1, (request_write_sent s k fc).2]
  refine ⟨?_, ?_, ?_, ?_⟩
  · intro h1
    simp only [h1, Bool.false_eq_true, if_false]
    exact ⟨fun hs => by simp [hs], fun hs => by simp [hs]⟩
  · intro h1
    simp only [h1, if_true]
  · intro snd h
    cases snd with
    | sent j => exact absurd h (hsent j)
    | error => rfl
  · simp [request_write, send_n]

/-- Claim C19, instance: with the reply to a refused connect (status 0x05) in
the write buffer, a send that takes all ten bytes leads to DONE. -/
theorem C19_request_write_next_witness :
    (request_write (request_write_init platform_linux (socks5_replying 0x05 (-1) sockaddr_in_local))
      (send_outcome.sent 10) 0).1 = DONE :=
  ((C19_request_write_next
      (request_write_init platform_linux (socks5_replying 0x05 (-1) sockaddr_in_local)) 10 0).1
    (by decide)).2 (by decide)

/-- The first bytes of the zeroed `union socks_addr` after a `memcpy` of an
address to its start. -/
theorem union_take (xs : List Nat) (n : Nat) (hn : xs.length = n) (h256 : n ≤ 256) :
    (memcpy (List.replicate 256 0) 0 (xs.take n)).take n = xs := by
  have hx : xs.take n = xs := List.take_of_length_le (by omega)
  rw [hx, memcpy_eq xs _ 0 (by rw [List.length_replicate]; omega)]
  simp only [List.take_zero, List.nil_append]
  rw [List.take_append_of_le_length (by omega), List.take_of_length_le (by omega)]

/-- The reply `request_write_init` marshals, with room for it. -/
theorem request_write_init_wb (P : platform) (s : socks5) (p0 p1 : Nat)
    (hport : (request_write_reply P s).2.2 = [p0, p1])
    (hroom : s.request.wb.write + (6 + request_marshall_addr_len (request_write_reply P s).1)
      ≤ s.request.wb.data.length) :
    buffer_appended s.request.wb
      (((6 + request_marshall_addr_len (request_write_reply P s).1 : Nat) : Int),
        (request_write_init P s).request.wb)
      ([0x05, s.request.status % 256, 0x00, (request_write_reply P s).1 % 256]
        ++ request_marshall_addr_bytes (request_write_reply P s).1
            (some (request_write_reply P s).2.1)
        ++ [p0, p1]) := by
  have haddr : ∀ a, some (request_write_reply P s).2.1 = some a → 16 ≤ a.length := by
    intro a ha
    cases ha
    unfold request_write_reply
    split_ifs <;> simp only [memcpy_length, List.length_replicate] <;> omega
  have hlen := request_marshall_addr_bytes_length (request_write_reply P s).1
    (some (request_write_reply P s).2.1) haddr
  have h := request_marshall_ok s.request.wb s.request.status (request_write_reply P s).1
    (some (request_write_reply P s).2.1) p0 p1 haddr hroom
  have hwb : (request_write_init P s).request.wb
      = (request_marshall s.request.wb s.request.status (request_write_reply P s).1
          (some (request_write_reply P s).2.1) (request_write_reply P s).2.2).2 := rfl
  rw [hwb, hport, h]
  exact buffer_appended_of_eq s.request.wb _ _
    (by simp only [List.length_append, List.length_cons, List.length_nil, hlen]; omega) hroom

/-- Claim C20, as amended. On arrival in REQUEST_WRITE with a write buffer that
has room for the reply, whatever it already holds, for every reply status `s`
other than succeeded `request_write_init` writes exactly the 10 bytes
`05 s 00 01 00 00 00 00 00 00` (IPv4, all-zero address, port zero); for status
succeeded with an origin socket (`origin_fd` is not -1) and an IPv4 (resp. IPv6)
`origin_addr` it writes atyp 01 (resp. 04) followed by that address and port;
for status succeeded without an origin socket it writes the all-zero IPv4 reply
`05 00 00 01 00 00 00 00 00 00`; it also records `s` as `last_status`. -/
theorem C20_request_write_init_reply (P : platform) (s : socks5)
    (hP : P.AF_INET ≠ P.AF_INET6) (hst : s.request.status < 256) :
    (s.request.status ≠ socks_status_succeeded →
      s.request.wb.write + 10 ≤ s.request.wb.data.length →
      buffer_appended s.request.wb (10, (request_write_init P s).request.wb)
        [0x05, s.request.status, 0x00, 0x01, 0, 0, 0, 0, 0, 0]) ∧
    (s.request.status = socks_status_succeeded → s.origin_fd ≠ -1 →
      (∀ p0 p1, s.origin_addr.ss_family = P.AF_INET → s.origin_addr.sin_addr.length = 4 →
        s.origin_addr.port = [p0, p1] →
        s.request.wb.write + 10 ≤ s.request.wb.data.length →
        buffer_appended s.request.wb (10, (request_write_init P s).request.wb)
          ([0x05, 0x00, 0x00, 0x01] ++ s.origin_addr.sin_addr ++ [p0, p1])) ∧
      (∀ p0 p1, s.origin_addr.ss_family = P.AF_INET6 → s.origin_addr.sin6_addr.length = 16 →
        s.origin_addr.port = [p0, p1] →
        s.request.wb.write + 22 ≤ s.request.wb.data.length →
        buffer_appended s.request.wb (22, (request_write_init P s).request.wb)
          ([0x05, 0x00, 0x00, 0x04] ++ s.origin_addr.sin6_addr ++ [p0, p1]))) ∧
    (s.request.status = socks_status_succeeded → s.origin_fd = -1 →
      s.request.wb.write + 10 ≤ s.request.wb.data.length →
      buffer_appended s.request.wb (10, (request_write_init P s).request.wb)
        [0x05, 0x00, 0x00, 0x01, 0, 0, 0, 0, 0, 0]) ∧
    (request_write_init P s).last_status = s.request.status := by
  have hzero : request_marshall_addr_bytes socks_req_addrtype_ipv4
      (some (List.replicate 256 0)) = [0, 0, 0, 0] := rfl
  refine ⟨?_, ?_, ?_, ?_⟩
  · intro hs hroom
    have hreply : request_write_reply P s
        = (socks_req_addrtype_ipv4, List.replicate 256 0, [0, 0]) := by
      unfold request_write_reply
      rw [if_neg (fun h => hs h.1)]
    have h := request_write_init_wb P s 0 0 (by rw [hreply]) (by rw [hreply]; exact hroom)
    rw [hreply] at h
    simp only [hzero, Nat.mod_eq_of_lt hst] at h
    exact h
  · intro hs hfd
    constructor
    · intro p0 p1 hfam hlen hport hroom
      have hreply : request_write_reply P s
          = (socks_req_addrtype_ipv4,
              memcpy (List.replicate 256 0) 0 (s.origin_addr.sin_addr.take 4),
              s.origin_addr.port) := by
        unfold request_write_reply
        rw [if_pos ⟨hs, hfd⟩, if_pos hfam]
      have haddr : request_marshall_addr_bytes socks_req_addrtype_ipv4
          (some (memcpy (List.replicate 256 0) 0 (s.origin_addr.sin_addr.take 4)))
          = s.origin_addr.sin_addr := union_take _ 4 hlen (by omega)
      have h := request_write_init_wb P s p0 p1 (by rw [hreply]; exact hport)
        (by rw [hreply]; exact hroom)
      rw [hreply] at h
      simp only [haddr, hs] at h
      exact h
    · intro p0 p1 hfam hlen hport hroom
      have hne : ¬ s.origin_addr.ss_family = P.AF_INET := by
        rw [hfam]; exact fun h => hP h.symm
      have hreply : request_write_reply P s
          = (socks_req_addrtype_ipv6,
              memcpy (List.replicate 256 0) 0 (s.origin_addr.sin6_addr.take 16),
              s.origin_addr.port) := by
        unfold request_write_reply
        rw [if_pos ⟨hs, hfd⟩, if_neg hne, if_pos hfam]
      have haddr : request_marshall_addr_bytes socks_req_addrtype_ipv6
          (some (memcpy (List.replicate 256 0) 0 (s.origin_addr.sin6_addr.take 16)))
          = s.origin_addr.sin6_addr := union_take _ 16 hlen (by omega)
      have h := request_write_init_wb P s p0 p1 (by rw [hreply]; exact hport)
        (by rw [hreply]; exact hroom)
      rw [hreply] at h
      simp only [haddr, hs] at h
      exact h
  · intro hs hfd hroom
    have hreply : request_write_reply P s
        = (socks_req_addrtype_ipv4, List.replicate 256 0, [0, 0]) := by
      unfold request_write_reply
      rw [if_neg (fun h => h.2 hfd)]
    have h := request_write_init_wb P s 0 0 (by rw [hreply]) (by rw [hreply]; exact hroom)
    rw [hreply] at h
    simp only [hzero, hs] at h
    exact h
  · exact Nat.mod_eq_of_lt hst

/-- Claim C20, instance of the amended statement: a succeeded connect from the
local address 10.0.0.5 port 0xC350 is answered
`05 00 00 01 0A 00 00 05 C3 50`. -/
theorem C20_request_write_init_reply_witness :
    buffer_appended buffer16
      (10, (request_write_init platform_linux
        (socks5_replying 0x00 9 sockaddr_in_local)).request.wb)
      [0x05, 0x00, 0x00, 0x01, 10, 0, 0, 5, 0xC3, 0x50] :=
  ((C20_request_write_init_reply platform_linux (socks5_replying 0x00 9 sockaddr_in_local)
      (by decide) (by decide)).2.1 rfl (by decide)).1 0xC3 0x50 rfl rfl rfl (by decide)

/-- Claim C20 as stated fails, in two places. With status succeeded and an IPv4
`origin_addr` 10.0.0.5 port 0xC350 but no origin socket (`origin_fd` is -1),
`request_write_init` writes the all-zero reply `05 00 00 01 00 00 00 00 00 00`,
not that address and port; and into an empty write buffer of 8 bytes it writes
nothing for status 0x05. -/
theorem C20_counterexample :
    ((socks5_replying 0x00 (-1) sockaddr_in_local).request.status = socks_status_succeeded ∧
      (socks5_replying 0x00 (-1) sockaddr_in_local).origin_addr.ss_family
        = platform_linux.AF_INET ∧
      buffer_readable (socks5_replying 0x00 (-1) sockaddr_in_local).request.wb = [] ∧
      buffer_readable (request_write_init platform_linux
        (socks5_replying 0x00 (-1) sockaddr_in_local)).request.wb
        = [0x05, 0x00, 0x00, 0x01, 0, 0, 0, 0, 0, 0] ∧
      buffer_readable (request_write_init platform_linux
        (socks5_replying 0x00 (-1) sockaddr_in_local)).request.wb
        ≠ [0x05, 0x00, 0x00, 0x01, 10, 0, 0, 5, 0xC3, 0x50]) ∧
    (buffer_readable buffer8 = [] ∧
      buffer_readable (request_write_init platform_linux
        { client_fd := 7, origin_addr := sockaddr_in_local, origin_addr_len := 16,
          origin_fd := -1, origin_resolution := [], origin_resolution_current := [],
          request := { rb := buffer16, wb := buffer8,
                       parser := request_parser_init request_stale, status := 0x05 },
          dest_addr_str := List.replicate 256 0, dest_port := 80,
          last_status := 0xFF, references := 1 }).request.wb = []) := by
  decide

/-! ## Resolution and connect -/

/-- The reply `request_write_init` marshals for a status other than succeeded. -/
theorem request_write_init_failure (P : platform) (s : socks5)
    (hs : s.request.status ≠ socks_status_succeeded) (hst : s.request.status < 256)
    (hroom : s.request.wb.write + 10 ≤ s.request.wb.data.length) :
    buffer_appended s.request.wb (10, (request_write_init P s).request.wb)
      [0x05, s.request.status, 0x00, 0x01, 0, 0, 0, 0, 0, 0] := by
  have hzero : request_marshall_addr_bytes socks_req_addrtype_ipv4
      (some (List.replicate 256 0)) = [0, 0, 0, 0] := rfl
  have hreply : request_write_reply P s
      = (socks_req_addrtype_ipv4, List.replicate 256 0, [0, 0]) := by
    unfold request_write_reply
    rw [if_neg (fun h => hs h.1)]
  have h := request_write_init_wb P s 0 0 (by rw [hreply]) (by rw [hreply]; exact hroom)
  rw [hreply] at h
  simp only [hzero, Nat.mod_eq_of_lt hst] at h
  exact h

/-- Once the whole reply for a status other than succeeded has been sent,
`request_write` returns DONE. -/
theorem request_write_failure_done (s : socks5) (k fc : Nat)
    (hs : s.request.status ≠ socks_status_succeeded)
    (hk : s.request.wb.write - s.request.wb.read ≤ k) :
    (request_write s (send_outcome.sent k) fc).1 = DONE := by
  rw [(request_write_sent s k fc).1]
  have h1 : buffer_can_read (buffer_read_adv s.request.wb
      (min k (s.request.wb.write - s.request.wb.read))) = false := by
    simp only [buffer_can_read, buffer_read_adv, decide_eq_false_iff_not]
    omega
  simp [h1, hs]

/-- The fields of the connection that `request_write_init` leaves alone. -/
theorem request_write_init_status (P : platform) (s : socks5) :
    (request_write_init P s).request.status = s.request.status := rfl

/-- What `socks5_destroy` leaves of a connection: all but `references` and
`origin_resolution`. -/
theorem socks5_destroy_fields (p : pool_state) (a : Nat) (s : socks5) :
    ∃ o, (socks5_destroy p (some (a, s))).2 = some o ∧ o.request = s.request ∧
      o.origin_resolution_current = s.origin_resolution_current ∧
      o.client_fd = s.client_fd ∧ o.origin_fd = s.origin_fd := by
  by_cases h1 : s.references = 1
  · by_cases h2 : p.pool_size < max_pool
    · exact ⟨s, by simp only [socks5_destroy, if_pos h1, if_pos h2], rfl, rfl, rfl, rfl⟩
    · by_cases h3 : s.origin_resolution ≠ []
      · exact ⟨{ s with origin_resolution := [] },
          by simp only [socks5_destroy, if_pos h1, if_neg h2, socks5_destroy_, if_pos h3],
          rfl, rfl, rfl, rfl⟩
      · exact ⟨s, by simp only [socks5_destroy, if_pos h1, if_neg h2, socks5_destroy_, if_neg h3],
          rfl, rfl, rfl, rfl⟩
  · exact ⟨{ s with references := unsigned_dec s.references },
      by simp only [socks5_destroy, if_neg h1], rfl, rfl, rfl, rfl⟩

/-- What `socksv5_close` leaves of the connection: all but `references` and
`origin_resolution`. -/
theorem socksv5_close_fields (p : pool_state) (a : Nat) (s : socks5) :
    (socksv5_close p a s).2.request = s.request ∧
    (socksv5_close p a s).2.origin_resolution_current = s.origin_resolution_current ∧
    (socksv5_close p a s).2.client_fd = s.client_fd ∧
    (socksv5_close p a s).2.origin_fd = s.origin_fd := by
  obtain ⟨o, ho, h1, h2, h3, h4⟩ := socks5_destroy_fields p a s
  simp only [socksv5_close, ho, Option.getD_some]
  exact ⟨h1, h2, h3, h4⟩

/-- What a `selector_unregister_fd` whose result is dropped leaves of the
connection. -/
theorem selector_unregister_fd_fields (g : globals) (a : Nat) (s : socks5) (fd : Int) :
    ((selector_unregister_fd g a s fd).getD (g, s)).2.request = s.request ∧
    ((selector_unregister_fd g a s fd).getD (g, s)).2.origin_resolution_current
      = s.origin_resolution_current ∧
    ((selector_unregister_fd g a s fd).getD (g, s)).2.client_fd = s.client_fd := by
  obtain ⟨h1, h2, h3, _⟩ := socksv5_close_fields g.pool a s
  by_cases h : selector_is_registered g.selector fd = true
  · simp only [selector_unregister_fd, if_pos h, Option.getD_some]
    exact ⟨h1, h2, h3⟩
  · simp only [selector_unregister_fd, if_neg h, Option.getD_none, and_self]

/-- `connecting_write` when the connect has succeeded. -/
theorem connecting_write_ok (P : platform) (E : connecting_deps)
    (attempt : List addrinfo → connect_outcome) (g : globals) (a : Nat) (s : socks5)
    (successful_connections : Nat) (h0 : connecting_error E = 0) :
    (connecting_write P E attempt g a s successful_connections).1 = REQUEST_WRITE ∧
    (connecting_write P E attempt g a s successful_connections).2.2.1.request.status
      = socks_status_succeeded := by
  have h0' : ¬ (if E.getsockopt_ok = true then E.so_error else E.errno) ≠ 0 := by
    simpa [connecting_error] using h0
  unfold connecting_write
  simp only [if_neg h0', and_self]

/-- `connecting_write` when the connect has failed and no address is left. -/
theorem connecting_write_exhausted (P : platform) (E : connecting_deps)
    (attempt : List addrinfo → connect_outcome) (g : globals) (a : Nat) (s : socks5)
    (successful_connections : Nat) (hne : connecting_error E ≠ 0)
    (hcur : s.origin_resolution_current = []) :
    (connecting_write P E attempt g a s successful_connections).1 = REQUEST_WRITE ∧
    (connecting_write P E attempt g a s successful_connections).2.2.1.origin_fd = -1 ∧
    (connecting_write P E attempt g a s successful_connections).2.2.1.request.status
      = errno_to_socks P (connecting_error E) ∧
    (connecting_write P E attempt g a s successful_connections).2.2.1.request.wb
      = s.request.wb := by
  have hne' : (if E.getsockopt_ok = true then E.so_error else E.errno) ≠ 0 := by
    simpa [connecting_error] using hne
  obtain ⟨h1, h2, _⟩ := selector_unregister_fd_fields g a s s.origin_fd
  unfold connecting_write
  simp only [if_pos hne', h2, hcur, ne_eq, not_true_eq_false, if_false, false_and, true_and]
  simp only [h1, and_true]
  rfl

/-- `request_connect` when the connect to the first address is in progress and
its fd can be registered. -/
theorem request_connect_in_progress (P : platform)
    (attempt : List addrinfo → connect_outcome) (key_fd : Int) (g : globals) (s : socks5)
    (addr : addrinfo) (rest : List addrinfo) (fd : Int)
    (hcur : s.origin_resolution_current = addr :: rest)
    (hatt : attempt (addr :: rest) = connect_outcome.failed fd P.EINPROGRESS true)
    (hfd : selector_is_registered g.selector fd = false) :
    (request_connect P attempt key_fd g s).1 = REQUEST_CONNECTING ∧
    (request_connect P attempt key_fd g s).2.2.origin_resolution_current = rest ∧
    (request_connect P attempt key_fd g s).2.2.request = s.request ∧
    (request_connect P attempt key_fd g s).2.2.origin_fd = fd ∧
    (request_connect P attempt key_fd g s).2.2.references = (s.references + 1) % 2 ^ 32 := by
  unfold request_connect
  rw [hcur]
  simp only [request_connect_loop, hatt, if_true, selector_register, hfd, and_self]

/-- `request_connect` when the connect to the only address fails at once. -/
theorem request_connect_failed_at_once (P : platform)
    (attempt : List addrinfo → connect_outcome) (key_fd : Int) (g : globals) (s : socks5)
    (addr : addrinfo) (fd : Int) (e : Int) (register_ok : Bool)
    (hcur : s.origin_resolution_current = [addr])
    (hatt : attempt [addr] = connect_outcome.failed fd e register_ok)
    (he : e ≠ P.EINPROGRESS) :
    (request_connect P attempt key_fd g s).1 = REQUEST_WRITE ∧
    (request_connect P attempt key_fd g s).2.2.request.status
      = socks_status_host_unreachable ∧
    (request_connect P attempt key_fd g s).2.2.request.wb = s.request.wb := by
  unfold request_connect
  rw [hcur]
  simp only [request_connect_loop, hatt, if_neg he, and_self]

/-- Claim C22. In REQUEST_CONNECTING, when the origin fd becomes writable: if
SO_ERROR is 0, `connecting_write` sets the reply status to succeeded and returns
REQUEST_WRITE; if SO_ERROR is a non-zero errno `e` and no further address
remains, it sets `origin_fd` to -1, sets the reply status to `errno_to_socks(e)`
and returns REQUEST_WRITE. -/
theorem C22_connecting_write (P : platform) (E : connecting_deps)
    (attempt : List addrinfo → connect_outcome) (g : globals) (a : Nat) (s : socks5)
    (successful_connections : Nat) :
    (connecting_error E = 0 →
      (connecting_write P E attempt g a s successful_connections).1 = REQUEST_WRITE ∧
      (connecting_write P E attempt g a s successful_connections).2.2.1.request.status
        = socks_status_succeeded) ∧
    (connecting_error E ≠ 0 → s.origin_resolution_current = [] →
      (connecting_write P E attempt g a s successful_connections).1 = REQUEST_WRITE ∧
      (connecting_write P E attempt g a s successful_connections).2.2.1.origin_fd = -1 ∧
      (connecting_write P E attempt g a s successful_connections).2.2.1.request.status
        = errno_to_socks P (connecting_error E)) := by
  exact ⟨connecting_write_ok P E attempt g a s successful_connections,
    fun hne hcur =>
      have h := connecting_write_exhausted P E attempt g a s successful_connections hne hcur
      ⟨h.1, h.2.1, h.2.2.1⟩⟩

/-- Claim C22, instance: SO_ERROR = ECONNREFUSED with no address left gives
`origin_fd` -1, status 0x05 and REQUEST_WRITE. -/
theorem C22_connecting_write_witness :
    (connecting_write platform_linux connecting_refused attempt_no_socket globals_both 1
      (socks5_replying 0x01 9 sockaddr_in_local) 0).1 = REQUEST_WRITE ∧
    (connecting_write platform_linux connecting_refused attempt_no_socket globals_both 1
      (socks5_replying 0x01 9 sockaddr_in_local) 0).2.2.1.origin_fd = -1 ∧
    (connecting_write platform_linux connecting_refused attempt_no_socket globals_both 1
      (socks5_replying 0x01 9 sockaddr_in_local) 0).2.2.1.request.status = 0x05 :=
  (C22_connecting_write platform_linux connecting_refused attempt_no_socket globals_both 1
    (socks5_replying 0x01 9 sockaddr_in_local) 0).2 (by decide) rfl

/-! ## Selector -/

theorem selector_map_any (l : List (Int × Nat)) (fd fd2 : Int) (i : Nat) :
    (l.map (fun e => if e.1 = fd then (e.1, i) else e)).any (fun e => decide (e.1 = fd2))
      = l.any (fun e => decide (e.1 = fd2)) := by
  induction l with
  | nil => rfl
  | cons x xs ih =>
      simp only [List.map_cons, List.any_cons, ih]
      by_cases h : x.1 = fd <;> simp [h]

theorem selector_map_find_same (l : List (Int × Nat)) (fd : Int) (i : Nat) :
    ((l.map (fun e => if e.1 = fd then (e.1, i) else e)).find?
        (fun e => decide (e.1 = fd))).map (fun e => e.2)
      = if l.any (fun e => decide (e.1 = fd)) = true then some i else none := by
  induction l with
  | nil => rfl
  | cons x xs ih =>
      by_cases h : x.1 = fd
      · simp [h, List.find?_cons]
      · rw [List.map_cons, if_neg h, List.find?_cons, List.any_cons]
        simp only [h, decide_False, Bool.false_or]
        exact ih

theorem selector_map_find_other (l : List (Int × Nat)) (fd fd2 : Int) (i : Nat)
    (hne : fd2 ≠ fd) :
    ((l.map (fun e => if e.1 = fd then (e.1, i) else e)).find?
        (fun e => decide (e.1 = fd2))).map (fun e => e.2)
      = (l.find? (fun e => decide (e.1 = fd2))).map (fun e => e.2) := by
  induction l with
  | nil => rfl
  | cons x xs ih =>
      by_cases h : x.1 = fd
      · have h2 : ¬ x.1 = fd2 := by rw [h]; exact fun e => hne e.symm
        rw [List.map_cons, if_pos h, List.find?_cons, List.find?_cons]
        simp only [h2, decide_False]
        exact ih
      · by_cases h2 : x.1 = fd2
        · rw [List.map_cons, if_neg h, List.find?_cons, List.find?_cons]
          simp only [h2, decide_True]
        · rw [List.map_cons, if_neg h, List.find?_cons, List.find?_cons]
          simp only [h2, decide_False]
          exact ih

theorem selector_filter_any (l : List (Int × Nat)) (fd fd2 : Int) :
    (l.filter (fun e => decide (e.1 ≠ fd))).any (fun e => decide (e.1 = fd2))
      = (decide (fd2 ≠ fd) && l.any (fun e => decide (e.1 = fd2))) := by
  induction l with
  | nil => simp
  | cons x xs ih =>
      by_cases h : x.1 = fd
      · rw [List.filter_cons, if_neg (by simp [h]), ih, List.any_cons]
        by_cases h2 : fd2 = fd
        · simp [h2]
        · have h3 : ¬ fd = fd2 := fun e => h2 e.symm
          simp [h, h2, h3]
      · rw [List.filter_cons, if_pos (by simp [h]), List.any_cons, ih, List.any_cons]
        by_cases h2 : fd2 = fd
        · simp [h, h2]
        · simp [h2]

/-- What `selector_set_interest` does on a registered fd: it succeeds, the fd
gets the interest, the other fds keep theirs, and the same fds are registered. -/
theorem selector_set_interest_spec (sel : fd_selector) (fd : Int) (i : Nat)
    (hreg : selector_is_registered sel fd = true) :
    ∃ sel1, selector_set_interest sel fd i = some sel1 ∧
      selector_get_interest sel1 fd = some i ∧
      (∀ fd2, fd2 ≠ fd → selector_get_interest sel1 fd2 = selector_get_interest sel fd2) ∧
      (∀ fd2, selector_is_registered sel1 fd2 = selector_is_registered sel fd2) := by
  refine ⟨{ fds := sel.fds.map (fun e => if e.1 = fd then (e.1, i) else e) }, ?_, ?_, ?_, ?_⟩
  · unfold selector_set_interest
    rw [if_pos hreg]
  · unfold selector_get_interest
    rw [selector_map_find_same]
    unfold selector_is_registered at hreg
    rw [if_pos hreg]
  · intro fd2 hne
    unfold selector_get_interest
    exact selector_map_find_other sel.fds fd fd2 i hne
  · intro fd2
    unfold selector_is_registered
    exact selector_map_any sel.fds fd fd2 i

/-- A `selector_set_interest` whose result is dropped leaves the same fds
registered. -/
theorem selector_set_interest_dropped_registered (sel : fd_selector) (fd fd2 : Int)
    (i : Nat) :
    selector_is_registered (selector_set_interest_dropped sel fd i) fd2
      = selector_is_registered sel fd2 := by
  by_cases hreg : selector_is_registered sel fd = true
  · obtain ⟨sel1, h1, _, _, h4⟩ := selector_set_interest_spec sel fd i hreg
    simp only [selector_set_interest_dropped, h1, Option.getD_some]
    exact h4 fd2
  · simp only [selector_set_interest_dropped, selector_set_interest, if_neg hreg,
      Option.getD_none]

/-- The fds registered after `selector_unregister_fd`: the others. -/
theorem selector_unregister_fd_registered (g : globals) (a : Nat) (s : socks5)
    (fd fd2 : Int) (hreg : selector_is_registered g.selector fd = true) :
    selector_is_registered ((selector_unregister_fd g a s fd).getD (g, s)).1.selector fd2
      = (decide (fd2 ≠ fd) && selector_is_registered g.selector fd2) := by
  unfold selector_unregister_fd
  rw [if_pos hreg]
  simp only [Option.getD_some, selector_is_registered]
  exact selector_filter_any g.selector.fds fd fd2

/-- The pool after `selector_unregister_fd` of a registered fd. -/
theorem selector_unregister_fd_pool (g : globals) (a : Nat) (s : socks5) (fd : Int)
    (hreg : selector_is_registered g.selector fd = true) :
    ((selector_unregister_fd g a s fd).getD (g, s)).1.pool = (socksv5_close g.pool a s).1 ∧
    ((selector_unregister_fd g a s fd).getD (g, s)).2 = (socksv5_close g.pool a s).2 := by
  simp only [selector_unregister_fd, if_pos hreg, Option.getD_some, and_self]

/-- `connecting_write` when the connect has failed and addresses are left: it
re-enters `request_connect`, and unless that returns REQUEST_CONNECTING it stores
the status of the failed connect. -/
theorem connecting_write_retry (P : platform) (E : connecting_deps)
    (attempt : List addrinfo → connect_outcome) (g : globals) (a : Nat) (s : socks5)
    (successful_connections : Nat) (hne : connecting_error E ≠ 0)
    (hcur : s.origin_resolution_current ≠ [])
    (hret : (request_connect P attempt s.client_fd (connecting_write_closed g a s).1
      (connecting_write_closed g a s).2).1 ≠ REQUEST_CONNECTING) :
    (connecting_write P E attempt g a s successful_connections).1 = REQUEST_WRITE ∧
    (connecting_write P E attempt g a s successful_connections).2.2.1 =
      { (request_connect P attempt s.client_fd (connecting_write_closed g a s).1
          (connecting_write_closed g a s).2).2.2 with
        request := { (request_connect P attempt s.client_fd (connecting_write_closed g a s).1
          (connecting_write_closed g a s).2).2.2.request with
            status := errno_to_socks P (connecting_error E) } } ∧
    ∀ fd, selector_is_registered
        (connecting_write P E attempt g a s successful_connections).2.1.selector fd =
      selector_is_registered (request_connect P attempt s.client_fd
        (connecting_write_closed g a s).1 (connecting_write_closed g a s).2).2.1.selector fd := by
  have hne' : (if E.getsockopt_ok = true then E.so_error else E.errno) ≠ 0 := by
    simpa [connecting_error] using hne
  obtain ⟨h1, h2, h3⟩ := selector_unregister_fd_fields g a s s.origin_fd
  have hcur' : ((selector_unregister_fd g a s s.origin_fd).getD (g, s)).2.origin_resolution_current
      ≠ [] := by rw [h2]; exact hcur
  simp only [connecting_write, connecting_write_closed, if_pos hne', hcur', h3, ne_eq,
    not_false_eq_true, if_true, true_and] at hret ⊢
  simp only [if_neg hret, true_and]
  refine ⟨?_, ?_⟩
  · rfl
  · intro fd
    rw [selector_set_interest_dropped_registered]

/-- What the closing steps of `connecting_write` leave of the connection and of
the selector, the origin fd being registered. -/
theorem connecting_write_closed_fields (g : globals) (a : Nat) (s : socks5)
    (hreg : selector_is_registered g.selector s.origin_fd = true) :
    (connecting_write_closed g a s).2.request = s.request ∧
    (connecting_write_closed g a s).2.origin_resolution_current
      = s.origin_resolution_current ∧
    (connecting_write_closed g a s).2.client_fd = s.client_fd ∧
    ∀ fd, selector_is_registered (connecting_write_closed g a s).1.selector fd
      = (decide (fd ≠ s.origin_fd) && selector_is_registered g.selector fd) := by
  obtain ⟨h1, h2, h3⟩ := selector_unregister_fd_fields g a s s.origin_fd
  exact ⟨h1, h2, h3, fun fd => selector_unregister_fd_registered g a s s.origin_fd fd hreg⟩

/-- `request_connect` when the connect to the first address succeeds at once and
its fd can be registered. -/
theorem request_connect_connected (P : platform)
    (attempt : List addrinfo → connect_outcome) (key_fd : Int) (g : globals) (s : socks5)
    (addr : addrinfo) (rest : List addrinfo) (fd : Int)
    (hcur : s.origin_resolution_current = addr :: rest)
    (hatt : attempt (addr :: rest) = connect_outcome.connected fd true)
    (hfd : selector_is_registered g.selector fd = false) :
    (request_connect P attempt key_fd g s).1 = REQUEST_WRITE ∧
    (request_connect P attempt key_fd g s).2.2.request.status = socks_status_succeeded ∧
    (request_connect P attempt key_fd g s).2.2.request.wb = s.request.wb ∧
    (request_connect P attempt key_fd g s).2.2.origin_fd = fd ∧
    (request_connect P attempt key_fd g s).2.2.references = (s.references + 1) % 2 ^ 32 ∧
    selector_is_registered (request_connect P attempt key_fd g s).2.1.selector fd = true := by
  unfold request_connect
  rw [hcur]
  simp only [request_connect_loop, hatt, selector_register, hfd, and_self, if_true, true_and]
  simp [selector_is_registered]

/-- Claim C31, what the code does. In REQUEST_CONNECTING, when the pending
connect has failed with the error `e` (SO_ERROR non-zero), further addresses
remain, and re-entering `request_connect` connects at once to the next address
on the fd `fd`: `connecting_write` returns REQUEST_WRITE with the new origin fd
kept and registered, but the reply status it carries is `errno_to_socks(e)` of
the failed attempt, not succeeded, so that `request_write` never returns COPY
and returns DONE once the reply has drained. -/
theorem C31_retry_connected_reports_failure (P : platform) (E : connecting_deps)
    (attempt : List addrinfo → connect_outcome) (g : globals) (a : Nat) (s : socks5)
    (addr : addrinfo) (rest : List addrinfo) (fd : Int) (successful_connections : Nat)
    (hne : connecting_error E ≠ 0)
    (hcur : s.origin_resolution_current = addr :: rest)
    (hatt : attempt (addr :: rest) = connect_outcome.connected fd true)
    (hreg : selector_is_registered g.selector s.origin_fd = true)
    (hfd : selector_is_registered g.selector fd = false) :
    (connecting_write P E attempt g a s successful_connections).1 = REQUEST_WRITE ∧
    (connecting_write P E attempt g a s successful_connections).2.2.1.origin_fd = fd ∧
    selector_is_registered
      (connecting_write P E attempt g a s successful_connections).2.1.selector fd = true ∧
    (connecting_write P E attempt g a s successful_connections).2.2.1.request.status
      = errno_to_socks P (connecting_error E) ∧
    (connecting_write P E attempt g a s successful_connections).2.2.1.request.status
      ≠ socks_status_succeeded ∧
    (∀ snd fc, (request_write (request_write_init P
        (connecting_write P E attempt g a s successful_connections).2.2.1) snd fc).1 ≠ COPY) ∧
    (∀ k fc, (request_write_init P
        (connecting_write P E attempt g a s successful_connections).2.2.1).request.wb.write
        - (request_write_init P
        (connecting_write P E attempt g a s successful_connections).2.2.1).request.wb.read ≤ k →
      (request_write (request_write_init P
        (connecting_write P E attempt g a s successful_connections).2.2.1)
        (send_outcome.sent k) fc).1 = DONE) := by
  obtain ⟨c1, c2, c3, c4⟩ := connecting_write_closed_fields g a s hreg
  have hfd' : selector_is_registered (connecting_write_closed g a s).1.selector fd = false := by
    rw [c4, hfd, Bool.and_false]
  obtain ⟨r1, r2, r3, r4, r5, r6⟩ := request_connect_connected P attempt s.client_fd
    (connecting_write_closed g a s).1 (connecting_write_closed g a s).2 addr rest fd
    (by rw [c2]; exact hcur) hatt hfd'
  obtain ⟨w1, w2, w3⟩ := connecting_write_retry P E attempt g a s successful_connections hne
    (by rw [hcur]; exact List.cons_ne_nil _ _) (by rw [r1]; decide)
  have hstatus : (connecting_write P E attempt g a s successful_connections).2.2.1.request.status
      = errno_to_socks P (connecting_error E) := by rw [w2]
  have hnz : errno_to_socks P (connecting_error E) ≠ socks_status_succeeded := by
    unfold errno_to_socks
    rw [if_neg hne]
    split_ifs <;> decide
  have hns : (connecting_write P E attempt g a s successful_connections).2.2.1.request.status
      ≠ socks_status_succeeded := by rw [hstatus]; exact hnz
  refine ⟨w1, ?_, ?_, hstatus, hns, ?_, ?_⟩
  · rw [w2]; exact r4
  · rw [w3]; exact r6
  · intro snd fc
    unfold request_write
    simp only [request_write_init_status]
    split_ifs <;> simp
  · intro k fc hk
    exact request_write_failure_done _ k fc (by rw [request_write_init_status]; exact hns) hk

/-- Claim C31, instance: SO_ERROR reads ECONNREFUSED, the next address connects
at once on the fd 10; the status carried into REQUEST_WRITE is 0x05 and the
reply `05 05 00 01 00 00 00 00 00 00` ends in DONE. -/
theorem C31_retry_connected_reports_failure_witness :
    (connecting_write platform_linux connecting_refused attempt_connected globals_both 1
      socks5_connect_pending 0).2.2.1.origin_fd = 10 ∧
    (connecting_write platform_linux connecting_refused attempt_connected globals_both 1
      socks5_connect_pending 0).2.2.1.request.status = 0x05 ∧
    (request_write (request_write_init platform_linux
      (connecting_write platform_linux connecting_refused attempt_connected globals_both 1
        socks5_connect_pending 0).2.2.1) (send_outcome.sent 10) 0).1 = DONE :=
  have h := C31_retry_connected_reports_failure platform_linux connecting_refused
    attempt_connected globals_both 1 socks5_connect_pending addrinfo_loopback [] 10 0
    (by decide) rfl rfl (by decide) (by decide)
  ⟨h.2.1, h.2.2.2.1, h.2.2.2.2.2.2 10 0 (by decide)⟩

/-- `selector_unregister_fd` on a registered fd of a connection that does not
hold its last reference: the fd is dropped from the table, the pool is left
alone and `references` is decremented. -/
theorem selector_unregister_fd_not_last (g : globals) (a : Nat) (s : socks5) (fd : Int)
    (hreg : selector_is_registered g.selector fd = true) (href : s.references ≠ 1) :
    selector_unregister_fd g a s fd =
      some ({ selector := { fds := g.selector.fds.filter (fun e => decide (e.1 ≠ fd)) },
              pool := g.pool },
            { s with references := unsigned_dec s.references }) := by
  simp only [selector_unregister_fd, if_pos hreg, socksv5_close, socks5_destroy, if_neg href,
    Option.getD_some]

/-- `connecting_write` when the connect has failed and no address is left, the
origin fd being registered and the connection not holding its last reference:
the whole result. -/
theorem connecting_write_exhausted_state (P : platform) (E : connecting_deps)
    (attempt : List addrinfo → connect_outcome) (g : globals) (a : Nat) (s : socks5)
    (successful_connections : Nat) (hne : connecting_error E ≠ 0)
    (hcur : s.origin_resolution_current = [])
    (hreg : selector_is_registered g.selector s.origin_fd = true)
    (href : s.references ≠ 1) :
    (connecting_write P E attempt g a s successful_connections).2.2.1 =
      { s with origin_fd := -1, references := unsigned_dec (unsigned_dec s.references),
               request := { s.request with
                 status := errno_to_socks P (connecting_error E) } } ∧
    (connecting_write P E attempt g a s successful_connections).2.1.pool = g.pool ∧
    ∀ fd, selector_is_registered
        (connecting_write P E attempt g a s successful_connections).2.1.selector fd
      = (decide (fd ≠ s.origin_fd) && selector_is_registered g.selector fd) := by
  have hne' : (if E.getsockopt_ok = true then E.so_error else E.errno) ≠ 0 := by
    simpa [connecting_error] using hne
  have hu := selector_unregister_fd_not_last g a s s.origin_fd hreg href
  simp only [connecting_write, if_pos hne', hu, Option.getD_some, hcur, ne_eq,
    not_true_eq_false, if_false, false_and]
  refine ⟨rfl, trivial, ?_⟩
  intro fd
  rw [selector_set_interest_dropped_registered]
  simp only [selector_is_registered]
  exact selector_filter_any g.selector.fds s.origin_fd fd

/-- `socksv5_done` on a connection whose client fd alone is open, and registered,
and which does not hold its last reference. -/
theorem socksv5_done_client_only (g : globals) (a : Nat) (s : socks5)
    (hreg : selector_is_registered g.selector s.client_fd = true)
    (hopen : s.client_fd ≠ -1) (hofd : s.origin_fd = -1) (href : s.references ≠ 1) :
    socksv5_done g a s =
      some ({ selector := { fds := g.selector.fds.filter (fun e => decide (e.1 ≠ s.client_fd)) },
              pool := g.pool },
            { s with references := unsigned_dec s.references }) := by
  have hu := selector_unregister_fd_not_last g a s s.client_fd hreg href
  simp only [socksv5_done, socksv5_done_loop, hofd, hopen, ne_eq, not_false_eq_true,
    if_true, hu, not_true_eq_false, if_false]

/-- Claim C29, what the code does. A connection in REQUEST_CONNECTING holds two
references, one for each registered fd. When the pending connect fails and no
address is left, `connecting_write` unregisters the origin fd, which calls
`socks5_destroy` and takes one reference, and then decrements `references`
once more: the client fd is still registered but `references` is 0. At
tear-down `socksv5_done` unregisters the client fd, `socks5_destroy` finds
`references` different from 1 and decrements it to 2^32 - 1: the pool and the
freed addresses are as they were, the pool-or-free step is never executed. -/
theorem C29_failed_connect_drops_two_references (P : platform) (E : connecting_deps)
    (attempt : List addrinfo → connect_outcome) (g : globals) (a : Nat) (s : socks5)
    (successful_connections : Nat) (hne : connecting_error E ≠ 0)
    (hcur : s.origin_resolution_current = [])
    (href : s.references = 2)
    (hclient : selector_is_registered g.selector s.client_fd = true)
    (horigin : selector_is_registered g.selector s.origin_fd = true)
    (hdiff : s.client_fd ≠ s.origin_fd) (hopen : s.client_fd ≠ -1) :
    registered_fds (connecting_write P E attempt g a s successful_connections).2.1.selector
      (connecting_write P E attempt g a s successful_connections).2.2.1 = 1 ∧
    (connecting_write P E attempt g a s successful_connections).2.2.1.references = 0 ∧
    (connecting_write P E attempt g a s successful_connections).2.1.pool = g.pool ∧
    ∃ g2 s2, socksv5_done (connecting_write P E attempt g a s successful_connections).2.1 a
        (connecting_write P E attempt g a s successful_connections).2.2.1 = some (g2, s2) ∧
      registered_fds g2.selector s2 = 0 ∧ s2.references = 2 ^ 32 - 1 ∧ g2.pool = g.pool := by
  obtain ⟨w1, w2, w3⟩ := connecting_write_exhausted_state P E attempt g a s
    successful_connections hne hcur horigin (by rw [href]; decide)
  have hrefs0 : (connecting_write P E attempt g a s successful_connections).2.2.1.references
      = 0 := by rw [w1, href]; rfl
  have hcfd : (connecting_write P E attempt g a s successful_connections).2.2.1.client_fd
      = s.client_fd := by rw [w1]
  have hofd : (connecting_write P E attempt g a s successful_connections).2.2.1.origin_fd
      = -1 := by rw [w1]
  have hcreg : selector_is_registered
      (connecting_write P E attempt g a s successful_connections).2.1.selector s.client_fd
      = true := by
    rw [w3, hclient]
    simp [hdiff]
  refine ⟨?_, hrefs0, w2, ?_⟩
  · simp only [registered_fds, hcfd, hofd, hcreg, hopen, ne_eq, not_false_eq_true, and_self,
      if_true, not_true_eq_false, false_and, if_false]
  · refine ⟨_, _, socksv5_done_client_only _ a _ (by rw [hcfd]; exact hcreg)
      (by rw [hcfd]; exact hopen) hofd (by rw [hrefs0]; decide), ?_, ?_, ?_⟩
    · simp only [registered_fds, hcfd, hofd, hopen, ne_eq, not_false_eq_true, true_and,
        not_true_eq_false, false_and, if_false, add_zero, selector_is_registered]
      rw [selector_filter_any]
      simp
    · simp only [hrefs0]
      rfl
    · exact w2

/-- Claim C29, instance: the client fd 7 and the origin fd 9 are registered, the
connection holds two references and SO_ERROR reads ECONNREFUSED with no address
left; afterwards one fd is registered and `references` is 0. -/
theorem C29_failed_connect_drops_two_references_witness :
    registered_fds
      (connecting_write platform_linux connecting_refused attempt_no_socket globals_both 1
        { socks5_connect_pending with origin_resolution_current := [] } 0).2.1.selector
      (connecting_write platform_linux connecting_refused attempt_no_socket globals_both 1
        { socks5_connect_pending with origin_resolution_current := [] } 0).2.2.1 = 1 ∧
    (connecting_write platform_linux connecting_refused attempt_no_socket globals_both 1
      { socks5_connect_pending with origin_resolution_current := [] } 0).2.2.1.references = 0 :=
  have h := C29_failed_connect_drops_two_references platform_linux connecting_refused
    attempt_no_socket globals_both 1
    { socks5_connect_pending with origin_resolution_current := [] } 0
    (by decide) rfl rfl (by decide) (by decide) (by decide) (by decide)
  ⟨h.1, h.2.1⟩

/-! ## Connection pool -/

theorem pool_free_list_update (next : Nat → Option Nat) (a : Nat) (v : Option Nat) :
    ∀ (l : List Nat) (head : Option Nat), a ∉ l → pool_free_list next head l →
      pool_free_list (fun x => if x = a then v else next x) head l := by
  intro l
  induction l with
  | nil => intro head _ h; exact h
  | cons b l ih =>
      intro head hmem h
      obtain ⟨h1, h2⟩ := h
      have hba : b ≠ a := fun e => hmem (by rw [e]; exact List.mem_cons_self _ _)
      refine ⟨h1, ?_⟩
      have hnext : (fun x => if x = a then v else next x) b = next b := if_neg hba
      rw [hnext]
      exact ih (next b) (fun hm => hmem (List.mem_cons_of_mem _ hm)) h2

theorem socksv5_pool_destroy_loop_returns (next : Nat → Option Nat) :
    ∀ (l : List Nat) (fuel : Nat) (head : Option Nat) (freed : List Nat),
      pool_free_list next head l → l.length ≤ fuel →
      ∃ f, socksv5_pool_destroy_loop next fuel head freed = some f := by
  intro l
  induction l with
  | nil =>
      intro fuel head freed h _
      have h0 : head = none := h
      rw [h0]
      cases fuel <;> exact ⟨freed, rfl⟩
  | cons b l ih =>
      intro fuel head freed h hlen
      obtain ⟨h1, h2⟩ := h
      rw [h1]
      cases fuel with
      | zero => simp at hlen
      | succ n =>
          simp only [socksv5_pool_destroy_loop]
          exact ih n (next b) (b :: freed) h2 (by simpa using hlen)

theorem unsigned_dec_small (n : Nat) (h0 : 0 < n) (h : n ≤ max_pool) :
    unsigned_dec n = n - 1 := by
  unfold unsigned_dec
  unfold max_pool at h
  rw [if_neg (by omega)]
  exact Nat.mod_eq_of_lt (by omega)

/-- `socks5_new` on a pool whose free list is empty: the pool and `pool_size`
stay, the result is what `malloc` returns. -/
theorem socks5_new_empty (p : pool_state) (mem : Nat → socks5) (client_fd : Int)
    (malloc : Option Nat) (hpool : p.pool = none) :
    (socks5_new p mem client_fd malloc).1.pool = none ∧
    (socks5_new p mem client_fd malloc).1.pool_size = p.pool_size ∧
    (socks5_new p mem client_fd malloc).1.freed = p.freed ∧
    (socks5_new p mem client_fd malloc).1.next
      = (match malloc with
         | none => p.next
         | some a => fun x => if x = a then none else p.next x) ∧
    (socks5_new p mem client_fd malloc).2
      = malloc.map (fun a => (a, socks5_new_init (mem a) client_fd)) := by
  cases malloc with
  | none => simp only [socks5_new, hpool, Option.map_none', and_self]
  | some a => simp only [socks5_new, hpool, Option.map_some', and_self]

/-- `socks5_new` on a pool whose free list starts with `a`: the object at `a` is
taken off the list and returned, `malloc` is not consulted. -/
theorem socks5_new_head (p : pool_state) (mem : Nat → socks5) (client_fd : Int)
    (malloc : Option Nat) (a : Nat) (hpool : p.pool = some a) :
    (socks5_new p mem client_fd malloc).1.pool = p.next a ∧
    (socks5_new p mem client_fd malloc).1.pool_size = unsigned_dec p.pool_size ∧
    (socks5_new p mem client_fd malloc).1.freed = p.freed ∧
    (socks5_new p mem client_fd malloc).1.next
      = (fun x => if x = a then none else if x = a then none else p.next x) ∧
    (socks5_new p mem client_fd malloc).2 = some (a, socks5_new_init (mem a) client_fd) := by
  simp only [socks5_new, hpool, and_self]

/-- `socks5_destroy` on the last reference with room in the pool: the object is
pushed, nothing is freed. -/
theorem socks5_destroy_push (p : pool_state) (a : Nat) (o : socks5)
    (href : o.references = 1) (hroom : p.pool_size < max_pool) :
    (socks5_destroy p (some (a, o))).1 =
      { p with next := fun x => if x = a then p.pool else p.next x, pool := some a,
               pool_size := (p.pool_size + 1) % 2 ^ 32 } ∧
    (socks5_destroy p (some (a, o))).2 = some o := by
  simp only [socks5_destroy, if_pos href, if_pos hroom, and_self]

/-- `socks5_destroy` on the last reference with a full pool: the object is
freed, the pool stays. -/
theorem socks5_destroy_free (p : pool_state) (a : Nat) (o : socks5)
    (href : o.references = 1) (hfull : ¬ p.pool_size < max_pool) :
    (socks5_destroy p (some (a, o))).1.pool = p.pool ∧
    (socks5_destroy p (some (a, o))).1.next = p.next ∧
    (socks5_destroy p (some (a, o))).1.pool_size = p.pool_size ∧
    (socks5_destroy p (some (a, o))).1.freed = a :: p.freed := by
  by_cases h3 : o.origin_resolution ≠ []
  · simp only [socks5_destroy, if_pos href, if_neg hfull, socks5_destroy_, if_pos h3, and_self]
  · simp only [socks5_destroy, if_pos href, if_neg hfull, socks5_destroy_, if_neg h3, and_self]

/-- `socks5_destroy` on a connection that has other references: the pool
stays. -/
theorem socks5_destroy_decrement (p : pool_state) (a : Nat) (o : socks5)
    (href : o.references ≠ 1) :
    (socks5_destroy p (some (a, o))).1 = p := by
  simp only [socks5_destroy, if_neg href]

/-- The free list after `socks5_new` has taken its head. -/
theorem pool_inv_new_head (p : pool_state) (mem : Nat → socks5) (client_fd : Int)
    (malloc : Option Nat) (a : Nat) (l : List Nat) (h : pool_inv p (a :: l)) :
    (socks5_new p mem client_fd malloc).2 = some (a, socks5_new_init (mem a) client_fd) ∧
    (socks5_new p mem client_fd malloc).1.freed = p.freed ∧
    pool_inv (socks5_new p mem client_fd malloc).1 l := by
  obtain ⟨⟨hhead, hchain⟩, hnodup, hsize, hlen⟩ := h
  obtain ⟨n1, n2, n3, n4, n5⟩ := socks5_new_head p mem client_fd malloc a hhead
  have hal : a ∉ l := (List.nodup_cons.mp hnodup).1
  refine ⟨n5, n3, ?_, (List.nodup_cons.mp hnodup).2, ?_, ?_⟩
  · rw [n1, n4]
    exact pool_free_list_update _ a none l _ hal (pool_free_list_update _ a none l _ hal hchain)
  · rw [n2, hsize, unsigned_dec_small _ (by simp) hlen]
    simp
  · simp only [List.length_cons] at hlen
    omega

/-- The free list after `socks5_new` has found it empty. -/
theorem pool_inv_new_empty (p : pool_state) (mem : Nat → socks5) (client_fd : Int)
    (malloc : Option Nat) (h : pool_inv p []) :
    (socks5_new p mem client_fd malloc).2
      = malloc.map (fun a => (a, socks5_new_init (mem a) client_fd)) ∧
    (socks5_new p mem client_fd malloc).1.freed = p.freed ∧
    pool_inv (socks5_new p mem client_fd malloc).1 [] := by
  obtain ⟨hhead, _, hsize, _⟩ := h
  have hpool : p.pool = none := hhead
  obtain ⟨n1, n2, n3, _, n5⟩ := socks5_new_empty p mem client_fd malloc hpool
  refine ⟨n5, n3, n1, List.nodup_nil, ?_, Nat.zero_le _⟩
  rw [n2, hsize]

/-- The free list after `socks5_destroy` on a connection that holds its last
reference and is not on the list. -/
theorem pool_inv_destroy_last (p : pool_state) (a : Nat) (o : socks5) (l : List Nat)
    (h : pool_inv p l) (href : o.references = 1) (hal : a ∉ l) :
    (p.pool_size < max_pool →
      pool_inv (socks5_destroy p (some (a, o))).1 (a :: l) ∧
      (socks5_destroy p (some (a, o))).1.freed = p.freed) ∧
    (¬ p.pool_size < max_pool →
      pool_inv (socks5_destroy p (some (a, o))).1 l ∧
      (socks5_destroy p (some (a, o))).1.freed = a :: p.freed) := by
  obtain ⟨hchain, hnodup, hsize, hlen⟩ := h
  constructor
  · intro hroom
    rw [(socks5_destroy_push p a o href hroom).1]
    refine ⟨⟨⟨rfl, ?_⟩, List.nodup_cons.mpr ⟨hal, hnodup⟩, ?_, ?_⟩, rfl⟩
    · have hnext : (fun x => if x = a then p.pool else p.next x) a = p.pool := if_pos rfl
      show pool_free_list (fun x => if x = a then p.pool else p.next x)
        ((fun x => if x = a then p.pool else p.next x) a) l
      rw [hnext]
      exact pool_free_list_update _ a p.pool l _ hal hchain
    · show (p.pool_size + 1) % 2 ^ 32 = (a :: l).length
      unfold max_pool at hroom
      rw [List.length_cons, ← hsize]
      exact Nat.mod_eq_of_lt (by omega)
    · rw [List.length_cons, ← hsize]
      exact hroom
  · intro hfull
    obtain ⟨d1, d2, d3, d4⟩ := socks5_destroy_free p a o href hfull
    refine ⟨⟨?_, hnodup, ?_, hlen⟩, d4⟩
    · rw [d1, d2]; exact hchain
    · rw [d3]; exact hsize

/-- One call keeps the invariant of the pool, and returns. -/
theorem pool_inv_step (fuel : Nat) (hfuel : max_pool ≤ fuel) (p : pool_state) (l : List Nat)
    (c : pool_call) (h : pool_inv p l) (hvalid : pool_call_valid l c) :
    ∃ p1 l1, pool_call_run fuel p c = some p1 ∧ pool_inv p1 l1 := by
  cases c with
  | new mem client_fd malloc =>
      cases l with
      | nil => exact ⟨_, [], rfl, (pool_inv_new_empty p mem client_fd malloc h).2.2⟩
      | cons a l => exact ⟨_, l, rfl, (pool_inv_new_head p mem client_fd malloc a l h).2.2⟩
  | destroy s =>
      cases s with
      | none => exact ⟨p, l, rfl, h⟩
      | some ao =>
          obtain ⟨a, o⟩ := ao
          have hal : a ∉ l := hvalid a o rfl
          by_cases href : o.references = 1
          · by_cases hroom : p.pool_size < max_pool
            · exact ⟨_, a :: l, rfl, ((pool_inv_destroy_last p a o l h href hal).1 hroom).1⟩
            · exact ⟨_, l, rfl, ((pool_inv_destroy_last p a o l h href hal).2 hroom).1⟩
          · refine ⟨_, l, rfl, ?_⟩
            rw [socks5_destroy_decrement p a o href]
            exact h
  | pool_destroy =>
      obtain ⟨hchain, _, _, hlen⟩ := h
      obtain ⟨f, hf⟩ := socksv5_pool_destroy_loop_returns p.next l fuel p.pool p.freed hchain
        (Nat.le_trans hlen hfuel)
      refine ⟨{ p with pool := none, pool_size := 0, freed := f }, [], ?_, ?_⟩
      · simp only [pool_call_run, socksv5_pool_destroy, hf, Option.map_some']
      · exact ⟨rfl, List.nodup_nil, rfl, Nat.zero_le _⟩

/-- A sequence of calls that respects the allocator keeps the invariant of the
pool, and returns. -/
theorem pool_inv_calls (fuel : Nat) (hfuel : max_pool ≤ fuel) :
    ∀ (calls : List pool_call) (p : pool_state) (l : List Nat), pool_inv p l →
      pool_calls_valid fuel p calls →
      ∃ p1 l1, pool_calls_run fuel p calls = some p1 ∧ pool_inv p1 l1 := by
  intro calls
  induction calls with
  | nil => intro p l h _; exact ⟨p, l, rfl, h⟩
  | cons c cs ih =>
      intro p l h hvalid
      obtain ⟨hv1, hv2⟩ := hvalid
      obtain ⟨p1, l1, hrun, hinv⟩ := pool_inv_step fuel hfuel p l c h (hv1 l h.1)
      obtain ⟨p2, l2, hrun2, hinv2⟩ := ih p1 l1 hinv (hv2 p1 hrun)
      refine ⟨p2, l2, ?_, hinv2⟩
      simp only [pool_calls_run, hrun]
      exact hrun2

/-- Claim C28, as amended. For every sequence of `socks5_new`, `socks5_destroy`
and `socksv5_pool_destroy` calls from the empty pool, in which `malloc` returns
no object of the free list and no object of the free list is destroyed: the calls
return, `pool_size` equals the number of entries on the free list and never
exceeds 50; `socks5_new` then takes the head of the free list when it is
non-empty and returns what `malloc` gives otherwise; `socks5_destroy` on a
connection holding its last reference pushes it when `pool_size < 50` and frees
it otherwise. -/
theorem C28_pool_size_is_free_list_length (fuel : Nat) (calls : List pool_call)
    (hfuel : max_pool ≤ fuel) (hvalid : pool_calls_valid fuel pool_empty calls) :
    ∃ p l, pool_calls_run fuel pool_empty calls = some p ∧
      pool_free_list p.next p.pool l ∧ p.pool_size = l.length ∧ p.pool_size ≤ 50 ∧
      (∀ mem client_fd malloc, l = [] →
        (socks5_new p mem client_fd malloc).2
          = malloc.map (fun a => (a, socks5_new_init (mem a) client_fd)) ∧
        pool_free_list (socks5_new p mem client_fd malloc).1.next
          (socks5_new p mem client_fd malloc).1.pool [] ∧
        (socks5_new p mem client_fd malloc).1.pool_size = 0) ∧
      (∀ mem client_fd malloc a rest, l = a :: rest →
        (socks5_new p mem client_fd malloc).2
          = some (a, socks5_new_init (mem a) client_fd) ∧
        pool_free_list (socks5_new p mem client_fd malloc).1.next
          (socks5_new p mem client_fd malloc).1.pool rest ∧
        (socks5_new p mem client_fd malloc).1.pool_size = rest.length) ∧
      (∀ a o, o.references = 1 → a ∉ l →
        (p.pool_size < 50 →
          pool_free_list (socks5_destroy p (some (a, o))).1.next
            (socks5_destroy p (some (a, o))).1.pool (a :: l) ∧
          (socks5_destroy p (some (a, o))).1.pool_size = l.length + 1 ∧
          (socks5_destroy p (some (a, o))).1.freed = p.freed) ∧
        (¬ p.pool_size < 50 →
          pool_free_list (socks5_destroy p (some (a, o))).1.next
            (socks5_destroy p (some (a, o))).1.pool l ∧
          (socks5_destroy p (some (a, o))).1.pool_size = l.length ∧
          (socks5_destroy p (some (a, o))).1.freed = a :: p.freed)) := by
  have h0 : pool_inv pool_empty [] := ⟨rfl, List.nodup_nil, rfl, Nat.zero_le _⟩
  obtain ⟨p, l, hrun, hinv⟩ := pool_inv_calls fuel hfuel calls pool_empty [] h0 hvalid
  have hle : p.pool_size ≤ 50 := by rw [hinv.2.2.1]; exact hinv.2.2.2
  refine ⟨p, l, hrun, hinv.1, hinv.2.2.1, hle, ?_, ?_, ?_⟩
  · intro mem client_fd malloc hl
    rw [hl] at hinv
    obtain ⟨n1, _, n3⟩ := pool_inv_new_empty p mem client_fd malloc hinv
    exact ⟨n1, n3.1, n3.2.2.1⟩
  · intro mem client_fd malloc a rest hl
    rw [hl] at hinv
    obtain ⟨n1, _, n3⟩ := pool_inv_new_head p mem client_fd malloc a rest hinv
    exact ⟨n1, n3.1, n3.2.2.1⟩
  · intro a o href hal
    obtain ⟨d1, d2⟩ := pool_inv_destroy_last p a o l hinv href hal
    constructor
    · intro hroom
      obtain ⟨e1, e2⟩ := d1 hroom
      exact ⟨e1.1, e1.2.2.1, e2⟩
    · intro hfull
      obtain ⟨e1, e2⟩ := d2 hfull
      exact ⟨e1.1, e1.2.2.1, e2⟩

/-- Claim C28, instance: a connection at address 1 is allocated, destroyed and so
pushed, and a second `socks5_new` takes it from the free list. -/
theorem C28_pool_size_is_free_list_length_witness :
    ∃ p l, pool_calls_run 50 pool_empty
        [pool_call.new (fun _ => socks5_connect_pending) 7 (some 1),
         pool_call.destroy (some (1, socks5_new_init socks5_connect_pending 7))] = some p ∧
      pool_free_list p.next p.pool l ∧ p.pool_size = l.length ∧ p.pool_size ≤ 50 :=
  have h := C28_pool_size_is_free_list_length 50
    [pool_call.new (fun _ => socks5_connect_pending) 7 (some 1),
     pool_call.destroy (some (1, socks5_new_init socks5_connect_pending 7))]
    (by decide)
    ⟨fun l hl a hm => by
        have hl0 : l = [] := by
          cases l with
          | nil => rfl
          | cons b l => exact absurd hl.1 (by simp [pool_empty])
        rw [hl0]; exact List.not_mem_nil _,
      fun p1 hp1 =>
        ⟨fun l hl a o hao => by
            have hp : p1 = (socks5_new pool_empty (fun _ => socks5_connect_pending) 7
                (some 1)).1 := (Option.some.inj hp1).symm
            have hl0 : l = [] := by
              cases l with
              | nil => rfl
              | cons b l =>
                  rw [hp] at hl
                  exact absurd hl.1 (by simp [socks5_new, pool_empty])
            rw [hl0]; exact List.not_mem_nil _,
          fun _ _ => trivial⟩⟩
  match h with
  | ⟨p, l, h1, h2, h3, h4, _⟩ => ⟨p, l, h1, h2, h3, h4⟩

/-- Claim C28 as stated fails: `socks5_destroy` called twice on the connection at
address 1 while `references` is 1 pushes it twice: `pool_size` is 2, but the
only object of the free list is the one at address 1, whose `next` points to
itself, so that no list of entries ends at NULL. -/
theorem C28_counterexample :
    ∃ p, pool_calls_run 50 pool_empty
        [pool_call.new (fun _ => socks5_connect_pending) 7 (some 1),
         pool_call.destroy (some (1, socks5_new_init socks5_connect_pending 7)),
         pool_call.destroy (some (1, socks5_new_init socks5_connect_pending 7))] = some p ∧
      p.pool_size = 2 ∧ p.pool = some 1 ∧ p.next 1 = some 1 ∧
      ∀ l, ¬ pool_free_list p.next p.pool l := by
  refine ⟨_, rfl, by decide, by decide, by decide, ?_⟩
  intro l
  have hcycle : ∀ (next : Nat → Option Nat), next 1 = some 1 →
      ∀ l : List Nat, ¬ pool_free_list next (some 1) l := by
    intro next hnext l
    induction l with
    | nil => intro h; exact absurd h (by simp [pool_free_list])
    | cons b l ih =>
        intro h
        obtain ⟨h1, h2⟩ := h
        have hb : b = 1 := (Option.some.inj h1).symm
        rw [hb, hnext] at h2
        exact ih h2
  exact hcycle _ (by decide) l

/-- Claim C33. For every previous content `mem` of the pooled connection object
at the head of the free list, `socks5_new(fd)` returns that object with the
same fields as a freshly allocated one (any memory `mem2`, any address `a2`
from `malloc`): `client_fd = fd`, `origin_fd = -1`, `references = 1`, state
HELLO_READ, empty read and write buffers of 4096 bytes, empty username, empty
destination string, `dest_port` 0, `last_status` 0xFF, both byte counters 0, no
address list, and `next = NULL`. -/
theorem C33_socks5_new_fresh_fields (p p2 : pool_state) (mem mem2 : Nat → socks5)
    (client_fd : Int) (malloc : Option Nat) (a a2 : Nat)
    (hpool : p.pool = some a) (hpool2 : p2.pool = none) :
    ∃ o, (socks5_new p mem client_fd malloc).2 = some (a, o) ∧
      (socks5_new p2 mem2 client_fd (some a2)).2 = some (a2, o) ∧
      o.client_fd = client_fd ∧ o.origin_fd = -1 ∧ o.references = 1 ∧
      o.stm.current = HELLO_READ ∧
      (o.request.rb.read = 0 ∧ o.request.rb.write = 0 ∧
        o.request.rb.data.length = BUFFER_SIZE ∧ buffer_readable o.request.rb = []) ∧
      (o.request.wb.read = 0 ∧ o.request.wb.write = 0 ∧
        o.request.wb.data.length = BUFFER_SIZE ∧ buffer_readable o.request.wb = []) ∧
      cstr o.username = [] ∧ o.username = List.replicate 257 0 ∧
      cstr o.dest_addr_str = [] ∧ o.dest_port = 0 ∧ o.last_status = 0xFF ∧
      o.bytes_to_origin = 0 ∧ o.bytes_from_origin = 0 ∧
      o.origin_resolution = [] ∧ o.origin_resolution_current = [] ∧
      (socks5_new p mem client_fd malloc).1.next a = none := by
  obtain ⟨_, _, _, n4, n5⟩ := socks5_new_head p mem client_fd malloc a hpool
  obtain ⟨_, _, _, _, m5⟩ := socks5_new_empty p2 mem2 client_fd (some a2) hpool2
  have hlen : (buffer_init BUFFER_SIZE (List.replicate BUFFER_SIZE 0)).data.length
      = BUFFER_SIZE := by
    simp only [buffer_init, List.length_append, List.length_take, List.length_replicate,
      min_self, Nat.sub_self, Nat.add_zero]
  refine ⟨socks5_new_init (mem a) client_fd, n5, m5, rfl, rfl, rfl, rfl,
    ⟨rfl, rfl, hlen, rfl⟩, ⟨rfl, rfl, hlen, rfl⟩, rfl, rfl, rfl, rfl, rfl, rfl, rfl, rfl, rfl, ?_⟩
  rw [n4]
  simp only [if_true]

/-- Claim C33, instance: the pooled object at address 1 held the connection
`socks5_connect_pending`; `socks5_new(8)` returns it with `client_fd` 8,
`origin_fd` -1, `references` 1 and no address list. -/
theorem C33_socks5_new_fresh_fields_witness :
    ∃ o, (socks5_new { pool_empty with pool := some 1, pool_size := 1 }
        (fun _ => socks5_connect_pending) 8 none).2 = some (1, o) ∧
      o.client_fd = 8 ∧ o.origin_fd = -1 ∧ o.references = 1 ∧ o.origin_resolution = [] :=
  match C33_socks5_new_fresh_fields { pool_empty with pool := some 1, pool_size := 1 }
    pool_empty (fun _ => socks5_connect_pending) (fun _ => socks5_connect_pending) 8 none
    1 2 rfl rfl with
  | ⟨o, h1, _, h3, h4, h5, _, _, _, _, _, _, _, _, _, _, h16, _⟩ => ⟨o, h1, h3, h4, h5, h16⟩

/-- Claim C32, what the code does. When `socks5_destroy` handles the last
reference of a connection that holds a resolved address list: with a full pool
`socks5_destroy_` passes the list to `freeaddrinfo`; with room in the pool the
connection is pushed on the free list still holding the list, nothing is passed
to `freeaddrinfo`, and when `socks5_new` takes the object again its `memset`
clears `origin_resolution`, no `freeaddrinfo` having been called: the list is
lost. -/
theorem C32_pooled_connection_keeps_address_list (p : pool_state) (a : Nat) (s : socks5)
    (mem : Nat → socks5) (client_fd : Int) (malloc : Option Nat)
    (href : s.references = 1) (hres : s.origin_resolution ≠ []) :
    (¬ p.pool_size < max_pool →
      (socks5_destroy p (some (a, s))).1.addrinfo_freed
        = s.origin_resolution :: p.addrinfo_freed ∧
      (socks5_destroy p (some (a, s))).2 = some { s with origin_resolution := [] }) ∧
    (p.pool_size < max_pool →
      (socks5_destroy p (some (a, s))).1.pool = some a ∧
      (socks5_destroy p (some (a, s))).2 = some s ∧
      (socks5_destroy p (some (a, s))).1.addrinfo_freed = p.addrinfo_freed ∧
      ∃ o, (socks5_new (socks5_destroy p (some (a, s))).1 mem client_fd malloc).2
          = some (a, o) ∧
        o.origin_resolution = [] ∧
        (socks5_new (socks5_destroy p (some (a, s))).1 mem client_fd malloc).1.addrinfo_freed
          = p.addrinfo_freed) := by
  constructor
  · intro hfull
    simp only [socks5_destroy, if_pos href, if_neg hfull, socks5_destroy_, if_pos hres, and_self]
  · intro hroom
    obtain ⟨d1, d2⟩ := socks5_destroy_push p a s href hroom
    have hpool : (socks5_destroy p (some (a, s))).1.pool = some a := by rw [d1]
    have hfreed : (socks5_destroy p (some (a, s))).1.addrinfo_freed = p.addrinfo_freed := by
      rw [d1]
    refine ⟨hpool, d2, hfreed, socks5_new_init (mem a) client_fd, ?_, rfl, ?_⟩
    · exact (socks5_new_head _ mem client_fd malloc a hpool).2.2.2.2
    · simp only [socks5_new, hpool]
      exact hfreed

/-- Claim C32, instance: the connection at address 1 holds a two-entry address
list and its last reference, the pool is empty; it is pushed with the list, and
`socks5_new` clears the list with nothing passed to `freeaddrinfo`. -/
theorem C32_pooled_connection_keeps_address_list_witness :
    (socks5_destroy pool_empty (some (1, socks5_last_reference))).2
      = some socks5_last_reference ∧
    (socks5_destroy pool_empty (some (1, socks5_last_reference))).1.addrinfo_freed = [] ∧
    ∃ o, (socks5_new (socks5_destroy pool_empty (some (1, socks5_last_reference))).1
        (fun _ => socks5_last_reference) 8 none).2 = some (1, o) ∧
      o.origin_resolution = [] ∧
      (socks5_new (socks5_destroy pool_empty (some (1, socks5_last_reference))).1
        (fun _ => socks5_last_reference) 8 none).1.addrinfo_freed = [] :=
  have h := (C32_pooled_connection_keeps_address_list pool_empty 1 socks5_last_reference
    (fun _ => socks5_last_reference) 8 none rfl (by decide)).2 (by decide)
  ⟨h.2.1, h.2.2.1, h.2.2.2⟩

/-! ## COPY -/

/-- `INTEREST_OFF` clears exactly the bit of the mask, on 32-bit values. -/
theorem INTEREST_OFF_testBit (flag k i : Nat) (hflag : flag < 2 ^ 32) :
    (INTEREST_OFF flag (2 ^ k)).testBit i = (flag.testBit i && decide (i ≠ k)) := by
  unfold INTEREST_OFF
  rw [Nat.testBit_and, Nat.testBit_xor, Nat.testBit_two_pow_sub_one, Nat.testBit_two_pow]
  by_cases hi : i < 32
  · by_cases hik : k = i
    · simp [hi, hik]
    · have hki : ¬ i = k := fun e => hik e.symm
      simp [hi, hik, hki]
  · have hf : flag.testBit i = false :=
      Nat.testBit_eq_false_of_lt (lt_of_lt_of_le hflag (Nat.pow_le_pow_right (by decide)
        (by omega)))
    simp [hf]

/-- The value `copy_compute_interests` computes is the interest set of the
spec. -/
theorem copy_compute_interests_eq (sel : fd_selector) (s : socks5_copy) (d : copy_ref) :
    copy_compute_interests sel s d =
      (selector_set_interest sel (s.fd_at (s.copy_at d).fd) (copy_interest s d)).map
        (fun sel1 => (copy_interest s d, sel1)) := by
  have hret : (if ((s.copy_at d).duplex &&& OP_WRITE) ≠ 0 ∧
        buffer_can_read (s.buffer_at (s.copy_at d).wb) = true then
      (if ((s.copy_at d).duplex &&& OP_READ) ≠ 0 ∧
          buffer_can_write (s.buffer_at (s.copy_at d).rb) = true then
        OP_NOOP ||| OP_READ else OP_NOOP) ||| OP_WRITE
      else (if ((s.copy_at d).duplex &&& OP_READ) ≠ 0 ∧
          buffer_can_write (s.buffer_at (s.copy_at d).rb) = true then
        OP_NOOP ||| OP_READ else OP_NOOP)) = copy_interest s d := by
    unfold copy_interest
    split_ifs <;> rfl
  unfold copy_compute_interests
  simp only [hret]
  cases selector_set_interest sel (s.fd_at (s.copy_at d).fd) (copy_interest s d) <;> rfl

/-- The bits of the interest set of the spec. -/
theorem copy_interest_bits (s : socks5_copy) (d : copy_ref) :
    ((copy_interest s d &&& OP_READ) ≠ 0 ↔
      (((s.copy_at d).duplex &&& OP_READ) ≠ 0 ∧
        buffer_can_write (s.buffer_at (s.copy_at d).rb) = true)) ∧
    ((copy_interest s d &&& OP_WRITE) ≠ 0 ↔
      (((s.copy_at d).duplex &&& OP_WRITE) ≠ 0 ∧
        buffer_can_read (s.buffer_at (s.copy_at d).wb) = true)) ∧
    (copy_interest s d = OP_NOOP ∨ copy_interest s d = OP_READ ∨
      copy_interest s d = OP_WRITE ∨ copy_interest s d = OP_READ ||| OP_WRITE) := by
  unfold copy_interest
  by_cases hr : ((s.copy_at d).duplex &&& OP_READ) ≠ 0 ∧
      buffer_can_write (s.buffer_at (s.copy_at d).rb) = true
  · by_cases hw : ((s.copy_at d).duplex &&& OP_WRITE) ≠ 0 ∧
        buffer_can_read (s.buffer_at (s.copy_at d).wb) = true
    · rw [if_pos hr, if_pos hw]
      exact ⟨⟨fun _ => hr, fun _ => by decide⟩, ⟨fun _ => hw, fun _ => by decide⟩,
        Or.inr (Or.inr (Or.inr rfl))⟩
    · rw [if_pos hr, if_neg hw]
      exact ⟨⟨fun _ => hr, fun _ => by decide⟩, ⟨fun h => absurd rfl h, fun h => absurd h hw⟩,
        Or.inr (Or.inl rfl)⟩
  · by_cases hw : ((s.copy_at d).duplex &&& OP_WRITE) ≠ 0 ∧
        buffer_can_read (s.buffer_at (s.copy_at d).wb) = true
    · rw [if_neg hr, if_pos hw]
      exact ⟨⟨fun h => absurd rfl h, fun h => absurd h hr⟩, ⟨fun _ => hw, fun _ => by decide⟩,
        Or.inr (Or.inr (Or.inl rfl))⟩
    · rw [if_neg hr, if_neg hw]
      exact ⟨⟨fun h => absurd rfl h, fun h => absurd h hr⟩,
        ⟨fun h => absurd rfl h, fun h => absurd h hw⟩, Or.inl rfl⟩

/-- Claim C24. For every copy half H whose fd is registered,
`copy_compute_interests` programs and returns exactly the interest set that
contains READ iff H.duplex has READ and H's read-side buffer can accept bytes,
and contains WRITE iff H.duplex has WRITE and H's write-side buffer has readable
bytes, and no other bit; the interests of the other fds are left alone.
Consequently a half whose read-side buffer is full never has READ interest, and
a half with duplex NOOP has interest NOOP. -/
theorem C24_copy_compute_interests (sel : fd_selector) (s : socks5_copy) (d : copy_ref)
    (hreg : selector_is_registered sel (s.fd_at (s.copy_at d).fd) = true) :
    ∃ ret sel1, copy_compute_interests sel s d = some (ret, sel1) ∧
      ret = copy_interest s d ∧
      selector_get_interest sel1 (s.fd_at (s.copy_at d).fd) = some ret ∧
      (∀ fd2, fd2 ≠ s.fd_at (s.copy_at d).fd →
        selector_get_interest sel1 fd2 = selector_get_interest sel fd2) ∧
      ((ret &&& OP_READ) ≠ 0 ↔
        (((s.copy_at d).duplex &&& OP_READ) ≠ 0 ∧
          buffer_can_write (s.buffer_at (s.copy_at d).rb) = true)) ∧
      ((ret &&& OP_WRITE) ≠ 0 ↔
        (((s.copy_at d).duplex &&& OP_WRITE) ≠ 0 ∧
          buffer_can_read (s.buffer_at (s.copy_at d).wb) = true)) ∧
      (ret = OP_NOOP ∨ ret = OP_READ ∨ ret = OP_WRITE ∨ ret = OP_READ ||| OP_WRITE) ∧
      (buffer_can_write (s.buffer_at (s.copy_at d).rb) = false → (ret &&& OP_READ) = 0) ∧
      ((s.copy_at d).duplex = OP_NOOP → ret = OP_NOOP) := by
  obtain ⟨sel1, h1, h2, h3, _⟩ := selector_set_interest_spec sel (s.fd_at (s.copy_at d).fd)
    (copy_interest s d) hreg
  obtain ⟨b1, b2, b3⟩ := copy_interest_bits s d
  refine ⟨copy_interest s d, sel1, ?_, rfl, h2, h3, b1, b2, b3, ?_, ?_⟩
  · rw [copy_compute_interests_eq, h1]
    rfl
  · intro hfull
    by_contra hne
    have := (b1.mp hne).2
    rw [hfull] at this
    exact absurd this (by decide)
  · intro hnoop
    unfold copy_interest
    rw [hnoop, if_neg (fun h => h.1 (by decide)), if_neg (fun h => h.1 (by decide))]
    rfl

/-- Claim C24, instance: after `copy_init` with empty buffers the client half
gets the interest READ alone. -/
theorem C24_copy_compute_interests_witness :
    ∃ ret sel1, copy_compute_interests selector_both socks5_copy_start copy_ref.client
        = some (ret, sel1) ∧ ret = OP_READ ∧ selector_get_interest sel1 7 = some OP_READ :=
  match C24_copy_compute_interests selector_both socks5_copy_start copy_ref.client
    (by decide) with
  | ⟨ret, sel1, h1, h2, h3, _⟩ =>
      ⟨ret, sel1, h1, h2.trans (by decide), by
        have h4 : ret = OP_READ := h2.trans (by decide)
        rw [h4] at h3
        exact h3⟩

/-- The end of `copy_read` and `copy_write`, both fds being registered: it
returns, with DONE exactly when both duplex masks are NOOP, the connection and
the metrics as they are, the interest of each fd programmed and the same fds
registered. -/
theorem copy_finish_returns (sel : fd_selector) (s : socks5_copy) (d : copy_ref)
    (m : copy_metrics) (hw : copy_wired s) (ho : copy_fds_open sel s) :
    ∃ sel2, copy_finish sel s d m = some (copy_return s, sel2, s, m) ∧
      (∀ fd, selector_is_registered sel2 fd = selector_is_registered sel fd) ∧
      selector_get_interest sel2 s.client_fd = some (copy_interest s copy_ref.client) ∧
      selector_get_interest sel2 s.origin_fd = some (copy_interest s copy_ref.orig) := by
  obtain ⟨w1, w2, w3, w4, w5, w6, w7, w8⟩ := hw
  obtain ⟨o1, o2, o3, o4, o5⟩ := ho
  have hcfd : s.fd_at (s.copy_at copy_ref.client).fd = s.client_fd := by
    simp only [socks5_copy.copy_at, w1, socks5_copy.fd_at]
  have hofd : s.fd_at (s.copy_at copy_ref.orig).fd = s.origin_fd := by
    simp only [socks5_copy.copy_at, w5, socks5_copy.fd_at]
  cases d with
  | client =>
      obtain ⟨sel1, a1, a2, a3, a4⟩ := selector_set_interest_spec sel s.client_fd
        (copy_interest s copy_ref.client) o4
      obtain ⟨sel2, b1, b2, b3, b4⟩ := selector_set_interest_spec sel1 s.origin_fd
        (copy_interest s copy_ref.orig) (by rw [a4]; exact o5)
      refine ⟨sel2, ?_, fun fd => by rw [b4, a4], ?_, b2⟩
      · have hoth : (s.copy_at copy_ref.client).other = copy_ref.orig := w4
        simp only [copy_finish, copy_compute_interests_eq, hcfd, a1, Option.map_some', hoth,
          hofd, b1, copy_return]
        by_cases h1 : s.client.duplex = OP_NOOP <;> by_cases h2 : s.orig.duplex = OP_NOOP <;>
          simp [socks5_copy.copy_at, h1, h2]
      · rw [b3 _ o3, a2]
  | orig =>
      obtain ⟨sel1, a1, a2, a3, a4⟩ := selector_set_interest_spec sel s.origin_fd
        (copy_interest s copy_ref.orig) o5
      obtain ⟨sel2, b1, b2, b3, b4⟩ := selector_set_interest_spec sel1 s.client_fd
        (copy_interest s copy_ref.client) (by rw [a4]; exact o4)
      refine ⟨sel2, ?_, fun fd => by rw [b4, a4], b2, ?_⟩
      · have hoth : (s.copy_at copy_ref.orig).other = copy_ref.client := w8
        simp only [copy_finish, copy_compute_interests_eq, hofd, a1, Option.map_some', hoth,
          hcfd, b1, copy_return]
        by_cases h1 : s.client.duplex = OP_NOOP <;> by_cases h2 : s.orig.duplex = OP_NOOP <;>
          simp [socks5_copy.copy_at, h1, h2]
      · rw [b3 _ (fun e => o3 e.symm), a2]

/-- `copy_read` on the client fd when `recv` returns 0 or an error. -/
theorem copy_read_client_closed (sel : fd_selector) (s : socks5_copy) (rcv : recv_outcome)
    (m : copy_metrics) (hw : copy_wired s) (h1 : s.client_fd ≠ -1) (h2 : s.origin_fd ≠ -1)
    (hn : recv_n rcv (s.read_buffer.data.length - s.read_buffer.write) ≤ 0) :
    copy_read sel s s.client_fd rcv m =
      copy_finish sel
        { s with client := { s.client with duplex := INTEREST_OFF s.client.duplex OP_READ },
                 orig := { s.orig with duplex := INTEREST_OFF s.orig.duplex OP_WRITE } }
        copy_ref.client m := by
  obtain ⟨w1, w2, w3, w4, w5, w6, w7, w8⟩ := hw
  simp only [copy_read, copy_ptr, if_true, socks5_copy.copy_at, w1, w2, w4, w5,
    socks5_copy.fd_at, socks5_copy.buffer_at, buffer_write_ptr, if_neg h1, if_pos hn,
    socks5_copy.set_duplex, ne_eq, h2, not_false_eq_true]

/-- `copy_read` on the origin fd when `recv` returns 0 or an error. -/
theorem copy_read_orig_closed (sel : fd_selector) (s : socks5_copy) (key_fd : Int)
    (rcv : recv_outcome) (m : copy_metrics) (hw : copy_wired s) (hk : key_fd ≠ s.client_fd)
    (h1 : s.client_fd ≠ -1) (h2 : s.origin_fd ≠ -1)
    (hn : recv_n rcv (s.write_buffer.data.length - s.write_buffer.write) ≤ 0) :
    copy_read sel s key_fd rcv m =
      copy_finish sel
        { s with client := { s.client with duplex := INTEREST_OFF s.client.duplex OP_WRITE },
                 orig := { s.orig with duplex := INTEREST_OFF s.orig.duplex OP_READ } }
        copy_ref.orig m := by
  obtain ⟨w1, w2, w3, w4, w5, w6, w7, w8⟩ := hw
  simp only [copy_read, copy_ptr, if_neg hk, socks5_copy.copy_at, w1, w5, w6, w8,
    socks5_copy.fd_at, socks5_copy.buffer_at, buffer_write_ptr, if_neg h2, if_pos hn,
    socks5_copy.set_duplex, ne_eq, h1, not_false_eq_true, if_true]

/-- `copy_read` on the client fd when `recv` returns bytes. -/
theorem copy_read_client_data (sel : fd_selector) (s : socks5_copy) (rcv : recv_outcome)
    (m : copy_metrics) (hw : copy_wired s) (h1 : s.client_fd ≠ -1)
    (hn : ¬ recv_n rcv (s.read_buffer.data.length - s.read_buffer.write) ≤ 0) :
    copy_read sel s s.client_fd rcv m =
      copy_finish sel
        { s with read_buffer := (buffer_recv s.read_buffer
            (recv_bytes rcv (s.read_buffer.data.length - s.read_buffer.write))) }
        copy_ref.client
        (metrics_add_bytes_from_client m
          (recv_n rcv (s.read_buffer.data.length - s.read_buffer.write)).toNat) := by
  obtain ⟨w1, w2, w3, w4, w5, w6, w7, w8⟩ := hw
  simp only [copy_read, copy_ptr, if_true, socks5_copy.copy_at, w1, w2,
    socks5_copy.fd_at, socks5_copy.buffer_at, buffer_write_ptr, if_neg h1, if_neg hn,
    socks5_copy.set_buffer]

/-- `copy_read` on the origin fd when `recv` returns bytes. -/
theorem copy_read_orig_data (sel : fd_selector) (s : socks5_copy) (key_fd : Int)
    (rcv : recv_outcome) (m : copy_metrics) (hw : copy_wired s) (hk : key_fd ≠ s.client_fd)
    (h2 : s.origin_fd ≠ -1)
    (hn : ¬ recv_n rcv (s.write_buffer.data.length - s.write_buffer.write) ≤ 0) :
    copy_read sel s key_fd rcv m =
      copy_finish sel
        { s with write_buffer := (buffer_recv s.write_buffer
            (recv_bytes rcv (s.write_buffer.data.length - s.write_buffer.write))),
                 bytes_from_origin := (s.bytes_from_origin +
                   (recv_n rcv (s.write_buffer.data.length - s.write_buffer.write)).toNat)
                   % 2 ^ 64 }
        copy_ref.orig
        (metrics_add_bytes_from_origin m
          (recv_n rcv (s.write_buffer.data.length - s.write_buffer.write)).toNat) := by
  obtain ⟨w1, w2, w3, w4, w5, w6, w7, w8⟩ := hw
  simp only [copy_read, copy_ptr, if_neg hk, socks5_copy.copy_at, w5, w6,
    socks5_copy.fd_at, socks5_copy.buffer_at, buffer_write_ptr, if_neg h2, if_neg hn,
    socks5_copy.set_buffer]

/-- `copy_write` on the client fd when `send` fails. -/
theorem copy_write_client_error (sel : fd_selector) (s : socks5_copy) (snd : send_outcome)
    (m : copy_metrics) (hw : copy_wired s) (h1 : s.client_fd ≠ -1) (h2 : s.origin_fd ≠ -1)
    (hn : send_n snd (s.write_buffer.write - s.write_buffer.read) = -1) :
    copy_write sel s s.client_fd snd m =
      copy_finish sel
        { s with client := { s.client with duplex := INTEREST_OFF s.client.duplex OP_WRITE },
                 orig := { s.orig with duplex := INTEREST_OFF s.orig.duplex OP_READ } }
        copy_ref.client m := by
  obtain ⟨w1, w2, w3, w4, w5, w6, w7, w8⟩ := hw
  simp only [copy_write, copy_ptr, if_true, socks5_copy.copy_at, w1, w3, w4, w5,
    socks5_copy.fd_at, socks5_copy.buffer_at, buffer_read_ptr, if_neg h1, if_pos hn,
    socks5_copy.set_duplex, ne_eq, h2, not_false_eq_true]

/-- `copy_write` on the origin fd when `send` fails. -/
theorem copy_write_orig_error (sel : fd_selector) (s : socks5_copy) (key_fd : Int)
    (snd : send_outcome) (m : copy_metrics) (hw : copy_wired s) (hk : key_fd ≠ s.client_fd)
    (h1 : s.client_fd ≠ -1) (h2 : s.origin_fd ≠ -1)
    (hn : send_n snd (s.read_buffer.write - s.read_buffer.read) = -1) :
    copy_write sel s key_fd snd m =
      copy_finish sel
        { s with client := { s.client with duplex := INTEREST_OFF s.client.duplex OP_READ },
                 orig := { s.orig with duplex := INTEREST_OFF s.orig.duplex OP_WRITE } }
        copy_ref.orig m := by
  obtain ⟨w1, w2, w3, w4, w5, w6, w7, w8⟩ := hw
  simp only [copy_write, copy_ptr, if_neg hk, socks5_copy.copy_at, w1, w5, w7, w8,
    socks5_copy.fd_at, socks5_copy.buffer_at, buffer_read_ptr, if_neg h2, if_pos hn,
    socks5_copy.set_duplex, ne_eq, h1, not_false_eq_true, if_true]

/-- `copy_write` on the client fd when `send` takes bytes. -/
theorem copy_write_client_sent (sel : fd_selector) (s : socks5_copy) (snd : send_outcome)
    (m : copy_metrics) (hw : copy_wired s) (h1 : s.client_fd ≠ -1)
    (hn : ¬ send_n snd (s.write_buffer.write - s.write_buffer.read) = -1) :
    copy_write sel s s.client_fd snd m =
      copy_finish sel
        { s with write_buffer := (buffer_read_adv s.write_buffer
            (send_n snd (s.write_buffer.write - s.write_buffer.read)).toNat) }
        copy_ref.client
        (metrics_add_bytes_to_client m
          (send_n snd (s.write_buffer.write - s.write_buffer.read)).toNat) := by
  obtain ⟨w1, w2, w3, w4, w5, w6, w7, w8⟩ := hw
  simp only [copy_write, copy_ptr, if_true, socks5_copy.copy_at, w1, w3,
    socks5_copy.fd_at, socks5_copy.buffer_at, buffer_read_ptr, if_neg h1, if_neg hn,
    socks5_copy.set_buffer]

/-- `copy_write` on the origin fd when `send` takes bytes. -/
theorem copy_write_orig_sent (sel : fd_selector) (s : socks5_copy) (key_fd : Int)
    (snd : send_outcome) (m : copy_metrics) (hw : copy_wired s) (hk : key_fd ≠ s.client_fd)
    (h2 : s.origin_fd ≠ -1)
    (hn : ¬ send_n snd (s.read_buffer.write - s.read_buffer.read) = -1) :
    copy_write sel s key_fd snd m =
      copy_finish sel
        { s with read_buffer := (buffer_read_adv s.read_buffer
            (send_n snd (s.read_buffer.write - s.read_buffer.read)).toNat),
                 bytes_to_origin := (s.bytes_to_origin +
                   (send_n snd (s.read_buffer.write - s.read_buffer.read)).toNat) % 2 ^ 64 }
        copy_ref.orig
        (metrics_add_bytes_to_origin m
          (send_n snd (s.read_buffer.write - s.read_buffer.read)).toNat) := by
  obtain ⟨w1, w2, w3, w4, w5, w6, w7, w8⟩ := hw
  simp only [copy_write, copy_ptr, if_neg hk, socks5_copy.copy_at, w5, w7,
    socks5_copy.fd_at, socks5_copy.buffer_at, buffer_read_ptr, if_neg h2, if_neg hn,
    socks5_copy.set_buffer]

/-- What `copy_read_next` leaves alone: the fds and the pointers. -/
theorem copy_read_next_frame (s : socks5_copy) (key_fd : Int) (rcv : recv_outcome) :
    (copy_read_next s key_fd rcv).client_fd = s.client_fd ∧
    (copy_read_next s key_fd rcv).origin_fd = s.origin_fd ∧
    (copy_wired s → copy_wired (copy_read_next s key_fd rcv)) := by
  unfold copy_read_next
  split_ifs <;> exact ⟨rfl, rfl, fun h => h⟩

/-- What `copy_write_next` leaves alone: the fds and the pointers. -/
theorem copy_write_next_frame (s : socks5_copy) (key_fd : Int) (snd : send_outcome) :
    (copy_write_next s key_fd snd).client_fd = s.client_fd ∧
    (copy_write_next s key_fd snd).origin_fd = s.origin_fd ∧
    (copy_wired s → copy_wired (copy_write_next s key_fd snd)) := by
  unfold copy_write_next
  split_ifs <;> exact ⟨rfl, rfl, fun h => h⟩

/-- `copy_read` with both fds open and registered: it returns, with DONE exactly
when both duplex masks are then NOOP, and has programmed the interests of both
fds. -/
theorem copy_read_returns (sel : fd_selector) (s : socks5_copy) (key_fd : Int)
    (rcv : recv_outcome) (m : copy_metrics) (hw : copy_wired s) (ho : copy_fds_open sel s) :
    ∃ sel2, copy_read sel s key_fd rcv m =
        some (copy_return (copy_read_next s key_fd rcv), sel2, copy_read_next s key_fd rcv,
          copy_read_metrics s key_fd rcv m) ∧
      copy_fds_open sel2 (copy_read_next s key_fd rcv) ∧
      selector_get_interest sel2 s.client_fd
        = some (copy_interest (copy_read_next s key_fd rcv) copy_ref.client) ∧
      selector_get_interest sel2 s.origin_fd
        = some (copy_interest (copy_read_next s key_fd rcv) copy_ref.orig) := by
  obtain ⟨f1, f2, f3⟩ := copy_read_next_frame s key_fd rcv
  have ho' : copy_fds_open sel (copy_read_next s key_fd rcv) := by
    unfold copy_fds_open
    rw [f1, f2]
    exact ho
  have hfin : ∀ d, ∃ sel2, copy_finish sel (copy_read_next s key_fd rcv) d
        (copy_read_metrics s key_fd rcv m) =
        some (copy_return (copy_read_next s key_fd rcv), sel2, copy_read_next s key_fd rcv,
          copy_read_metrics s key_fd rcv m) ∧
      copy_fds_open sel2 (copy_read_next s key_fd rcv) ∧
      selector_get_interest sel2 s.client_fd
        = some (copy_interest (copy_read_next s key_fd rcv) copy_ref.client) ∧
      selector_get_interest sel2 s.origin_fd
        = some (copy_interest (copy_read_next s key_fd rcv) copy_ref.orig) := by
    intro d
    obtain ⟨sel2, e1, e2, e3, e4⟩ := copy_finish_returns sel (copy_read_next s key_fd rcv) d
      (copy_read_metrics s key_fd rcv m) (f3 hw) ho'
    refine ⟨sel2, e1, ?_, ?_, ?_⟩
    · unfold copy_fds_open
      rw [e2, e2]
      exact ho'
    · rw [← f1]; exact e3
    · rw [← f2]; exact e4
  obtain ⟨o1, o2, _, _, _⟩ := ho
  by_cases hk : key_fd = s.client_fd
  · subst hk
    by_cases hn : recv_n rcv (s.read_buffer.data.length - s.read_buffer.write) ≤ 0
    · rw [copy_read_client_closed sel s rcv m hw o1 o2 hn]
      have h := hfin copy_ref.client
      simp only [copy_read_next, copy_read_metrics, if_true, if_pos hn] at h ⊢
      exact h
    · rw [copy_read_client_data sel s rcv m hw o1 hn]
      have h := hfin copy_ref.client
      simp only [copy_read_next, copy_read_metrics, if_true, if_neg hn] at h ⊢
      exact h
  · by_cases hn : recv_n rcv (s.write_buffer.data.length - s.write_buffer.write) ≤ 0
    · rw [copy_read_orig_closed sel s key_fd rcv m hw hk o1 o2 hn]
      have h := hfin copy_ref.orig
      simp only [copy_read_next, copy_read_metrics, if_neg hk, if_pos hn] at h ⊢
      exact h
    · rw [copy_read_orig_data sel s key_fd rcv m hw hk o2 hn]
      have h := hfin copy_ref.orig
      simp only [copy_read_next, copy_read_metrics, if_neg hk, if_neg hn] at h ⊢
      exact h

/-- `copy_write` with both fds open and registered: it returns, with DONE exactly
when both duplex masks are then NOOP, and has programmed the interests of both
fds. -/
theorem copy_write_returns (sel : fd_selector) (s : socks5_copy) (key_fd : Int)
    (snd : send_outcome) (m : copy_metrics) (hw : copy_wired s) (ho : copy_fds_open sel s) :
    ∃ sel2, copy_write sel s key_fd snd m =
        some (copy_return (copy_write_next s key_fd snd), sel2, copy_write_next s key_fd snd,
          copy_write_metrics s key_fd snd m) ∧
      copy_fds_open sel2 (copy_write_next s key_fd snd) ∧
      selector_get_interest sel2 s.client_fd
        = some (copy_interest (copy_write_next s key_fd snd) copy_ref.client) ∧
      selector_get_interest sel2 s.origin_fd
        = some (copy_interest (copy_write_next s key_fd snd) copy_ref.orig) := by
  obtain ⟨f1, f2, f3⟩ := copy_write_next_frame s key_fd snd
  have ho' : copy_fds_open sel (copy_write_next s key_fd snd) := by
    unfold copy_fds_open
    rw [f1, f2]
    exact ho
  have hfin : ∀ d, ∃ sel2, copy_finish sel (copy_write_next s key_fd snd) d
        (copy_write_metrics s key_fd snd m) =
        some (copy_return (copy_write_next s key_fd snd), sel2, copy_write_next s key_fd snd,
          copy_write_metrics s key_fd snd m) ∧
      copy_fds_open sel2 (copy_write_next s key_fd snd) ∧
      selector_get_interest sel2 s.client_fd
        = some (copy_interest (copy_write_next s key_fd snd) copy_ref.client) ∧
      selector_get_interest sel2 s.origin_fd
        = some (copy_interest (copy_write_next s key_fd snd) copy_ref.orig) := by
    intro d
    obtain ⟨sel2, e1, e2, e3, e4⟩ := copy_finish_returns sel (copy_write_next s key_fd snd) d
      (copy_write_metrics s key_fd snd m) (f3 hw) ho'
    refine ⟨sel2, e1, ?_, ?_, ?_⟩
    · unfold copy_fds_open
      rw [e2, e2]
      exact ho'
    · rw [← f1]; exact e3
    · rw [← f2]; exact e4
  obtain ⟨o1, o2, _, _, _⟩ := ho
  by_cases hk : key_fd = s.client_fd
  · subst hk
    by_cases hn : send_n snd (s.write_buffer.write - s.write_buffer.read) = -1
    · rw [copy_write_client_error sel s snd m hw o1 o2 hn]
      have h := hfin copy_ref.client
      simp only [copy_write_next, copy_write_metrics, if_true, if_pos hn] at h ⊢
      exact h
    · rw [copy_write_client_sent sel s snd m hw o1 hn]
      have h := hfin copy_ref.client
      simp only [copy_write_next, copy_write_metrics, if_true, if_neg hn] at h ⊢
      exact h
  · by_cases hn : send_n snd (s.read_buffer.write - s.read_buffer.read) = -1
    · rw [copy_write_orig_error sel s key_fd snd m hw hk o1 o2 hn]
      have h := hfin copy_ref.orig
      simp only [copy_write_next, copy_write_metrics, if_neg hk, if_pos hn] at h ⊢
      exact h
    · rw [copy_write_orig_sent sel s key_fd snd m hw hk o2 hn]
      have h := hfin copy_ref.orig
      simp only [copy_write_next, copy_write_metrics, if_neg hk, if_neg hn] at h ⊢
      exact h

/-- The effect of `copy_read` when `recv` returns 0 or an error. -/
theorem copy_read_next_closed (s : socks5_copy) (key_fd : Int) (rcv : recv_outcome)
    (m : copy_metrics) (hw : copy_wired s)
    (hn : recv_n rcv
      (buffer_write_ptr (s.buffer_at (s.copy_at (copy_ptr s key_fd)).rb)).2 ≤ 0) :
    ((copy_read_next s key_fd rcv).copy_at (copy_ptr s key_fd)).duplex
      = INTEREST_OFF (s.copy_at (copy_ptr s key_fd)).duplex OP_READ ∧
    ((copy_read_next s key_fd rcv).copy_at (s.copy_at (copy_ptr s key_fd)).other).duplex
      = INTEREST_OFF (s.copy_at (s.copy_at (copy_ptr s key_fd)).other).duplex OP_WRITE ∧
    (copy_read_next s key_fd rcv).read_buffer = s.read_buffer ∧
    (copy_read_next s key_fd rcv).write_buffer = s.write_buffer ∧
    (copy_read_next s key_fd rcv).bytes_to_origin = s.bytes_to_origin ∧
    (copy_read_next s key_fd rcv).bytes_from_origin = s.bytes_from_origin ∧
    copy_read_metrics s key_fd rcv m = m := by
  obtain ⟨w1, w2, w3, w4, w5, w6, w7, w8⟩ := hw
  by_cases hk : key_fd = s.client_fd
  · simp only [copy_ptr, if_pos hk, socks5_copy.copy_at, w2, w4, socks5_copy.buffer_at,
      buffer_write_ptr] at hn ⊢
    simp only [copy_read_next, copy_read_metrics, if_pos hk, if_pos hn, and_self]
  · simp only [copy_ptr, if_neg hk, socks5_copy.copy_at, w6, w8, socks5_copy.buffer_at,
      buffer_write_ptr] at hn ⊢
    simp only [copy_read_next, copy_read_metrics, if_neg hk, if_pos hn, and_self]

/-- The effect of `copy_write` when `send` fails. -/
theorem copy_write_next_error (s : socks5_copy) (key_fd : Int) (snd : send_outcome)
    (m : copy_metrics) (hw : copy_wired s)
    (hn : send_n snd
      (buffer_read_ptr (s.buffer_at (s.copy_at (copy_ptr s key_fd)).wb)).2 = -1) :
    ((copy_write_next s key_fd snd).copy_at (copy_ptr s key_fd)).duplex
      = INTEREST_OFF (s.copy_at (copy_ptr s key_fd)).duplex OP_WRITE ∧
    ((copy_write_next s key_fd snd).copy_at (s.copy_at (copy_ptr s key_fd)).other).duplex
      = INTEREST_OFF (s.copy_at (s.copy_at (copy_ptr s key_fd)).other).duplex OP_READ ∧
    (copy_write_next s key_fd snd).read_buffer = s.read_buffer ∧
    (copy_write_next s key_fd snd).write_buffer = s.write_buffer ∧
    (copy_write_next s key_fd snd).bytes_to_origin = s.bytes_to_origin ∧
    (copy_write_next s key_fd snd).bytes_from_origin = s.bytes_from_origin ∧
    copy_write_metrics s key_fd snd m = m := by
  obtain ⟨w1, w2, w3, w4, w5, w6, w7, w8⟩ := hw
  by_cases hk : key_fd = s.client_fd
  · simp only [copy_ptr, if_pos hk, socks5_copy.copy_at, w3, w4, socks5_copy.buffer_at,
      buffer_read_ptr] at hn ⊢
    simp only [copy_write_next, copy_write_metrics, if_pos hk, if_pos hn, and_self]
  · simp only [copy_ptr, if_neg hk, socks5_copy.copy_at, w7, w8, socks5_copy.buffer_at,
      buffer_read_ptr] at hn ⊢
    simp only [copy_write_next, copy_write_metrics, if_neg hk, if_pos hn, and_self]

/-- The effect of `copy_read` when `recv` returns `n > 0` bytes. -/
theorem copy_read_next_data (s : socks5_copy) (key_fd : Int) (rcv : recv_outcome)
    (hw : copy_wired s)
    (hn : 0 < recv_n rcv
      (buffer_write_ptr (s.buffer_at (s.copy_at (copy_ptr s key_fd)).rb)).2) :
    (copy_read_next s key_fd rcv).client.duplex = s.client.duplex ∧
    (copy_read_next s key_fd rcv).orig.duplex = s.orig.duplex ∧
    ((copy_read_next s key_fd rcv).buffer_at (s.copy_at (copy_ptr s key_fd)).rb).write
      = (s.buffer_at (s.copy_at (copy_ptr s key_fd)).rb).write +
        (recv_n rcv
          (buffer_write_ptr (s.buffer_at (s.copy_at (copy_ptr s key_fd)).rb)).2).toNat ∧
    ((copy_read_next s key_fd rcv).buffer_at (s.copy_at (copy_ptr s key_fd)).rb).read
      = (s.buffer_at (s.copy_at (copy_ptr s key_fd)).rb).read ∧
    (copy_read_next s key_fd rcv).buffer_at (s.copy_at (copy_ptr s key_fd)).wb
      = s.buffer_at (s.copy_at (copy_ptr s key_fd)).wb := by
  obtain ⟨w1, w2, w3, w4, w5, w6, w7, w8⟩ := hw
  have hlen : ∀ c, (recv_n rcv c).toNat = (recv_bytes rcv c).length := by
    intro c
    cases rcv with
    | data bytes => exact Int.toNat_ofNat _
    | eof => rfl
    | error => rfl
  by_cases hk : key_fd = s.client_fd
  · simp only [copy_ptr, if_pos hk, socks5_copy.copy_at, w2, w3, socks5_copy.buffer_at,
      buffer_write_ptr] at hn ⊢
    have hn' : ¬ recv_n rcv (s.read_buffer.data.length - s.read_buffer.write) ≤ 0 := by omega
    simp only [copy_read_next, if_pos hk, if_neg hn', buffer_recv, buffer_write_adv,
      buffer_write_ptr, hlen, and_self]
  · simp only [copy_ptr, if_neg hk, socks5_copy.copy_at, w6, w7, socks5_copy.buffer_at,
      buffer_write_ptr] at hn ⊢
    have hn' : ¬ recv_n rcv (s.write_buffer.data.length - s.write_buffer.write) ≤ 0 := by
      omega
    simp only [copy_read_next, if_neg hk, if_neg hn', buffer_recv, buffer_write_adv,
      buffer_write_ptr, hlen, and_self]

/-- The effect of `copy_write` when `send` takes `n` bytes. -/
theorem copy_write_next_sent (s : socks5_copy) (key_fd : Int) (snd : send_outcome)
    (hw : copy_wired s)
    (hn : send_n snd
      (buffer_read_ptr (s.buffer_at (s.copy_at (copy_ptr s key_fd)).wb)).2 ≠ -1) :
    (copy_write_next s key_fd snd).client.duplex = s.client.duplex ∧
    (copy_write_next s key_fd snd).orig.duplex = s.orig.duplex ∧
    ((copy_write_next s key_fd snd).buffer_at (s.copy_at (copy_ptr s key_fd)).wb).read
      = (s.buffer_at (s.copy_at (copy_ptr s key_fd)).wb).read +
        (send_n snd
          (buffer_read_ptr (s.buffer_at (s.copy_at (copy_ptr s key_fd)).wb)).2).toNat ∧
    ((copy_write_next s key_fd snd).buffer_at (s.copy_at (copy_ptr s key_fd)).wb).write
      = (s.buffer_at (s.copy_at (copy_ptr s key_fd)).wb).write ∧
    ((copy_write_next s key_fd snd).buffer_at (s.copy_at (copy_ptr s key_fd)).wb).data
      = (s.buffer_at (s.copy_at (copy_ptr s key_fd)).wb).data ∧
    (copy_write_next s key_fd snd).buffer_at (s.copy_at (copy_ptr s key_fd)).rb
      = s.buffer_at (s.copy_at (copy_ptr s key_fd)).rb := by
  obtain ⟨w1, w2, w3, w4, w5, w6, w7, w8⟩ := hw
  by_cases hk : key_fd = s.client_fd
  · simp only [copy_ptr, if_pos hk, socks5_copy.copy_at, w2, w3, socks5_copy.buffer_at,
      buffer_read_ptr] at hn ⊢
    simp only [copy_write_next, if_pos hk, if_neg hn, buffer_read_adv, and_self]
  · simp only [copy_ptr, if_neg hk, socks5_copy.copy_at, w6, w7, socks5_copy.buffer_at,
      buffer_read_ptr] at hn ⊢
    simp only [copy_write_next, if_neg hk, if_neg hn, buffer_read_adv, and_self]

/-- Claim C25. In COPY with both fds open and registered, H being the half of
`key_fd` and the duplex masks 32-bit values: when `recv` on H returns 0 or an
error, `copy_read` clears exactly the READ bit of H.duplex and exactly the WRITE
bit of the peer's duplex and changes no buffer, byte counter or metric; when
`send` on H fails, `copy_write` clears exactly the WRITE bit of H.duplex and
exactly the READ bit of the peer's duplex; when `recv` or `send` transfers
`n > 0` bytes, both duplex masks are unchanged and, of the cursors, only the
write cursor of H's read-side buffer, respectively the read cursor of H's
write-side buffer, moves, by `n`. -/
theorem C25_copy_read_write_effects (sel : fd_selector) (s : socks5_copy) (key_fd : Int)
    (m : copy_metrics) (hw : copy_wired s) (ho : copy_fds_open sel s)
    (hc32 : s.client.duplex < 2 ^ 32) (ho32 : s.orig.duplex < 2 ^ 32) :
    (∀ rcv, recv_n rcv
        (buffer_write_ptr (s.buffer_at (s.copy_at (copy_ptr s key_fd)).rb)).2 ≤ 0 →
      ∃ r, copy_read sel s key_fd rcv m = some r ∧
        (r.2.2.1.copy_at (copy_ptr s key_fd)).duplex
          = INTEREST_OFF (s.copy_at (copy_ptr s key_fd)).duplex OP_READ ∧
        (∀ i, (r.2.2.1.copy_at (copy_ptr s key_fd)).duplex.testBit i
          = ((s.copy_at (copy_ptr s key_fd)).duplex.testBit i && decide (i ≠ 0))) ∧
        (r.2.2.1.copy_at (s.copy_at (copy_ptr s key_fd)).other).duplex
          = INTEREST_OFF (s.copy_at (s.copy_at (copy_ptr s key_fd)).other).duplex OP_WRITE ∧
        (∀ i, (r.2.2.1.copy_at (s.copy_at (copy_ptr s key_fd)).other).duplex.testBit i
          = ((s.copy_at (s.copy_at (copy_ptr s key_fd)).other).duplex.testBit i
              && decide (i ≠ 2))) ∧
        r.2.2.1.read_buffer = s.read_buffer ∧ r.2.2.1.write_buffer = s.write_buffer ∧
        r.2.2.1.bytes_to_origin = s.bytes_to_origin ∧
        r.2.2.1.bytes_from_origin = s.bytes_from_origin ∧ r.2.2.2 = m) ∧
    (∀ snd, send_n snd
        (buffer_read_ptr (s.buffer_at (s.copy_at (copy_ptr s key_fd)).wb)).2 = -1 →
      ∃ r, copy_write sel s key_fd snd m = some r ∧
        (r.2.2.1.copy_at (copy_ptr s key_fd)).duplex
          = INTEREST_OFF (s.copy_at (copy_ptr s key_fd)).duplex OP_WRITE ∧
        (∀ i, (r.2.2.1.copy_at (copy_ptr s key_fd)).duplex.testBit i
          = ((s.copy_at (copy_ptr s key_fd)).duplex.testBit i && decide (i ≠ 2))) ∧
        (r.2.2.1.copy_at (s.copy_at (copy_ptr s key_fd)).other).duplex
          = INTEREST_OFF (s.copy_at (s.copy_at (copy_ptr s key_fd)).other).duplex OP_READ ∧
        (∀ i, (r.2.2.1.copy_at (s.copy_at (copy_ptr s key_fd)).other).duplex.testBit i
          = ((s.copy_at (s.copy_at (copy_ptr s key_fd)).other).duplex.testBit i
              && decide (i ≠ 0))) ∧
        r.2.2.1.read_buffer = s.read_buffer ∧ r.2.2.1.write_buffer = s.write_buffer ∧
        r.2.2.1.bytes_to_origin = s.bytes_to_origin ∧
        r.2.2.1.bytes_from_origin = s.bytes_from_origin ∧ r.2.2.2 = m) ∧
    (∀ rcv, 0 < recv_n rcv
        (buffer_write_ptr (s.buffer_at (s.copy_at (copy_ptr s key_fd)).rb)).2 →
      ∃ r, copy_read sel s key_fd rcv m = some r ∧
        r.2.2.1.client.duplex = s.client.duplex ∧ r.2.2.1.orig.duplex = s.orig.duplex ∧
        (r.2.2.1.buffer_at (s.copy_at (copy_ptr s key_fd)).rb).write
          = (s.buffer_at (s.copy_at (copy_ptr s key_fd)).rb).write +
            (recv_n rcv
              (buffer_write_ptr (s.buffer_at (s.copy_at (copy_ptr s key_fd)).rb)).2).toNat ∧
        (r.2.2.1.buffer_at (s.copy_at (copy_ptr s key_fd)).rb).read
          = (s.buffer_at (s.copy_at (copy_ptr s key_fd)).rb).read ∧
        r.2.2.1.buffer_at (s.copy_at (copy_ptr s key_fd)).wb
          = s.buffer_at (s.copy_at (copy_ptr s key_fd)).wb) ∧
    (∀ snd, send_n snd
        (buffer_read_ptr (s.buffer_at (s.copy_at (copy_ptr s key_fd)).wb)).2 ≠ -1 →
      ∃ r, copy_write sel s key_fd snd m = some r ∧
        r.2.2.1.client.duplex = s.client.duplex ∧ r.2.2.1.orig.duplex = s.orig.duplex ∧
        (r.2.2.1.buffer_at (s.copy_at (copy_ptr s key_fd)).wb).read
          = (s.buffer_at (s.copy_at (copy_ptr s key_fd)).wb).read +
            (send_n snd
              (buffer_read_ptr (s.buffer_at (s.copy_at (copy_ptr s key_fd)).wb)).2).toNat ∧
        (r.2.2.1.buffer_at (s.copy_at (copy_ptr s key_fd)).wb).write
          = (s.buffer_at (s.copy_at (copy_ptr s key_fd)).wb).write ∧
        (r.2.2.1.buffer_at (s.copy_at (copy_ptr s key_fd)).wb).data
          = (s.buffer_at (s.copy_at (copy_ptr s key_fd)).wb).data ∧
        r.2.2.1.buffer_at (s.copy_at (copy_ptr s key_fd)).rb
          = s.buffer_at (s.copy_at (copy_ptr s key_fd)).rb) := by
  have hdup : ∀ d, (s.copy_at d).duplex < 2 ^ 32 := by
    intro d
    cases d
    · exact hc32
    · exact ho32
  have hread : OP_READ = 2 ^ 0 := rfl
  have hwrite : OP_WRITE = 2 ^ 2 := rfl
  refine ⟨?_, ?_, ?_, ?_⟩
  · intro rcv hn
    obtain ⟨sel2, e1, _⟩ := copy_read_returns sel s key_fd rcv m hw ho
    obtain ⟨c1, c2, c3, c4, c5, c6, c7⟩ := copy_read_next_closed s key_fd rcv m hw hn
    refine ⟨_, e1, c1, ?_, c2, ?_, c3, c4, c5, c6, c7⟩
    · intro i
      show ((copy_read_next s key_fd rcv).copy_at (copy_ptr s key_fd)).duplex.testBit i = _
      rw [c1, hread, INTEREST_OFF_testBit _ 0 i (hdup _)]
    · intro i
      show ((copy_read_next s key_fd rcv).copy_at
        (s.copy_at (copy_ptr s key_fd)).other).duplex.testBit i = _
      rw [c2, hwrite, INTEREST_OFF_testBit _ 2 i (hdup _)]
  · intro snd hn
    obtain ⟨sel2, e1, _⟩ := copy_write_returns sel s key_fd snd m hw ho
    obtain ⟨c1, c2, c3, c4, c5, c6, c7⟩ := copy_write_next_error s key_fd snd m hw hn
    refine ⟨_, e1, c1, ?_, c2, ?_, c3, c4, c5, c6, c7⟩
    · intro i
      show ((copy_write_next s key_fd snd).copy_at (copy_ptr s key_fd)).duplex.testBit i = _
      rw [c1, hwrite, INTEREST_OFF_testBit _ 2 i (hdup _)]
    · intro i
      show ((copy_write_next s key_fd snd).copy_at
        (s.copy_at (copy_ptr s key_fd)).other).duplex.testBit i = _
      rw [c2, hread, INTEREST_OFF_testBit _ 0 i (hdup _)]
  · intro rcv hn
    obtain ⟨sel2, e1, _⟩ := copy_read_returns sel s key_fd rcv m hw ho
    exact ⟨_, e1, copy_read_next_data s key_fd rcv hw hn⟩
  · intro snd hn
    obtain ⟨sel2, e1, _⟩ := copy_write_returns sel s key_fd snd m hw ho
    exact ⟨_, e1, copy_write_next_sent s key_fd snd hw hn⟩

/-- Claim C25, instance: right after `copy_init`, the read on the client fd 7
meets the end of the stream: the client half keeps WRITE alone and the origin
half READ alone. -/
theorem C25_copy_read_write_effects_witness :
    ∃ r, copy_read selector_both socks5_copy_start 7 recv_outcome.eof copy_metrics_zero
        = some r ∧
      r.2.2.1.client.duplex = OP_WRITE ∧ r.2.2.1.orig.duplex = OP_READ ∧
      r.2.2.1.read_buffer = buffer8 ∧ r.2.2.1.write_buffer = buffer8 :=
  match (C25_copy_read_write_effects selector_both socks5_copy_start 7 copy_metrics_zero
    (by unfold copy_wired; decide) (by unfold copy_fds_open; decide) (by decide)
    (by decide)).1 recv_outcome.eof (by decide) with
  | ⟨r, h1, h2, _, h4, _, h6, h7, _⟩ => ⟨r, h1, h2, h4, h6, h7⟩

/-- One handler call with both fds open and registered: it returns what
`copy_return` tells, with the connection and the metrics of `copy_event_next` and
`copy_event_metrics`. -/
theorem copy_step_returns (sel : fd_selector) (s : socks5_copy) (m : copy_metrics)
    (e : copy_event) (hw : copy_wired s) (ho : copy_fds_open sel s) :
    ∃ sel2, copy_step sel s m e =
        some (copy_return (copy_event_next s e), sel2, copy_event_next s e,
          copy_event_metrics s m e) ∧
      copy_fds_open sel2 (copy_event_next s e) ∧ copy_wired (copy_event_next s e) ∧
      (copy_event_next s e).client_fd = s.client_fd ∧
      (copy_event_next s e).origin_fd = s.origin_fd ∧
      selector_get_interest sel2 s.client_fd
        = some (copy_interest (copy_event_next s e) copy_ref.client) ∧
      selector_get_interest sel2 s.origin_fd
        = some (copy_interest (copy_event_next s e) copy_ref.orig) := by
  cases e with
  | read key_fd rcv =>
      obtain ⟨sel2, e1, e2, e3, e4⟩ := copy_read_returns sel s key_fd rcv m hw ho
      obtain ⟨f1, f2, f3⟩ := copy_read_next_frame s key_fd rcv
      exact ⟨sel2, e1, e2, f3 hw, f1, f2, e3, e4⟩
  | write key_fd snd =>
      obtain ⟨sel2, e1, e2, e3, e4⟩ := copy_write_returns sel s key_fd snd m hw ho
      obtain ⟨f1, f2, f3⟩ := copy_write_next_frame s key_fd snd
      exact ⟨sel2, e1, e2, f3 hw, f1, f2, e3, e4⟩

/-- The handler calls of a sequence of events with both fds open and
registered: they all return, the last one what `copy_return` tells. -/
theorem copy_run_returns : ∀ (es : List copy_event) (st : socks_v5state)
    (sel : fd_selector) (s : socks5_copy) (m : copy_metrics),
    copy_wired s → copy_fds_open sel s →
    ∃ st2 sel2, copy_run (st, sel, s, m) es =
        some (st2, sel2, (copy_events_next (s, m) es).1, (copy_events_next (s, m) es).2) ∧
      copy_fds_open sel2 (copy_events_next (s, m) es).1 ∧
      copy_wired (copy_events_next (s, m) es).1 ∧
      (es = [] → st2 = st) ∧
      (es ≠ [] → st2 = copy_return (copy_events_next (s, m) es).1) := by
  intro es
  induction es with
  | nil =>
      intro st sel s m hw ho
      exact ⟨st, sel, rfl, ho, hw, fun _ => rfl, fun h => absurd rfl h⟩
  | cons e es ih =>
      intro st sel s m hw ho
      obtain ⟨sel1, e1, e2, e3, _⟩ := copy_step_returns sel s m e hw ho
      obtain ⟨st2, sel2, r1, r2, r3, r4, r5⟩ := ih (copy_return (copy_event_next s e)) sel1
        (copy_event_next s e) (copy_event_metrics s m e) e3 e2
      refine ⟨st2, sel2, ?_, r2, r3, fun h => absurd h (List.cons_ne_nil _ _), ?_⟩
      · simp only [copy_run, e1]
        exact r1
      · intro _
        by_cases hes : es = []
        · rw [r4 hes, hes]
          rfl
        · exact r5 hes

theorem interest_subset_trans (x y z : Nat) (h1 : x &&& y = x) (h2 : y &&& z = y) :
    x &&& z = x := by
  calc x &&& z = (x &&& y) &&& z := by rw [h1]
    _ = x &&& (y &&& z) := Nat.and_assoc _ _ _
    _ = x &&& y := by rw [h2]
    _ = x := h1

/-- One handler call keeps the duplex masks mirrored and sets no bit of them. -/
theorem copy_event_next_duplex (s : socks5_copy) (e : copy_event) (hd : copy_duplex_ok s) :
    copy_duplex_ok (copy_event_next s e) ∧
    (copy_event_next s e).client.duplex &&& s.client.duplex
      = (copy_event_next s e).client.duplex ∧
    (copy_event_next s e).orig.duplex &&& s.orig.duplex
      = (copy_event_next s e).orig.duplex := by
  have hself : ∀ n : Nat, n &&& n = n := Nat.and_self
  cases e with
  | read key_fd rcv =>
      simp only [copy_event_next, copy_read_next]
      split_ifs
      all_goals first
        | exact ⟨hd, hself _, hself _⟩
        | (rcases hd with ⟨h1, h2⟩ | ⟨h1, h2⟩ | ⟨h1, h2⟩ | ⟨h1, h2⟩ <;>
            simp only [copy_duplex_ok, h1, h2] <;> decide)
  | write key_fd snd =>
      simp only [copy_event_next, copy_write_next]
      split_ifs
      all_goals first
        | exact ⟨hd, hself _, hself _⟩
        | (rcases hd with ⟨h1, h2⟩ | ⟨h1, h2⟩ | ⟨h1, h2⟩ | ⟨h1, h2⟩ <;>
            simp only [copy_duplex_ok, h1, h2] <;> decide)

/-- The handler calls of a sequence of events keep the duplex masks mirrored and
set no bit of them. -/
theorem copy_events_next_duplex : ∀ (es : List copy_event) (s : socks5_copy)
    (m : copy_metrics), copy_duplex_ok s →
    copy_duplex_ok (copy_events_next (s, m) es).1 ∧
    (copy_events_next (s, m) es).1.client.duplex &&& s.client.duplex
      = (copy_events_next (s, m) es).1.client.duplex ∧
    (copy_events_next (s, m) es).1.orig.duplex &&& s.orig.duplex
      = (copy_events_next (s, m) es).1.orig.duplex := by
  intro es
  induction es with
  | nil => intro s m hd; exact ⟨hd, Nat.and_self _, Nat.and_self _⟩
  | cons e es ih =>
      intro s m hd
      obtain ⟨d1, d2, d3⟩ := copy_event_next_duplex s e hd
      obtain ⟨i1, i2, i3⟩ := ih (copy_event_next s e) (copy_event_metrics s m e) d1
      exact ⟨i1, interest_subset_trans _ _ _ i2 d2, interest_subset_trans _ _ _ i3 d3⟩

/-- What `copy_init` sets up. -/
theorem copy_init_spec (sel : fd_selector) (s : socks5_copy) (ho : copy_fds_open sel s) :
    copy_wired (copy_init s) ∧ copy_fds_open sel (copy_init s) ∧
    copy_duplex_ok (copy_init s) :=
  ⟨⟨rfl, rfl, rfl, rfl, rfl, rfl, rfl, rfl⟩, ho, Or.inl ⟨rfl, rfl⟩⟩

/-- Mirrored duplex masks: the client half has READ iff the origin half has
WRITE, and WRITE iff the origin half has READ. -/
theorem copy_duplex_ok_mirror (s : socks5_copy) (hd : copy_duplex_ok s) :
    (((s.client.duplex &&& OP_READ) ≠ 0) ↔ ((s.orig.duplex &&& OP_WRITE) ≠ 0)) ∧
    (((s.client.duplex &&& OP_WRITE) ≠ 0) ↔ ((s.orig.duplex &&& OP_READ) ≠ 0)) := by
  rcases hd with ⟨h1, h2⟩ | ⟨h1, h2⟩ | ⟨h1, h2⟩ | ⟨h1, h2⟩ <;> rw [h1, h2] <;> decide

/-- Claim C36. After `copy_init` and after every sequence of `copy_read` and
`copy_write` calls with both fds open and registered, the calls return and the
two duplex masks are mirror images: the client half has READ iff the origin half
has WRITE, and the client half has WRITE iff the origin half has READ; moreover,
whatever calls follow, every bit of a duplex mask afterwards is a bit of it now:
no duplex bit that has been cleared is set again. -/
theorem C36_duplex_masks_mirrored (sel : fd_selector) (s : socks5_copy) (m : copy_metrics)
    (es es2 : List copy_event) (ho : copy_fds_open sel s) :
    ∃ r, copy_run (COPY, sel, copy_init s, m) es = some r ∧
      (((r.2.2.1.client.duplex &&& OP_READ) ≠ 0) ↔
        ((r.2.2.1.orig.duplex &&& OP_WRITE) ≠ 0)) ∧
      (((r.2.2.1.client.duplex &&& OP_WRITE) ≠ 0) ↔
        ((r.2.2.1.orig.duplex &&& OP_READ) ≠ 0)) ∧
      ∃ r2, copy_run r es2 = some r2 ∧
        r2.2.2.1.client.duplex &&& r.2.2.1.client.duplex = r2.2.2.1.client.duplex ∧
        r2.2.2.1.orig.duplex &&& r.2.2.1.orig.duplex = r2.2.2.1.orig.duplex := by
  obtain ⟨hw, ho1, hd⟩ := copy_init_spec sel s ho
  obtain ⟨st1, sel1, r1, r2, r3, _, _⟩ := copy_run_returns es COPY sel (copy_init s) m hw ho1
  obtain ⟨d1, _, _⟩ := copy_events_next_duplex es (copy_init s) m hd
  obtain ⟨st2, sel2, q1, _, _, _, _⟩ := copy_run_returns es2 st1 sel1
    (copy_events_next (copy_init s, m) es).1 (copy_events_next (copy_init s, m) es).2 r3 r2
  obtain ⟨_, t2, t3⟩ := copy_events_next_duplex es2
    (copy_events_next (copy_init s, m) es).1 (copy_events_next (copy_init s, m) es).2 d1
  obtain ⟨m1, m2⟩ := copy_duplex_ok_mirror _ d1
  exact ⟨_, r1, m1, m2, _, q1, t2, t3⟩

/-- Claim C36, instance: after the client has closed its stream and the origin
has sent three bytes, the client half has WRITE alone and the origin half READ
alone. -/
theorem C36_duplex_masks_mirrored_witness :
    ∃ r, copy_run (COPY, selector_both, socks5_copy_start, copy_metrics_zero)
        [copy_event.read 7 recv_outcome.eof,
         copy_event.read 9 (recv_outcome.data [1, 2, 3])] = some r ∧
      (((r.2.2.1.client.duplex &&& OP_READ) ≠ 0) ↔
        ((r.2.2.1.orig.duplex &&& OP_WRITE) ≠ 0)) ∧
      (((r.2.2.1.client.duplex &&& OP_WRITE) ≠ 0) ↔
        ((r.2.2.1.orig.duplex &&& OP_READ) ≠ 0)) :=
  match C36_duplex_masks_mirrored selector_both socks5_copy_start copy_metrics_zero
    [copy_event.read 7 recv_outcome.eof, copy_event.read 9 (recv_outcome.data [1, 2, 3])] []
    (by unfold copy_fds_open; decide) with
  | ⟨r, h1, h2, h3, _⟩ => ⟨r, h1, h2, h3⟩

theorem recv_n_toNat (rcv : recv_outcome) (c : Nat) :
    (recv_n rcv c).toNat = (recv_bytes rcv c).length ∧ (recv_bytes rcv c).length ≤ c := by
  cases rcv with
  | data bytes =>
      exact ⟨Int.toNat_ofNat _, by simp only [recv_bytes, List.length_take]; omega⟩
  | eof => exact ⟨rfl, Nat.zero_le _⟩
  | error => exact ⟨rfl, Nat.zero_le _⟩

theorem send_n_toNat_le (snd : send_outcome) (c : Nat) :
    (send_n snd c).toNat ≤ c := by
  cases snd with
  | sent k =>
      rw [(send_n_sent k c).2]
      omega
  | error => exact Nat.zero_le _

theorem buffer_recv_cursors (b : buffer) (c : List Nat) (hok : buffer_ok b)
    (hroom : c.length ≤ b.data.length - b.write) :
    buffer_ok (buffer_recv b c) ∧ (buffer_recv b c).write = b.write + c.length ∧
    (buffer_recv b c).read = b.read := by
  obtain ⟨h1, h2⟩ := hok
  obtain ⟨s1, _, _, s4, s5⟩ := buffer_recv_spec b c ⟨h1, h2⟩ (by omega)
  exact ⟨s1, s4, s5⟩

theorem buffer_read_adv_cursors (b : buffer) (n : Nat) (hok : buffer_ok b)
    (hn : n ≤ b.write - b.read) :
    buffer_ok (buffer_read_adv b n) ∧ (buffer_read_adv b n).write = b.write ∧
    (buffer_read_adv b n).read = b.read + n := by
  obtain ⟨h1, h2⟩ := hok
  refine ⟨⟨?_, h2⟩, rfl, rfl⟩
  show b.read + n ≤ b.write
  omega

/-- One handler call keeps the account of the bytes. -/
theorem copy_event_conserved (s : socks5_copy) (m : copy_metrics) (e : copy_event)
    (h : copy_conserved s m) :
    copy_conserved (copy_event_next s e) (copy_event_metrics s m e) := by
  obtain ⟨b1, b2, c1, c2, c3, c4⟩ := h
  cases e with
  | read key_fd rcv =>
      simp only [copy_event_next, copy_event_metrics, copy_read_next, copy_read_metrics]
      by_cases hk : key_fd = s.client_fd
      · by_cases hn : recv_n rcv (s.read_buffer.data.length - s.read_buffer.write) ≤ 0
        · simp only [if_pos hk, if_pos hn]
          exact ⟨b1, b2, c1, c2, c3, c4⟩
        · simp only [if_pos hk, if_neg hn]
          obtain ⟨n1, n2⟩ := recv_n_toNat rcv (s.read_buffer.data.length - s.read_buffer.write)
          obtain ⟨r1, r2, r3⟩ := buffer_recv_cursors s.read_buffer _ b1 n2
          refine ⟨r1, b2, ?_, c2, c3, c4⟩
          simp only [metrics_add_bytes_from_client, r2, r3, n1]
          have := b1.1
          omega
      · by_cases hn : recv_n rcv (s.write_buffer.data.length - s.write_buffer.write) ≤ 0
        · simp only [if_neg hk, if_pos hn]
          exact ⟨b1, b2, c1, c2, c3, c4⟩
        · simp only [if_neg hk, if_neg hn]
          obtain ⟨n1, n2⟩ := recv_n_toNat rcv
            (s.write_buffer.data.length - s.write_buffer.write)
          obtain ⟨r1, r2, r3⟩ := buffer_recv_cursors s.write_buffer _ b2 n2
          refine ⟨b1, r1, c1, ?_, c3, c4⟩
          simp only [metrics_add_bytes_from_origin, r2, r3, n1]
          have := b2.1
          omega
  | write key_fd snd =>
      simp only [copy_event_next, copy_event_metrics, copy_write_next, copy_write_metrics]
      by_cases hk : key_fd = s.client_fd
      · by_cases hn : send_n snd (s.write_buffer.write - s.write_buffer.read) = -1
        · simp only [if_pos hk, if_pos hn]
          exact ⟨b1, b2, c1, c2, c3, c4⟩
        · simp only [if_pos hk, if_neg hn]
          have n2 := send_n_toNat_le snd (s.write_buffer.write - s.write_buffer.read)
          obtain ⟨r1, r2, r3⟩ := buffer_read_adv_cursors s.write_buffer _ b2 n2
          refine ⟨b1, r1, c1, ?_, c3, ?_⟩
          · simp only [metrics_add_bytes_to_client, r2, r3]
            have := b2.1
            omega
          · simp only [metrics_add_bytes_to_client]
            omega
      · by_cases hn : send_n snd (s.read_buffer.write - s.read_buffer.read) = -1
        · simp only [if_neg hk, if_pos hn]
          exact ⟨b1, b2, c1, c2, c3, c4⟩
        · simp only [if_neg hk, if_neg hn]
          have n2 := send_n_toNat_le snd (s.read_buffer.write - s.read_buffer.read)
          obtain ⟨r1, r2, r3⟩ := buffer_read_adv_cursors s.read_buffer _ b1 n2
          refine ⟨r1, b2, ?_, c2, ?_, c4⟩
          · simp only [metrics_add_bytes_to_origin, r2, r3]
            have := b1.1
            omega
          · simp only [metrics_add_bytes_to_origin]
            omega

/-- The handler calls of a sequence of events keep the account of the bytes. -/
theorem copy_events_conserved : ∀ (es : List copy_event) (s : socks5_copy)
    (m : copy_metrics), copy_conserved s m →
    copy_conserved (copy_events_next (s, m) es).1 (copy_events_next (s, m) es).2 := by
  intro es
  induction es with
  | nil => intro s m h; exact h
  | cons e es ih =>
      intro s m h
      exact ih _ _ (copy_event_conserved s m e h)

/-- Claim C27, as amended. For every sequence of `copy_read` and `copy_write`
events of a tunnel session that starts at `copy_init` with empty buffers and the
byte counters at zero, both fds open and registered, whether or not it ends with
a handler returning DONE: the handlers return, the number of bytes received from
the client equals the number of bytes sent to the origin plus the bytes still in
the read buffer, and the number of bytes received from the origin equals the
number of bytes sent to the client plus the bytes still in the write buffer
(counters modulo 2^64); the totals of a direction are equal when its buffer has
been drained. -/
theorem C27_bytes_accounted_up_to_buffered (sel : fd_selector) (s : socks5_copy)
    (es : List copy_event) (ho : copy_fds_open sel s)
    (hrb : s.read_buffer.read = s.read_buffer.write)
    (hrlen : s.read_buffer.write ≤ s.read_buffer.data.length)
    (hwb : s.write_buffer.read = s.write_buffer.write)
    (hwlen : s.write_buffer.write ≤ s.write_buffer.data.length) :
    ∃ r, copy_run (COPY, sel, copy_init s, copy_metrics_zero) es = some r ∧
      r.2.2.2.bytes_from_clients
        = (r.2.2.2.bytes_to_origins
            + (r.2.2.1.read_buffer.write - r.2.2.1.read_buffer.read)) % 2 ^ 64 ∧
      r.2.2.2.bytes_from_origins
        = (r.2.2.2.bytes_to_clients
            + (r.2.2.1.write_buffer.write - r.2.2.1.write_buffer.read)) % 2 ^ 64 ∧
      (r.2.2.1.read_buffer.read = r.2.2.1.read_buffer.write →
        r.2.2.2.bytes_from_clients = r.2.2.2.bytes_to_origins) ∧
      (r.2.2.1.write_buffer.read = r.2.2.1.write_buffer.write →
        r.2.2.2.bytes_from_origins = r.2.2.2.bytes_to_clients) := by
  obtain ⟨hw, ho1, _⟩ := copy_init_spec sel s ho
  obtain ⟨st1, sel1, r1, _, _, _, _⟩ := copy_run_returns es COPY sel (copy_init s)
    copy_metrics_zero hw ho1
  have h0 : copy_conserved (copy_init s) copy_metrics_zero := by
    refine ⟨⟨?_, hrlen⟩, ⟨?_, hwlen⟩, ?_, ?_, by decide, by decide⟩
    · exact le_of_eq hrb
    · exact le_of_eq hwb
    · show 0 = (0 + (s.read_buffer.write - s.read_buffer.read)) % 2 ^ 64
      rw [hrb]; simp
    · show 0 = (0 + (s.write_buffer.write - s.write_buffer.read)) % 2 ^ 64
      rw [hwb]; simp
  obtain ⟨_, _, c1, c2, c3, c4⟩ := copy_events_conserved es (copy_init s) copy_metrics_zero h0
  refine ⟨_, r1, c1, c2, ?_, ?_⟩
  · intro hd
    have hd' : (copy_events_next (copy_init s, copy_metrics_zero) es).1.read_buffer.read
        = (copy_events_next (copy_init s, copy_metrics_zero) es).1.read_buffer.write := hd
    show (copy_events_next (copy_init s, copy_metrics_zero) es).2.bytes_from_clients
      = (copy_events_next (copy_init s, copy_metrics_zero) es).2.bytes_to_origins
    rw [c1, hd', Nat.sub_self, Nat.add_zero]
    exact Nat.mod_eq_of_lt c3
  · intro hd
    have hd' : (copy_events_next (copy_init s, copy_metrics_zero) es).1.write_buffer.read
        = (copy_events_next (copy_init s, copy_metrics_zero) es).1.write_buffer.write := hd
    show (copy_events_next (copy_init s, copy_metrics_zero) es).2.bytes_from_origins
      = (copy_events_next (copy_init s, copy_metrics_zero) es).2.bytes_to_clients
    rw [c2, hd', Nat.sub_self, Nat.add_zero]
    exact Nat.mod_eq_of_lt c4

/-- Claim C27, instance: the origin sends three bytes, of which the client takes
two: three bytes received from the origin are the two sent and the one still
buffered. -/
theorem C27_bytes_accounted_up_to_buffered_witness :
    ∃ r, copy_run (COPY, selector_both, socks5_copy_start, copy_metrics_zero)
        [copy_event.read 9 (recv_outcome.data [1, 2, 3]),
         copy_event.write 7 (send_outcome.sent 2)] = some r ∧
      r.2.2.2.bytes_from_origins
        = (r.2.2.2.bytes_to_clients
            + (r.2.2.1.write_buffer.write - r.2.2.1.write_buffer.read)) % 2 ^ 64 :=
  match C27_bytes_accounted_up_to_buffered selector_both socks5_copy_start
    [copy_event.read 9 (recv_outcome.data [1, 2, 3]), copy_event.write 7 (send_outcome.sent 2)]
    (by unfold copy_fds_open; decide) rfl (by decide) rfl (by decide) with
  | ⟨r, h1, _, h3, _⟩ => ⟨r, h1, h3⟩

/-- Claim C27 as stated fails: from `copy_init` with empty buffers the origin
sends three bytes and then closes, and the client closes too: the last handler
returns DONE with three bytes received from the origin and none sent to the
client; the bytes in the write buffer are dropped. -/
theorem C27_counterexample :
    ∃ r, copy_run (COPY, selector_both, socks5_copy_start, copy_metrics_zero)
        [copy_event.read 9 (recv_outcome.data [1, 2, 3]),
         copy_event.read 9 recv_outcome.eof,
         copy_event.read 7 recv_outcome.eof] = some r ∧
      r.1 = DONE ∧ r.2.2.2.bytes_from_origins = 3 ∧ r.2.2.2.bytes_to_clients = 0 ∧
      buffer_readable r.2.2.1.write_buffer = [1, 2, 3] :=
  ⟨_, rfl, by decide, by decide, by decide, by decide⟩

/-- `copy_return` tells DONE exactly when both duplex masks are NOOP, and COPY
otherwise. -/
theorem copy_return_spec (s : socks5_copy) :
    (copy_return s = DONE ↔ (s.client.duplex = OP_NOOP ∧ s.orig.duplex = OP_NOOP)) ∧
    (copy_return s ≠ DONE → copy_return s = COPY) := by
  unfold copy_return
  by_cases h : s.client.duplex = OP_NOOP ∧ s.orig.duplex = OP_NOOP
  · rw [if_pos h]
    exact ⟨⟨fun _ => h, fun _ => rfl⟩, fun hne => absurd rfl hne⟩
  · rw [if_neg h]
    exact ⟨⟨fun hc => absurd hc (by decide), fun hc => absurd hc h⟩, fun _ => rfl⟩

/-- The handler calls of a non-empty sequence of events with both fds open and
registered: the last one returns what `copy_return` tells and has programmed the
interests of both fds. -/
theorem copy_run_programs : ∀ (es : List copy_event) (st : socks_v5state)
    (sel : fd_selector) (s : socks5_copy) (m : copy_metrics),
    copy_wired s → copy_fds_open sel s → es ≠ [] →
    ∃ sel2, copy_run (st, sel, s, m) es =
        some (copy_return (copy_events_next (s, m) es).1, sel2,
          (copy_events_next (s, m) es).1, (copy_events_next (s, m) es).2) ∧
      selector_get_interest sel2 s.client_fd
        = some (copy_interest (copy_events_next (s, m) es).1 copy_ref.client) ∧
      selector_get_interest sel2 s.origin_fd
        = some (copy_interest (copy_events_next (s, m) es).1 copy_ref.orig) := by
  intro es
  induction es with
  | nil => intro st sel s m _ _ h; exact absurd rfl h
  | cons e es ih =>
      intro st sel s m hw ho _
      obtain ⟨sel1, e1, e2, e3, e4, e5, e6, e7⟩ := copy_step_returns sel s m e hw ho
      by_cases hes : es = []
      · subst hes
        refine ⟨sel1, ?_, e6, e7⟩
        simp only [copy_run, e1]
        rfl
      · obtain ⟨sel2, r1, r2, r3⟩ := ih (copy_return (copy_event_next s e)) sel1
          (copy_event_next s e) (copy_event_metrics s m e) e3 e2 hes
        refine ⟨sel2, ?_, ?_, ?_⟩
        · simp only [copy_run, e1]
          exact r1
        · rw [← e4]; exact r2
        · rw [← e5]; exact r3

/-- Claim C26. Starting from `copy_init` with both fds open and registered: if
the client read returns EOF, the handler returns COPY with the origin half
keeping READ and the client half keeping WRITE; origin bytes received afterwards
are stored in the write buffer and the client fd gets WRITE interest, the handler
returning COPY; once a read on the origin has also returned EOF, the handler
returns DONE. In general `copy_read` and `copy_write` return DONE exactly when
both duplex masks are NOOP after the handler, and COPY otherwise. -/
theorem C26_half_close (sel : fd_selector) (s : socks5_copy) (m : copy_metrics)
    (bytes : List Nat) (ho : copy_fds_open sel s) (hbytes : bytes ≠ [])
    (hwb : buffer_ok s.write_buffer)
    (hroom : s.write_buffer.write < s.write_buffer.data.length) :
    (∃ r, copy_run (COPY, sel, copy_init s, m)
        [copy_event.read s.client_fd recv_outcome.eof] = some r ∧
      r.1 = COPY ∧ r.2.2.1.orig.duplex = OP_READ ∧ r.2.2.1.client.duplex = OP_WRITE) ∧
    (∃ r, copy_run (COPY, sel, copy_init s, m)
        [copy_event.read s.client_fd recv_outcome.eof,
         copy_event.read s.origin_fd (recv_outcome.data bytes)] = some r ∧
      r.1 = COPY ∧
      buffer_readable r.2.2.1.write_buffer = buffer_readable s.write_buffer ++
        bytes.take (s.write_buffer.data.length - s.write_buffer.write) ∧
      ∃ i, selector_get_interest r.2.1 s.client_fd = some i ∧ (i &&& OP_WRITE) ≠ 0) ∧
    (∃ r, copy_run (COPY, sel, copy_init s, m)
        [copy_event.read s.client_fd recv_outcome.eof,
         copy_event.read s.origin_fd (recv_outcome.data bytes),
         copy_event.read s.origin_fd recv_outcome.eof] = some r ∧
      r.1 = DONE) ∧
    (∀ (sel1 : fd_selector) (s1 : socks5_copy) (m1 : copy_metrics) (e : copy_event),
      copy_wired s1 → copy_fds_open sel1 s1 →
      ∃ r, copy_step sel1 s1 m1 e = some r ∧
        (r.1 = DONE ↔ (r.2.2.1.client.duplex = OP_NOOP ∧ r.2.2.1.orig.duplex = OP_NOOP)) ∧
        (r.1 ≠ DONE → r.1 = COPY)) := by
  obtain ⟨hw, ho1, _⟩ := copy_init_spec sel s ho
  obtain ⟨o1, o2, o3, o4, o5⟩ := ho
  have ho3 : ¬ s.origin_fd = s.client_fd := fun e => o3 e.symm
  have hlen : 0 < (bytes.take (s.write_buffer.data.length - s.write_buffer.write)).length := by
    rw [List.length_take]
    have : 0 < bytes.length := List.length_pos.mpr hbytes
    omega
  have hn : ¬ recv_n (recv_outcome.data bytes)
      (s.write_buffer.data.length - s.write_buffer.write) ≤ 0 := by
    simp only [recv_n]
    omega
  have hev1 : ∀ x : socks5_copy × copy_metrics, ∀ a : copy_event,
      copy_events_next x [a] = (copy_event_next x.1 a, copy_event_metrics x.1 x.2 a) :=
    fun _ _ => rfl
  have hev2 : ∀ x : socks5_copy × copy_metrics, ∀ a b : copy_event,
      (copy_events_next x [a, b]).1 = copy_event_next (copy_event_next x.1 a) b :=
    fun _ _ _ => rfl
  have hev3 : ∀ x : socks5_copy × copy_metrics, ∀ a b c : copy_event,
      (copy_events_next x [a, b, c]).1
        = copy_event_next (copy_event_next (copy_event_next x.1 a) b) c :=
    fun _ _ _ _ => rfl
  -- the connection after the client read has met the end of the stream
  obtain ⟨t1, ht1, a1, a2, a3, a4⟩ : ∃ t1,
      copy_event_next (copy_init s) (copy_event.read s.client_fd recv_outcome.eof) = t1 ∧
      t1.client.duplex = OP_WRITE ∧ t1.orig.duplex = OP_READ ∧
      t1.write_buffer = s.write_buffer ∧ t1.client_fd = s.client_fd := by
    refine ⟨_, rfl, ?_, ?_, ?_, ?_⟩ <;>
      simp only [copy_event_next, copy_read_next, copy_init, if_true, recv_n, le_refl] <;> rfl
  -- then after the origin read has stored the bytes
  have hn1 : ¬ recv_n (recv_outcome.data bytes)
      (t1.write_buffer.data.length - t1.write_buffer.write) ≤ 0 := by rw [a3]; exact hn
  have hk1 : ¬ s.origin_fd = t1.client_fd := by rw [a4]; exact ho3
  obtain ⟨t2, ht2, b1, b2, b3, b4⟩ : ∃ t2,
      copy_event_next t1 (copy_event.read s.origin_fd (recv_outcome.data bytes)) = t2 ∧
      t2.client.duplex = OP_WRITE ∧ t2.orig.duplex = OP_READ ∧
      t2.write_buffer = buffer_recv s.write_buffer
        (bytes.take (s.write_buffer.data.length - s.write_buffer.write)) ∧
      t2.client_fd = s.client_fd := by
    refine ⟨_, rfl, ?_, ?_, ?_, ?_⟩ <;>
      simp only [copy_event_next, copy_read_next, if_neg hk1, if_neg hn1, a1, a2, a3, a4,
        if_neg ho3, if_neg hn, recv_bytes]
  -- then after the origin read has met the end of the stream
  have hk2 : ¬ s.origin_fd = t2.client_fd := by rw [b4]; exact ho3
  obtain ⟨t3, ht3, c1, c2⟩ : ∃ t3,
      copy_event_next t2 (copy_event.read s.origin_fd recv_outcome.eof) = t3 ∧
      t3.client.duplex = OP_NOOP ∧ t3.orig.duplex = OP_NOOP := by
    refine ⟨_, rfl, ?_, ?_⟩ <;>
      simp only [copy_event_next, copy_read_next, if_neg hk2, recv_n, le_refl, if_true, b1, b2,
        b4, if_neg ho3] <;> rfl
  refine ⟨?_, ?_, ?_, ?_⟩
  · obtain ⟨sel2, r1, _, _⟩ := copy_run_programs
      [copy_event.read s.client_fd recv_outcome.eof] COPY sel (copy_init s) m hw ho1
      (List.cons_ne_nil _ _)
    rw [hev1] at r1
    simp only [ht1] at r1
    refine ⟨_, r1, ?_, a2, a1⟩
    simp only [copy_return, a1, a2]
    rfl
  · obtain ⟨sel2, r1, r2, _⟩ := copy_run_programs
      [copy_event.read s.client_fd recv_outcome.eof,
       copy_event.read s.origin_fd (recv_outcome.data bytes)] COPY sel (copy_init s) m hw ho1
      (List.cons_ne_nil _ _)
    rw [hev2] at r1 r2
    simp only [ht1, ht2] at r1 r2
    obtain ⟨q1, q2, _, q4, q5⟩ := buffer_recv_spec s.write_buffer
      (bytes.take (s.write_buffer.data.length - s.write_buffer.write)) hwb
      (by rw [List.length_take]; omega)
    refine ⟨_, r1, ?_, ?_, _, r2, ?_⟩
    · simp only [copy_return, b1, b2]
      rfl
    · show buffer_readable t2.write_buffer = _
      rw [b3]
      exact q2
    · rw [(copy_interest_bits _ copy_ref.client).2.1]
      have hwbuf : t2.buffer_at (t2.copy_at copy_ref.client).wb = t2.write_buffer := by
        have hw3 : copy_wired t1 := by
          rw [← ht1]
          exact (copy_read_next_frame (copy_init s) s.client_fd recv_outcome.eof).2.2 hw
        have hw4 := (copy_read_next_frame t1 s.origin_fd (recv_outcome.data bytes)).2.2 hw3
        have hw5 : copy_wired t2 := by rw [← ht2]; exact hw4
        simp only [socks5_copy.copy_at, hw5.2.2.1, socks5_copy.buffer_at]
      rw [hwbuf, b3]
      refine ⟨?_, ?_⟩
      · show (t2.client.duplex &&& OP_WRITE) ≠ 0
        rw [b1]; decide
      · simp only [buffer_can_read, decide_eq_true_eq, q4, q5]
        have := hwb.1
        omega
  · obtain ⟨sel2, r1, _, _⟩ := copy_run_programs
      [copy_event.read s.client_fd recv_outcome.eof,
       copy_event.read s.origin_fd (recv_outcome.data bytes),
       copy_event.read s.origin_fd recv_outcome.eof] COPY sel (copy_init s) m hw ho1
      (List.cons_ne_nil _ _)
    rw [hev3] at r1
    simp only [ht1, ht2, ht3] at r1
    refine ⟨_, r1, ?_⟩
    simp only [copy_return, c1, c2, and_self, if_true]
  · intro sel1 s1 m1 e hw1 ho1
    obtain ⟨sel2, e1, _⟩ := copy_step_returns sel1 s1 m1 e hw1 ho1
    exact ⟨_, e1, (copy_return_spec _).1, (copy_return_spec _).2⟩

/-- Claim C26, instance: the client fd 7 meets the end of the stream, the origin
fd 9 then delivers three bytes and meets the end of the stream: the handlers
return COPY, COPY and DONE. -/
theorem C26_half_close_witness :
    (∃ r, copy_run (COPY, selector_both, copy_init socks5_copy_start, copy_metrics_zero)
        [copy_event.read 7 recv_outcome.eof] = some r ∧
      r.1 = COPY ∧ r.2.2.1.orig.duplex = OP_READ ∧ r.2.2.1.client.duplex = OP_WRITE) ∧
    (∃ r, copy_run (COPY, selector_both, copy_init socks5_copy_start, copy_metrics_zero)
        [copy_event.read 7 recv_outcome.eof,
         copy_event.read 9 (recv_outcome.data [1, 2, 3]),
         copy_event.read 9 recv_outcome.eof] = some r ∧
      r.1 = DONE) :=
  have h := C26_half_close selector_both socks5_copy_start copy_metrics_zero [1, 2, 3]
    (by unfold copy_fds_open; decide) (by decide) ⟨by decide, by decide⟩ (by decide)
  ⟨h.1, h.2.2.1⟩

/-! ## Monitoring: ADD_USER -/

/-- The four bytes every exit of `handle_add_user` appends, given room for
them. -/
theorem monitoring_status_reply_appended (b : buffer) (status : Nat) (hs : status < 256)
    (hroom : b.write + 4 ≤ b.data.length) :
    buffer_appended b (4, monitoring_status_reply b status) [0x01, status, 0, 0] := by
  have hmem : (monitoring_status_reply b status).data
      = memcpy b.data b.write [0x01, status, 0, 0] := by
    simp only [monitoring_status_reply, buffer_write_ptr, buffer_write_adv, memcpy,
      MONITORING_VERSION, Nat.mod_eq_of_lt hs, Nat.add_assoc]
  have hdata : (monitoring_status_reply b status).data
      = b.data.take b.write ++ [0x01, status, 0, 0] ++ b.data.drop (b.write + 4) := by
    rw [hmem]
    exact memcpy_eq _ _ _ hroom
  have hb : monitoring_status_reply b status
      = { data := b.data.take b.write ++ [0x01, status, 0, 0] ++ b.data.drop (b.write + 4),
          read := b.read, write := b.write + 4 } := by
    rw [← hdata]
    rfl
  rw [hb]
  exact buffer_appended_of_eq b [0x01, status, 0, 0] 4 rfl hroom

/-- `handle_add_user` on a payload `ulen, user, plen, pass`: the local arrays hold
`user` and `pass`, each followed by a NUL. -/
theorem handle_add_user_command (tbl : user_table) (wb : buffer) (user pass tail : List Nat)
    (hu : user.length ≤ 255) (hp : pass.length ≤ 255) :
    handle_add_user tbl (add_user_command wb user pass tail) =
      if tbl.any (fun e => match e with
                           | some u => strcmp_eq u.name (user ++ [0])
                           | none => false) = true then
        (tbl, { add_user_command wb user pass tail with
          write_buffer := monitoring_status_reply wb MONITORING_STATUS_USER_EXISTS })
      else
        match add_user_store (user ++ [0]) (pass ++ [0]) tbl with
        | some t =>
            (t, { add_user_command wb user pass tail with
              write_buffer := monitoring_status_reply wb MONITORING_STATUS_OK })
        | none =>
            (tbl, { add_user_command wb user pass tail with
              write_buffer := monitoring_status_reply wb MONITORING_STATUS_USER_LIMIT }) := by
  have hulen : (add_user_command wb user pass tail).data.getD 0 0 % 256 = user.length := by
    simp only [add_user_command, List.getD_cons_zero]
    exact Nat.mod_eq_of_lt (by omega)
  have h1 : ¬ (add_user_command wb user pass tail).data_len < 2 := by
    simp only [add_user_command]; omega
  have h2 : ¬ (add_user_command wb user pass tail).data_len < 2 + user.length := by
    simp only [add_user_command]; omega
  have huser : ((add_user_command wb user pass tail).data.drop 1).take user.length = user := by
    simp only [add_user_command, List.drop_succ_cons, List.drop_zero]
    exact List.take_left' rfl
  have hplen : (add_user_command wb user pass tail).data.getD (1 + user.length) 0 % 256
      = pass.length := by
    have : (add_user_command wb user pass tail).data.getD (1 + user.length) 0 = pass.length := by
      simp only [add_user_command, Nat.add_comm 1, List.getD_cons_succ]
      rw [List.getD_append_right _ _ _ _ (Nat.le_refl _), Nat.sub_self, List.getD_cons_zero]
    rw [this]
    exact Nat.mod_eq_of_lt (by omega)
  have hpass : ((add_user_command wb user pass tail).data.drop (2 + user.length)).take
      pass.length = pass := by
    have : (add_user_command wb user pass tail).data.drop (2 + user.length) = pass ++ tail := by
      simp only [add_user_command]
      rw [Nat.add_comm 2, List.drop_succ_cons, List.drop_append_eq_append_drop]
      simp
    rw [this]
    exact List.take_left' rfl
  unfold handle_add_user
  simp only [if_neg h1, hulen, if_neg h2, huser, hplen, hpass]
  rfl

/-- The first loop of `handle_add_user` finds a slot iff a configured user has
the name, as a C string. -/
theorem add_user_exists_iff (tbl : user_table) (user : List Nat) :
    tbl.any (fun e => match e with
                      | some u => strcmp_eq u.name (user ++ [0])
                      | none => false) = true ↔
      ∃ u, some u ∈ tbl ∧ cstr u.name = cstr user := by
  rw [List.any_eq_true]
  constructor
  · rintro ⟨e, he, h⟩
    cases e with
    | none => exact absurd h (by simp)
    | some u =>
        refine ⟨u, he, ?_⟩
        have h2 := (strcmp_eq_iff _ _).mp h
        rw [cstr_append_zero] at h2
        exact h2
  · rintro ⟨u, hu, h⟩
    refine ⟨some u, hu, ?_⟩
    apply (strcmp_eq_iff _ _).mpr
    rw [cstr_append_zero]
    exact h

/-- The second loop of `handle_add_user` finds no slot in a table without a free
one. -/
theorem add_user_store_full (username password : List Nat) (tbl : user_table)
    (h : ∀ e, e ∈ tbl → e ≠ none) : add_user_store username password tbl = none := by
  induction tbl with
  | nil => rfl
  | cons e tbl ih =>
      cases e with
      | none => exact absurd rfl (h none (List.mem_cons_self _ _))
      | some u =>
          simp only [add_user_store, ih (fun e he => h e (List.mem_cons_of_mem _ he)),
            Option.map_none']

/-- The second loop of `handle_add_user` fills the lowest free slot. -/
theorem add_user_store_lowest (username password : List Nat) (pre post : user_table)
    (h : ∀ e, e ∈ pre → e ≠ none) :
    add_user_store username password (pre ++ none :: post)
      = some (pre ++ some { name := cstr username, pass := cstr password } :: post) := by
  induction pre with
  | nil => rfl
  | cons e pre ih =>
      cases e with
      | none => exact absurd rfl (h none (List.mem_cons_self _ _))
      | some u =>
          have hih := ih (fun e he => h e (List.mem_cons_of_mem _ he))
          show (add_user_store username password (pre ++ none :: post)).map
            (fun t => some u :: t) = _
          rw [hih]
          rfl

/-- Claim C30, as amended. For every ADD_USER command whose payload is `ulen,
user, plen, pass`, names and passwords being C strings that end at their first
NUL byte, and the write buffer having room for 4 bytes: if a configured user
already has the name of `user` the reply status is 0x04 and the user table is
unchanged; otherwise if no slot of the table is free the status is 0x05 and the
table is unchanged; otherwise the pair of the C strings of `user` and `pass` is
stored in the lowest free slot, all other slots are unchanged and the status is
0x00; in every case the reply is the 4 bytes `01 status 00 00`. For `user` and
`pass` without a NUL byte the C strings are `user` and `pass` themselves. -/
theorem C30_add_user (tbl : user_table) (wb : buffer) (user pass tail : List Nat)
    (hu : user.length ≤ 255) (hp : pass.length ≤ 255)
    (hroom : wb.write + 4 ≤ wb.data.length) :
    ((∃ u, some u ∈ tbl ∧ cstr u.name = cstr user) →
      (handle_add_user tbl (add_user_command wb user pass tail)).1 = tbl ∧
      buffer_appended wb
        (4, (handle_add_user tbl (add_user_command wb user pass tail)).2.write_buffer)
        [0x01, 0x04, 0, 0]) ∧
    ((¬ ∃ u, some u ∈ tbl ∧ cstr u.name = cstr user) → (∀ e, e ∈ tbl → e ≠ none) →
      (handle_add_user tbl (add_user_command wb user pass tail)).1 = tbl ∧
      buffer_appended wb
        (4, (handle_add_user tbl (add_user_command wb user pass tail)).2.write_buffer)
        [0x01, 0x05, 0, 0]) ∧
    (∀ pre post, (¬ ∃ u, some u ∈ tbl ∧ cstr u.name = cstr user) →
      tbl = pre ++ none :: post → (∀ e, e ∈ pre → e ≠ none) →
      (handle_add_user tbl (add_user_command wb user pass tail)).1
        = pre ++ some { name := cstr user, pass := cstr pass } :: post ∧
      buffer_appended wb
        (4, (handle_add_user tbl (add_user_command wb user pass tail)).2.write_buffer)
        [0x01, 0x00, 0, 0]) ∧
    (0 ∉ user → 0 ∉ pass → cstr user = user ∧ cstr pass = pass) := by
  have hcmd := handle_add_user_command tbl wb user pass tail hu hp
  refine ⟨?_, ?_, ?_, ?_⟩
  · intro hex
    rw [hcmd, if_pos ((add_user_exists_iff tbl user).mpr hex)]
    exact ⟨rfl, monitoring_status_reply_appended wb 0x04 (by decide) hroom⟩
  · intro hnex hfull
    rw [hcmd, if_neg (fun h => hnex ((add_user_exists_iff tbl user).mp h)),
      add_user_store_full _ _ tbl hfull]
    exact ⟨rfl, monitoring_status_reply_appended wb 0x05 (by decide) hroom⟩
  · intro pre post hnex htbl hpre
    rw [hcmd, if_neg (fun h => hnex ((add_user_exists_iff tbl user).mp h)), htbl,
      add_user_store_lowest _ _ pre post hpre, cstr_append_zero, cstr_append_zero]
    exact ⟨rfl, monitoring_status_reply_appended wb 0x00 (by decide) hroom⟩
  · intro h1 h2
    exact ⟨cstr_of_no_zero user h1, cstr_of_no_zero pass h2⟩

/-- Claim C30, instance: with `alice` configured in slot 0 and slot 1 free, the
command for `bob` / `pw` stores the pair in slot 1 and replies `01 00 00 00`. -/
theorem C30_add_user_witness :
    (handle_add_user [some { name := [0x61, 0x6C, 0x69, 0x63, 0x65], pass := [0x78] }, none]
      (add_user_command buffer16 [0x62, 0x6F, 0x62] [0x70, 0x77] [])).1
      = [some { name := [0x61, 0x6C, 0x69, 0x63, 0x65], pass := [0x78] },
         some { name := [0x62, 0x6F, 0x62], pass := [0x70, 0x77] }] ∧
    buffer_appended buffer16
      (4, (handle_add_user
        [some { name := [0x61, 0x6C, 0x69, 0x63, 0x65], pass := [0x78] }, none]
        (add_user_command buffer16 [0x62, 0x6F, 0x62] [0x70, 0x77] [])).2.write_buffer)
      [0x01, 0x00, 0, 0] :=
  (C30_add_user [some { name := [0x61, 0x6C, 0x69, 0x63, 0x65], pass := [0x78] }, none]
    buffer16 [0x62, 0x6F, 0x62] [0x70, 0x77] [] (by decide) (by decide) (by decide)).2.2.1
    [some { name := [0x61, 0x6C, 0x69, 0x63, 0x65], pass := [0x78] }] []
    (by
      rintro ⟨u, hu, hc⟩
      simp only [List.mem_cons, Option.some.injEq, List.mem_singleton, List.mem_nil_iff,
        or_false, reduceCtorEq] at hu
      subst hu
      exact absurd hc (by decide))
    rfl (by decide)

/-- Claim C30 as stated fails: the command for the user `61 00 62` (a NUL inside)
and the password `70` stores the name `61` in the free slot, not the name sent;
and with the user `61` configured, the same command is answered with the status
0x04 although no configured user has the name `61 00 62`. -/
theorem C30_counterexample :
    (handle_add_user [none]
      (add_user_command buffer16 [0x61, 0x00, 0x62] [0x70] [])).1
      = [some { name := [0x61], pass := [0x70] }] ∧
    (handle_add_user [none]
      (add_user_command buffer16 [0x61, 0x00, 0x62] [0x70] [])).1
      ≠ [some { name := [0x61, 0x00, 0x62], pass := [0x70] }] ∧
    buffer_readable (handle_add_user [some { name := [0x61], pass := [0x71] }, none]
      (add_user_command buffer16 [0x61, 0x00, 0x62] [0x70] [])).2.write_buffer
      = [0x01, 0x04, 0x00, 0x00] := by
  decide

/-! ## Parse errors in REQUEST_READ -/

/-- The request parser, fed a CONNECT request for a domain name of length zero,
stops at the length byte in `request_error` with the error recorded, the command
and the address type stored. -/
theorem request_until_done_zero_domain (old : request_parser_t) (rsv : Nat) (rest : List Nat) :
    feed_until_done request_parser_feed (fun q => q.state) request_is_done
        (0x05 :: 0x01 :: rsv :: 0x03 :: 0x00 :: rest) (request_parser_init old) (some false)
      = ({ request := { cmd := 1, dest_addr_type := 3, dest_addr := List.replicate 256 0,
                        dest_port := List.replicate 2 0 },
           state := request_error, remaining := 0, addr_idx := 0 },
         some true) := by
  simp only [feed_until_done, request_parser_feed, request_parser_init, request_is_done,
    SOCKS_VERSION, socks_req_cmd_connect, socks_req_addrtype_ipv4, socks_req_addrtype_domain,
    socks_req_addrtype_ipv6, if_true, Option.map, Bool.false_eq_true, if_false]
  rfl

/-- Claim C35, what the code does. In REQUEST_READ, with the parser initialised
and the read buffer drained, the selector call succeeding: on the CONNECT request
for a domain name of length zero, `05 01 rsv 03 00`, on which the request parser
ends in `request_error`, `request_read` returns ERROR, but only after
`request_process` has called `request_start_dns_resolution`, which, when `malloc`
and `pthread_create` succeed, starts a resolver thread for the empty host
name. -/
theorem C35_zero_length_domain_starts_resolution (P : platform) (E : request_deps)
    (s : socks5) (rb wb : buffer) (old : request_parser_t) (rsv : Nat) (rest : List Nat)
    (host : List Nat)
    (hreq : s.request = request_read_init rb wb old)
    (hok : buffer_ok rb) (hdr : rb.read = rb.write)
    (hfit : rb.write + (5 + rest.length) ≤ rb.data.length)
    (hsel : E.selector_ok = true) :
    (feed_until_done request_parser_feed (fun q => q.state) request_is_done
      (0x05 :: 0x01 :: rsv :: 0x03 :: 0x00 :: rest) s.request.parser (some false)).1.state
      = request_error ∧
    ∃ rb1, request_read P E s (recv_outcome.data (0x05 :: 0x01 :: rsv :: 0x03 :: 0x00 :: rest))
        = (ERROR, (E.request_start_dns_resolution (socks5_zero_domain s rb1)).2) ∧
      request_start_dns_resolution true true host (socks5_zero_domain s rb1)
        = (REQUEST_RESOLVING,
            some { client_fd := s.client_fd, port := [0, 0],
                   host := strncpy host (List.replicate 256 0) 255 }) := by
  have hrb : s.request.rb = rb := by rw [hreq]; rfl
  have hp : s.request.parser = request_parser_init old := by rw [hreq]; rfl
  obtain ⟨hn, h1, h2, h3⟩ := request_read_consumed_spec s
    (0x05 :: 0x01 :: rsv :: 0x03 :: 0x00 :: rest)
    (by rw [hrb]; exact hok) (by rw [hrb]; exact hdr)
    (by rw [hrb]; simp only [List.length_cons]; omega)
  rw [hp, request_until_done_zero_domain old rsv rest] at h1 h2 h3
  refine ⟨by rw [hp, request_until_done_zero_domain old rsv rest], ?_⟩
  refine ⟨(request_read_consumed s
    (recv_outcome.data (0x05 :: 0x01 :: rsv :: 0x03 :: 0x00 :: rest))).2.1, ?_, ?_⟩
  · rw [request_read_data P E s _ (by rw [hn]; simp only [List.length_cons]; omega)]
    simp only [h1, h2, h3, request_is_done, if_true]
    simp [request_process, request_st.request, socks_req_cmd_connect, socks_req_addrtype_ipv4,
      socks_req_addrtype_ipv6, socks_req_addrtype_domain, hsel, socks5_zero_domain, ntohs,
      -List.reduceReplicate]
  · simp [request_start_dns_resolution, socks5_zero_domain, request_st.request,
      -List.reduceReplicate]
    rfl

/-- Claim C35, instance: `05 01 00 03 00` received in REQUEST_READ makes
`request_read` return ERROR after the resolution has been started. -/
theorem C35_zero_length_domain_starts_resolution_witness :
    ∃ rb1, request_read platform_linux request_deps_idle socks5_request_read
        (recv_outcome.data [0x05, 0x01, 0x00, 0x03, 0x00])
        = (ERROR, (request_deps_idle.request_start_dns_resolution
            (socks5_zero_domain socks5_request_read rb1)).2) ∧
      request_start_dns_resolution true true (List.replicate 256 0xAA)
          (socks5_zero_domain socks5_request_read rb1)
        = (REQUEST_RESOLVING,
            some { client_fd := 7, port := [0, 0],
                   host := strncpy (List.replicate 256 0xAA) (List.replicate 256 0) 255 }) :=
  (C35_zero_length_domain_starts_resolution platform_linux request_deps_idle
    socks5_request_read buffer16 buffer16 request_stale 0x00 [] (List.replicate 256 0xAA) rfl
    ⟨by decide, by decide⟩ rfl (by decide) rfl).2

/-! ## Array stores of the parsers -/

theorem auth_store_inv_feed (p : auth_parser_t) (b : Nat) (hb : b < 256)
    (h : auth_store_inv p) : auth_store_inv (auth_parser_feed p b) := by
  obtain ⟨h1, h2, h3⟩ := h
  unfold auth_store_inv auth_parser_feed
  cases hs : p.state <;> simp only [hs] at h3 ⊢
  all_goals (try split_ifs) <;> simp_all <;> omega

theorem request_store_inv_feed (p : request_parser_t) (b : Nat) (hb : b < 256)
    (h : request_store_inv p) : request_store_inv (request_parser_feed p b) := by
  obtain ⟨h1, h2, h3⟩ := h
  unfold request_store_inv request_parser_feed
  cases hs : p.state <;> simp only [hs] at h1 h2 h3 ⊢
  case request_dstaddr =>
    obtain ⟨hpos, ht⟩ := h1 trivial
    have hrem : p.remaining < 256 := by
      rcases ht with ⟨_, h⟩ | ⟨_, h⟩ | ⟨_, h⟩ <;> omega
    rcases ht with ⟨ht, hsum⟩ | ⟨ht, hsum⟩ | ⟨ht, hsum⟩
    all_goals
      simp only [ht, socks_req_addrtype_ipv4, socks_req_addrtype_ipv6,
        socks_req_addrtype_domain] at *
      by_cases hz : (p.remaining + 255) % 256 = 0
      · simp [hz]
      · simp [hz, ht]
        omega
  case request_dstport =>
    obtain ⟨hpos, hsum⟩ := h2 trivial
    by_cases hz : (p.remaining + 255) % 256 = 0
    · simp [hz]
    · simp [hz]
      omega
  all_goals (try split_ifs) <;> simp_all <;> omega

theorem auth_store_inv_all : ∀ (bs : List Nat) (p : auth_parser_t),
    (∀ x, x ∈ bs → x < 256) → auth_store_inv p → auth_store_inv (auth_feed_all p bs) := by
  intro bs
  induction bs with
  | nil => intro p _ h; exact h
  | cons b bs ih =>
      intro p hb h
      exact ih (auth_parser_feed p b) (fun x hx => hb x (List.mem_cons_of_mem _ hx))
        (auth_store_inv_feed p b (hb b (List.mem_cons_self _ _)) h)

theorem request_store_inv_all : ∀ (bs : List Nat) (p : request_parser_t),
    (∀ x, x ∈ bs → x < 256) → request_store_inv p →
      request_store_inv (request_feed_all p bs) := by
  intro bs
  induction bs with
  | nil => intro p _ h; exact h
  | cons b bs ih =>
      intro p hb h
      exact ih (request_parser_feed p b) (fun x hx => hb x (List.mem_cons_of_mem _ hx))
        (request_store_inv_feed p b (hb b (List.mem_cons_self _ _)) h)

theorem auth_stores_of_inv (p : auth_parser_t) (b : Nat) (h : auth_store_inv p) :
    (∀ st, st ∈ auth_parser_feed_stores p b → parser_store_in_bounds st) ∧
    (∀ r, auth_parser_feed_decrements p = some r → 0 < r ∧ r ≤ 255) := by
  obtain ⟨h1, h2, h3⟩ := h
  have hmod : (p.idx + 1) % 256 ≤ 255 := by omega
  constructor
  · intro st hst
    unfold auth_parser_feed_stores at hst
    cases hs : p.state <;> simp only [hs] at hst
    case auth_uname =>
      by_cases hz : (p.remaining + 255) % 256 = 0
      · simp only [if_pos hz, List.mem_cons, List.mem_singleton, List.mem_nil_iff,
          or_false] at hst
        rcases hst with rfl | rfl
        · exact Nat.le_of_lt_succ h1
        · exact hmod
      · simp only [if_neg hz, List.mem_singleton] at hst
        subst hst
        exact Nat.le_of_lt_succ h1
    case auth_passwd =>
      by_cases hz : (p.remaining + 255) % 256 = 0
      · simp only [if_pos hz, List.mem_cons, List.mem_singleton, List.mem_nil_iff,
          or_false] at hst
        rcases hst with rfl | rfl
        · exact Nat.le_of_lt_succ h1
        · exact hmod
      · simp only [if_neg hz, List.mem_singleton] at hst
        subst hst
        exact Nat.le_of_lt_succ h1
    case auth_plen =>
      by_cases hb : b = 0
      · simp only [if_pos hb, List.mem_singleton] at hst
        subst hst
        exact Nat.zero_le _
      · simp only [if_neg hb, List.not_mem_nil] at hst
    all_goals exact absurd hst (List.not_mem_nil _)
  · intro r hr
    unfold auth_parser_feed_decrements at hr
    cases hs : p.state <;> simp only [hs, reduceCtorEq] at hr h3
    case auth_uname =>
      have := Option.some.inj hr
      have := h3 (Or.inl trivial)
      omega
    case auth_passwd =>
      have := Option.some.inj hr
      have := h3 (Or.inr trivial)
      omega

theorem request_stores_of_inv (p : request_parser_t) (b : Nat) (h : request_store_inv p) :
    (∀ st, st ∈ request_parser_feed_stores p b → parser_store_in_bounds st) ∧
    (∀ r, request_parser_feed_decrements p = some r → 0 < r ∧ r ≤ 255) := by
  obtain ⟨h1, h2, _⟩ := h
  constructor
  · intro st hst
    unfold request_parser_feed_stores at hst
    cases hs : p.state <;> simp only [hs] at hst h1 h2
    case request_dstaddr =>
      obtain ⟨hpos, ht⟩ := h1 trivial
      rcases ht with ⟨ht, hsum⟩ | ⟨ht, hsum⟩ | ⟨ht, hsum⟩
      · simp only [ht, if_true, List.mem_singleton] at hst
        subst hst
        show p.addr_idx < 4
        omega
      · simp only [ht, socks_req_addrtype_ipv6, socks_req_addrtype_ipv4, if_true,
          List.mem_singleton, show ¬ (4 : Nat) = 1 by decide, if_false] at hst
        subst hst
        show p.addr_idx < 16
        omega
      · simp only [ht, socks_req_addrtype_ipv6, socks_req_addrtype_ipv4,
          socks_req_addrtype_domain, if_true, show ¬ (3 : Nat) = 1 by decide,
          show ¬ (3 : Nat) = 4 by decide, if_false] at hst
        by_cases hz : (p.remaining + 255) % 256 = 0
        · simp only [if_pos hz, List.mem_cons, List.mem_singleton, List.mem_nil_iff,
            or_false] at hst
          rcases hst with rfl | rfl
          · show p.addr_idx ≤ 255
            omega
          · show (p.addr_idx + 1) % 256 ≤ 255
            omega
        · simp only [if_neg hz, List.mem_singleton] at hst
          subst hst
          show p.addr_idx ≤ 255
          omega
    case request_dstport =>
      obtain ⟨hpos, hsum⟩ := h2 trivial
      simp only [List.mem_singleton] at hst
      subst hst
      show p.addr_idx < 2
      omega
    all_goals exact absurd hst (List.not_mem_nil _)
  · intro r hr
    unfold request_parser_feed_decrements at hr
    cases hs : p.state <;> simp only [hs, reduceCtorEq] at hr h1 h2
    case request_dstaddr =>
      have := Option.some.inj hr
      obtain ⟨hpos, ht⟩ := h1 trivial
      rcases ht with ⟨_, h⟩ | ⟨_, h⟩ | ⟨_, h⟩ <;> omega
    case request_dstport =>
      have := Option.some.inj hr
      obtain ⟨hpos, hsum⟩ := h2 trivial
      omega

/-- Claim C37. For every byte sequence `pre` fed from the initial state and
every next byte `b`: every store that `auth_parser_feed` then performs into
`username[]` or `password[]`, the terminating NUL included, uses an index at
most 255, and every store that `request_parser_feed` then performs uses an index
below 4 for the IPv4 address, below 16 for the IPv6 address, at most 255 for the
FQDN, the terminating NUL included, and below 2 for the port; whenever one of
them decrements its 8-bit `remaining`, the counter is between 1 and 255, so it
does not wrap below zero. -/
theorem C37_parser_stores_in_bounds (olda : auth_parser_t) (oldr : request_parser_t)
    (pre : List Nat) (b : Nat) (hpre : ∀ x, x ∈ pre → x < 256) :
    (∀ st, st ∈ auth_parser_feed_stores (auth_feed_all (auth_parser_init olda) pre) b →
      parser_store_in_bounds st) ∧
    (∀ r, auth_parser_feed_decrements (auth_feed_all (auth_parser_init olda) pre) = some r →
      0 < r ∧ r ≤ 255) ∧
    (∀ st, st ∈ request_parser_feed_stores
        (request_feed_all (request_parser_init oldr) pre) b →
      parser_store_in_bounds st) ∧
    (∀ r, request_parser_feed_decrements
        (request_feed_all (request_parser_init oldr) pre) = some r →
      0 < r ∧ r ≤ 255) := by
  have ha : auth_store_inv (auth_parser_init olda) :=
    ⟨Nat.zero_lt_succ _, Nat.zero_lt_succ _, fun h => by
      rcases h with h | h
      · exact absurd h (show ¬ auth_version = auth_uname by decide)
      · exact absurd h (show ¬ auth_version = auth_passwd by decide)⟩
  have hr : request_store_inv (request_parser_init oldr) :=
    ⟨fun h => absurd h (show ¬ request_version = request_dstaddr by decide),
      fun h => absurd h (show ¬ request_version = request_dstport by decide),
      fun h => absurd h (show ¬ request_version = request_dstaddr_fqdn_len by decide)⟩
  obtain ⟨a1, a2⟩ := auth_stores_of_inv _ b (auth_store_inv_all pre _ hpre ha)
  obtain ⟨r1, r2⟩ := request_stores_of_inv _ b (request_store_inv_all pre _ hpre hr)
  exact ⟨a1, a2, r1, r2⟩

/-- Claim C37, instance: after `05 01 00 03 03` and two bytes of a domain name
the next byte is stored at `fqdn[2]` and the NUL at `fqdn[3]`. -/
theorem C37_parser_stores_in_bounds_witness :
    request_parser_feed_stores
        (request_feed_all (request_parser_init request_stale)
          [0x05, 0x01, 0x00, 0x03, 0x03, 0x61, 0x62]) 0x61
      = [parser_store.fqdn 2, parser_store.fqdn 3] ∧
    ∀ st, st ∈ request_parser_feed_stores
        (request_feed_all (request_parser_init request_stale)
          [0x05, 0x01, 0x00, 0x03, 0x03, 0x61, 0x62]) 0x61 →
      parser_store_in_bounds st :=
  ⟨by decide, (C37_parser_stores_in_bounds (auth_parser_init
      { state := auth_version, remaining := 0, idx := 0, username := [], username_len := 0,
        password := [], password_len := 0 }) request_stale
    [0x05, 0x01, 0x00, 0x03, 0x03, 0x61, 0x62] 0x61
    (by decide)).2.2.1⟩

/-! ## Monitoring: metrics -/

theorem write_metrics_u64_eq (buf : List Nat) (off x : Nat) :
    write_metrics_u64 buf off x = memcpy buf off (be64 x) := by
  simp only [write_metrics_u64, List.foldl, be64, memcpy]
  rfl

theorem be64_digit (x k : Nat) : (x >>> k) &&& 0xFF = x / 2 ^ k % 256 := by
  rw [Nat.shiftRight_eq_div_pow]
  exact Nat.and_pow_two_sub_one_eq_mod _ 8

theorem cmd_metrics_step (acc b : Nat) (ha : acc < 2 ^ 56) (hb : b < 256) :
    ((acc <<< 8) % 2 ^ 64) ||| b = acc * 256 + b := by
  have h1 : acc <<< 8 = 2 ^ 8 * acc := by rw [Nat.shiftLeft_eq, Nat.mul_comm]
  have h2 : (acc <<< 8) % 2 ^ 64 = acc <<< 8 := Nat.mod_eq_of_lt (by rw [h1]; omega)
  rw [h2, h1, ← Nat.mul_add_lt_is_or (by omega : b < 2 ^ 8)]
  omega

/-- The decoding loop of `cmd_metrics` undoes the encoding loop of
`write_metrics_response` on 64-bit values. -/
theorem cmd_metrics_u64_be64 (x : Nat) (hx : x < 2 ^ 64) (pre post : List Nat) :
    cmd_metrics_u64 (pre ++ be64 x ++ post) pre.length = x := by
  have hget : ∀ i, i < 8 →
      (pre ++ be64 x ++ post).getD (pre.length + i) 0 = (be64 x).getD i 0 := by
    intro i hi
    rw [List.append_assoc, List.getD_append_right _ _ _ _ (Nat.le_add_right _ _),
      Nat.add_sub_cancel_left, List.getD_append _ _ _ _ (by simpa [be64] using hi)]
  simp only [cmd_metrics_u64, List.foldl]
  rw [hget 0 (by decide), hget 1 (by decide), hget 2 (by decide), hget 3 (by decide),
    hget 4 (by decide), hget 5 (by decide), hget 6 (by decide), hget 7 (by decide)]
  simp only [be64, List.getD_cons_zero, List.getD_cons_succ, be64_digit]
  have hb : ∀ k, x / 2 ^ k % 256 < 256 := fun k => Nat.mod_lt _ (by decide)
  have s1 := cmd_metrics_step 0 (x / 2 ^ 56 % 256) (by decide) (hb _)
  rw [s1]
  have s2 := cmd_metrics_step (0 * 256 + x / 2 ^ 56 % 256) (x / 2 ^ 48 % 256) (by omega) (hb _)
  rw [s2]
  have s3 := cmd_metrics_step ((0 * 256 + x / 2 ^ 56 % 256) * 256 + x / 2 ^ 48 % 256)
    (x / 2 ^ 40 % 256) (by omega) (hb _)
  rw [s3]
  have s4 := cmd_metrics_step
    (((0 * 256 + x / 2 ^ 56 % 256) * 256 + x / 2 ^ 48 % 256) * 256 + x / 2 ^ 40 % 256)
    (x / 2 ^ 32 % 256) (by omega) (hb _)
  rw [s4]
  have s5 := cmd_metrics_step
    ((((0 * 256 + x / 2 ^ 56 % 256) * 256 + x / 2 ^ 48 % 256) * 256 + x / 2 ^ 40 % 256) * 256
      + x / 2 ^ 32 % 256)
    (x / 2 ^ 24 % 256) (by omega) (hb _)
  rw [s5]
  have s6 := cmd_metrics_step
    (((((0 * 256 + x / 2 ^ 56 % 256) * 256 + x / 2 ^ 48 % 256) * 256 + x / 2 ^ 40 % 256) * 256
      + x / 2 ^ 32 % 256) * 256 + x / 2 ^ 24 % 256)
    (x / 2 ^ 16 % 256) (by omega) (hb _)
  rw [s6]
  have s7 := cmd_metrics_step
    ((((((0 * 256 + x / 2 ^ 56 % 256) * 256 + x / 2 ^ 48 % 256) * 256 + x / 2 ^ 40 % 256) * 256
      + x / 2 ^ 32 % 256) * 256 + x / 2 ^ 24 % 256) * 256 + x / 2 ^ 16 % 256)
    (x / 2 ^ 8 % 256) (by omega) (hb _)
  rw [s7]
  have s8 := cmd_metrics_step
    (((((((0 * 256 + x / 2 ^ 56 % 256) * 256 + x / 2 ^ 48 % 256) * 256 + x / 2 ^ 40 % 256) * 256
      + x / 2 ^ 32 % 256) * 256 + x / 2 ^ 24 % 256) * 256 + x / 2 ^ 16 % 256) * 256
      + x / 2 ^ 8 % 256)
    (x / 2 ^ 0 % 256) (by omega) (hb _)
  rw [s8]
  omega

theorem be64_length (x : Nat) : (be64 x).length = 8 := rfl

theorem metrics_payload_length (m : socks5_metrics) : (metrics_payload m).length = 48 := rfl

/-- The stores of `write_metrics_response` are one copy of the header and the
payload to the write cursor. -/
theorem write_metrics_response_data (m : socks5_metrics) (b : buffer) :
    (write_metrics_response m b).data
      = memcpy b.data b.write ([0x01, 0x00, 0x00, 0x30] ++ metrics_payload m) := by
  simp only [write_metrics_response, write_metrics_u64_eq, metrics_payload, memcpy_append,
    buffer_write_ptr, buffer_write_adv]
  rfl

/-- The cursors after `write_metrics_response`. -/
theorem write_metrics_response_cursors (m : socks5_metrics) (b : buffer) :
    (write_metrics_response m b).write = b.write + 52 ∧
    (write_metrics_response m b).read = b.read := by
  simp only [write_metrics_response, buffer_write_adv, and_self]

/-- Claim C39. For all values of the metrics counters (`uint64_t`), given room
for 52 bytes, `write_metrics_response` writes the header `01 00 00 30` followed
by 48 payload bytes such that the big-endian decoding of `cmd_metrics` in
`monitor_client` applied to the payload returns, in order, exactly
`historical_connections`, `current_connections`, `bytes_transferred`,
`successful_connections`, `failed_connections` and
`(bytes_from_clients + bytes_to_clients) mod 2^64`. -/
theorem C39_metrics_round_trip (m : socks5_metrics) (b : buffer)
    (hhist : m.historical_connections < 2 ^ 64) (hcurr : m.current_connections < 2 ^ 64)
    (hbytes : m.bytes_transferred < 2 ^ 64) (hsucc : m.successful_connections < 2 ^ 64)
    (hfail : m.failed_connections < 2 ^ 64)
    (hroom : b.write + 52 ≤ b.data.length) :
    ∃ payload, payload.length = 48 ∧
      buffer_appended b (52, write_metrics_response m b)
        ([0x01, 0x00, 0x00, 0x30] ++ payload) ∧
      cmd_metrics payload 48
        = some (m.historical_connections, m.current_connections, m.bytes_transferred,
            m.successful_connections, m.failed_connections,
            (m.bytes_from_clients + m.bytes_to_clients) % 2 ^ 64) := by
  refine ⟨metrics_payload m, rfl, ?_, ?_⟩
  · have hdata : (write_metrics_response m b).data
        = b.data.take b.write ++ ([0x01, 0x00, 0x00, 0x30] ++ metrics_payload m)
          ++ b.data.drop (b.write + 52) := by
      rw [write_metrics_response_data]
      exact memcpy_eq _ _ _ hroom
    obtain ⟨hw, hr⟩ := write_metrics_response_cursors m b
    have happ := buffer_appended_of_eq b ([0x01, 0x00, 0x00, 0x30] ++ metrics_payload m) 52
      (by rw [List.length_append, metrics_payload_length]; rfl) hroom
    obtain ⟨a1, a2, a3, a4, a5, a6⟩ := happ
    refine ⟨a1, ?_, ?_, ?_, ?_, ?_⟩
    · rw [hdata]; exact a2
    · rw [hdata]; exact a3
    · rw [hdata]; exact a4
    · rw [hw]; exact a5
    · rw [hr]
  · have hclient : (m.bytes_from_clients + m.bytes_to_clients) % 2 ^ 64 < 2 ^ 64 :=
      Nat.mod_lt _ (by decide)
    have h0 := cmd_metrics_u64_be64 m.historical_connections hhist []
      (be64 m.current_connections ++ be64 m.bytes_transferred ++
        be64 m.successful_connections ++ be64 m.failed_connections ++
        be64 ((m.bytes_from_clients + m.bytes_to_clients) % 2 ^ 64))
    have h1 := cmd_metrics_u64_be64 m.current_connections hcurr
      (be64 m.historical_connections)
      (be64 m.bytes_transferred ++ be64 m.successful_connections ++
        be64 m.failed_connections ++
        be64 ((m.bytes_from_clients + m.bytes_to_clients) % 2 ^ 64))
    have h2 := cmd_metrics_u64_be64 m.bytes_transferred hbytes
      (be64 m.historical_connections ++ be64 m.current_connections)
      (be64 m.successful_connections ++ be64 m.failed_connections ++
        be64 ((m.bytes_from_clients + m.bytes_to_clients) % 2 ^ 64))
    have h3 := cmd_metrics_u64_be64 m.successful_connections hsucc
      (be64 m.historical_connections ++ be64 m.current_connections ++
        be64 m.bytes_transferred)
      (be64 m.failed_connections ++
        be64 ((m.bytes_from_clients + m.bytes_to_clients) % 2 ^ 64))
    have h4 := cmd_metrics_u64_be64 m.failed_connections hfail
      (be64 m.historical_connections ++ be64 m.current_connections ++
        be64 m.bytes_transferred ++ be64 m.successful_connections)
      (be64 ((m.bytes_from_clients + m.bytes_to_clients) % 2 ^ 64))
    have h5 := cmd_metrics_u64_be64 ((m.bytes_from_clients + m.bytes_to_clients) % 2 ^ 64)
      hclient
      (be64 m.historical_connections ++ be64 m.current_connections ++
        be64 m.bytes_transferred ++ be64 m.successful_connections ++
        be64 m.failed_connections) []
    simp only [List.length_append, be64_length, List.length_nil, List.nil_append,
      List.append_nil, List.append_assoc] at h0 h1 h2 h3 h4 h5
    simp only [cmd_metrics, metrics_payload, List.append_assoc, ge_iff_le, le_refl, if_true,
      h0, h1, h2, h3, h4, h5]

/-- Claim C39, instance: the sample metrics are written as `01 00 00 30` and 48
bytes that decode to the six values. -/
theorem C39_metrics_round_trip_witness :
    ∃ payload, payload.length = 48 ∧
      buffer_appended buffer64 (52, write_metrics_response socks5_metrics_sample buffer64)
        ([0x01, 0x00, 0x00, 0x30] ++ payload) ∧
      cmd_metrics payload 48 = some (300, 2, 1099511627781, 299, 1, 1099511627781) :=
  C39_metrics_round_trip socks5_metrics_sample buffer64 (by decide) (by decide) (by decide)
    (by decide) (by decide) (by decide)

/-! ## Monitoring: reading a request -/

/-- The data loop of `monitoring_read`: it stores at the indices `data_read`,
`data_read + 1`, .. in turn, one byte of the read buffer each, and with fuel for
the readable bytes it stops only when the buffer is drained or `data_len` bytes
are stored. -/
theorem monitoring_read_data_loop_spec : ∀ (fuel : Nat) (c : monitoring_conn)
    (acc : List Nat), buffer_ok c.read_buffer → c.data_read ≤ c.data_len →
    c.data_len < 2 ^ 16 →
    ∃ k, (monitoring_read_data_loop fuel c acc).2 = acc ++ List.range' c.data_read k ∧
      (monitoring_read_data_loop fuel c acc).1.data_read = c.data_read + k ∧
      (monitoring_read_data_loop fuel c acc).1.data_len = c.data_len ∧
      (monitoring_read_data_loop fuel c acc).1.state = c.state ∧
      buffer_ok (monitoring_read_data_loop fuel c acc).1.read_buffer ∧
      (monitoring_read_data_loop fuel c acc).1.read_buffer.read = c.read_buffer.read + k ∧
      (monitoring_read_data_loop fuel c acc).1.read_buffer.data = c.read_buffer.data ∧
      (monitoring_read_data_loop fuel c acc).1.read_buffer.write = c.read_buffer.write ∧
      (monitoring_read_data_loop fuel c acc).1.data_read ≤ c.data_len ∧
      (c.read_buffer.write - c.read_buffer.read ≤ fuel →
        ¬ (buffer_can_read (monitoring_read_data_loop fuel c acc).1.read_buffer = true ∧
          (monitoring_read_data_loop fuel c acc).1.data_read < c.data_len)) := by
  intro fuel
  induction fuel with
  | zero =>
      intro c acc hok hle _
      refine ⟨0, by simp [monitoring_read_data_loop], rfl, rfl, rfl, hok, rfl, rfl, rfl, hle, ?_⟩
      intro hf hc
      have := hc.1
      simp only [monitoring_read_data_loop, buffer_can_read, decide_eq_true_eq] at this
      omega
  | succ fuel ih =>
      intro c acc hok hle hlen
      by_cases hcond : buffer_can_read c.read_buffer = true ∧ c.data_read < c.data_len
      · have hcr : c.read_buffer.read < c.read_buffer.write := by
          simpa [buffer_can_read] using hcond.1
        have hrd : buffer_read c.read_buffer
            = (c.read_buffer.data.getD c.read_buffer.read 0,
                { c.read_buffer with read := c.read_buffer.read + 1 }) := by
          simp only [buffer_read, hcond.1, if_true]
        have hmod : (c.data_read + 1) % 2 ^ 16 = c.data_read + 1 :=
          Nat.mod_eq_of_lt (by omega)
        obtain ⟨k, i1, i2, i3, i4, i5, i6, i7, iw, i8, i9⟩ := ih
          { c with data := c.data.set c.data_read (buffer_read c.read_buffer).1,
                   data_read := (c.data_read + 1) % 2 ^ 16,
                   read_buffer := (buffer_read c.read_buffer).2 }
          (acc ++ [c.data_read])
          (by rw [hrd]; exact ⟨by show c.read_buffer.read + 1 ≤ c.read_buffer.write; omega,
            hok.2⟩)
          (by show (c.data_read + 1) % 2 ^ 16 ≤ c.data_len; rw [hmod]; omega) hlen
        refine ⟨k + 1, ?_, ?_, ?_, ?_, ?_, ?_, ?_, ?_, ?_, ?_⟩
        · simp only [monitoring_read_data_loop, if_pos hcond]
          rw [i1]
          show acc ++ [c.data_read] ++ List.range' ((c.data_read + 1) % 2 ^ 16) k = _
          rw [hmod, List.range'_succ, List.append_assoc]
          rfl
        · simp only [monitoring_read_data_loop, if_pos hcond]
          rw [i2]
          show (c.data_read + 1) % 2 ^ 16 + k = _
          rw [hmod]; omega
        · simp only [monitoring_read_data_loop, if_pos hcond]
          exact i3
        · simp only [monitoring_read_data_loop, if_pos hcond]
          exact i4
        · simp only [monitoring_read_data_loop, if_pos hcond]
          exact i5
        · simp only [monitoring_read_data_loop, if_pos hcond]
          rw [i6]
          show (buffer_read c.read_buffer).2.read + k = _
          rw [hrd]
          show c.read_buffer.read + 1 + k = _
          omega
        · simp only [monitoring_read_data_loop, if_pos hcond]
          rw [i7]
          show (buffer_read c.read_buffer).2.data = _
          rw [hrd]
        · simp only [monitoring_read_data_loop, if_pos hcond]
          rw [iw]
          show (buffer_read c.read_buffer).2.write = _
          rw [hrd]
        · simp only [monitoring_read_data_loop, if_pos hcond]
          exact i8
        · intro hf
          simp only [monitoring_read_data_loop, if_pos hcond]
          apply i9
          show (buffer_read c.read_buffer).2.write - (buffer_read c.read_buffer).2.read ≤ fuel
          rw [hrd]
          show c.read_buffer.write - (c.read_buffer.read + 1) ≤ fuel
          omega
      · refine ⟨0, ?_, ?_, ?_, ?_, ?_, ?_, ?_, ?_, ?_, ?_⟩
        all_goals simp only [monitoring_read_data_loop, if_neg hcond]
        · simp
        · rfl
        · exact hok
        · rfl
        · exact hle
        · intro _; exact hcond

theorem buffer_read_mk (d : List Nat) (r w : Nat) (h : r < w) :
    buffer_read { data := d, read := r, write := w }
      = (d.getD r 0, { data := d, read := r + 1, write := w }) := by
  simp only [buffer_read, buffer_can_read, h, decide_True, if_true]

/-- The header step of `monitoring_read`: with four bytes to read in state
`MON_READ_HEADER`, the four `buffer_read` calls take `version`, `cmd` and the two
bytes of LEN from under the read cursor. -/
theorem monitoring_read_header (dispatch : monitoring_conn → monitoring_conn)
    (c : monitoring_conn) (rcv : recv_outcome)
    (hn : ¬ recv_n rcv (buffer_write_ptr c.read_buffer).2 ≤ 0)
    (hs : c.state = MON_READ_HEADER) (b : buffer)
    (hb : buffer_recv c.read_buffer (recv_bytes rcv (buffer_write_ptr c.read_buffer).2) = b)
    (h4 : b.read + 4 ≤ b.write) (c2 : monitoring_conn)
    (hc2 : c2 = { c with read_buffer := { data := b.data, read := b.read + 4, write := b.write },
                         version := b.data.getD b.read 0 % 256,
                         cmd := b.data.getD (b.read + 1) 0 % 256,
                         data_len := (((b.data.getD (b.read + 2) 0 % 256) <<< 8) |||
                           (b.data.getD (b.read + 3) 0 % 256)) % 2 ^ 16,
                         data_read := 0 }) :
    monitoring_read dispatch c rcv
      = if c2.version ≠ MONITORING_VERSION then
          { c := { c2 with state := MON_ERROR }, closed := true, stores := [],
            processed := none }
        else if c2.data_len = 0 then
          { c := process_command dispatch c2, closed := false, stores := [],
            processed := some c2 }
        else monitoring_read_data dispatch { c2 with state := MON_READ_DATA } := by
  have hcr : buffer_can_read b = true ∧ b.write - b.read ≥ 4 :=
    ⟨by simp only [buffer_can_read, decide_eq_true_eq]; omega, by omega⟩
  have e0 : buffer_read b = (b.data.getD b.read 0,
      { data := b.data, read := b.read + 1, write := b.write }) := by
    have := buffer_read_mk b.data b.read b.write (by omega)
    exact this
  have e1 := buffer_read_mk b.data (b.read + 1) b.write (by omega)
  have e2 := buffer_read_mk b.data (b.read + 1 + 1) b.write (by omega)
  have e3 := buffer_read_mk b.data (b.read + 1 + 1 + 1) b.write (by omega)
  subst hc2
  simp only [monitoring_read, if_neg hn, hb, hs, if_true, if_pos hcr, e0, e1, e2, e3]

/-! ## Negotiation: no request without valid credentials -/

theorem hello_selecting_feed (tbl : user_table) (hreq : auth_required tbl = true)
    (p : hello_parser_t Nat) (b : Nat) (h : hello_selecting tbl p) :
    hello_selecting tbl (hello_parser_feed p b) := by
  obtain ⟨h1, h2⟩ := h
  unfold hello_parser_feed
  cases hs : p.state with
  | hello_version =>
      simp only
      split_ifs
      · exact ⟨h1, h2⟩
      · exact ⟨h1, h2⟩
  | hello_nmethods =>
      simp only
      split_ifs
      · exact ⟨h1, h2⟩
      · exact ⟨h1, h2⟩
  | hello_methods =>
      simp only [h1]
      have hd : on_hello_method tbl p.data b = SOCKS_HELLO_NO_ACCEPTABLE_METHODS ∨
          on_hello_method tbl p.data b = SOCKS_HELLO_USERNAME_PASSWORD := by
        simp only [on_hello_method, hreq, if_true]
        split_ifs with hb
        · right; exact hb
        · exact h2
      split_ifs
      · exact ⟨rfl, hd⟩
      · exact ⟨rfl, hd⟩
  | hello_done => exact ⟨h1, h2⟩
  | hello_error => exact ⟨h1, h2⟩
  | hello_error_unsupported_version => exact ⟨h1, h2⟩

theorem hello_selecting_consume_loop (tbl : user_table) (hreq : auth_required tbl = true)
    (fuel : Nat) : ∀ (b : buffer) (p : hello_parser_t Nat) (e : Option Bool) (s : hello_state),
      hello_selecting tbl p → hello_selecting tbl (hello_consume_loop fuel b p e s).2.2.1 := by
  induction fuel with
  | zero => intro b p e s h; exact h
  | succ n ih =>
      intro b p e s h
      simp only [hello_consume_loop]
      split_ifs
      · exact hello_selecting_feed tbl hreq p _ h
      · exact ih _ _ _ _ (hello_selecting_feed tbl hreq p _ h)
      · exact h

/-- With users configured, `hello_read` keeps the selection among 0xFF and 0x02,
and returns HELLO_READ, ERROR, or HELLO_WRITE with method 0x02 selected. -/
theorem hello_read_negotiation (tbl : user_table) (hreq : auth_required tbl = true)
    (d : hello_st) (rcv : recv_outcome) (ok : Bool) (h : hello_selecting tbl d.parser) :
    hello_selecting tbl (hello_read d rcv ok).2.parser ∧
    ((hello_read d rcv ok).1 = HELLO_READ ∨ (hello_read d rcv ok).1 = ERROR ∨
      ((hello_read d rcv ok).1 = HELLO_WRITE ∧
        (hello_read d rcv ok).2.method = SOCKS_HELLO_USERNAME_PASSWORD)) := by
  have hc := hello_selecting_consume_loop tbl hreq
    ((buffer_recv d.rb (recv_bytes rcv (buffer_write_ptr d.rb).2)).write
      - (buffer_recv d.rb (recv_bytes rcv (buffer_write_ptr d.rb).2)).read)
    (buffer_recv d.rb (recv_bytes rcv (buffer_write_ptr d.rb).2)) d.parser (some false)
    d.parser.state h
  simp only [hello_read, hello_consume, hello_process, hello_st.method]
  split_ifs
  all_goals first
    | exact ⟨hc, Or.inr (Or.inl rfl)⟩
    | exact ⟨hc, Or.inl rfl⟩
    | exact ⟨h, Or.inr (Or.inl rfl)⟩
    | exact ⟨hc, Or.inr (Or.inr ⟨rfl, by
        have := hc.2
        simp only [hello_st.method] at *
        tauto⟩)⟩

/-- With method 0x02 selected, `hello_write` returns ERROR, HELLO_WRITE or
AUTH_READ, never REQUEST_READ. -/
theorem hello_write_negotiation (d : hello_st) (snd : send_outcome) (ok : Bool)
    (hm : d.method = SOCKS_HELLO_USERNAME_PASSWORD) :
    (hello_write d snd ok).2.method = SOCKS_HELLO_USERNAME_PASSWORD ∧
    ((hello_write d snd ok).1 = ERROR ∨ (hello_write d snd ok).1 = HELLO_WRITE ∨
      (hello_write d snd ok).1 = AUTH_READ) := by
  simp only [hello_write, hello_st.method] at hm ⊢
  split_ifs
  all_goals first
    | exact ⟨hm, Or.inl rfl⟩
    | exact ⟨hm, Or.inr (Or.inl rfl)⟩
    | exact ⟨hm, Or.inr (Or.inr rfl)⟩

/-- What `auth_read` returns is AUTH_READ, ERROR or AUTH_WRITE, and status 0x00
with AUTH_WRITE means that `validate_credentials` returned true for the username
and the password in the parser. -/
theorem auth_read_negotiation (tbl : user_table) (d : auth_st) (u : List Nat)
    (m : auth_metrics) (rcv : recv_outcome) (ok : Bool) :
    ((auth_read tbl d u m rcv ok).ret = AUTH_READ ∨ (auth_read tbl d u m rcv ok).ret = ERROR ∨
      (auth_read tbl d u m rcv ok).ret = AUTH_WRITE) ∧
    ((auth_read tbl d u m rcv ok).ret = AUTH_WRITE →
      (auth_read tbl d u m rcv ok).d.status = 0x00 →
      validate_credentials tbl (auth_read tbl d u m rcv ok).d.parser.username
        (auth_read tbl d u m rcv ok).d.parser.password = true) := by
  simp only [auth_read, auth_process]
  split_ifs
  all_goals first
    | exact ⟨Or.inr (Or.inl rfl), fun h => absurd h (by decide)⟩
    | exact ⟨Or.inl rfl, fun h => absurd h (by decide)⟩
    | refine ⟨Or.inr (Or.inr rfl), fun _ hst => ?_⟩
      first
        | assumption
        | exact absurd hst (by decide)

/-- What `auth_write` returns is ERROR, AUTH_WRITE, or REQUEST_READ with status
0x00; it keeps the status. -/
theorem auth_write_negotiation (d : auth_st) (snd : send_outcome) (ok : Bool) :
    (auth_write d snd ok).2.status = d.status ∧
    ((auth_write d snd ok).1 = ERROR ∨ (auth_write d snd ok).1 = AUTH_WRITE ∨
      ((auth_write d snd ok).1 = REQUEST_READ ∧ d.status = 0x00)) := by
  simp only [auth_write]
  split_ifs with h1 h2 h3 h4
  all_goals first
    | exact ⟨rfl, Or.inl rfl⟩
    | exact ⟨rfl, Or.inr (Or.inl rfl)⟩
    | exact ⟨rfl, Or.inr (Or.inr ⟨rfl, h3⟩)⟩

theorem negotiation_run_snoc (tbl : user_table) (overlay : hello_st → auth_st) :
    ∀ (events : List negotiation_event) (n0 : negotiation) (e : negotiation_event),
      negotiation_run tbl overlay n0 (events ++ [e])
        = match negotiation_run tbl overlay n0 events with
          | none => none
          | some m => negotiation_step tbl overlay m e := by
  intro events
  induction events with
  | nil =>
      intro n0 e
      simp only [List.nil_append, negotiation_run]
      cases negotiation_step tbl overlay n0 e <;> rfl
  | cons x xs ih =>
      intro n0 e
      simp only [List.cons_append, negotiation_run]
      cases negotiation_step tbl overlay n0 x with
      | none => rfl
      | some n1 => exact ih n1 e

theorem negotiation_validated_mono (tbl : user_table) (overlay : hello_st → auth_st)
    (n0 : negotiation) (events more : List negotiation_event)
    (h : negotiation_validated tbl overlay n0 events) :
    negotiation_validated tbl overlay n0 (events ++ more) := by
  obtain ⟨pre, rcv, ok, post, m, d, h1, h2⟩ := h
  exact ⟨pre, rcv, ok, post ++ more, m, d, by rw [h1, List.append_assoc, List.cons_append], h2⟩

theorem negotiation_jump_ne (tbl : user_table) (overlay : hello_st → auth_st)
    (n : negotiation) (next : socks_v5state) (h : next ≠ n.state) :
    negotiation_jump tbl overlay n next
      = { n with state := next,
                 client := negotiation_on_arrival tbl overlay
                   (negotiation_on_departure n.client n.state) next } :=
  if_neg h

theorem negotiation_jump_eq (tbl : user_table) (overlay : hello_st → auth_st)
    (n : negotiation) (next : socks_v5state) (h : next = n.state) :
    negotiation_jump tbl overlay n next = n :=
  if_pos h

theorem negotiation_inv_other (tbl : user_table) (overlay : hello_st → auth_st)
    (n0 : negotiation) (events : List negotiation_event) (n : negotiation)
    (s : socks_v5state) (hs : n.state = s) (h1 : s ≠ HELLO_READ) (h2 : s ≠ HELLO_WRITE)
    (h3 : s ≠ AUTH_WRITE) (h4 : s ≠ REQUEST_READ) :
    negotiation_inv tbl overlay n0 events n :=
  ⟨fun h => absurd (hs.symm.trans h) h1, fun h => absurd (hs.symm.trans h) h2,
    fun h => absurd (hs.symm.trans h) h3, fun h => absurd (hs.symm.trans h) h4⟩

theorem negotiation_inv_hello_read (tbl : user_table) (overlay : hello_st → auth_st)
    (n0 : negotiation) (events : List negotiation_event) (n : negotiation)
    (hs : n.state = HELLO_READ) (d : hello_st) (hc : n.client = negotiation_client.hello d)
    (hsel : hello_selecting tbl d.parser) :
    negotiation_inv tbl overlay n0 events n :=
  ⟨fun _ => ⟨d, hc, hsel⟩, fun h => absurd (hs.symm.trans h) (by decide),
    fun h => absurd (hs.symm.trans h) (by decide), fun h => absurd (hs.symm.trans h) (by decide)⟩

theorem negotiation_inv_hello_write (tbl : user_table) (overlay : hello_st → auth_st)
    (n0 : negotiation) (events : List negotiation_event) (n : negotiation)
    (hs : n.state = HELLO_WRITE) (d : hello_st) (hc : n.client = negotiation_client.hello d)
    (hm : d.method = SOCKS_HELLO_USERNAME_PASSWORD) :
    negotiation_inv tbl overlay n0 events n :=
  ⟨fun h => absurd (hs.symm.trans h) (by decide), fun _ => ⟨d, hc, hm⟩,
    fun h => absurd (hs.symm.trans h) (by decide), fun h => absurd (hs.symm.trans h) (by decide)⟩

theorem negotiation_inv_auth_write (tbl : user_table) (overlay : hello_st → auth_st)
    (n0 : negotiation) (events : List negotiation_event) (n : negotiation)
    (hs : n.state = AUTH_WRITE) (d : auth_st) (hc : n.client = negotiation_client.auth d)
    (hv : d.status = 0x00 → negotiation_validated tbl overlay n0 events) :
    negotiation_inv tbl overlay n0 events n :=
  ⟨fun h => absurd (hs.symm.trans h) (by decide), fun h => absurd (hs.symm.trans h) (by decide),
    fun _ => ⟨d, hc, hv⟩, fun h => absurd (hs.symm.trans h) (by decide)⟩

theorem auth_read_close_status (d : auth_st) : (auth_read_close d).status = d.status := by
  simp only [auth_read_close]

/-- One dispatch of the negotiation keeps `negotiation_inv`. -/
theorem negotiation_step_inv (tbl : user_table) (hreq : auth_required tbl = true)
    (overlay : hello_st → auth_st) (n0 : negotiation) (events : List negotiation_event)
    (m n : negotiation) (e : negotiation_event)
    (hinv : negotiation_inv tbl overlay n0 events m)
    (hrun : negotiation_run tbl overlay n0 events = some m)
    (hstep : negotiation_step tbl overlay m e = some n) :
    negotiation_inv tbl overlay n0 (events ++ [e]) n := by
  obtain ⟨st, cl, un, mt⟩ := m
  cases st <;> cases cl <;> cases e <;>
    simp only [negotiation_step, Option.some.injEq, reduceCtorEq] at hstep
  · -- HELLO_READ
    rename_i d rcv ok
    obtain ⟨d1, hd1, hsel⟩ := hinv.1 rfl
    have hdd : d = d1 := negotiation_client.hello.inj hd1
    subst hdd
    obtain ⟨hp, hr⟩ := hello_read_negotiation tbl hreq d rcv ok hsel
    rcases hr with h | h | ⟨h, hm⟩
    · rw [negotiation_jump_eq _ _ _ _ h] at hstep
      subst hstep
      exact negotiation_inv_hello_read _ _ _ _ _ rfl _ rfl hp
    · rw [negotiation_jump_ne _ _ _ _ (by rw [h]; intro hh; cases hh)] at hstep
      subst hstep
      exact negotiation_inv_other _ _ _ _ _ ERROR h (by decide) (by decide) (by decide)
        (by decide)
    · rw [negotiation_jump_ne _ _ _ _ (by rw [h]; intro hh; cases hh)] at hstep
      subst hstep
      refine negotiation_inv_hello_write _ _ _ _ _ h (hello_read_close (hello_read d rcv ok).2)
        ?_ hm
      show negotiation_on_arrival tbl overlay
        (negotiation_client.hello (hello_read_close (hello_read d rcv ok).2))
        (hello_read d rcv ok).1 = _
      rw [h]
      rfl
  · -- HELLO_WRITE
    rename_i d snd ok
    obtain ⟨d1, hd1, hm⟩ := hinv.2.1 rfl
    have hdd : d = d1 := negotiation_client.hello.inj hd1
    subst hdd
    obtain ⟨_, hr⟩ := hello_write_negotiation d snd ok hm
    rcases hr with h | h | h
    · rw [negotiation_jump_ne _ _ _ _ (by rw [h]; intro hh; cases hh)] at hstep
      subst hstep
      exact negotiation_inv_other _ _ _ _ _ ERROR h (by decide) (by decide) (by decide)
        (by decide)
    · rw [negotiation_jump_eq _ _ _ _ h] at hstep
      subst hstep
      exact negotiation_inv_hello_write _ _ _ _ _ rfl _ rfl
        (hello_write_negotiation d snd ok hm).1
    · rw [negotiation_jump_ne _ _ _ _ (by rw [h]; intro hh; cases hh)] at hstep
      subst hstep
      exact negotiation_inv_other _ _ _ _ _ AUTH_READ h (by decide) (by decide) (by decide)
        (by decide)
  · -- AUTH_READ
    rename_i d rcv ok
    obtain ⟨hr, hv⟩ := auth_read_negotiation tbl d un mt rcv ok
    rcases hr with h | h | h
    · rw [negotiation_jump_eq _ _ _ _ h] at hstep
      subst hstep
      exact negotiation_inv_other _ _ _ _ _ AUTH_READ rfl (by decide) (by decide) (by decide)
        (by decide)
    · rw [negotiation_jump_ne _ _ _ _ (by rw [h]; intro hh; cases hh)] at hstep
      subst hstep
      exact negotiation_inv_other _ _ _ _ _ ERROR h (by decide) (by decide) (by decide)
        (by decide)
    · rw [negotiation_jump_ne _ _ _ _ (by rw [h]; intro hh; cases hh)] at hstep
      subst hstep
      refine negotiation_inv_auth_write _ _ _ _ _ h
        (auth_read_close (auth_read tbl d un mt rcv ok).d) ?_ ?_
      · show negotiation_on_arrival tbl overlay
          (negotiation_client.auth (auth_read_close (auth_read tbl d un mt rcv ok).d))
          (auth_read tbl d un mt rcv ok).ret = _
        rw [h]
        rfl
      · intro hst
        have hst2 : (auth_read tbl d un mt rcv ok).d.status = 0x00 := by
          rw [auth_read_close_status] at hst
          exact hst
        exact ⟨events, rcv, ok, [],
          { state := AUTH_READ, client := negotiation_client.auth d, username := un,
            metrics := mt }, d, rfl, hrun, rfl, rfl, h, hst2, hv h hst2⟩
  · -- AUTH_WRITE
    rename_i d snd ok
    obtain ⟨d1, hd1, hval⟩ := hinv.2.2.1 rfl
    have hdd : d = d1 := negotiation_client.auth.inj hd1
    subst hdd
    obtain ⟨hs, hr⟩ := auth_write_negotiation d snd ok
    rcases hr with h | h | ⟨h, h0⟩
    · rw [negotiation_jump_ne _ _ _ _ (by rw [h]; intro hh; cases hh)] at hstep
      subst hstep
      exact negotiation_inv_other _ _ _ _ _ ERROR h (by decide) (by decide) (by decide)
        (by decide)
    · rw [negotiation_jump_eq _ _ _ _ h] at hstep
      subst hstep
      refine negotiation_inv_auth_write _ _ _ _ _ rfl _ rfl ?_
      intro hst
      rw [hs] at hst
      exact negotiation_validated_mono _ _ _ _ _ (hval hst)
    · rw [negotiation_jump_ne _ _ _ _ (by rw [h]; intro hh; cases hh)] at hstep
      subst hstep
      refine ⟨fun hh => absurd (h.symm.trans hh) (by decide),
        fun hh => absurd (h.symm.trans hh) (by decide),
        fun hh => absurd (h.symm.trans hh) (by decide), fun _ => ?_⟩
      exact ⟨events, snd, ok, _, d, rfl, hrun, rfl, rfl, h0, hval h0⟩

theorem negotiation_run_inv (tbl : user_table) (hreq : auth_required tbl = true)
    (overlay : hello_st → auth_st) (n0 : negotiation)
    (h0 : negotiation_inv tbl overlay n0 [] n0) :
    ∀ (events : List negotiation_event) (n : negotiation),
      negotiation_run tbl overlay n0 events = some n →
      negotiation_inv tbl overlay n0 events n := by
  intro events
  induction events using List.reverseRecOn with
  | nil =>
      intro n h
      simp only [negotiation_run, Option.some.injEq] at h
      subst h
      exact h0
  | append_singleton xs e ih =>
      intro n h
      rw [negotiation_run_snoc] at h
      cases hm : negotiation_run tbl overlay n0 xs with
      | none => rw [hm] at h; exact absurd h (by simp)
      | some m =>
          rw [hm] at h
          exact negotiation_step_inv tbl hreq overlay n0 xs m n e (ih m hm) hm h

/-- Claim C34. With at least one user configured, every run of the negotiation
from a new connection that ends in REQUEST_READ took its last step from
AUTH_WRITE, never from HELLO_WRITE, with status 0x00 there, and before that
`auth_read` returned AUTH_WRITE with status 0x00 after `validate_credentials`
returned true for the credentials the client sent. -/
theorem C34_request_read_only_after_valid_auth (tbl : user_table)
    (overlay : hello_st → auth_st) (read_buffer write_buffer : buffer)
    (old : hello_parser_t Nat) (username : List Nat) (metrics : auth_metrics)
    (events : List negotiation_event) (n : negotiation)
    (hreq : auth_required tbl = true)
    (hrun : negotiation_run tbl overlay
      (negotiation_init tbl read_buffer write_buffer old username metrics) events = some n)
    (hstate : n.state = REQUEST_READ) :
    ∃ pre snd ok m d,
      events = pre ++ [negotiation_event.write_ready snd ok] ∧
      negotiation_run tbl overlay
        (negotiation_init tbl read_buffer write_buffer old username metrics) pre = some m ∧
      m.state = AUTH_WRITE ∧ m.client = negotiation_client.auth d ∧ d.status = 0x00 ∧
      negotiation_validated tbl overlay
        (negotiation_init tbl read_buffer write_buffer old username metrics) pre := by
  have h0 : negotiation_inv tbl overlay
      (negotiation_init tbl read_buffer write_buffer old username metrics) []
      (negotiation_init tbl read_buffer write_buffer old username metrics) :=
    negotiation_inv_hello_read _ _ _ _ _ rfl (hello_read_init tbl read_buffer write_buffer old)
      rfl ⟨rfl, Or.inl rfl⟩
  exact (negotiation_run_inv tbl hreq overlay _ h0 events n hrun).2.2.2 hstate

/-- Claim C34, instance: with alice / s3cret configured, the client offers
method 0x02, sends these credentials and reaches REQUEST_READ. -/
theorem C34_request_read_only_after_valid_auth_witness :
    ∃ pre snd ok m d,
      negotiation_events_alice = pre ++ [negotiation_event.write_ready snd ok] ∧
      negotiation_run users_alice overlay_stale
        (negotiation_init users_alice buffer64 buffer64 hello_stale (List.replicate 257 0)
          auth_metrics_zero) pre = some m ∧
      m.state = AUTH_WRITE ∧ m.client = negotiation_client.auth d ∧ d.status = 0x00 ∧
      negotiation_validated users_alice overlay_stale
        (negotiation_init users_alice buffer64 buffer64 hello_stale (List.replicate 257 0)
          auth_metrics_zero) pre :=
  C34_request_read_only_after_valid_auth users_alice overlay_stale buffer64 buffer64
    hello_stale (List.replicate 257 0) auth_metrics_zero negotiation_events_alice _
    (by decide) (by rfl) (by rfl)

/-! ## Monitoring: payload longer than `data[]` -/

/-- The part of `monitoring_read` under `MON_READ_DATA`, on a well-formed read
buffer: it takes `k` bytes from the buffer and stores them at
`data_read .. data_read + k - 1`, stopping only when the buffer is drained or
`data_len` is reached, whatever the size of `data[]`; it processes the command
exactly when `data_len` is reached. -/
theorem monitoring_read_data_exact (dispatch : monitoring_conn → monitoring_conn)
    (c : monitoring_conn) (hok : buffer_ok c.read_buffer) (hle : c.data_read ≤ c.data_len)
    (hlen : c.data_len < 2 ^ 16) :
    ∃ k, (monitoring_read_data dispatch c).stores = List.range' c.data_read k ∧
      c.read_buffer.read + k ≤ c.read_buffer.write ∧
      c.data_read + k ≤ c.data_len ∧
      ¬ (c.read_buffer.read + k < c.read_buffer.write ∧ c.data_read + k < c.data_len) ∧
      (monitoring_read_data dispatch c).closed = false ∧
      (c.data_read + k < c.data_len →
        (monitoring_read_data dispatch c).processed = none ∧
        (monitoring_read_data dispatch c).c.state = c.state ∧
        (monitoring_read_data dispatch c).c.data_read = c.data_read + k ∧
        (monitoring_read_data dispatch c).c.data_len = c.data_len ∧
        (monitoring_read_data dispatch c).c.read_buffer.read = c.read_buffer.read + k ∧
        (monitoring_read_data dispatch c).c.read_buffer.write = c.read_buffer.write ∧
        (monitoring_read_data dispatch c).c.read_buffer.data = c.read_buffer.data) ∧
      (c.data_read + k = c.data_len →
        ∃ p, (monitoring_read_data dispatch c).processed = some p ∧
          p.data_read = c.data_len) := by
  obtain ⟨k, i1, i2, i3, i4, i5, i6, i7, iw, i8, i9⟩ := monitoring_read_data_loop_spec
    (c.read_buffer.write - c.read_buffer.read) c [] hok hle hlen
  have hexit := i9 (Nat.le_refl _)
  simp only [buffer_can_read, decide_eq_true_eq, i6, iw, i2] at hexit
  rw [i2] at i8
  refine ⟨k, ?_, ?_, i8, hexit, ?_, ?_, ?_⟩
  · unfold monitoring_read_data
    by_cases hge : (monitoring_read_data_loop (c.read_buffer.write - c.read_buffer.read) c []).1.data_read
        ≥ (monitoring_read_data_loop (c.read_buffer.write - c.read_buffer.read) c []).1.data_len
    · simp only [if_pos hge, i1, List.nil_append]
    · simp only [if_neg hge, i1, List.nil_append]
  · have := i5.1
    omega
  · unfold monitoring_read_data
    by_cases hge : (monitoring_read_data_loop (c.read_buffer.write - c.read_buffer.read) c []).1.data_read
        ≥ (monitoring_read_data_loop (c.read_buffer.write - c.read_buffer.read) c []).1.data_len
    · simp only [if_pos hge]
    · simp only [if_neg hge]
  · intro hlt
    have hge : ¬ (monitoring_read_data_loop (c.read_buffer.write - c.read_buffer.read) c []).1.data_read
        ≥ (monitoring_read_data_loop (c.read_buffer.write - c.read_buffer.read) c []).1.data_len := by
      rw [i2, i3]; omega
    unfold monitoring_read_data
    simp only [if_neg hge]
    exact ⟨trivial, i4, i2, i3, i6, iw, i7⟩
  · intro heq
    have hge : (monitoring_read_data_loop (c.read_buffer.write - c.read_buffer.read) c []).1.data_read
        ≥ (monitoring_read_data_loop (c.read_buffer.write - c.read_buffer.read) c []).1.data_len := by
      rw [i2, i3]; omega
    unfold monitoring_read_data
    simp only [if_pos hge]
    exact ⟨_, rfl, by rw [i2]; exact heq⟩

/-- A call of `monitoring_read` in `MON_READ_DATA` that receives something goes
to the data loop with the received bytes in the read buffer. -/
theorem monitoring_read_data_state (dispatch : monitoring_conn → monitoring_conn)
    (c : monitoring_conn) (rcv : recv_outcome)
    (hn : ¬ recv_n rcv (buffer_write_ptr c.read_buffer).2 ≤ 0)
    (hs : c.state = MON_READ_DATA) :
    monitoring_read dispatch c rcv
      = monitoring_read_data dispatch
          { c with read_buffer := (buffer_recv c.read_buffer
              (recv_bytes rcv (buffer_write_ptr c.read_buffer).2)) } := by
  simp only [monitoring_read, if_neg hn, hs,
    if_neg (show ¬ MON_READ_DATA = MON_READ_HEADER by decide), if_true]

/-- Once a drained read buffer has given back its space, `monitoring_read` in
`MON_READ_DATA` goes on storing at `data_read`, `data_read + 1`, .. for every
byte received, up to `data_len`: nothing compares the index with the 4096 bytes
of `data[]`. -/
theorem monitoring_read_after_reclaim (dispatch : monitoring_conn → monitoring_conn)
    (c : monitoring_conn) (more : List Nat) (hs : c.state = MON_READ_DATA)
    (hdrained : c.read_buffer.read = c.read_buffer.write)
    (hsize : c.read_buffer.data.length = 4096)
    (hmore1 : 0 < more.length) (hmore : more.length ≤ 4096)
    (hlt : c.data_read + more.length ≤ c.data_len) (hlen : c.data_len < 2 ^ 16) :
    (monitoring_read dispatch (monitoring_conn_reclaimed c) (recv_outcome.data more)).stores
      = List.range' c.data_read more.length := by
  have hcr : buffer_can_read c.read_buffer = false := by
    simp only [buffer_can_read, hdrained, Nat.lt_irrefl, decide_False]
  have hrb : (monitoring_conn_reclaimed c).read_buffer
      = { data := memcpy c.read_buffer.data 0 (buffer_readable c.read_buffer), read := 0,
          write := 0 } := by
    simp only [monitoring_conn_reclaimed, buffer_reclaim, hcr, buffer_compact, hdrained,
      Nat.sub_self, Bool.false_eq_true, if_false]
  have hlen2 : (monitoring_conn_reclaimed c).read_buffer.data.length = 4096 := by
    rw [hrb]
    show (memcpy c.read_buffer.data 0 (buffer_readable c.read_buffer)).length = 4096
    rw [memcpy_length]; exact hsize
  have hr0 : (monitoring_conn_reclaimed c).read_buffer.read = 0 := by rw [hrb]
  have hw0 : (monitoring_conn_reclaimed c).read_buffer.write = 0 := by rw [hrb]
  have hptr : (buffer_write_ptr (monitoring_conn_reclaimed c).read_buffer).2 = 4096 := by
    simp only [buffer_write_ptr, hlen2, hw0, Nat.sub_zero]
  have hbytes : recv_bytes (recv_outcome.data more)
      (buffer_write_ptr (monitoring_conn_reclaimed c).read_buffer).2 = more := by
    rw [hptr]
    exact List.take_of_length_le hmore
  have hn : ¬ recv_n (recv_outcome.data more)
      (buffer_write_ptr (monitoring_conn_reclaimed c).read_buffer).2 ≤ 0 := by
    have h := (recv_n_toNat (recv_outcome.data more)
      (buffer_write_ptr (monitoring_conn_reclaimed c).read_buffer).2).1
    rw [hbytes] at h
    omega
  rw [monitoring_read_data_state dispatch _ _ hn hs, hbytes]
  obtain ⟨s1, _, _, s4, s5⟩ := buffer_recv_spec (monitoring_conn_reclaimed c).read_buffer more
    ⟨by rw [hr0, hw0], by rw [hw0]; exact Nat.zero_le _⟩ (by rw [hw0, hlen2]; omega)
  rw [hw0] at s4
  rw [hr0] at s5
  obtain ⟨k, e1, e2, e3, e4, _⟩ := monitoring_read_data_exact dispatch
    { monitoring_conn_reclaimed c with
      read_buffer := (buffer_recv (monitoring_conn_reclaimed c).read_buffer more) }
    s1 (by show c.data_read ≤ c.data_len; omega) hlen
  have e2n : (buffer_recv (monitoring_conn_reclaimed c).read_buffer more).read + k
      ≤ (buffer_recv (monitoring_conn_reclaimed c).read_buffer more).write := e2
  have e3n : c.data_read + k ≤ c.data_len := e3
  have e4n : ¬ ((buffer_recv (monitoring_conn_reclaimed c).read_buffer more).read + k
      < (buffer_recv (monitoring_conn_reclaimed c).read_buffer more).write ∧
      c.data_read + k < c.data_len) := e4
  rw [s4, s5] at e2n e4n
  have hk : k = more.length := by omega
  rw [e1, hk]
  rfl

/-- The first call of `monitoring_read` on a fresh connection that receives the
header `01 cmd FF FF` with 4092 payload bytes, which fill the read buffer: the
connection stays open in `MON_READ_DATA` with LEN = 65535, the payload is stored
at `0 .. 4091` and the read buffer is drained. -/
theorem monitoring_read_fills_buffer (dispatch : monitoring_conn → monitoring_conn)
    (c0 : monitoring_conn) (cmd : Nat) (payload : List Nat)
    (hstate : c0.state = MON_READ_HEADER)
    (hbuf : c0.read_buffer.read = 0 ∧ c0.read_buffer.write = 0 ∧
      c0.read_buffer.data.length = 4096)
    (hpayload : payload.length = 4092) :
    (monitoring_read dispatch c0
      (recv_outcome.data (0x01 :: cmd :: 0xFF :: 0xFF :: payload))).closed = false ∧
    (monitoring_read dispatch c0
      (recv_outcome.data (0x01 :: cmd :: 0xFF :: 0xFF :: payload))).processed = none ∧
    (monitoring_read dispatch c0
      (recv_outcome.data (0x01 :: cmd :: 0xFF :: 0xFF :: payload))).stores
      = List.range' 0 4092 ∧
    (monitoring_read dispatch c0
      (recv_outcome.data (0x01 :: cmd :: 0xFF :: 0xFF :: payload))).c.state = MON_READ_DATA ∧
    (monitoring_read dispatch c0
      (recv_outcome.data (0x01 :: cmd :: 0xFF :: 0xFF :: payload))).c.data_read = 4092 ∧
    (monitoring_read dispatch c0
      (recv_outcome.data (0x01 :: cmd :: 0xFF :: 0xFF :: payload))).c.data_len = 65535 ∧
    (monitoring_read dispatch c0
      (recv_outcome.data (0x01 :: cmd :: 0xFF :: 0xFF :: payload))).c.read_buffer.read
      = 4096 ∧
    (monitoring_read dispatch c0
      (recv_outcome.data (0x01 :: cmd :: 0xFF :: 0xFF :: payload))).c.read_buffer.write
      = 4096 ∧
    (monitoring_read dispatch c0
      (recv_outcome.data (0x01 :: cmd :: 0xFF :: 0xFF :: payload))).c.read_buffer.data.length
      = 4096 := by
  obtain ⟨hr0, hw0, hsize⟩ := hbuf
  have hblen : (0x01 :: cmd :: 0xFF :: 0xFF :: payload).length = 4096 := by
    simp only [List.length_cons, hpayload]
  have hptr : (buffer_write_ptr c0.read_buffer).2 = 4096 := by
    simp only [buffer_write_ptr, hsize, hw0, Nat.sub_zero]
  have hbytes : recv_bytes (recv_outcome.data (0x01 :: cmd :: 0xFF :: 0xFF :: payload))
      (buffer_write_ptr c0.read_buffer).2 = 0x01 :: cmd :: 0xFF :: 0xFF :: payload := by
    rw [hptr]
    exact List.take_of_length_le (Nat.le_of_eq hblen)
  have hn : ¬ recv_n (recv_outcome.data (0x01 :: cmd :: 0xFF :: 0xFF :: payload))
      (buffer_write_ptr c0.read_buffer).2 ≤ 0 := by
    have h := (recv_n_toNat (recv_outcome.data (0x01 :: cmd :: 0xFF :: 0xFF :: payload))
      (buffer_write_ptr c0.read_buffer).2).1
    rw [hbytes, hblen] at h
    omega
  obtain ⟨s1, _, s3, s4, s5⟩ := buffer_recv_spec c0.read_buffer
    (0x01 :: cmd :: 0xFF :: 0xFF :: payload) ⟨by rw [hr0, hw0], by rw [hw0]; exact Nat.zero_le _⟩
    (by rw [hw0, hsize, hblen])
  rw [hw0, hblen] at s4
  rw [hr0] at s5
  rw [hsize] at s3
  have hdata : (buffer_recv c0.read_buffer (0x01 :: cmd :: 0xFF :: 0xFF :: payload)).data
      = 0x01 :: cmd :: 0xFF :: 0xFF :: payload := by
    simp only [buffer_recv, buffer_write_adv, buffer_write_ptr, hw0]
    rw [memcpy_eq _ _ _ (by rw [hsize, hblen])]
    rw [List.take_zero, List.nil_append, List.drop_of_length_le (by rw [hsize, hblen]),
      List.append_nil]
  rw [monitoring_read_header dispatch c0 _ hn hstate
    (buffer_recv c0.read_buffer (0x01 :: cmd :: 0xFF :: 0xFF :: payload))
    (by rw [hbytes]) (by rw [s4, s5]; decide) _ rfl]
  simp only [hdata, s5, s4, Nat.zero_add, List.getD_cons_zero, List.getD_cons_succ]
  have hv : ¬ (1 % 256 ≠ MONITORING_VERSION) := by decide
  have hl : ¬ (((255 % 256) <<< 8 ||| 255 % 256) % 2 ^ 16 = 0) := by decide
  simp only [hv, hl, if_false]
  obtain ⟨k, e1, e2, e3, e4, e5, e6, _⟩ := monitoring_read_data_exact dispatch
    { c0 with read_buffer := { data := 0x01 :: cmd :: 0xFF :: 0xFF :: payload, read := 4,
                               write := 4096 },
              version := 1 % 256, cmd := cmd % 256,
              data_len := ((255 % 256) <<< 8 ||| 255 % 256) % 2 ^ 16, data_read := 0,
              state := MON_READ_DATA }
    ⟨show 4 ≤ 4096 by decide, Nat.le_of_eq hblen.symm⟩ (Nat.zero_le _)
    (show ((255 % 256) <<< 8 ||| 255 % 256) % 2 ^ 16 < 2 ^ 16 by decide)
  have e2n : 4 + k ≤ 4096 := e2
  have e4n : ¬ (4 + k < 4096 ∧ 0 + k < ((255 % 256) <<< 8 ||| 255 % 256) % 2 ^ 16) := e4
  have hlenv : ((255 % 256) <<< 8 ||| 255 % 256) % 2 ^ 16 = 65535 := by decide
  rw [hlenv] at e4n
  have hk : k = 4092 := by omega
  subst hk
  obtain ⟨f1, f2, f3, f4, f5, f6, f7⟩ := e6 (by
    show 0 + 4092 < ((255 % 256) <<< 8 ||| 255 % 256) % 2 ^ 16
    rw [hlenv]; decide)
  refine ⟨e5, f1, e1, f2, ?_, ?_, ?_, f6, ?_⟩
  · rw [f3]
  · rw [f4]; exact hlenv
  · rw [f5]
  · rw [f7]; exact hblen

/-- Claim C38. What `monitoring_read` does with the request header `01 cmd FF FF`
(LEN = 65535) on a fresh connection, whose read buffer of 4096 bytes is empty:
the header and the first 4092 payload bytes, received in one piece, leave the
connection open with the payload stored at `0 .. 4091`, the command not
processed and the read buffer drained; once the buffer has given back its
space, the next five payload bytes are stored at `4092 .. 4096`, so `data[4096]`,
one past the end of the array, is written. -/
theorem C38_payload_stored_past_data (dispatch : monitoring_conn → monitoring_conn)
    (c0 : monitoring_conn) (cmd : Nat) (payload more : List Nat)
    (hstate : c0.state = MON_READ_HEADER)
    (hbuf : c0.read_buffer.read = 0 ∧ c0.read_buffer.write = 0 ∧
      c0.read_buffer.data.length = 4096)
    (hpayload : payload.length = 4092) (hmore : more.length = 5) :
    (monitoring_read dispatch c0
      (recv_outcome.data (0x01 :: cmd :: 0xFF :: 0xFF :: payload))).closed = false ∧
    (monitoring_read dispatch c0
      (recv_outcome.data (0x01 :: cmd :: 0xFF :: 0xFF :: payload))).processed = none ∧
    (monitoring_read dispatch c0
      (recv_outcome.data (0x01 :: cmd :: 0xFF :: 0xFF :: payload))).stores
      = List.range 4092 ∧
    buffer_can_read (monitoring_read dispatch c0
      (recv_outcome.data (0x01 :: cmd :: 0xFF :: 0xFF :: payload))).c.read_buffer = false ∧
    (monitoring_read dispatch
      (monitoring_conn_reclaimed (monitoring_read dispatch c0
        (recv_outcome.data (0x01 :: cmd :: 0xFF :: 0xFF :: payload))).c)
      (recv_outcome.data more)).stores = [4092, 4093, 4094, 4095, 4096] := by
  obtain ⟨a1, a2, a3, a4, a5, a6, a7, a8, a9⟩ :=
    monitoring_read_fills_buffer dispatch c0 cmd payload hstate hbuf hpayload
  refine ⟨a1, a2, by rw [a3, List.range_eq_range'], ?_, ?_⟩
  · simp only [buffer_can_read, a7, a8, Nat.lt_irrefl, decide_False]
  · rw [monitoring_read_after_reclaim dispatch _ more a4 (by rw [a7, a8]) a9
      (by rw [hmore]; decide) (by rw [hmore]; decide) (by rw [a5, a6, hmore]; decide)
      (by rw [a6]; decide), a5, hmore]
    rfl

/-- Claim C38, instance: a fresh connection receives `01 01 FF FF` with 4092
payload bytes and then five more. -/
theorem C38_payload_stored_past_data_witness :
    (monitoring_read id
      (monitoring_conn_reclaimed (monitoring_read id monitoring_conn_fresh
        (recv_outcome.data (0x01 :: 0x01 :: 0xFF :: 0xFF :: List.replicate 4092 0x41))).c)
      (recv_outcome.data [0x41, 0x42, 0x43, 0x44, 0x45])).stores
      = [4092, 4093, 4094, 4095, 4096] :=
  (C38_payload_stored_past_data id monitoring_conn_fresh 0x01 (List.replicate 4092 0x41)
    [0x41, 0x42, 0x43, 0x44, 0x45] rfl ⟨rfl, rfl, List.length_replicate _ _⟩
    (List.length_replicate _ _) rfl).2.2.2.2

/-! ## A connect refused at once -/

/-- `request_connect` when the connect to the only address fails at once: the
selector and the pool are left as they were. -/
theorem request_connect_failed_at_once_globals (P : platform)
    (attempt : List addrinfo → connect_outcome) (key_fd : Int) (g : globals) (s : socks5)
    (addr : addrinfo) (fd : Int) (e : Int) (register_ok : Bool)
    (hcur : s.origin_resolution_current = [addr])
    (hatt : attempt [addr] = connect_outcome.failed fd e register_ok)
    (he : e ≠ P.EINPROGRESS) :
    (request_connect P attempt key_fd g s).2.1 = g := by
  unfold request_connect
  rw [hcur]
  simp only [request_connect_loop, hatt, if_neg he]

/-- `request_connect` when the connect to the first address is in progress: the
origin fd is registered, the client fd stays registered and is the same. -/
theorem request_connect_in_progress_selector (P : platform)
    (attempt : List addrinfo → connect_outcome) (g : globals) (s : socks5)
    (addr : addrinfo) (rest : List addrinfo) (fd : Int)
    (hcur : s.origin_resolution_current = addr :: rest)
    (hatt : attempt (addr :: rest) = connect_outcome.failed fd P.EINPROGRESS true)
    (hfd : selector_is_registered g.selector fd = false)
    (hclient : selector_is_registered g.selector s.client_fd = true) :
    (request_connect P attempt s.client_fd g s).2.2.client_fd = s.client_fd ∧
    selector_is_registered (request_connect P attempt s.client_fd g s).2.1.selector fd
      = true ∧
    selector_is_registered (request_connect P attempt s.client_fd g s).2.1.selector
      s.client_fd = true := by
  unfold request_connect
  rw [hcur]
  simp only [request_connect_loop, hatt, if_true, selector_register, hfd, and_self, true_and]
  refine ⟨?_, ?_⟩
  · rw [selector_set_interest_dropped_registered]
    simp [selector_is_registered]
  · rw [selector_set_interest_dropped_registered]
    simp only [selector_is_registered, List.any_append] at hclient ⊢
    rw [hclient]
    rfl

/-- `connecting_write` when the connect has failed and no address is left: the
client fd, if registered, is set to WRITE. -/
theorem connecting_write_exhausted_interest (P : platform) (E : connecting_deps)
    (attempt : List addrinfo → connect_outcome) (g : globals) (a : Nat) (s : socks5)
    (successful_connections : Nat) (hne : connecting_error E ≠ 0)
    (hcur : s.origin_resolution_current = [])
    (hreg : selector_is_registered g.selector s.origin_fd = true)
    (hclient : selector_is_registered g.selector s.client_fd = true)
    (hfds : s.client_fd ≠ s.origin_fd) :
    selector_get_interest
      (connecting_write P E attempt g a s successful_connections).2.1.selector s.client_fd
      = some OP_WRITE := by
  have hne' : (if E.getsockopt_ok = true then E.so_error else E.errno) ≠ 0 := by
    simpa [connecting_error] using hne
  obtain ⟨_, h2, h3⟩ := selector_unregister_fd_fields g a s s.origin_fd
  have hregc : selector_is_registered
      ((selector_unregister_fd g a s s.origin_fd).getD (g, s)).1.selector s.client_fd
      = true := by
    rw [selector_unregister_fd_registered g a s s.origin_fd s.client_fd hreg, hclient]
    simp [hfds]
  obtain ⟨sel1, k1, k2, _, _⟩ := selector_set_interest_spec
    ((selector_unregister_fd g a s s.origin_fd).getD (g, s)).1.selector s.client_fd OP_WRITE
    hregc
  unfold connecting_write
  simp only [if_pos hne', h2, hcur, ne_eq, not_true_eq_false, if_false, false_and, h3,
    selector_set_interest_dropped, k1, Option.getD_some]
  exact k2

/-- Claim C23. A CONNECT request to a single IPv4 or IPv6 address whose connect
yields ECONNREFUSED, the write buffer being empty with room for 10 bytes. When
the connect is in progress and SO_ERROR then reads ECONNREFUSED, the reply status
is connection-refused, `connecting_write` sets the client fd to WRITE, the reply
is `05 05 00 01 00 00 00 00 00 00` and `request_write` goes to DONE once it is
sent. When `connect` itself returns ECONNREFUSED, `request_connect` sets the
status host-unreachable, not connection-refused, and returns REQUEST_WRITE with
the selector as it was: the client fd keeps the interest it had in REQUEST_READ
and is not set to WRITE, so the reply `05 04 00 01 00 00 00 00 00 00` that
`request_write_init` puts in the write buffer waits there for a write event that
was not asked for. -/
theorem C23_refused_at_once_reply_not_sent (P : platform) (E : connecting_deps)
    (attempt : List addrinfo → connect_outcome) (g : globals) (a : Nat) (s : socks5)
    (addr : addrinfo) (fd : Int) (successful_connections : Nat)
    (hP0 : P.ECONNREFUSED ≠ 0) (hPin : P.ECONNREFUSED ≠ P.EINPROGRESS)
    (hcur : s.origin_resolution_current = [addr])
    (hempty : s.request.wb.read = s.request.wb.write)
    (hroom : s.request.wb.write + 10 ≤ s.request.wb.data.length) :
    (attempt [addr] = connect_outcome.failed fd P.EINPROGRESS true →
      selector_is_registered g.selector fd = false →
      selector_is_registered g.selector s.client_fd = true →
      connecting_error E = P.ECONNREFUSED →
      (request_connect P attempt s.client_fd g s).1 = REQUEST_CONNECTING ∧
      (connect_then_connecting_write P E attempt g a s successful_connections).1
        = REQUEST_WRITE ∧
      (connect_then_connecting_write P E attempt g a s
        successful_connections).2.2.1.request.status = socks_status_connection_refused ∧
      selector_get_interest (connect_then_connecting_write P E attempt g a s
        successful_connections).2.1.selector s.client_fd = some OP_WRITE ∧
      buffer_appended s.request.wb
        (10, (request_write_init P (connect_then_connecting_write P E attempt g a s
          successful_connections).2.2.1).request.wb)
        [0x05, 0x05, 0x00, 0x01, 0, 0, 0, 0, 0, 0] ∧
      ∀ fc, (request_write
          (request_write_init P (connect_then_connecting_write P E attempt g a s
            successful_connections).2.2.1) (send_outcome.sent 10) fc).1 = DONE) ∧
    (∀ register_ok, attempt [addr] = connect_outcome.failed fd P.ECONNREFUSED register_ok →
      (request_connect P attempt s.client_fd g s).1 = REQUEST_WRITE ∧
      (request_connect P attempt s.client_fd g s).2.2.request.status
        = socks_status_host_unreachable ∧
      (request_connect P attempt s.client_fd g s).2.1 = g ∧
      buffer_appended s.request.wb
        (10, (request_write_init P (request_connect P attempt s.client_fd g s).2.2).request.wb)
        [0x05, 0x04, 0x00, 0x01, 0, 0, 0, 0, 0, 0]) := by
  have hdone : ∀ (t : socks5) (fc : Nat), t.request.status ≠ socks_status_succeeded →
      t.request.status < 256 → t.request.wb = s.request.wb →
      buffer_appended s.request.wb (10, (request_write_init P t).request.wb)
        [0x05, t.request.status, 0x00, 0x01, 0, 0, 0, 0, 0, 0] ∧
      (request_write (request_write_init P t) (send_outcome.sent 10) fc).1 = DONE := by
    intro t fc h1 h2 h3
    have happ := request_write_init_failure P t h1 h2 (by rw [h3]; exact hroom)
    rw [h3] at happ
    refine ⟨happ, ?_⟩
    obtain ⟨-, -, -, -, hw, hr⟩ := happ
    apply request_write_failure_done _ 10 fc
    · rw [request_write_init_status]; exact h1
    · simp only [List.length_cons, List.length_nil] at hw
      have hw' : (request_write_init P t).request.wb.write = s.request.wb.write + 10 := hw
      have hr' : (request_write_init P t).request.wb.read = s.request.wb.read := hr
      rw [hw', hr']
      omega
  constructor
  · intro hatt hfd hclient herr
    obtain ⟨c1, c2, c3, c4, _⟩ :=
      request_connect_in_progress P attempt s.client_fd g s addr [] fd hcur hatt hfd
    obtain ⟨d1, d2, d3⟩ :=
      request_connect_in_progress_selector P attempt g s addr [] fd hcur hatt hfd hclient
    have hne : connecting_error E ≠ 0 := by rw [herr]; exact hP0
    obtain ⟨w1, _, w3, w4⟩ := connecting_write_exhausted P E attempt
      (request_connect P attempt s.client_fd g s).2.1 a
      (request_connect P attempt s.client_fd g s).2.2 successful_connections hne c2
    have hfds : s.client_fd ≠ fd := by
      intro h
      rw [h, hfd] at hclient
      exact absurd hclient (by decide)
    have hint := connecting_write_exhausted_interest P E attempt
      (request_connect P attempt s.client_fd g s).2.1 a
      (request_connect P attempt s.client_fd g s).2.2 successful_connections hne c2
      (by rw [c4]; exact d2) (by rw [d1]; exact d3) (by rw [d1, c4]; exact hfds)
    rw [d1] at hint
    have hstatus : (connect_then_connecting_write P E attempt g a s
        successful_connections).2.2.1.request.status = socks_status_connection_refused := by
      unfold connect_then_connecting_write
      rw [w3, herr]
      unfold errno_to_socks
      rw [if_neg hP0, if_pos rfl]
    have hwb : (connect_then_connecting_write P E attempt g a s
        successful_connections).2.2.1.request.wb = s.request.wb := by
      unfold connect_then_connecting_write
      rw [w4, c3]
    refine ⟨c1, w1, hstatus, hint, ?_, ?_⟩
    · have h := (hdone _ 0 (by rw [hstatus]; decide) (by rw [hstatus]; decide) hwb).1
      rw [hstatus] at h
      exact h
    · intro fc
      exact (hdone _ fc (by rw [hstatus]; decide) (by rw [hstatus]; decide) hwb).2
  · intro register_ok hatt
    obtain ⟨c1, c2, c3⟩ := request_connect_failed_at_once P attempt s.client_fd g s addr fd
      P.ECONNREFUSED register_ok hcur hatt hPin
    refine ⟨c1, c2, request_connect_failed_at_once_globals P attempt s.client_fd g s addr fd
      P.ECONNREFUSED register_ok hcur hatt hPin, ?_⟩
    have h := (hdone _ 0 (by rw [c2]; decide) (by rw [c2]; decide) c3).1
    rw [c2] at h
    exact h

/-- Claim C23, instances for the connect to 127.0.0.1 port 80 on Linux, the
client fd 7 being registered for READ. SO_ERROR reads ECONNREFUSED after the
connect was in progress: status 0x05 and the client fd set to WRITE. `connect`
returns ECONNREFUSED at once: status 0x04, REQUEST_WRITE, and the client fd
still registered for READ; `request_read` on `05 01 00 01 7F 00 00 01 00 50` is the
call that gets there. -/
theorem C23_refused_at_once_reply_not_sent_witness :
    ((connect_then_connecting_write platform_linux connecting_refused attempt_in_progress
        globals_client_only 1 socks5_connecting 0).2.2.1.request.status = 0x05 ∧
      selector_get_interest (connect_then_connecting_write platform_linux connecting_refused
        attempt_in_progress globals_client_only 1 socks5_connecting 0).2.1.selector 7
        = some OP_WRITE) ∧
    ((request_connect platform_linux attempt_refused_at_once 7 globals_client_only
        socks5_connecting).1 = REQUEST_WRITE ∧
      (request_connect platform_linux attempt_refused_at_once 7 globals_client_only
        socks5_connecting).2.2.request.status = 0x04 ∧
      (request_connect platform_linux attempt_refused_at_once 7 globals_client_only
        socks5_connecting).2.1 = globals_client_only ∧
      selector_get_interest globals_client_only.selector 7 = some OP_READ) ∧
    ((request_read platform_linux
        (request_deps_connect platform_linux attempt_refused_at_once globals_client_only)
        socks5_request_read
        (recv_outcome.data [0x05, 0x01, 0x00, 0x01, 0x7F, 0x00, 0x00, 0x01, 0x00, 0x50])).1
        = REQUEST_WRITE ∧
      (request_read platform_linux
        (request_deps_connect platform_linux attempt_refused_at_once globals_client_only)
        socks5_request_read
        (recv_outcome.data [0x05, 0x01, 0x00, 0x01, 0x7F, 0x00, 0x00, 0x01, 0x00, 0x50])
        ).2.request.status = 0x04) :=
  have hA := (C23_refused_at_once_reply_not_sent platform_linux connecting_refused
    attempt_in_progress globals_client_only 1 socks5_connecting addrinfo_loopback 9 0
    (by decide) (by decide) rfl rfl (by decide)).1 rfl (by decide) (by decide) (by decide)
  have hB := (C23_refused_at_once_reply_not_sent platform_linux connecting_refused
    attempt_refused_at_once globals_client_only 1 socks5_connecting addrinfo_loopback 9 0
    (by decide) (by decide) rfl rfl (by decide)).2 true rfl
  ⟨⟨hA.2.2.1, hA.2.2.2.1⟩, ⟨hB.1, hB.2.1, hB.2.2.1, by decide⟩, by decide⟩

end Socks5
